import Mathlib

/-!
# mysql2: query lifecycle and result materialisation

A shallow embedding of `ext/mysql2/client.c` and `ext/mysql2/result.c`.

The connection part models the non-Windows build (`#ifndef _WIN32`).  Every
call into the client library or the socket is recorded as an `Event`, and
what the library reports during one call is given by a `Server` record, so
each C function becomes a pure function from the wrapper state to an
`Outcome`: the value returned or the exception raised, the wrapper state
afterwards, and the events performed, in order.
-/

namespace Mysql2

/-! ## Host values -/

/-- Identity of a host thread (the `VALUE` of `rb_thread_current()`). -/
abbrev Thread := Nat

/-- The keys of the option hashes that the C code looks up. -/
inductive Sym where
  | async
  | symbolize_keys
  | as
  | array
  | stream
  | cast_booleans
  | cache_rows
  | cast
  | database_timezone
  | application_timezone
  | local
  | utc
  deriving DecidableEq, Repr

/-- The host values that occur as option values. -/
inductive RVal where
  | qnil
  | qtrue
  | qfalse
  | sym (s : Sym)
  | fixnum (n : Int)
  deriving DecidableEq, Repr

/-- A host hash with symbol keys, as an association list (first match wins). -/
abbrev Hash := List (Sym × RVal)

/-- `rb_hash_aref(h, k)`: the value stored under `k`, `nil` when absent. -/
def rb_hash_aref (h : Hash) (k : Sym) : RVal :=
  match h.lookup k with
  | some v => v
  | none => RVal.qnil

/-- `defaults.merge(opts)`: the entries of `opts` win over those of `defaults`. -/
def hash_merge (defaults opts : Hash) : Hash :=
  opts ++ defaults.filter (fun kv => (opts.lookup kv.1).isNone)

/-! ## Exceptions, events, outcomes -/

/-- An exception raised to the caller.  `mysql2` is `Mysql2::Error` with its
message and the two structured fields set by `rb_raise_mysql2_error`;
`sys_fail` is the `Errno` exception of `rb_sys_fail(0)`. -/
inductive Exc where
  | mysql2 (message : String) (error_number : Option Nat) (sql_state : Option String)
  | sys_fail
  deriving DecidableEq, Repr

/-- The calls into the client library and the socket layer. -/
inductive Event where
  | send_query (sql : String)
  | wait_readable (timeout : Option Int)
  | read_query_result
  | use_result
  | store_result
  | shutdown (how : Nat)
  | close
  | ping
  | select_db (db : String)
  | real_escape (str : List Nat)
  deriving DecidableEq, Repr

/-- What the client library reports during one call of an operation. -/
structure Server where
  /-- return value of `mysql_send_query` (0 is success) -/
  send_rv : Int
  /-- return value of `rb_wait_for_single_fd` -/
  wait_rv : Int
  /-- return value of `mysql_read_query_result` (0 is success) -/
  read_rv : Nat
  /-- handle returned by `mysql_use_result` / `mysql_store_result` (NULL is `none`) -/
  result : Option Nat
  /-- `mysql_errno` -/
  errno : Nat
  /-- `mysql_error` -/
  error : String
  /-- `mysql_sqlstate` -/
  sqlstate : String
  /-- return value of `mysql_ping` -/
  ping_rv : Int
  /-- return value of `mysql_select_db` -/
  select_db_rv : Int
  deriving DecidableEq, Repr

/-- The `mysql_client_wrapper` fields the operations read and write, with the
two instance variables of the client object that the C code consults. -/
structure Wrapper where
  reconnect_enabled : Bool
  closed : Bool
  active_thread : Option Thread
  /-- the instance variable `@query_options` -/
  query_options : Hash
  /-- the instance variable `@read_timeout`: `nil` or a Fixnum -/
  read_timeout : Option Int
  deriving DecidableEq, Repr

/-- Result of running one C function on a wrapper. -/
structure Outcome (α : Type) where
  ret : Except Exc α
  state : Wrapper
  trace : List Event

/-- The result object built by `rb_mysql_result_to_obj` in the client: the
native handle and the copy of the connection's query options. -/
structure ResultObj where
  result : Nat
  query_options : Hash
  deriving DecidableEq, Repr

/-- Rendering of a thread by `rb_inspect`, used in the busy message. -/
def rb_inspect (t : Thread) : String :=
  "#<Thread:" ++ toString t ++ ">"

/-! ## client.c -/

def closed_connection_error : Exc :=
  Exc.mysql2 "closed MySQL connection" none none

/-- The macro `REQUIRE_OPEN_DB`: `true` when it raises. -/
def REQUIRE_OPEN_DB (wrapper : Wrapper) : Bool :=
  !wrapper.reconnect_enabled && wrapper.closed

/-- The macro `MARK_CONN_INACTIVE`. -/
def MARK_CONN_INACTIVE (wrapper : Wrapper) : Wrapper :=
  { wrapper with active_thread := none }

/-- The exception built by `rb_raise_mysql2_error`: the server's message, with
`error_number` and `sql_state` set from `mysql_errno` and `mysql_sqlstate`.
Message and state are texts; the encoding association of the C function
changes their representation only. -/
def rb_raise_mysql2_error (srv : Server) : Exc :=
  Exc.mysql2 srv.error (some srv.errno) (some srv.sqlstate)

/-- `nogvl_close`. -/
def nogvl_close (wrapper : Wrapper) : Wrapper × List Event :=
  if !wrapper.closed then
    ({ wrapper with closed := true, active_thread := none }, [Event.close])
  else
    (wrapper, [])

/-- `rb_mysql_client_close`. -/
def rb_mysql_client_close (wrapper : Wrapper) : Outcome Unit :=
  if !wrapper.closed then
    let r := nogvl_close wrapper
    { ret := .ok (), state := r.1, trace := r.2 }
  else
    { ret := .ok (), state := wrapper, trace := [] }

/-- `do_send_query` (with `nogvl_send_query`). -/
def do_send_query (srv : Server) (sql : String) (wrapper : Wrapper) : Outcome Unit :=
  if srv.send_rv ≠ 0 then
    { ret := .error (rb_raise_mysql2_error srv)
      state := MARK_CONN_INACTIVE wrapper
      trace := [Event.send_query sql] }
  else
    { ret := .ok (), state := wrapper, trace := [Event.send_query sql] }

/-- `nogvl_do_result`: acquire the result in cursor or buffered mode, then
clear the owner. -/
def nogvl_do_result (srv : Server) (wrapper : Wrapper) (use_result : Bool) :
    Option Nat × Wrapper × List Event :=
  let ev := if use_result then Event.use_result else Event.store_result
  (srv.result, { wrapper with active_thread := none }, [ev])

def nogvl_store_result (srv : Server) (wrapper : Wrapper) : Option Nat × Wrapper × List Event :=
  nogvl_do_result srv wrapper false

def nogvl_use_result (srv : Server) (wrapper : Wrapper) : Option Nat × Wrapper × List Event :=
  nogvl_do_result srv wrapper true

/-- `rb_mysql_client_async_result`. -/
def rb_mysql_client_async_result (srv : Server) (wrapper : Wrapper) :
    Outcome (Option ResultObj) :=
  if wrapper.active_thread.isNone then
    { ret := .ok none, state := wrapper, trace := [] }
  else if REQUIRE_OPEN_DB wrapper then
    { ret := .error closed_connection_error, state := wrapper, trace := [] }
  else if srv.read_rv ≠ 0 then
    { ret := .error (rb_raise_mysql2_error srv)
      state := MARK_CONN_INACTIVE wrapper
      trace := [Event.read_query_result] }
  else
    let is_streaming := rb_hash_aref wrapper.query_options Sym.stream
    let r := if is_streaming = RVal.qtrue then nogvl_use_result srv wrapper
             else nogvl_store_result srv wrapper
    match r.1 with
    | none =>
      if srv.errno ≠ 0 then
        { ret := .error (rb_raise_mysql2_error srv)
          state := MARK_CONN_INACTIVE r.2.1
          trace := Event.read_query_result :: r.2.2 }
      else
        { ret := .ok none, state := r.2.1, trace := Event.read_query_result :: r.2.2 }
    | some result =>
      { ret := .ok (some { result := result, query_options := wrapper.query_options })
        state := r.2.1
        trace := Event.read_query_result :: r.2.2 }

/-- `disconnect_and_raise`: the rescue handler of `rb_mysql_client_query`. -/
def disconnect_and_raise {α : Type} (wrapper : Wrapper) (error : Exc) : Outcome α :=
  { ret := .error error
    state := { wrapper with closed := true, active_thread := none }
    trace := [Event.shutdown 2] }

/-- `rb_rescue2(f, …, disconnect_and_raise, self, rb_eException, 0)`: every
exception raised by the body is handed to `disconnect_and_raise`. -/
def rb_rescue2 {α : Type} (body : Outcome α) : Outcome α :=
  match body.ret with
  | .ok _ => body
  | .error e =>
    let h : Outcome α := disconnect_and_raise body.state e
    { ret := h.ret, state := h.state, trace := body.trace ++ h.trace }

def timeout_message (sec : Int) : String :=
  "Timeout waiting for a response from the last query. (waited " ++ toString sec ++ " seconds)"

def read_timeout_message (sec : Int) : String :=
  "read_timeout must be a positive integer, you passed " ++ toString sec

/-- `do_query`: wait for the socket to become readable.  The loop of the C
function leaves on its first pass whatever `rb_wait_for_single_fd` returns.
Without a deadline the wait cannot report expiry; the number printed in that
case is not modelled and rendered as 0. -/
def do_query (srv : Server) (wrapper : Wrapper) : Outcome Unit :=
  let wait (tvp : Option Int) : Outcome Unit :=
    if srv.wait_rv = 0 then
      { ret := .error (Exc.mysql2 (timeout_message (wrapper.read_timeout.getD 0)) none none)
        state := wrapper
        trace := [Event.wait_readable tvp] }
    else if srv.wait_rv < 0 then
      { ret := .error Exc.sys_fail, state := wrapper, trace := [Event.wait_readable tvp] }
    else
      { ret := .ok (), state := wrapper, trace := [Event.wait_readable tvp] }
  match wrapper.read_timeout with
  | none => wait none
  | some sec =>
    if sec ≥ 0 then wait (some sec)
    else
      { ret := .error (Exc.mysql2 (read_timeout_message sec) none none)
        state := wrapper
        trace := [] }

def busy_self_error : Exc :=
  Exc.mysql2
    "This connection is still waiting for a result, try again once you have the result"
    none none

def busy_other_error (owner : Thread) : Exc :=
  Exc.mysql2 ("This connection is in use by: " ++ rb_inspect owner) none none

/-- The argument handling of `rb_mysql_client_query` (`rb_scan_args` and the
branch on its result): with a second argument the merged options replace the
instance variable `@query_options` and the `:async` entry is read from them;
without one nothing is stored and the call is not async. -/
def query_scan_args (opts : Option Hash) (wrapper : Wrapper) : Wrapper × Bool :=
  let defaults := wrapper.query_options
  match opts with
  | some o =>
    let merged := hash_merge defaults o
    ({ wrapper with query_options := merged }, rb_hash_aref merged Sym.async = RVal.qtrue)
  | none => (wrapper, false)

/-- `rb_mysql_client_query` called by thread `thread_current` with the
statement `sql` (a string, already in the connection's encoding) and the
optional second argument `opts`. -/
def rb_mysql_client_query (srv : Server) (thread_current : Thread) (sql : String)
    (opts : Option Hash) (wrapper : Wrapper) : Outcome (Option ResultObj) :=
  if REQUIRE_OPEN_DB wrapper then
    { ret := .error closed_connection_error, state := wrapper, trace := [] }
  else
    let w1 := (query_scan_args opts wrapper).1
    let async := (query_scan_args opts wrapper).2
    -- see if this connection is still waiting on a result from a previous query
    match w1.active_thread with
    | some owner =>
      if owner = thread_current then
        { ret := .error busy_self_error, state := w1, trace := [] }
      else
        { ret := .error (busy_other_error owner), state := w1, trace := [] }
    | none =>
      -- mark this connection active
      let w2 : Wrapper := { w1 with active_thread := some thread_current }
      let s := rb_rescue2 (do_send_query srv sql w2)
      match s.ret with
      | .error e => { ret := .error e, state := s.state, trace := s.trace }
      | .ok _ =>
        if !async then
          let q := rb_rescue2 (do_query srv s.state)
          match q.ret with
          | .error e => { ret := .error e, state := q.state, trace := s.trace ++ q.trace }
          | .ok _ =>
            let a := rb_mysql_client_async_result srv q.state
            { ret := a.ret, state := a.state, trace := s.trace ++ q.trace ++ a.trace }
        else
          { ret := .ok none, state := s.state, trace := s.trace }

/-- `rb_mysql_client_ping`. -/
def rb_mysql_client_ping (srv : Server) (wrapper : Wrapper) : Outcome Bool :=
  if wrapper.closed then
    { ret := .ok false, state := wrapper, trace := [] }
  else
    { ret := .ok (srv.ping_rv = 0), state := wrapper, trace := [Event.ping] }

/-- `rb_mysql_client_select_db`. -/
def rb_mysql_client_select_db (srv : Server) (db : String) (wrapper : Wrapper) :
    Outcome String :=
  if REQUIRE_OPEN_DB wrapper then
    { ret := .error closed_connection_error, state := wrapper, trace := [] }
  else if srv.select_db_rv ≠ 0 then
    { ret := .error (rb_raise_mysql2_error srv)
      state := wrapper
      trace := [Event.select_db db] }
  else
    { ret := .ok db, state := wrapper, trace := [Event.select_db db] }

/-! ## Sequences of calls on one connection -/

/-- A caller-facing call, with the thread that issues it. -/
inductive Call where
  | query (thread : Thread) (sql : String) (opts : Option Hash)
  | async_result (thread : Thread)
  | close (thread : Thread)
  | ping (thread : Thread)
  | select_db (thread : Thread) (db : String)
  deriving DecidableEq, Repr

/-- One executed call: the state before, the call, the exception raised (if
any), the state after and the events performed. -/
structure Step where
  pre : Wrapper
  call : Call
  raised : Option Exc
  post : Wrapper
  trace : List Event
  deriving DecidableEq, Repr

def Outcome.raised {α : Type} (o : Outcome α) : Option Exc :=
  match o.ret with
  | .ok _ => none
  | .error e => some e

/-- Execute one call against the wrapper, the library answering with `srv`. -/
def step (srv : Server) (c : Call) (w : Wrapper) : Step :=
  match c with
  | Call.query t sql opts =>
    let r := rb_mysql_client_query srv t sql opts w
    { pre := w, call := c, raised := r.raised, post := r.state, trace := r.trace }
  | Call.async_result _ =>
    let r := rb_mysql_client_async_result srv w
    { pre := w, call := c, raised := r.raised, post := r.state, trace := r.trace }
  | Call.close _ =>
    let r := rb_mysql_client_close w
    { pre := w, call := c, raised := r.raised, post := r.state, trace := r.trace }
  | Call.ping _ =>
    let r := rb_mysql_client_ping srv w
    { pre := w, call := c, raised := r.raised, post := r.state, trace := r.trace }
  | Call.select_db _ db =>
    let r := rb_mysql_client_select_db srv db w
    { pre := w, call := c, raised := r.raised, post := r.state, trace := r.trace }

/-- Execute a sequence of calls in order, each with the library's answers. -/
def run (w : Wrapper) : List (Call × Server) → List Step
  | [] => []
  | (c, srv) :: rest =>
    let s := step srv c w
    s :: run s.post rest

/-- The connection states that the caller-facing calls can produce from a
connection without an outstanding query. -/
inductive Reachable : Wrapper → Prop where
  | idle (w : Wrapper) (h : w.active_thread = none) : Reachable w
  | step (w : Wrapper) (c : Call) (srv : Server) (h : Reachable w) :
      Reachable (step srv c w).post

/-- An event is a send of a query. -/
def Event.isSend : Event → Bool
  | Event.send_query _ => true
  | _ => false

/-! ## Host values of the result side -/

/-- Compile-time configuration tested by the preprocessor conditionals. -/
structure Build where
  /-- `HAVE_RUBY_ENCODING_H` is defined -/
  have_ruby_encoding_h : Bool
  /-- `SIZEOF_INT < SIZEOF_LONG` -/
  sizeof_int_lt_sizeof_long : Bool
  /-- `NEGATIVE_TIME_T` is defined -/
  negative_time_t : Bool
  deriving DecidableEq, Repr

/-- `MYSQL2_MAX_TIME`. -/
def MYSQL2_MAX_TIME (b : Build) : Nat :=
  if b.sizeof_int_lt_sizeof_long || b.have_ruby_encoding_h then 315578267999
  else 64318634047

/-- `MYSQL2_MIN_TIME`. -/
def MYSQL2_MIN_TIME (b : Build) : Nat :=
  if b.have_ruby_encoding_h then 2678400
  else if b.sizeof_int_lt_sizeof_long then 4389184800
  else if b.negative_time_t then 60023299552
  else 62171150401

/-- A host encoding: the binary one (`rb_enc_find("binary")`) or a named one. -/
inductive Encoding where
  | binary
  | named (name : String)
  deriving DecidableEq, Repr

/-- A host string: its bytes and, in a build with encoding support, the
encoding associated with it. -/
structure RString where
  bytes : List Nat
  enc : Option Encoding
  deriving DecidableEq, Repr

/-- The encoding services of the host and of the Ruby side of the library,
used when `HAVE_RUBY_ENCODING_H` is defined. -/
structure EncodingSupport where
  /-- `rb_default_internal_encoding()`, NULL is `none` -/
  default_internal_enc : Option Encoding
  /-- `rb_to_encoding(wrapper->encoding)` -/
  conn_enc : Encoding
  /-- `Mysql2::Client.encoding_from_charset_code` -/
  encoding_from_charset_code : Nat → Option Encoding
  /-- `rb_str_export_to_enc`: transcode a string into an encoding -/
  rb_str_export_to_enc : RString → Encoding → RString

/-- `enum enum_field_types` of the client library; `other` is any tag
without a name of its own in the code. -/
inductive FieldType where
  | MYSQL_TYPE_DECIMAL
  | MYSQL_TYPE_TINY
  | MYSQL_TYPE_SHORT
  | MYSQL_TYPE_LONG
  | MYSQL_TYPE_FLOAT
  | MYSQL_TYPE_DOUBLE
  | MYSQL_TYPE_NULL
  | MYSQL_TYPE_TIMESTAMP
  | MYSQL_TYPE_LONGLONG
  | MYSQL_TYPE_INT24
  | MYSQL_TYPE_DATE
  | MYSQL_TYPE_TIME
  | MYSQL_TYPE_DATETIME
  | MYSQL_TYPE_YEAR
  | MYSQL_TYPE_NEWDATE
  | MYSQL_TYPE_VARCHAR
  | MYSQL_TYPE_BIT
  | MYSQL_TYPE_NEWDECIMAL
  | MYSQL_TYPE_ENUM
  | MYSQL_TYPE_SET
  | MYSQL_TYPE_TINY_BLOB
  | MYSQL_TYPE_MEDIUM_BLOB
  | MYSQL_TYPE_LONG_BLOB
  | MYSQL_TYPE_BLOB
  | MYSQL_TYPE_VAR_STRING
  | MYSQL_TYPE_STRING
  | MYSQL_TYPE_GEOMETRY
  | other (code : Nat)
  deriving DecidableEq, Repr

/-- The members of `MYSQL_FIELD` that the decoders read. -/
structure MYSQL_FIELD where
  name : List Nat
  type : FieldType
  flags : Nat
  charsetnr : Nat
  length : Nat
  max_length : Nat
  decimals : Nat
  deriving DecidableEq, Repr

def UNSIGNED_FLAG : Nat := 32

def BINARY_FLAG : Nat := 128

/-- A time zone selector: `intern_local` or `intern_utc`. -/
inductive Zone where
  | local
  | utc
  deriving DecidableEq, Repr

/-- The offset handed to `DateTime.civil` / `new_offset`: the number 0, or
the value of `Mysql2::Client.local_offset`. -/
inductive Offset where
  | zero
  | local_offset
  deriving DecidableEq, Repr

/-- A decoded column value.  Calls into host classes are kept as the call
with its arguments. -/
inductive Value where
  | qnil
  | qtrue
  | qfalse
  /-- an Integer -/
  | integer (n : Int)
  /-- a String -/
  | string (s : RString)
  /-- `BigDecimal.new(arg)` -/
  | big_decimal (arg : RString)
  /-- the shared `opt_float_zero` -/
  | float_zero
  /-- `rb_float_new(strtod(lit))` -/
  | float_of (lit : List Nat)
  /-- `rb_float_new` of the `float` (width 4) or `double` (width 8) held in a
  bound buffer -/
  | float_of_buffer (width : Nat) (bytes : List Nat)
  /-- `Date.new(year, month, day)` -/
  | date (year month day : Int)
  /-- `Time.<zone>(year, month, day, hour, min, sec)`, then converted with
  `localtime` / `utc` when `app` is set -/
  | time (zone : Zone) (year month day hour min sec : Int) (app : Option Zone)
  /-- `DateTime.civil(year, month, day, hour, min, sec, offset)`, then
  `new_offset` when `app` is set -/
  | datetime (year month day hour min sec : Int) (offset : Offset) (app : Option Offset)
  deriving DecidableEq, Repr

/-- How decoding a value can fail: a raised `Mysql2::Error`, or a read of a
local variable that `sscanf` left unassigned; `unhandled_buffer_type` is the
`Mysql2::Error` with message `unhandled buffer type: %d` of the binary
decoder. -/
inductive DecodeError where
  | mysql2 (message : List Nat)
  | unassigned_local
  | unhandled_buffer_type (code : Nat)
  deriving DecidableEq, Repr

/-! ## C library and host parsing helpers -/

/-- `isspace` in the C locale. -/
def isspace (c : Nat) : Bool := c = 32 || (9 ≤ c && c ≤ 13)

/-- `isdigit`. -/
def isdigit (c : Nat) : Bool := 48 ≤ c && c ≤ 57

/-- The C string at a pointer: the bytes before the first NUL. -/
def cstr (p : List Nat) : List Nat := p.takeWhile (fun c => c ≠ 0)

/-- Value of a run of decimal digit characters. -/
def digits_value (ds : List Nat) : Nat :=
  ds.foldl (fun acc d => acc * 10 + (d - 48)) 0

/-- `rb_cstr2inum(str, 10)` on the literals a server sends for integer
columns: leading white space, an optional sign, then decimal digits up to the
first other character (no digits give 0).  The underscore and radix-prefix
forms of the host parser are not modelled. -/
def rb_cstr2inum (str : List Nat) : Int :=
  let s := (cstr str).dropWhile isspace
  if s.head? = some 45 then -((digits_value ((s.drop 1).takeWhile isdigit) : Nat) : Int)
  else if s.head? = some 43 then ((digits_value ((s.drop 1).takeWhile isdigit) : Nat) : Int)
  else ((digits_value (s.takeWhile isdigit) : Nat) : Int)

/-- The decimal digit characters of a natural number, most significant first. -/
def decimal_digits (n : Nat) : List Nat :=
  if n = 0 then [48] else (Nat.digits 10 n).reverse.map (fun d => d + 48)

/-- The NUL-terminated base-10 literal of an integer, as a server sends it for
an integer column: a minus sign when negative, then the digits. -/
def int_literal (n : Int) : List Nat :=
  (if n < 0 then [45] else []) ++ decimal_digits n.natAbs ++ [0]

/-- One directive of a `sscanf` format. -/
inductive ScanItem where
  /-- `%<width>d` -/
  | int (width : Nat)
  /-- an ordinary character -/
  | lit (c : Nat)
  /-- white space in the format: skips any white space of the input -/
  | ws
  deriving DecidableEq, Repr

/-- The conversion `%<width>d`: skip white space, then read an optional sign
and digits, at most `width` characters in all; fails without a digit. -/
def scan_int (width : Nat) (s : List Nat) : Option (Int × List Nat) :=
  let s := s.dropWhile isspace
  let signed : Bool × Nat × List Nat :=
    match s, width with
    | 45 :: r, w + 1 => (true, w, r)
    | 43 :: r, w + 1 => (false, w, r)
    | _, w => (false, w, s)
  let ds := (signed.2.2.take signed.2.1).takeWhile isdigit
  if ds.isEmpty then none
  else
    let v : Int := (digits_value ds : Nat)
    some (if signed.1 then -v else v, signed.2.2.drop ds.length)

/-- `sscanf(s, fmt, …)`: the values assigned, in order, up to the first
directive that fails to match. -/
def sscanf : List ScanItem → List Nat → List Int
  | [], _ => []
  | ScanItem.int w :: fmt, s =>
    match scan_int w s with
    | some (v, rest) => v :: sscanf fmt rest
    | none => []
  | ScanItem.lit c :: fmt, s =>
    match s with
    | c2 :: rest => if c2 = c then sscanf fmt rest else []
    | [] => []
  | ScanItem.ws :: fmt, s => sscanf fmt (s.dropWhile isspace)

/-- The format `"%2d:%2d:%2d"`. -/
def time_format : List ScanItem :=
  [ScanItem.int 2, ScanItem.lit 58, ScanItem.int 2, ScanItem.lit 58, ScanItem.int 2]

/-- The format `"%4d-%2d-%2d"`. -/
def date_format : List ScanItem :=
  [ScanItem.int 4, ScanItem.lit 45, ScanItem.int 2, ScanItem.lit 45, ScanItem.int 2]

/-- The format `"%4d-%2d-%2d %2d:%2d:%2d"`. -/
def datetime_format : List ScanItem :=
  date_format ++ [ScanItem.ws] ++ time_format

/-- An `int` stored into an `unsigned int` variable. -/
def to_unsigned_int (v : Int) : Nat := (v % 4294967296).toNat

/-- `INT2NUM` of an `unsigned int`: the value converted to `int`. -/
def to_int (u : Nat) : Int :=
  if u % 4294967296 < 2147483648 then (u % 4294967296 : Nat)
  else ((u % 4294967296 : Nat) : Int) - 4294967296

/-- The part of the C library's `strtod` that the decoders use: whether the
number parsed from a C string compares equal to `0.000000`. -/
structure Libc where
  strtod_is_zero : List Nat → Bool

/-! ## result.c: text-protocol decoding -/

/-- The host's `rb_str_new(ptr, len)`: a new string of the first `len` bytes
at `ptr`; with encoding support a new string is binary (ASCII-8BIT). -/
def rb_str_new (b : Build) (ptr : List Nat) (len : Nat) : RString :=
  { bytes := ptr.take len
    enc := if b.have_ruby_encoding_h then some Encoding.binary else none }

/-- The host's `rb_enc_associate`. -/
def rb_enc_associate (val : RString) (enc : Encoding) : RString :=
  { val with enc := some enc }

/-- The function `mysql2_set_field_string_encoding`. -/
def mysql2_set_field_string_encoding (es : EncodingSupport) (val : RString)
    (field : MYSQL_FIELD) : RString :=
  -- if binary flag is set, respect it's wishes
  if (field.flags &&& BINARY_FLAG) ≠ 0 && field.charsetnr = 63 then
    rb_enc_associate val Encoding.binary
  else
    -- lookup the encoding configured on this field
    let val1 :=
      match es.encoding_from_charset_code field.charsetnr with
      | some enc => rb_enc_associate val enc
      | none => rb_enc_associate val es.conn_enc
    match es.default_internal_enc with
    | some d => es.rb_str_export_to_enc val1 d
    | none => val1

/-- The statements `val = rb_str_new(row[i], fieldLengths[i])` followed, under
`HAVE_RUBY_ENCODING_H`, by `mysql2_set_field_string_encoding`. -/
def field_string (b : Build) (es : EncodingSupport) (field : MYSQL_FIELD)
    (ptr : List Nat) (len : Nat) : RString :=
  if b.have_ruby_encoding_h then
    mysql2_set_field_string_encoding es (rb_str_new b ptr len) field
  else
    rb_str_new b ptr len

/-- The bytes of `"Invalid date: %s"` formatted with the C string at `ptr`. -/
def invalid_date_message (ptr : List Nat) : List Nat :=
  [73, 110, 118, 97, 108, 105, 100, 32, 100, 97, 116, 101, 58, 32] ++ cstr ptr

/-- The `MYSQL_TYPE_TIME` case of the text decoder. -/
def fetch_row_time (db_timezone : Zone) (app_timezone : Option Zone) (ptr : List Nat) :
    Except DecodeError Value :=
  match sscanf time_format (cstr ptr) with
  | [hour, min, sec] => .ok (Value.time db_timezone 2000 1 1 hour min sec app_timezone)
  | _ => .error DecodeError.unassigned_local

/-- The `MYSQL_TYPE_TIMESTAMP` / `MYSQL_TYPE_DATETIME` case of the text
decoder.  The six locals are `unsigned int`; `seconds` is computed in 64-bit
unsigned arithmetic. -/
def fetch_row_datetime (b : Build) (db_timezone : Zone) (app_timezone : Option Zone)
    (ptr : List Nat) : Except DecodeError Value :=
  match sscanf datetime_format (cstr ptr) with
  | [y, mo, d, h, mi, s] =>
    let year := to_unsigned_int y
    let month := to_unsigned_int mo
    let day := to_unsigned_int d
    let hour := to_unsigned_int h
    let min := to_unsigned_int mi
    let sec := to_unsigned_int s
    let seconds := (year * 31557600 + month * 2592000 + day * 86400 + hour * 3600
      + min * 60 + sec) % 2 ^ 64
    if seconds = 0 then .ok Value.qnil
    else if month < 1 || day < 1 then
      .error (DecodeError.mysql2 (invalid_date_message ptr))
    else if seconds < MYSQL2_MIN_TIME b || seconds > MYSQL2_MAX_TIME b then
      -- use DateTime instead
      let offset := if db_timezone = Zone.local then Offset.local_offset else Offset.zero
      let app := app_timezone.map
        (fun z => if z = Zone.local then Offset.local_offset else Offset.zero)
      .ok (Value.datetime (to_int year) (to_int month) (to_int day) (to_int hour)
        (to_int min) (to_int sec) offset app)
    else
      .ok (Value.time db_timezone (to_int year) (to_int month) (to_int day) (to_int hour)
        (to_int min) (to_int sec) app_timezone)
  | _ => .error DecodeError.unassigned_local

/-- The `MYSQL_TYPE_DATE` / `MYSQL_TYPE_NEWDATE` case of the text decoder. -/
def fetch_row_date (ptr : List Nat) : Except DecodeError Value :=
  match sscanf date_format (cstr ptr) with
  | [year, month, day] =>
    if year + month + day = 0 then .ok Value.qnil
    else if month < 1 || day < 1 then
      .error (DecodeError.mysql2 (invalid_date_message ptr))
    else .ok (Value.date year month day)
  | _ => .error DecodeError.unassigned_local

/-- The body of the column loop of `rb_mysql_result_fetch_row`: the value
stored for column `i`, given `fields[i]`, `row[i]` (`none` is a NULL pointer,
otherwise the bytes at the pointer) and `fieldLengths[i]`. -/
def rb_mysql_result_fetch_row_value (b : Build) (es : EncodingSupport) (libc : Libc)
    (db_timezone : Zone) (app_timezone : Option Zone) (castBool cast : Bool)
    (field : MYSQL_FIELD) (row_i : Option (List Nat)) (fieldLength : Nat) :
    Except DecodeError Value :=
  match row_i with
  | none => .ok Value.qnil
  | some ptr =>
    if !cast then
      if field.type = FieldType.MYSQL_TYPE_NULL then .ok Value.qnil
      else .ok (Value.string (field_string b es field ptr fieldLength))
    else
      match field.type with
      | FieldType.MYSQL_TYPE_NULL => .ok Value.qnil
      | FieldType.MYSQL_TYPE_BIT => .ok (Value.string (rb_str_new b ptr fieldLength))
      | FieldType.MYSQL_TYPE_TINY =>
        if castBool && field.length = 1 then
          .ok (if ptr.headD 0 ≠ 48 then Value.qtrue else Value.qfalse)
        else .ok (Value.integer (rb_cstr2inum ptr))
      | FieldType.MYSQL_TYPE_SHORT
      | FieldType.MYSQL_TYPE_LONG
      | FieldType.MYSQL_TYPE_INT24
      | FieldType.MYSQL_TYPE_LONGLONG
      | FieldType.MYSQL_TYPE_YEAR => .ok (Value.integer (rb_cstr2inum ptr))
      | FieldType.MYSQL_TYPE_DECIMAL
      | FieldType.MYSQL_TYPE_NEWDECIMAL =>
        if field.decimals = 0 then .ok (Value.integer (rb_cstr2inum ptr))
        else if libc.strtod_is_zero (cstr ptr) then
          .ok (Value.big_decimal (rb_str_new b [48, 46, 48] 3))
        else .ok (Value.big_decimal (rb_str_new b ptr fieldLength))
      | FieldType.MYSQL_TYPE_FLOAT
      | FieldType.MYSQL_TYPE_DOUBLE =>
        if libc.strtod_is_zero (cstr ptr) then .ok Value.float_zero
        else .ok (Value.float_of (cstr ptr))
      | FieldType.MYSQL_TYPE_TIME => fetch_row_time db_timezone app_timezone ptr
      | FieldType.MYSQL_TYPE_TIMESTAMP
      | FieldType.MYSQL_TYPE_DATETIME => fetch_row_datetime b db_timezone app_timezone ptr
      | FieldType.MYSQL_TYPE_DATE
      | FieldType.MYSQL_TYPE_NEWDATE => fetch_row_date ptr
      | _ => .ok (Value.string (field_string b es field ptr fieldLength))

/-! ## client.c: escaping -/

/-- What an escape call hands back: the string object it escaped (`str` at the
`return str;`), or a newly built string. -/
inductive Escaped where
  | same (str : RString)
  | fresh (rb_str : RString)
  deriving DecidableEq, Repr

/-- The function `rb_mysql_client_escape` (the class method `escape`);
`escaper` gives the bytes that `mysql_escape_string` writes into the scratch
buffer of `oldLen*2+1` bytes (their number is its return value). -/
def rb_mysql_client_escape (b : Build) (escaper : List Nat → List Nat) (str : RString) :
    Escaped :=
  let oldLen := str.bytes.length
  let newStr := escaper str.bytes
  let newLen := newStr.length
  if newLen = oldLen then
    -- no need to return a new ruby string if nothing changed
    Escaped.same str
  else
    let rb_str := rb_str_new b newStr newLen
    -- rb_enc_copy(rb_str, str)
    Escaped.fresh (if b.have_ruby_encoding_h then { rb_str with enc := str.enc } else rb_str)

/-- The function `rb_mysql_client_real_escape` (the instance method `escape`);
`escaper` gives the bytes that `mysql_real_escape_string` writes into the
scratch buffer (their number is its return value).  The host's export hands
back its argument when it has nothing to convert, so the string escaped is the
argument object exactly when it equals the argument. -/
def rb_mysql_client_real_escape (b : Build) (es : EncodingSupport)
    (escaper : List Nat → List Nat) (str : RString) (wrapper : Wrapper) : Outcome Escaped :=
  if REQUIRE_OPEN_DB wrapper then
    { ret := .error closed_connection_error, state := wrapper, trace := [] }
  else
    -- ensure the string is in the encoding the connection is expecting
    let str1 := if b.have_ruby_encoding_h then es.rb_str_export_to_enc str es.conn_enc else str
    let oldLen := str1.bytes.length
    let newStr := escaper str1.bytes
    let newLen := newStr.length
    if newLen = oldLen then
      -- no need to return a new ruby string if nothing changed
      { ret := .ok (Escaped.same str1), state := wrapper
        trace := [Event.real_escape str1.bytes] }
    else
      let rb_str := rb_str_new b newStr newLen
      let rb_str1 :=
        if b.have_ruby_encoding_h then
          match es.default_internal_enc with
          | some d => es.rb_str_export_to_enc (rb_enc_associate rb_str es.conn_enc) d
          | none => rb_enc_associate rb_str es.conn_enc
        else rb_str
      { ret := .ok (Escaped.fresh rb_str1), state := wrapper
        trace := [Event.real_escape str1.bytes] }

/-! ## Auxiliary predicates and concrete inputs -/

/-- While an owner is set the open guard does not fire. -/
def OwnerImpliesOpen (w : Wrapper) : Prop :=
  w.active_thread ≠ none → REQUIRE_OPEN_DB w = false

/-- The acquisition event chosen by the `:stream` entry of the stored options. -/
def acquire_event (w : Wrapper) : Event :=
  if rb_hash_aref w.query_options Sym.stream = RVal.qtrue then Event.use_result
  else Event.store_result

/-- A library that reports success everywhere and hands back result handle 7. -/
def srvOk : Server :=
  { send_rv := 0, wait_rv := 1, read_rv := 0, result := some 7, errno := 0,
    error := "", sqlstate := "00000", ping_rv := 0, select_db_rv := 0 }

/-- An open connection without owner, reconnect disabled, read timeout 5 s. -/
def wIdle : Wrapper :=
  { reconnect_enabled := false, closed := false, active_thread := none,
    query_options := [(Sym.async, RVal.qfalse), (Sym.stream, RVal.qfalse)],
    read_timeout := some 5 }

/-- The connection `wIdle` after thread 1 sent a query with `async: true`. -/
def wBusy : Wrapper :=
  (step srvOk (Call.query 1 "SELECT 1" (some [(Sym.async, RVal.qtrue)])) wIdle).post

/-- A closed connection with reconnect disabled and no owner. -/
def wClosed : Wrapper :=
  { reconnect_enabled := false, closed := true, active_thread := none,
    query_options := [], read_timeout := none }

/-- A library whose `mysql_send_query` fails with server error 2006. -/
def srvSendFails : Server :=
  { srvOk with send_rv := 1, errno := 2006, error := "MySQL server has gone away",
               sqlstate := "HY000" }

/-- A library whose readiness wait reports expiry. -/
def srvTimeout : Server := { srvOk with wait_rv := 0 }

/-- The connection `wIdle` owned by thread 1, with streaming requested. -/
def wOwnedStream : Wrapper :=
  { wIdle with active_thread := some 1,
               query_options := [(Sym.stream, RVal.qtrue), (Sym.async, RVal.qtrue)] }

/-- A library whose result acquisition yields no result and no error. -/
def srvNoResult : Server := { srvOk with result := none }

/-- The library reports a failed result: the read step fails, or acquisition
yields no result while the server error number is non-zero. -/
def ResultFails (srv : Server) : Prop :=
  srv.read_rv ≠ 0 ∨ (srv.result = none ∧ srv.errno ≠ 0)

/-- A library whose read step fails with a syntax error. -/
def srvBadSql : Server :=
  { srvOk with read_rv := 1, result := none, errno := 1064,
               error := "You have an error in your SQL syntax", sqlstate := "42000" }

/-- The connection `wIdle` owned by thread 1 after an async query. -/
def wOwned : Wrapper := { wIdle with active_thread := some 1 }

/-- Thread 1 sends an async query, thread 2 and thread 1 try to query, thread 1
fetches the result, thread 2 queries, then the connection is closed. -/
def sampleCalls : List (Call × Server) :=
  [ (Call.query 1 "SELECT 1" (some [(Sym.async, RVal.qtrue)]), srvOk),
    (Call.query 2 "SELECT 2" none, srvOk),
    (Call.query 1 "SELECT 3" none, srvOk),
    (Call.async_result 1, srvOk),
    (Call.query 2 "SELECT 4" none, srvBadSql),
    (Call.close 2, srvOk) ]

/-- A closed connection with reconnect disabled on which an owner is recorded. -/
def wClosedOwned : Wrapper := { wClosed with active_thread := some 1 }

/-- A build with encoding support on a 64-bit host. -/
def build19 : Build :=
  { have_ruby_encoding_h := true, sizeof_int_lt_sizeof_long := true, negative_time_t := true }

/-- The UTF-8 bytes of a string of ISO-8859-1 bytes. -/
def latin1_to_utf8 (bytes : List Nat) : List Nat :=
  bytes.flatMap (fun c => if c < 128 then [c] else [192 + c / 64, 128 + c % 64])

/-- The host transcoder on the pair it is used with below: a string
associated with ISO-8859-1 exported to UTF-8; any other export is left alone. -/
def export_latin1_to_utf8 (s : RString) (target : Encoding) : RString :=
  if s.enc = some (Encoding.named "ISO-8859-1") ∧ target = Encoding.named "UTF-8" then
    { bytes := latin1_to_utf8 s.bytes, enc := some target }
  else s

/-- A host whose default internal encoding is UTF-8, with a UTF-8 connection,
knowing the charset ids 8 (latin1) and 33 (utf8). -/
def esUtf8Internal : EncodingSupport :=
  { default_internal_enc := some (Encoding.named "UTF-8")
    conn_enc := Encoding.named "UTF-8"
    encoding_from_charset_code := fun id =>
      if id = 8 then some (Encoding.named "ISO-8859-1")
      else if id = 33 then some (Encoding.named "UTF-8")
      else none
    rb_str_export_to_enc := export_latin1_to_utf8 }

/-- A C library whose `strtod` never yields zero (not consulted below). -/
def libcNonZero : Libc := { strtod_is_zero := fun _ => false }

/-- A `VARCHAR` column in the latin1 charset. -/
def latin1Field : MYSQL_FIELD :=
  { name := [99], type := FieldType.MYSQL_TYPE_VAR_STRING, flags := 0, charsetnr := 8,
    length := 10, max_length := 1, decimals := 0 }

/-- An `INT` column (numeric columns are binary, charset 63). -/
def intField : MYSQL_FIELD :=
  { name := [110], type := FieldType.MYSQL_TYPE_LONG, flags := 128, charsetnr := 63,
    length := 11, max_length := 3, decimals := 0 }

/-- A `BIT(1)` column. -/
def bitField : MYSQL_FIELD :=
  { name := [98], type := FieldType.MYSQL_TYPE_BIT, flags := 32, charsetnr := 63,
    length := 1, max_length := 1, decimals := 0 }

/-- The integer wire types that the text decoder parses as a base-10 literal
when the column is not coerced to a boolean. -/
def parsed_as_integer (castBool : Bool) (field : MYSQL_FIELD) : Prop :=
  field.type = FieldType.MYSQL_TYPE_SHORT ∨ field.type = FieldType.MYSQL_TYPE_INT24 ∨
  field.type = FieldType.MYSQL_TYPE_LONG ∨ field.type = FieldType.MYSQL_TYPE_LONGLONG ∨
  field.type = FieldType.MYSQL_TYPE_YEAR ∨
  (field.type = FieldType.MYSQL_TYPE_TINY ∧ ¬ (castBool = true ∧ field.length = 1))

/-! ## Canonical temporal literals -/

/-- The two decimal digit characters of a number below 100. -/
def pad2 (n : Nat) : List Nat := [n / 10 % 10 + 48, n % 10 + 48]

/-- The four decimal digit characters of a number below 10000. -/
def pad4 (n : Nat) : List Nat :=
  [n / 1000 % 10 + 48, n / 100 % 10 + 48, n / 10 % 10 + 48, n % 10 + 48]

/-- The NUL-terminated literal `YYYY-MM-DD`. -/
def date_literal (y m d : Nat) : List Nat :=
  pad4 y ++ 45 :: (pad2 m ++ 45 :: (pad2 d ++ [0]))

/-- The NUL-terminated literal `YYYY-MM-DD HH:MM:SS`. -/
def datetime_literal (y mo d h mi s : Nat) : List Nat :=
  pad4 y ++ 45 :: (pad2 mo ++ 45 :: (pad2 d ++ 32 :: (pad2 h ++ 58 :: (pad2 mi ++ 58 ::
    (pad2 s ++ [0])))))

/-- The linear seconds value `year*31557600 + month*2592000 + day*86400 +
hour*3600 + min*60 + sec` that classifies a datetime. -/
def linear_seconds (y mo d h mi s : Nat) : Nat :=
  y * 31557600 + mo * 2592000 + d * 86400 + h * 3600 + mi * 60 + s

/-- A `DECIMAL(10,2)` column. -/
def decimalField : MYSQL_FIELD :=
  { name := [100], type := FieldType.MYSQL_TYPE_NEWDECIMAL, flags := 128, charsetnr := 63,
    length := 12, max_length := 5, decimals := 2 }

/-- A C library whose `strtod` yields zero exactly on the literals `0.00` and
`-0.00`. -/
def libcZero : Libc :=
  { strtod_is_zero := fun lit => lit = [48, 46, 48, 48] || lit = [45, 48, 46, 48, 48] }

/-- A `DATE` column. -/
def dateField : MYSQL_FIELD :=
  { name := [100], type := FieldType.MYSQL_TYPE_DATE, flags := 128, charsetnr := 63,
    length := 10, max_length := 10, decimals := 0 }

/-- A `DATETIME` column. -/
def datetimeField : MYSQL_FIELD :=
  { name := [116], type := FieldType.MYSQL_TYPE_DATETIME, flags := 128, charsetnr := 63,
    length := 19, max_length := 19, decimals := 0 }

/-- The literal `9999-12-31 23:59:59`. -/
def lastSecondLiteral : List Nat :=
  [57, 57, 57, 57, 45, 49, 50, 45, 51, 49, 32, 50, 51, 58, 53, 57, 58, 53, 57, 0]

/-- The literal `0001-01-01 00:00:00`. -/
def yearOneLiteral : List Nat :=
  [48, 48, 48, 49, 45, 48, 49, 45, 48, 49, 32, 48, 48, 58, 48, 48, 58, 48, 48, 0]

/-- The literal `2024-03-01 10:00:00`. -/
def year2024Literal : List Nat :=
  [50, 48, 50, 52, 45, 48, 51, 45, 48, 49, 32, 49, 48, 58, 48, 48, 58, 48, 48, 0]

/-- A build without encoding support on a 64-bit host. -/
def build18 : Build :=
  { have_ruby_encoding_h := false, sizeof_int_lt_sizeof_long := true, negative_time_t := true }

/-! ## result.c: binary-protocol buffers and decoding -/

/-- The numeric value of a wire type in `enum enum_field_types`, as `%d`
prints it. -/
def FieldType.code : FieldType → Nat
  | FieldType.MYSQL_TYPE_DECIMAL => 0
  | FieldType.MYSQL_TYPE_TINY => 1
  | FieldType.MYSQL_TYPE_SHORT => 2
  | FieldType.MYSQL_TYPE_LONG => 3
  | FieldType.MYSQL_TYPE_FLOAT => 4
  | FieldType.MYSQL_TYPE_DOUBLE => 5
  | FieldType.MYSQL_TYPE_NULL => 6
  | FieldType.MYSQL_TYPE_TIMESTAMP => 7
  | FieldType.MYSQL_TYPE_LONGLONG => 8
  | FieldType.MYSQL_TYPE_INT24 => 9
  | FieldType.MYSQL_TYPE_DATE => 10
  | FieldType.MYSQL_TYPE_TIME => 11
  | FieldType.MYSQL_TYPE_DATETIME => 12
  | FieldType.MYSQL_TYPE_YEAR => 13
  | FieldType.MYSQL_TYPE_NEWDATE => 14
  | FieldType.MYSQL_TYPE_VARCHAR => 15
  | FieldType.MYSQL_TYPE_BIT => 16
  | FieldType.MYSQL_TYPE_NEWDECIMAL => 246
  | FieldType.MYSQL_TYPE_ENUM => 247
  | FieldType.MYSQL_TYPE_SET => 248
  | FieldType.MYSQL_TYPE_TINY_BLOB => 249
  | FieldType.MYSQL_TYPE_MEDIUM_BLOB => 250
  | FieldType.MYSQL_TYPE_LONG_BLOB => 251
  | FieldType.MYSQL_TYPE_BLOB => 252
  | FieldType.MYSQL_TYPE_VAR_STRING => 253
  | FieldType.MYSQL_TYPE_STRING => 254
  | FieldType.MYSQL_TYPE_GEOMETRY => 255
  | FieldType.other c => c

/-- The members of the client library's `MYSQL_TIME` that the decoder reads
(all `unsigned int`). -/
structure MYSQL_TIME where
  year : Nat
  month : Nat
  day : Nat
  hour : Nat
  minute : Nat
  second : Nat
  deriving DecidableEq, Repr

/-- The value of `sizeof(MYSQL_TIME)`: six `unsigned int`, an `unsigned long`,
a `my_bool` and an enumeration, with padding. -/
def sizeof_MYSQL_TIME (b : Build) : Nat :=
  if b.sizeof_int_lt_sizeof_long then 40 else 36

/-- The members of `MYSQL_BIND` that the code sets.  `buffer` tells whether
the pointer is set to an allocation; `bound` tells whether `is_null`, `length`
and `error` point into the wrapper's parallel arrays. -/
structure MYSQL_BIND where
  buffer_type : FieldType
  buffer : Bool
  buffer_length : Nat
  is_unsigned : Bool
  bound : Bool
  deriving DecidableEq, Repr

/-- An entry of the `xcalloc`-ed bind array before it is filled: all zero
(wire type 0 is `MYSQL_TYPE_DECIMAL`). -/
def zero_bind : MYSQL_BIND :=
  { buffer_type := FieldType.MYSQL_TYPE_DECIMAL, buffer := false, buffer_length := 0,
    is_unsigned := false, bound := false }

/-- The `switch` of `rb_mysql_result_alloc_result_buffers`: whether a buffer
is allocated for the wire type and its length; `none` is the `default` case. -/
def alloc_buffer_size (b : Build) (field : MYSQL_FIELD) : Option (Bool × Nat) :=
  match field.type with
  | FieldType.MYSQL_TYPE_NULL => some (false, 0)
  | FieldType.MYSQL_TYPE_TINY => some (true, 1)
  | FieldType.MYSQL_TYPE_SHORT => some (true, 2)
  | FieldType.MYSQL_TYPE_INT24
  | FieldType.MYSQL_TYPE_LONG
  | FieldType.MYSQL_TYPE_YEAR => some (true, 4)
  | FieldType.MYSQL_TYPE_LONGLONG => some (true, 8)
  | FieldType.MYSQL_TYPE_FLOAT
  | FieldType.MYSQL_TYPE_DOUBLE => some (true, 8)
  | FieldType.MYSQL_TYPE_TIME
  | FieldType.MYSQL_TYPE_DATE
  | FieldType.MYSQL_TYPE_NEWDATE
  | FieldType.MYSQL_TYPE_DATETIME
  | FieldType.MYSQL_TYPE_TIMESTAMP => some (true, sizeof_MYSQL_TIME b)
  | FieldType.MYSQL_TYPE_DECIMAL
  | FieldType.MYSQL_TYPE_NEWDECIMAL
  | FieldType.MYSQL_TYPE_STRING
  | FieldType.MYSQL_TYPE_VAR_STRING
  | FieldType.MYSQL_TYPE_VARCHAR
  | FieldType.MYSQL_TYPE_TINY_BLOB
  | FieldType.MYSQL_TYPE_BLOB
  | FieldType.MYSQL_TYPE_MEDIUM_BLOB
  | FieldType.MYSQL_TYPE_LONG_BLOB
  | FieldType.MYSQL_TYPE_BIT
  | FieldType.MYSQL_TYPE_SET
  | FieldType.MYSQL_TYPE_ENUM
  | FieldType.MYSQL_TYPE_GEOMETRY => some (true, field.max_length)
  | FieldType.other _ => none

/-- One pass of the loop of `rb_mysql_result_alloc_result_buffers` on
`fields[i]`: the filled bind entry, or, in the `default` case, the entry as it
is when the error is raised (only `buffer_type` set). -/
def alloc_bind (b : Build) (field : MYSQL_FIELD) : Except MYSQL_BIND MYSQL_BIND :=
  match alloc_buffer_size b field with
  | some (allocated, len) =>
    .ok { buffer_type := field.type, buffer := allocated, buffer_length := len,
          is_unsigned := (field.flags &&& UNSIGNED_FLAG) ≠ 0, bound := true }
  | none => .error { zero_bind with buffer_type := field.type }

/-- The loop of `rb_mysql_result_alloc_result_buffers` over the fields from
the current index on: the entries of the bind array from that index on, and
the code of the unhandled wire type if the loop raised (the entries after the
failing one stay zeroed). -/
def alloc_binds (b : Build) : List MYSQL_FIELD → List MYSQL_BIND × Option Nat
  | [] => ([], none)
  | field :: fields =>
    match alloc_bind b field with
    | .ok bind =>
      let r := alloc_binds b fields
      (bind :: r.1, r.2)
    | .error unfilled =>
      (unfilled :: List.replicate fields.length zero_bind, some field.type.code)

/-- What `mysql_stmt_fetch` leaves for one column: the null flag, the length,
the bytes of the bound buffer, and the buffer read as a `MYSQL_TIME`. -/
structure StmtCell where
  is_null : Bool
  length : Nat
  buffer : List Nat
  time : MYSQL_TIME
  deriving DecidableEq, Repr

/-- The unsigned number held in the first `nbytes` bytes of a buffer, in the
byte order of the host (least significant byte first). -/
def buffer_unsigned (nbytes : Nat) (buffer : List Nat) : Nat :=
  ((List.range nbytes).map (fun i => (buffer.getD i 0 % 256) * 256 ^ i)).sum

/-- The two's-complement reading of a `bits`-bit pattern. -/
def to_signed (bits : Nat) (u : Nat) : Int :=
  if u < 2 ^ (bits - 1) then (u : Int) else (u : Int) - (2 ^ bits : Nat)

/-- An integer column of `nbytes` bytes read from its buffer: `UINT2NUM` /
`ULL2NUM` of the unsigned type when `is_unsigned` is set, `INT2NUM` /
`LL2NUM` of the signed type otherwise. -/
def buffer_integer (nbytes : Nat) (is_unsigned : Bool) (buffer : List Nat) : Int :=
  if is_unsigned then (buffer_unsigned nbytes buffer : Nat)
  else to_signed (8 * nbytes) (buffer_unsigned nbytes buffer)

/-- The `MYSQL_TYPE_DATETIME` / `MYSQL_TYPE_TIMESTAMP` case of the binary
decoder. -/
def stmt_fetch_row_datetime (b : Build) (db_timezone : Zone) (app_timezone : Option Zone)
    (ts : MYSQL_TIME) : Value :=
  let year := ts.year % 4294967296
  let month := ts.month % 4294967296
  let day := ts.day % 4294967296
  let hour := ts.hour % 4294967296
  let minute := ts.minute % 4294967296
  let second := ts.second % 4294967296
  let seconds := (year * 31557600 + month * 2592000 + day * 86400 + hour * 3600
    + minute * 60 + second) % 2 ^ 64
  if seconds < MYSQL2_MIN_TIME b || seconds > MYSQL2_MAX_TIME b then
    -- use DateTime instead
    let offset := if db_timezone = Zone.local then Offset.local_offset else Offset.zero
    let app := app_timezone.map
      (fun z => if z = Zone.local then Offset.local_offset else Offset.zero)
    Value.datetime year month day hour minute second offset app
  else
    Value.time db_timezone year month day hour minute second app_timezone

/-- The body of the column loop of `rb_mysql_result_stmt_fetch_row`: the value
stored for column `i`, given `fields[i]`, the bind entry `result_buffers[i]`
and what the fetch left in the buffer.  The parameter `cast` of the C function
is not read by it. -/
def rb_mysql_result_stmt_fetch_row_value (b : Build) (es : EncodingSupport)
    (db_timezone : Zone) (app_timezone : Option Zone) (castBool : Bool)
    (field : MYSQL_FIELD) (result_buffer : MYSQL_BIND) (cell : StmtCell) :
    Except DecodeError Value :=
  if cell.is_null then .ok Value.qnil
  else
    match result_buffer.buffer_type with
    | FieldType.MYSQL_TYPE_TINY =>
      if castBool && field.length = 1 then
        .ok (if buffer_unsigned 1 cell.buffer ≠ 0 then Value.qtrue else Value.qfalse)
      else .ok (Value.integer (buffer_integer 1 result_buffer.is_unsigned cell.buffer))
    | FieldType.MYSQL_TYPE_SHORT =>
      .ok (Value.integer (buffer_integer 2 result_buffer.is_unsigned cell.buffer))
    | FieldType.MYSQL_TYPE_INT24
    | FieldType.MYSQL_TYPE_LONG
    | FieldType.MYSQL_TYPE_YEAR =>
      .ok (Value.integer (buffer_integer 4 result_buffer.is_unsigned cell.buffer))
    | FieldType.MYSQL_TYPE_LONGLONG =>
      .ok (Value.integer (buffer_integer 8 result_buffer.is_unsigned cell.buffer))
    | FieldType.MYSQL_TYPE_FLOAT => .ok (Value.float_of_buffer 4 (cell.buffer.take 4))
    | FieldType.MYSQL_TYPE_DOUBLE => .ok (Value.float_of_buffer 8 (cell.buffer.take 8))
    | FieldType.MYSQL_TYPE_DATE
    | FieldType.MYSQL_TYPE_NEWDATE =>
      .ok (Value.date (to_int cell.time.year) (to_int cell.time.month) (to_int cell.time.day))
    | FieldType.MYSQL_TYPE_TIME =>
      .ok (Value.time db_timezone 2000 1 1 (cell.time.hour % 4294967296)
        (cell.time.minute % 4294967296) (cell.time.second % 4294967296) app_timezone)
    | FieldType.MYSQL_TYPE_DATETIME
    | FieldType.MYSQL_TYPE_TIMESTAMP =>
      .ok (stmt_fetch_row_datetime b db_timezone app_timezone cell.time)
    | FieldType.MYSQL_TYPE_DECIMAL
    | FieldType.MYSQL_TYPE_NEWDECIMAL =>
      .ok (Value.big_decimal (rb_str_new b cell.buffer cell.length))
    | FieldType.MYSQL_TYPE_STRING
    | FieldType.MYSQL_TYPE_VAR_STRING
    | FieldType.MYSQL_TYPE_VARCHAR
    | FieldType.MYSQL_TYPE_TINY_BLOB
    | FieldType.MYSQL_TYPE_BLOB
    | FieldType.MYSQL_TYPE_MEDIUM_BLOB
    | FieldType.MYSQL_TYPE_LONG_BLOB
    | FieldType.MYSQL_TYPE_BIT
    | FieldType.MYSQL_TYPE_SET
    | FieldType.MYSQL_TYPE_ENUM
    | FieldType.MYSQL_TYPE_GEOMETRY =>
      .ok (Value.string (field_string b es field cell.buffer cell.length))
    | t => .error (DecodeError.unhandled_buffer_type t.code)

/-! ## result.c: the result wrapper -/

/-- The externally visible key of a column: a symbol or a string. -/
inductive Key where
  | sym (name : List Nat)
  | str (s : RString)
  deriving DecidableEq, Repr

/-- A row handed to the caller: an array of values, or a hash from keys to
values in insertion order. -/
inductive Row where
  | array (vals : List Value)
  | hash (pairs : List (Key × Value))
  deriving DecidableEq, Repr

/-- A text-protocol row as `mysql_fetch_row` and `mysql_fetch_lengths` give
it: per column the pointer `row[i]` (`none` is NULL, otherwise the bytes at
the pointer) and the length `fieldLengths[i]`. -/
abbrev TextRow := List (Option (List Nat) × Nat)

/-- The outcome of one `mysql_stmt_fetch` that is not `MYSQL_NO_DATA`: a row
left in the bound buffers (return value 0), an error (1), or
`MYSQL_DATA_TRUNCATED`. -/
inductive StmtFetch where
  | row (cells : List StmtCell)
  | error
  | data_truncated
  deriving DecidableEq, Repr

/-- The client library's `MYSQL_RES` as the code uses it: the field
descriptors, whether the result is buffered (`mysql_store_result`), the number
of rows fetched so far, the rows still to be fetched, and whether
`mysql_free_result` has been called on it. -/
structure MYSQL_RES where
  fields : List MYSQL_FIELD
  stored : Bool
  fetched : Nat
  rows : List TextRow
  freed : Bool
  deriving DecidableEq, Repr

/-- The client library's `MYSQL_STMT` as the code uses it: whether its result
is buffered, the number of rows fetched so far, the outcomes of the coming
`mysql_stmt_fetch` calls (after them `MYSQL_NO_DATA`), whether
`mysql_stmt_bind_result` fails, and whether `mysql_stmt_free_result` has been
called. -/
structure MYSQL_STMT where
  stored : Bool
  fetched : Nat
  fetches : List StmtFetch
  bind_result_fails : Bool
  result_freed : Bool
  deriving DecidableEq, Repr

/-- The function `mysql_num_rows`: all rows of a buffered result, the rows
fetched so far of an unbuffered one. -/
def mysql_num_rows (r : MYSQL_RES) : Nat :=
  if r.stored then r.fetched + r.rows.length else r.fetched

/-- The function `mysql_stmt_num_rows`. -/
def mysql_stmt_num_rows (s : MYSQL_STMT) : Nat :=
  if s.stored then s.fetched + s.fetches.length else s.fetched

/-- The struct `mysql2_result_wrapper`, with the instance variable
`@query_options` of the result object.  `fields` and `rows` are host arrays
(`none` is `Qnil`) whose entries may be `nil`; `stmt` is `none` for NULL. -/
structure mysql2_result_wrapper where
  fields : Option (List (Option Key))
  rows : Option (List (Option Row))
  numberOfFields : Nat
  numberOfRows : Nat
  lastRowProcessed : Nat
  resultFreed : Bool
  streamingComplete : Bool
  result : MYSQL_RES
  stmt : Option MYSQL_STMT
  result_buffers : Option (List MYSQL_BIND)
  query_options : Hash
  deriving DecidableEq, Repr

/-- Behaviour the C standard leaves undefined, kept as an outcome of its own. -/
inductive Undefined where
  | use_after_free
  | out_of_bounds
  | not_an_array
  | null_pointer
  deriving DecidableEq, Repr

/-- An exception (or undefined behaviour) leaving a result operation. -/
inductive RExc where
  /-- raised while a value is decoded -/
  | decode (e : DecodeError)
  /-- `unhandled mysql type: %d` -/
  | unhandled_mysql_type (code : Nat)
  /-- the error raised by `rb_raise_mysql2_stmt_error2` -/
  | stmt_error
  /-- `IMPLBUG: caught MYSQL_DATA_TRUNCATED. …` -/
  | data_truncated
  /-- `You have already fetched all the rows for this query and streaming is
  true. (to reiterate you must requery).` -/
  | already_fetched
  /-- `rb_yield` without a block: the host's `LocalJumpError` -/
  | local_jump_error
  /-- the block left the iteration (`break`, or an exception of its own) -/
  | block_exit
  | undefined (u : Undefined)
  /-- the bound on the number of fetches of the streaming loop was reached -/
  | fetch_bound
  deriving DecidableEq, Repr

/-- The calls of a result operation into the client library and the host. -/
inductive REvent where
  | mysql_num_fields
  | mysql_fetch_field_direct (idx : Nat)
  | mysql_fetch_fields
  | mysql_fetch_row
  | mysql_fetch_lengths
  | mysql_num_rows
  | mysql_stmt_num_rows
  | mysql_stmt_bind_result
  | mysql_stmt_fetch
  | mysql_stmt_free_result
  | mysql_free_result
  | free_result_buffers
  | rb_yield (row : Option Row)
  | rb_warn (message : String)
  deriving DecidableEq, Repr

/-- Result of running one C function on a result wrapper. -/
structure ROutcome (α : Type) where
  ret : Except RExc α
  state : mysql2_result_wrapper
  trace : List REvent

/-- Return normally without any call. -/
def ROutcome.pure {α : Type} (a : α) (w : mysql2_result_wrapper) : ROutcome α :=
  { ret := .ok a, state := w, trace := [] }

/-- Raise after the given calls. -/
def ROutcome.raise {α : Type} (e : RExc) (w : mysql2_result_wrapper)
    (trace : List REvent) : ROutcome α :=
  { ret := .error e, state := w, trace := trace }

/-- Sequencing: run `f` on the value and state of `o` unless `o` raised. -/
def ROutcome.bind {α β : Type} (o : ROutcome α)
    (f : α → mysql2_result_wrapper → ROutcome β) : ROutcome β :=
  match o.ret with
  | .error e => { ret := .error e, state := o.state, trace := o.trace }
  | .ok a =>
    let r := f a o.state
    { ret := r.ret, state := r.state, trace := o.trace ++ r.trace }

/-- The host's `rb_ary_entry(ary, idx)`: `nil` outside the array. -/
def rb_ary_entry {α : Type} (ary : List (Option α)) (idx : Nat) : Option α :=
  match ary.get? idx with
  | some v => v
  | none => none

/-- The host's `rb_ary_store(ary, idx, val)`: the array grows with `nil`
entries up to `idx` when it is shorter. -/
def rb_ary_store {α : Type} (ary : List (Option α)) (idx : Nat) (val : Option α) :
    List (Option α) :=
  if idx < ary.length then ary.set idx val
  else ary ++ List.replicate (idx - ary.length) none ++ [val]

/-- The host's `rb_hash_aset` on a hash kept in insertion order. -/
def rb_hash_aset (pairs : List (Key × Value)) (key : Key) (val : Value) :
    List (Key × Value) :=
  if pairs.any (fun kv => kv.1 = key) then
    pairs.map (fun kv => if kv.1 = key then (key, val) else kv)
  else pairs ++ [(key, val)]

/-- The function `rb_mysql_result_to_obj`. -/
def rb_mysql_result_to_obj (r : MYSQL_RES) (s : Option MYSQL_STMT) (query_options : Hash) :
    mysql2_result_wrapper :=
  { fields := none, rows := none, numberOfFields := 0, numberOfRows := 0,
    lastRowProcessed := 0, resultFreed := false, streamingComplete := false,
    result := r, stmt := s, result_buffers := none, query_options := query_options }

/-- The function `rb_mysql_result_free_result`. -/
def rb_mysql_result_free_result (w : mysql2_result_wrapper) :
    mysql2_result_wrapper × List REvent :=
  if !w.resultFreed then
    let stmt_part : Option MYSQL_STMT × List REvent :=
      match w.stmt with
      | some st =>
        (some { st with result_freed := true },
          REvent.mysql_stmt_free_result ::
            (if w.result_buffers.isSome then [REvent.free_result_buffers] else []))
      | none => (none, [])
    ({ w with stmt := stmt_part.1, result := { w.result with freed := true },
              resultFreed := true },
      stmt_part.2 ++ [REvent.mysql_free_result])
  else (w, [])

/-- The function `rb_mysql_result_alloc_result_buffers`, `fields` having
`numberOfFields` entries. -/
def rb_mysql_result_alloc_result_buffers (b : Build) (fields : List MYSQL_FIELD)
    (w : mysql2_result_wrapper) : ROutcome Unit :=
  if w.result_buffers.isSome then ROutcome.pure () w
  else
    let r := alloc_binds b (fields.take w.numberOfFields)
    match r.2 with
    | none => ROutcome.pure () { w with result_buffers := some r.1 }
    | some code =>
      ROutcome.raise (RExc.unhandled_mysql_type code) { w with result_buffers := some r.1 } []

/-- A `TINYINT(1)` column. -/
def tinyField : MYSQL_FIELD :=
  { name := [102], type := FieldType.MYSQL_TYPE_TINY, flags := 128, charsetnr := 63,
    length := 1, max_length := 1, decimals := 0 }

/-- The bind entry that buffer allocation makes for `tinyField`. -/
def tinyBind : MYSQL_BIND :=
  { buffer_type := FieldType.MYSQL_TYPE_TINY, buffer := true, buffer_length := 1,
    is_unsigned := false, bound := true }

/-- A `MYSQL_TIME` of all zeros. -/
def zeroTime : MYSQL_TIME :=
  { year := 0, month := 0, day := 0, hour := 0, minute := 0, second := 0 }

/-- A one-byte buffer holding `0xFF`. -/
def cellFF : StmtCell := { is_null := false, length := 1, buffer := [255], time := zeroTime }

/-- The width in bytes of the integer wire types. -/
def integer_width : FieldType → Option Nat
  | FieldType.MYSQL_TYPE_TINY => some 1
  | FieldType.MYSQL_TYPE_SHORT => some 2
  | FieldType.MYSQL_TYPE_INT24 => some 4
  | FieldType.MYSQL_TYPE_LONG => some 4
  | FieldType.MYSQL_TYPE_YEAR => some 4
  | FieldType.MYSQL_TYPE_LONGLONG => some 8
  | _ => none

/-- The sizing rule for the buffer bound to a column: length 1 for tiny, 2
for short, 4 for int24 / long / year, 8 for longlong, 8 for float and double,
the size of `MYSQL_TIME` for the temporal types, the column's `max_length` for
the decimal, character, blob, bit, set, enum and geometry types, and no
buffer for the null type; the unsigned flag is the column's. -/
def BindFollowsRule (b : Build) (f : MYSQL_FIELD) (bind : MYSQL_BIND) : Prop :=
  bind.buffer_type = f.type ∧
  bind.is_unsigned = decide ((f.flags &&& UNSIGNED_FLAG) ≠ 0) ∧
  (f.type = FieldType.MYSQL_TYPE_NULL → bind.buffer = false) ∧
  (f.type ≠ FieldType.MYSQL_TYPE_NULL → bind.buffer = true) ∧
  (f.type = FieldType.MYSQL_TYPE_TINY → bind.buffer_length = 1) ∧
  (f.type = FieldType.MYSQL_TYPE_SHORT → bind.buffer_length = 2) ∧
  (f.type = FieldType.MYSQL_TYPE_INT24 ∨ f.type = FieldType.MYSQL_TYPE_LONG ∨
    f.type = FieldType.MYSQL_TYPE_YEAR → bind.buffer_length = 4) ∧
  (f.type = FieldType.MYSQL_TYPE_LONGLONG → bind.buffer_length = 8) ∧
  (f.type = FieldType.MYSQL_TYPE_FLOAT ∨ f.type = FieldType.MYSQL_TYPE_DOUBLE →
    bind.buffer_length = 8) ∧
  (f.type = FieldType.MYSQL_TYPE_TIME ∨ f.type = FieldType.MYSQL_TYPE_DATE ∨
    f.type = FieldType.MYSQL_TYPE_NEWDATE ∨ f.type = FieldType.MYSQL_TYPE_DATETIME ∨
    f.type = FieldType.MYSQL_TYPE_TIMESTAMP → bind.buffer_length = sizeof_MYSQL_TIME b) ∧
  (f.type = FieldType.MYSQL_TYPE_DECIMAL ∨ f.type = FieldType.MYSQL_TYPE_NEWDECIMAL ∨
    f.type = FieldType.MYSQL_TYPE_STRING ∨ f.type = FieldType.MYSQL_TYPE_VAR_STRING ∨
    f.type = FieldType.MYSQL_TYPE_VARCHAR ∨ f.type = FieldType.MYSQL_TYPE_TINY_BLOB ∨
    f.type = FieldType.MYSQL_TYPE_BLOB ∨ f.type = FieldType.MYSQL_TYPE_MEDIUM_BLOB ∨
    f.type = FieldType.MYSQL_TYPE_LONG_BLOB ∨ f.type = FieldType.MYSQL_TYPE_BIT ∨
    f.type = FieldType.MYSQL_TYPE_SET ∨ f.type = FieldType.MYSQL_TYPE_ENUM ∨
    f.type = FieldType.MYSQL_TYPE_GEOMETRY → bind.buffer_length = f.max_length)

/-- A fresh wrapper around a statement result with three columns. -/
def wThreeColumns : mysql2_result_wrapper :=
  { rb_mysql_result_to_obj
      { fields := [tinyField, decimalField, datetimeField], stored := true, fetched := 0,
        rows := [], freed := false }
      (some { stored := true, fetched := 0, fetches := [], bind_result_fails := false,
              result_freed := false })
      [] with
    numberOfFields := 3, fields := some [] }

/-- A `DECIMAL(10,0)` column. -/
def decimalField0 : MYSQL_FIELD := { decimalField with decimals := 0 }

/-- The bind entry that buffer allocation makes for a decimal column. -/
def decimalBind : MYSQL_BIND :=
  { buffer_type := FieldType.MYSQL_TYPE_NEWDECIMAL, buffer := true, buffer_length := 5,
    is_unsigned := false, bound := true }

/-- A bound buffer holding the two characters `12`. -/
def cell12 : StmtCell := { is_null := false, length := 2, buffer := [49, 50], time := zeroTime }

/-! ## result.c: rows and iteration -/

/-- The struct `result_each_args`. -/
structure result_each_args where
  symbolizeKeys : Bool
  asArray : Bool
  castBool : Bool
  cacheRows : Bool
  cast : Bool
  streaming : Bool
  db_timezone : Zone
  app_timezone : Option Zone
  block_given : Bool
  deriving DecidableEq, Repr

/-- The block given to `each`: it receives the yielded row and either returns
(`true`) or leaves the iteration by `break` or an exception (`false`).  A
block that calls back into the same result object is outside this model. -/
abbrev Block := Option Row → Bool

/-- The host's `rb_yield(row)`: without a block it raises `LocalJumpError`. -/
def rb_yield (block : Option Block) (row : Option Row) (w : mysql2_result_wrapper) :
    ROutcome Unit :=
  match block with
  | none => ROutcome.raise RExc.local_jump_error w []
  | some blk =>
    if blk row then { ret := .ok (), state := w, trace := [REvent.rb_yield row] }
    else ROutcome.raise RExc.block_exit w [REvent.rb_yield row]

/-- The statements under `if (wrapper->fields == Qnil)`: `mysql_num_fields`
reads the native result, which is undefined once it has been freed. -/
def init_fields (w : mysql2_result_wrapper) : ROutcome Unit :=
  match w.fields with
  | some _ => ROutcome.pure () w
  | none =>
    if w.result.freed then ROutcome.raise (RExc.undefined Undefined.use_after_free) w []
    else
      { ret := .ok ()
        state := { w with numberOfFields := w.result.fields.length, fields := some [] }
        trace := [REvent.mysql_num_fields] }

/-- The key computed by `rb_mysql_result_fetch_field` for a column: the symbol
of the name read as a C string, or the name as a string with the connection's
encoding, transcoded to the default internal encoding when there is one. -/
def field_key (b : Build) (es : EncodingSupport) (symbolize_keys : Bool)
    (field : MYSQL_FIELD) : Key :=
  if symbolize_keys then Key.sym (cstr field.name)
  else
    let rb_field := rb_str_new b field.name field.name.length
    if b.have_ruby_encoding_h then
      let rb_field1 := rb_enc_associate rb_field es.conn_enc
      match es.default_internal_enc with
      | some d => Key.str (es.rb_str_export_to_enc rb_field1 d)
      | none => Key.str rb_field1
    else Key.str rb_field

/-- The function `rb_mysql_result_fetch_field`. -/
def rb_mysql_result_fetch_field (b : Build) (es : EncodingSupport) (idx : Nat)
    (symbolize_keys : Bool) (w : mysql2_result_wrapper) : ROutcome Key :=
  (init_fields w).bind fun _ w1 =>
    match rb_ary_entry (w1.fields.getD []) idx with
    | some rb_field => ROutcome.pure rb_field w1
    | none =>
      if w1.result.freed then ROutcome.raise (RExc.undefined Undefined.use_after_free) w1 []
      else
        match w1.result.fields.get? idx with
        | none =>
          ROutcome.raise (RExc.undefined Undefined.out_of_bounds) w1
            [REvent.mysql_fetch_field_direct idx]
        | some field =>
          let rb_field := field_key b es symbolize_keys field
          { ret := .ok rb_field
            state := { w1 with fields := some (rb_ary_store (w1.fields.getD []) idx
              (some rb_field)) }
            trace := [REvent.mysql_fetch_field_direct idx] }

/-- The new `rowVal`: `rb_ary_new2(...)` or `rb_hash_new()`. -/
def row_new (asArray : Bool) : Row :=
  if asArray then Row.array [] else Row.hash []

/-- The statement `if (asArray) rb_ary_push(rowVal, val); else
rb_hash_aset(rowVal, field, val);`. -/
def row_store (asArray : Bool) (rowVal : Row) (field : Key) (val : Value) : Row :=
  if asArray then
    match rowVal with
    | Row.array vals => Row.array (vals ++ [val])
    | other => other
  else
    match rowVal with
    | Row.hash pairs => Row.hash (rb_hash_aset pairs field val)
    | other => other

/-- The column loop of `rb_mysql_result_fetch_row` from index `i` on, with
`n` columns to go. -/
def fetch_row_columns (b : Build) (es : EncodingSupport) (libc : Libc)
    (args : result_each_args) (fields : List MYSQL_FIELD) (row : TextRow) :
    Nat → Nat → Row → mysql2_result_wrapper → ROutcome Row
  | 0, _, rowVal, w => ROutcome.pure rowVal w
  | n + 1, i, rowVal, w =>
    (rb_mysql_result_fetch_field b es i args.symbolizeKeys w).bind fun field w1 =>
      match row.get? i with
      | none => ROutcome.raise (RExc.undefined Undefined.out_of_bounds) w1 []
      | some (none, _) =>
        fetch_row_columns b es libc args fields row n (i + 1)
          (row_store args.asArray rowVal field Value.qnil) w1
      | some (some ptr, len) =>
        match fields.get? i with
        | none => ROutcome.raise (RExc.undefined Undefined.out_of_bounds) w1 []
        | some f =>
          match rb_mysql_result_fetch_row_value b es libc args.db_timezone args.app_timezone
              args.castBool args.cast f (some ptr) len with
          | .error e => ROutcome.raise (RExc.decode e) w1 []
          | .ok val =>
            fetch_row_columns b es libc args fields row n (i + 1)
              (row_store args.asArray rowVal field val) w1

/-- The function `rb_mysql_result_fetch_row`: `none` is `Qnil`, returned when
`mysql_fetch_row` has no more row. -/
def rb_mysql_result_fetch_row (b : Build) (es : EncodingSupport) (libc : Libc)
    (args : result_each_args) (fields : List MYSQL_FIELD) (w : mysql2_result_wrapper) :
    ROutcome (Option Row) :=
  if w.result.freed then ROutcome.raise (RExc.undefined Undefined.use_after_free) w []
  else
    match w.result.rows with
    | [] => { ret := .ok none, state := w, trace := [REvent.mysql_fetch_row] }
    | row :: rest =>
      let fetched : ROutcome Unit :=
        { ret := .ok ()
          state := { w with result := { w.result with rows := rest,
                                                       fetched := w.result.fetched + 1 } }
          trace := [REvent.mysql_fetch_row, REvent.mysql_fetch_lengths] }
      fetched.bind fun _ w1 =>
        (init_fields w1).bind fun _ w2 =>
          (fetch_row_columns b es libc args fields row w2.numberOfFields 0
            (row_new args.asArray) w2).bind fun rowVal w3 =>
              ROutcome.pure (some rowVal) w3

/-- The column loop of `rb_mysql_result_stmt_fetch_row` from index `i` on,
with `n` columns to go; `cells` is what the fetch left in the bound buffers. -/
def stmt_fetch_row_columns (b : Build) (es : EncodingSupport)
    (args : result_each_args) (fields : List MYSQL_FIELD) (cells : List StmtCell) :
    Nat → Nat → Row → mysql2_result_wrapper → ROutcome Row
  | 0, _, rowVal, w => ROutcome.pure rowVal w
  | n + 1, i, rowVal, w =>
    (rb_mysql_result_fetch_field b es i args.symbolizeKeys w).bind fun field w1 =>
      match cells.get? i, (w1.result_buffers.getD []).get? i, fields.get? i with
      | some cell, some result_buffer, some f =>
        match rb_mysql_result_stmt_fetch_row_value b es args.db_timezone args.app_timezone
            args.castBool f result_buffer cell with
        | .error e => ROutcome.raise (RExc.decode e) w1 []
        | .ok val =>
          stmt_fetch_row_columns b es args fields cells n (i + 1)
            (row_store args.asArray rowVal field val) w1
      | _, _, _ => ROutcome.raise (RExc.undefined Undefined.out_of_bounds) w1 []

/-- The function `rb_mysql_result_stmt_fetch_row`.  The bind array freed by
`rb_mysql_result_free_result` is not reset to NULL, so binding it again after
the release reads freed memory; after `mysql_stmt_free_result` the library's
fetch reports an error. -/
def rb_mysql_result_stmt_fetch_row (b : Build) (es : EncodingSupport)
    (args : result_each_args) (fields : List MYSQL_FIELD) (w : mysql2_result_wrapper) :
    ROutcome (Option Row) :=
  (init_fields w).bind fun _ w1 =>
    (if w1.result_buffers.isNone then rb_mysql_result_alloc_result_buffers b fields w1
      else if w1.resultFreed then
        ROutcome.raise (RExc.undefined Undefined.use_after_free) w1 []
      else ROutcome.pure () w1).bind fun _ w2 =>
      match w2.stmt with
      | none => ROutcome.raise (RExc.undefined Undefined.null_pointer) w2 []
      | some st =>
        if st.bind_result_fails then
          ROutcome.raise RExc.stmt_error w2 [REvent.mysql_stmt_bind_result]
        else if st.result_freed then
          ROutcome.raise RExc.stmt_error w2
            [REvent.mysql_stmt_bind_result, REvent.mysql_stmt_fetch]
        else
          match st.fetches with
          | [] =>
            { ret := .ok none, state := w2
              trace := [REvent.mysql_stmt_bind_result, REvent.mysql_stmt_fetch] }
          | StmtFetch.error :: rest =>
            ROutcome.raise RExc.stmt_error
              { w2 with stmt := some { st with fetches := rest } }
              [REvent.mysql_stmt_bind_result, REvent.mysql_stmt_fetch]
          | StmtFetch.data_truncated :: rest =>
            ROutcome.raise RExc.data_truncated
              { w2 with stmt := some { st with fetches := rest } }
              [REvent.mysql_stmt_bind_result, REvent.mysql_stmt_fetch]
          | StmtFetch.row cells :: rest =>
            let fetched : ROutcome Unit :=
              { ret := .ok ()
                state := { w2 with stmt := some { st with fetches := rest,
                                                          fetched := st.fetched + 1 } }
                trace := [REvent.mysql_stmt_bind_result, REvent.mysql_stmt_fetch] }
            fetched.bind fun _ w3 =>
              (stmt_fetch_row_columns b es args fields cells w3.numberOfFields 0
                (row_new args.asArray) w3).bind fun rowVal w4 =>
                  ROutcome.pure (some rowVal) w4

/-- The call `mysql_fetch_fields(wrapper->result)`. -/
def mysql_fetch_fields (w : mysql2_result_wrapper) : ROutcome (List MYSQL_FIELD) :=
  if w.result.freed then ROutcome.raise (RExc.undefined Undefined.use_after_free) w []
  else { ret := .ok w.result.fields, state := w, trace := [REvent.mysql_fetch_fields] }

/-- The number of rows the library still has to hand out: of the statement
when there is one, of the native result otherwise. -/
def rows_remaining (w : mysql2_result_wrapper) : Nat :=
  match w.stmt with
  | some st => st.fetches.length
  | none => w.result.rows.length

/-- The `do … while (row != Qnil)` loop of the streaming branch, `fetch` being
the row function of the variant.  The first argument bounds the number of
fetches; the callers pass one more than the number of remaining rows. -/
def each_streaming_loop (fetch : mysql2_result_wrapper → ROutcome (Option Row))
    (block : Option Block) (args : result_each_args) :
    Nat → mysql2_result_wrapper → ROutcome Unit
  | 0, w => ROutcome.raise RExc.fetch_bound w []
  | fuel + 1, w =>
    (fetch w).bind fun row w1 =>
      match row with
      | none => ROutcome.pure () w1
      | some r =>
        if args.block_given then
          (rb_yield block (some r) w1).bind fun _ w2 =>
            each_streaming_loop fetch block args fuel
              { w2 with lastRowProcessed := w2.lastRowProcessed + 1 }
        else each_streaming_loop fetch block args fuel w1

/-- The loop of the branch that hands over the cached rows, from index `i`
on with `n` rows to go. -/
def each_cached_loop (block : Option Block) :
    Nat → Nat → mysql2_result_wrapper → ROutcome Unit
  | 0, _, w => ROutcome.pure () w
  | n + 1, i, w =>
    match w.rows with
    | none => ROutcome.raise (RExc.undefined Undefined.not_an_array) w []
    | some rows =>
      (rb_yield block (rb_ary_entry rows i) w).bind fun _ w1 =>
        each_cached_loop block n (i + 1) w1

/-- The `for` loop of the buffered branch from index `i` on with `n` rows to
go; the result is `true` when the function returned `Qnil` from inside the
loop. -/
def each_buffered_loop (fetch : mysql2_result_wrapper → ROutcome (Option Row))
    (block : Option Block) (args : result_each_args) (rowsProcessed : Nat) :
    Nat → Nat → mysql2_result_wrapper → ROutcome Bool
  | 0, _, w => ROutcome.pure false w
  | n + 1, i, w =>
    (match w.rows with
      | none => ROutcome.raise (RExc.undefined Undefined.not_an_array) w []
      | some rows =>
        if args.cacheRows && i < rowsProcessed then ROutcome.pure (rb_ary_entry rows i) w
        else
          (fetch w).bind fun row w1 =>
            ROutcome.pure row
              { w1 with
                rows := if args.cacheRows then w1.rows.map (fun a => rb_ary_store a i row)
                        else w1.rows
                lastRowProcessed := w1.lastRowProcessed + 1 }).bind fun row w2 =>
      match row with
      | none =>
        -- we don't need the mysql C dataset around anymore, peace it
        let fr := rb_mysql_result_free_result w2
        { ret := .ok true, state := fr.1, trace := fr.2 }
      | some r =>
        (if args.block_given then rb_yield block (some r) w2
          else ROutcome.pure () w2).bind fun _ w3 =>
          each_buffered_loop fetch block args rowsProcessed n (i + 1) w3

/-- The common body of `rb_mysql_result_each_nonstmt` and
`rb_mysql_result_each_stmt`, which differ only in the row function they call.
The value is `wrapper->rows`, or `none` for the `return Qnil` inside the
loop. -/
def each_body (fetch : List MYSQL_FIELD → mysql2_result_wrapper → ROutcome (Option Row))
    (block : Option Block) (args : result_each_args) (w : mysql2_result_wrapper) :
    ROutcome (Option (List (Option Row))) :=
  if args.streaming then
    if !w.streamingComplete then
      (mysql_fetch_fields w).bind fun fields w1 =>
        (each_streaming_loop (fetch fields) block args (rows_remaining w1 + 1) w1).bind
          fun _ w2 =>
            let fr := rb_mysql_result_free_result w2
            { ret := .ok fr.1.rows
              state := { fr.1 with numberOfRows := fr.1.lastRowProcessed,
                                   streamingComplete := true }
              trace := fr.2 }
    else ROutcome.raise RExc.already_fetched w []
  else
    if args.cacheRows && w.lastRowProcessed = w.numberOfRows then
      -- we've already read the entire dataset from the C result into our
      -- internal array. Lets hand that over to the user since it's ready to go
      (each_cached_loop block w.numberOfRows 0 w).bind fun _ w1 =>
        ROutcome.pure w1.rows w1
    else
      match w.rows with
      | none => ROutcome.raise (RExc.undefined Undefined.not_an_array) w []
      | some rows =>
        (mysql_fetch_fields w).bind fun fields w1 =>
          (each_buffered_loop (fetch fields) block args rows.length w1.numberOfRows 0 w1).bind
            fun returned w2 =>
              if returned then ROutcome.pure none w2
              else if w2.lastRowProcessed = w2.numberOfRows then
                -- we don't need the mysql C dataset around anymore, peace it
                let fr := rb_mysql_result_free_result w2
                { ret := .ok fr.1.rows, state := fr.1, trace := fr.2 }
              else ROutcome.pure w2.rows w2

/-- The function `rb_mysql_result_each_nonstmt`. -/
def rb_mysql_result_each_nonstmt (b : Build) (es : EncodingSupport) (libc : Libc)
    (block : Option Block) (args : result_each_args) (w : mysql2_result_wrapper) :
    ROutcome (Option (List (Option Row))) :=
  each_body (rb_mysql_result_fetch_row b es libc args) block args w

/-- The function `rb_mysql_result_each_stmt`. -/
def rb_mysql_result_each_stmt (b : Build) (es : EncodingSupport)
    (block : Option Block) (args : result_each_args) (w : mysql2_result_wrapper) :
    ROutcome (Option (List (Option Row))) :=
  each_body (rb_mysql_result_stmt_fetch_row b es args) block args w

/-- The options in force for a call of `each`: the result's `@query_options`,
merged with the hash passed to the call when there is one. -/
def each_opts (opts : Option Hash) (w : mysql2_result_wrapper) : Hash :=
  match opts with
  | some o => hash_merge w.query_options o
  | none => w.query_options

/-- The `result_each_args` that `rb_mysql_result_each` fills in. -/
def each_args (opts : Hash) (block : Option Block) : result_each_args :=
  let dbTz := rb_hash_aref opts Sym.database_timezone
  let appTz := rb_hash_aref opts Sym.application_timezone
  { symbolizeKeys := rb_hash_aref opts Sym.symbolize_keys = RVal.qtrue
    asArray := rb_hash_aref opts Sym.as = RVal.sym Sym.array
    castBool := rb_hash_aref opts Sym.cast_booleans = RVal.qtrue
    cacheRows := rb_hash_aref opts Sym.cache_rows ≠ RVal.qfalse
    cast := rb_hash_aref opts Sym.cast ≠ RVal.qfalse
    streaming := rb_hash_aref opts Sym.stream = RVal.qtrue
    db_timezone := if dbTz = RVal.sym Sym.utc then Zone.utc else Zone.local
    app_timezone :=
      if appTz = RVal.sym Sym.local then some Zone.local
      else if appTz = RVal.sym Sym.utc then some Zone.utc
      else none
    block_given := block.isSome }

/-- The warnings `rb_mysql_result_each` emits while it reads the options. -/
def each_warnings (opts : Hash) (args : result_each_args) (w : mysql2_result_wrapper) :
    List REvent :=
  let dbTz := rb_hash_aref opts Sym.database_timezone
  (if args.streaming && args.cacheRows then
      [REvent.rb_warn "cacheRows is ignored if streaming is true"]
    else []) ++
  (if w.stmt.isSome && !args.cacheRows && !args.streaming then
      [REvent.rb_warn "cacheRows is forced for prepared statements (if not streaming)"]
    else []) ++
  (if dbTz ≠ RVal.sym Sym.local ∧ dbTz ≠ RVal.sym Sym.utc ∧ dbTz ≠ RVal.qnil then
      [REvent.rb_warn
        ":database_timezone option must be :utc or :local - defaulting to :local"]
    else [])

/-- The expression `wrapper->stmt ? mysql_stmt_num_rows(wrapper->stmt) :
mysql_num_rows(wrapper->result)`; reading a freed native result is
undefined. -/
def each_count_rows (w : mysql2_result_wrapper) : ROutcome Nat :=
  match w.stmt with
  | some st =>
    { ret := .ok (mysql_stmt_num_rows st), state := w, trace := [REvent.mysql_stmt_num_rows] }
  | none =>
    if w.result.freed then ROutcome.raise (RExc.undefined Undefined.use_after_free) w []
    else { ret := .ok (mysql_num_rows w.result), state := w, trace := [REvent.mysql_num_rows] }

/-- The statements of `rb_mysql_result_each` under
`if (wrapper->lastRowProcessed == 0)`; the result is `true` when the function
returns `wrapper->rows` from there. -/
def each_init (args : result_each_args) (w : mysql2_result_wrapper) : ROutcome Bool :=
  if w.lastRowProcessed = 0 then
    if args.streaming then
      -- We can't get number of rows if we're streaming,
      -- until we've finished fetching all rows
      ROutcome.pure false { w with numberOfRows := 0, rows := some [] }
    else
      (each_count_rows w).bind fun n w1 =>
        ROutcome.pure (decide (n = 0)) { w1 with numberOfRows := n, rows := some [] }
  else ROutcome.pure false w

/-- The function `rb_mysql_result_each`, called with the optional options
hash and the optional block. -/
def rb_mysql_result_each (b : Build) (es : EncodingSupport) (libc : Libc)
    (opts : Option Hash) (block : Option Block) (w : mysql2_result_wrapper) :
    ROutcome (Option (List (Option Row))) :=
  let opts := each_opts opts w
  let args := each_args opts block
  let warned : ROutcome Unit :=
    { ret := .ok (), state := w, trace := each_warnings opts args w }
  warned.bind fun _ w1 =>
    (each_init args w1).bind fun returned w2 =>
      if returned then ROutcome.pure w2.rows w2
      else
        match w2.stmt with
        | none => rb_mysql_result_each_nonstmt b es libc block args w2
        | some _ => rb_mysql_result_each_stmt b es block args w2

/-- Whether an event is a call of the library's row-fetch primitive. -/
def REvent.isFetch : REvent → Bool
  | REvent.mysql_fetch_row => true
  | REvent.mysql_stmt_fetch => true
  | _ => false

/-- Whether an event is the release of the native result. -/
def REvent.isRelease : REvent → Bool
  | REvent.mysql_free_result => true
  | _ => false

/-- The rows handed to the block, in order. -/
def yielded : List REvent → List (Option Row)
  | [] => []
  | REvent.rb_yield row :: rest => row :: yielded rest
  | _ :: rest => yielded rest

/-- Whether an event is a yield to the block. -/
def REvent.isYield : REvent → Bool
  | REvent.rb_yield _ => true
  | _ => false

/-- The calls of the fetch primitive, the yields and the releases of the
native result in a trace, in order. -/
def iteration_events (trace : List REvent) : List REvent :=
  trace.filter (fun e => e.isFetch || e.isYield || e.isRelease)

/-- The fetch primitive of the variant: `mysql_stmt_fetch` for a prepared
statement, `mysql_fetch_row` otherwise. -/
def fetch_event (isStmt : Bool) : REvent :=
  if isStmt then REvent.mysql_stmt_fetch else REvent.mysql_fetch_row

/-- The iteration bookkeeping of the wrapper is the same in two states. -/
def SameProgress (w w1 : mysql2_result_wrapper) : Prop :=
  w1.rows = w.rows ∧ w1.numberOfRows = w.numberOfRows ∧
  w1.lastRowProcessed = w.lastRowProcessed ∧ w1.resultFreed = w.resultFreed ∧
  w1.streamingComplete = w.streamingComplete ∧ w1.query_options = w.query_options ∧
  w1.result.freed = w.result.freed ∧ w1.stmt.isSome = w.stmt.isSome

/-- An outcome that leaves the iteration bookkeeping, the native result and
the statement as they were, and neither fetches, yields nor releases. -/
def Quiet {α : Type} (w : mysql2_result_wrapper) (o : ROutcome α) : Prop :=
  SameProgress w o.state ∧ o.state.result = w.result ∧ o.state.stmt = w.stmt ∧
  iteration_events o.trace = [] ∧ o.ret ≠ .error RExc.fetch_bound

/-- What the iteration loops rely on in one call of a row function of the
variant `isStmt`, from state `w` with outcome `o`: it leaves the bookkeeping
alone, does not report the fetch bound, calls the fetch primitive once when it
returns, consumes one remaining row when it returns a row, and returns `Qnil`
only when no row remains. -/
def FetchLike (isStmt : Bool) (w : mysql2_result_wrapper) (o : ROutcome (Option Row)) :
    Prop :=
  SameProgress w o.state ∧ o.ret ≠ .error RExc.fetch_bound ∧
  (w.stmt.isSome = isStmt →
    (∀ a, o.ret = .ok a → iteration_events o.trace = [fetch_event isStmt]) ∧
    (∀ r, o.ret = .ok (some r) → rows_remaining o.state + 1 = rows_remaining w) ∧
    (o.ret = .ok none → rows_remaining w = 0 ∧ rows_remaining o.state = 0))

/-- Every call of the row function is as `FetchLike` describes. -/
def FetchSpec (isStmt : Bool) (fetch : mysql2_result_wrapper → ROutcome (Option Row)) :
    Prop :=
  ∀ w, FetchLike isStmt w (fetch w)

/-- The row count the library reports for the wrapper's statement, or for its
native result when there is no statement. -/
def native_row_count (w : mysql2_result_wrapper) : Nat :=
  match w.stmt with
  | some st => mysql_stmt_num_rows st
  | none => mysql_num_rows w.result

/-- A block that returns normally for every row. -/
def blockReturns : Block := fun _ => true

/-- The options `:as => :array`. -/
def asArrayOptions : Hash := [(Sym.as, RVal.sym Sym.array)]

/-- A buffered text result of one integer column with the rows `1` and `2`. -/
def twoRowResult : MYSQL_RES :=
  { fields := [intField], stored := true, fetched := 0,
    rows := [[(some [49, 0], 1)], [(some [50, 0], 1)]], freed := false }

/-- The rows of `twoRowResult` decoded as arrays. -/
def twoRows : List (Option Row) :=
  [some (Row.array [Value.integer 1]), some (Row.array [Value.integer 2])]

/-- The options `:as => :array, :stream => true, :cache_rows => false`. -/
def streamOptions : Hash :=
  [(Sym.as, RVal.sym Sym.array), (Sym.stream, RVal.qtrue), (Sym.cache_rows, RVal.qfalse)]

/-- An unbuffered text result of one integer column whose rows `1` and `2`
are still to be fetched. -/
def twoRowStream : MYSQL_RES := { twoRowResult with stored := false }

/-- The bind entry that buffer allocation makes for a date column. -/
def dateBind : MYSQL_BIND :=
  { buffer_type := FieldType.MYSQL_TYPE_DATE, buffer := true,
    buffer_length := sizeof_MYSQL_TIME build19, is_unsigned := false, bound := true }

/-- A bound temporal buffer holding the zero date `0000-00-00`. -/
def cellZeroDate : StmtCell := { is_null := false, length := 0, buffer := [], time := zeroTime }

/-- A bound temporal buffer holding `2024-00-15`. -/
def cellZeroMonth : StmtCell :=
  { is_null := false, length := 4, buffer := [],
    time := { zeroTime with year := 2024, day := 15 } }

/-- Whether the text decoder returns a value for every column of a row that
has one entry per field. -/
def text_row_decodes (b : Build) (es : EncodingSupport) (libc : Libc)
    (args : result_each_args) (fields : List MYSQL_FIELD) (row : TextRow) : Bool :=
  row.length == fields.length &&
  (fields.zip row).all (fun fc =>
    match rb_mysql_result_fetch_row_value b es libc args.db_timezone args.app_timezone
        args.castBool args.cast fc.1 fc.2.1 fc.2.2 with
    | .ok _ => true
    | .error _ => false)

/-- The field count of the wrapper, once set, is the native result's. -/
def FieldsCounted (w : mysql2_result_wrapper) : Prop :=
  w.fields.isSome = true → w.numberOfFields = w.result.fields.length

/-- An open connection owned by thread 1, whose stored options do not ask
for streaming. -/
def wOwnedBuffered : Wrapper :=
  { wOwned with query_options := [(Sym.stream, RVal.qfalse)] }

/-- The bind entry that buffer allocation makes for a datetime column. -/
def datetimeBind : MYSQL_BIND :=
  { buffer_type := FieldType.MYSQL_TYPE_DATETIME, buffer := true,
    buffer_length := sizeof_MYSQL_TIME build19, is_unsigned := false, bound := true }

/-- A bound temporal buffer holding `9999-12-31 23:59:59`. -/
def cellLastSecond : StmtCell :=
  { is_null := false, length := 0, buffer := [],
    time := { year := 9999, month := 12, day := 31, hour := 23, minute := 59, second := 59 } }

/-- A bound temporal buffer holding `9999-12-31 11:59:59`. -/
def cellLastMorning : StmtCell :=
  { is_null := false, length := 0, buffer := [],
    time := { year := 9999, month := 12, day := 31, hour := 11, minute := 59, second := 59 } }

/-! ## client.c: the library version check -/

/-- The error `init_mysql2_client` raises: `RuntimeError` with the message
`Incorrect MySQL client library version! This gem was compiled for %s but the
client library is %s.` -/
inductive InitError where
  | incorrect_client_library_version (compiled lib : List Nat)
  deriving DecidableEq, Repr

/-- The `for` loop of `init_mysql2_client` from index `i` on: the characters of
`lib` and of `MYSQL_SERVER_VERSION` from that index on, and the number of dots
seen so far; `true` when the loop raises. -/
def version_check_loop : List Nat → List Nat → Nat → Bool
  | [], _, _ => false
  | _, [], _ => false
  | l :: lib, c :: compiled, dots =>
    if l = 46 then
      -- we only compare MAJOR and MINOR
      if dots + 1 = 2 then false
      else if l ≠ c then true
      else version_check_loop lib compiled (dots + 1)
    else if l ≠ c then true
    else version_check_loop lib compiled dots

/-- The version check at the head of `init_mysql2_client`; `lib` is the string
returned by `mysql_get_client_info()` and `server_version` the macro
`MYSQL_SERVER_VERSION`, both read as C strings. -/
def init_mysql2_client (lib server_version : List Nat) : Except InitError Unit :=
  if version_check_loop (cstr lib) (cstr server_version) 0 then
    .error (InitError.incorrect_client_library_version (cstr server_version) (cstr lib))
  else .ok ()

/-- The dot-separated components of a version string. -/
def version_components : List Nat → List (List Nat)
  | [] => [[]]
  | c :: rest =>
    if c = 46 then [] :: version_components rest
    else
      match version_components rest with
      | [] => [[c]]
      | comp :: comps => (c :: comp) :: comps

/-- The MAJOR and MINOR components of a version string. -/
def major_minor (v : List Nat) : List (List Nat) :=
  (version_components (cstr v)).take 2

/-- The version string `10.1.48`. -/
def version_10_1_48 : List Nat := [49, 48, 46, 49, 46, 52, 56, 0]

/-- The version string `10.11.2`. -/
def version_10_11_2 : List Nat := [49, 48, 46, 49, 49, 46, 50, 0]

/-- An escaper that writes a backslash before the bytes the client library
escapes in a single-byte character set: NUL (as `\0`), newline (`\n`),
carriage return (`\r`), backslash, the two quotes and Control-Z (`\Z`). -/
def backslash_escaper (s : List Nat) : List Nat :=
  s.flatMap (fun c =>
    if c = 0 then [92, 48]
    else if c = 10 then [92, 110]
    else if c = 13 then [92, 114]
    else if c = 92 then [92, 92]
    else if c = 39 then [92, 39]
    else if c = 34 then [92, 34]
    else if c = 26 then [92, 90]
    else [c])

/-- The string `it's`, UTF-8. -/
def strIts : RString :=
  { bytes := [105, 116, 39, 115], enc := some (Encoding.named "UTF-8") }

/-- The one-character string `é` in ISO-8859-1. -/
def latin1EAcute : RString :=
  { bytes := [233], enc := some (Encoding.named "ISO-8859-1") }

/-! ## result.c: count, fields and sequences of calls -/

/-- The bits of the host's `long` (and of a `VALUE`): 64 when
`SIZEOF_INT < SIZEOF_LONG`, 32 otherwise. -/
def long_bits (b : Build) : Nat := if b.sizeof_int_lt_sizeof_long then 64 else 32

/-- The integer that `INT2FIX(i)` stands for: `i` is converted to the signed
word, shifted left by one and tagged, which keeps its low `long_bits - 1` bits
as a two's-complement number. -/
def INT2FIX (b : Build) (i : Nat) : Int :=
  to_signed (long_bits b - 1) (i % 2 ^ (long_bits b - 1))

/-- The integer that `LONG2NUM(v)` stands for, `v` converted to `long`. -/
def LONG2NUM (b : Build) (v : Nat) : Int :=
  to_signed (long_bits b) (v % 2 ^ long_bits b)

/-- The function `rb_mysql_result_count`. -/
def rb_mysql_result_count (b : Build) (w : mysql2_result_wrapper) : ROutcome Int :=
  if w.resultFreed then
    if w.streamingComplete then ROutcome.pure (LONG2NUM b w.numberOfRows) w
    else
      match w.rows with
      | none => ROutcome.raise (RExc.undefined Undefined.not_an_array) w []
      | some rows => ROutcome.pure (LONG2NUM b rows.length) w
  else
    match w.stmt with
    | some st =>
      { ret := .ok (INT2FIX b (mysql_stmt_num_rows st)), state := w,
        trace := [REvent.mysql_stmt_num_rows] }
    | none =>
      if w.result.freed then ROutcome.raise (RExc.undefined Undefined.use_after_free) w []
      else
        { ret := .ok (INT2FIX b (mysql_num_rows w.result)), state := w,
          trace := [REvent.mysql_num_rows] }

/-- The `for` loop of `rb_mysql_result_fetch_fields` from index `i` on, with
`n` columns to go (`numberOfFields` does not change inside the loop, the field
array being set). -/
def fetch_fields_loop (b : Build) (es : EncodingSupport) (symbolizeKeys : Bool) :
    Nat → Nat → mysql2_result_wrapper → ROutcome Unit
  | 0, _, w => ROutcome.pure () w
  | n + 1, i, w =>
    (rb_mysql_result_fetch_field b es i symbolizeKeys w).bind fun _ w1 =>
      fetch_fields_loop b es symbolizeKeys n (i + 1) w1

/-- The function `rb_mysql_result_fetch_fields`. -/
def rb_mysql_result_fetch_fields (b : Build) (es : EncodingSupport)
    (w : mysql2_result_wrapper) : ROutcome (Option (List (Option Key))) :=
  let symbolizeKeys : Bool := rb_hash_aref w.query_options Sym.symbolize_keys = RVal.qtrue
  (init_fields w).bind fun _ w1 =>
    match w1.fields with
    | none => ROutcome.raise (RExc.undefined Undefined.not_an_array) w1 []
    | some fs =>
      (if fs.length ≠ w1.numberOfFields then
          fetch_fields_loop b es symbolizeKeys w1.numberOfFields 0 w1
        else ROutcome.pure () w1).bind fun _ w2 =>
        ROutcome.pure w2.fields w2

/-- A call on a result object: the three methods of `Mysql2::Result`, and the
release of the native result as the teardown performs it. -/
inductive ResultCall where
  | each (opts : Option Hash) (block : Option Block)
  | count
  | fields
  | free_result

/-- The state after one call and the library calls it made, whether the call
returned or raised. -/
def result_step (b : Build) (es : EncodingSupport) (libc : Libc) :
    ResultCall → mysql2_result_wrapper → mysql2_result_wrapper × List REvent
  | ResultCall.each opts block, w =>
    ((rb_mysql_result_each b es libc opts block w).state,
      (rb_mysql_result_each b es libc opts block w).trace)
  | ResultCall.count, w =>
    ((rb_mysql_result_count b w).state, (rb_mysql_result_count b w).trace)
  | ResultCall.fields, w =>
    ((rb_mysql_result_fetch_fields b es w).state, (rb_mysql_result_fetch_fields b es w).trace)
  | ResultCall.free_result, w => rb_mysql_result_free_result w

/-- The state after a sequence of calls on one result object, and all the
library calls made on the way. -/
def result_run (b : Build) (es : EncodingSupport) (libc : Libc) :
    List ResultCall → mysql2_result_wrapper → mysql2_result_wrapper × List REvent
  | [], w => (w, [])
  | c :: cs, w =>
    ((result_run b es libc cs (result_step b es libc c w).1).1,
      (result_step b es libc c w).2 ++ (result_run b es libc cs (result_step b es libc c w).1).2)

/-- The options `:as => :array, :cache_rows => false`. -/
def cacheOffOptions : Hash := [(Sym.as, RVal.sym Sym.array), (Sym.cache_rows, RVal.qfalse)]

/-- A block that leaves the iteration (by `break` or by raising) at the first
row it is given. -/
def blockBreaks : Block := fun _ => false

/-- A block that returns for the row `[1]` and leaves the iteration at any
other row. -/
def blockBreaksAfterFirst : Block :=
  fun row => decide (row = some (Row.array [Value.integer 1]))

/-- An unbuffered text result of one integer column without rows. -/
def emptyStream : MYSQL_RES := { twoRowStream with rows := [] }

/-- A statement whose buffered result has no row left to fetch. -/
def stmtDone : MYSQL_STMT :=
  { stored := true, fetched := 2, fetches := [], bind_result_fails := false,
    result_freed := false }

/-- Whether an event tears the native side down: the release of the native
result, of the statement's result, or of the bound column buffers. -/
def REvent.isTeardown : REvent → Bool
  | REvent.mysql_free_result => true
  | REvent.mysql_stmt_free_result => true
  | REvent.free_result_buffers => true
  | _ => false

/-- What holds between a state of a result object and any later one: a key
once memoized stays as it is, the field count once set stays, the library's
field descriptors and the buffered-or-not nature of the result and of the
statement stay, and a released result stays released. -/
def Kept (w w1 : mysql2_result_wrapper) : Prop :=
  (∀ i k, rb_ary_entry (w.fields.getD []) i = some k →
    rb_ary_entry (w1.fields.getD []) i = some k) ∧
  (w.fields.isSome = true → w1.fields.isSome = true ∧ w1.numberOfFields = w.numberOfFields) ∧
  w1.result.fields = w.result.fields ∧
  w1.result.stored = w.result.stored ∧
  w1.stmt.map MYSQL_STMT.stored = w.stmt.map MYSQL_STMT.stored ∧
  (w.resultFreed = true → w1.resultFreed = true)

/-- An outcome that tears nothing down and leaves the release flag alone. -/
def Steady {α : Type} (w : mysql2_result_wrapper) (o : ROutcome α) : Prop :=
  Kept w o.state ∧ o.state.resultFreed = w.resultFreed ∧
  o.trace.filter REvent.isTeardown = []

/-- An outcome whose releases are accounted for by the release flag: the
native result is released in it exactly when the flag goes from unset to set,
the statement's result and the bound buffers are released at most as often,
and nothing is released in an outcome that raises. -/
def Tidy {α : Type} (w : mysql2_result_wrapper) (o : ROutcome α) : Prop :=
  Kept w o.state ∧
  o.trace.count REvent.mysql_free_result + (if w.resultFreed then 1 else 0)
    = (if o.state.resultFreed then 1 else 0) ∧
  o.trace.count REvent.mysql_stmt_free_result ≤ o.trace.count REvent.mysql_free_result ∧
  o.trace.count REvent.free_result_buffers ≤ o.trace.count REvent.mysql_free_result ∧
  (∀ e, o.ret = .error e →
    o.state.resultFreed = w.resultFreed ∧ o.trace.filter REvent.isTeardown = [])

/-- The progress bookkeeping of the wrapper agrees with the library: the
retained rows are an array with no more entries than rows were processed, and
the rows still to fetch together with the rows processed do not exceed the
row count taken at the start of the first pass (unless that count was left at
0 by a streaming start). -/
def Consistent (w : mysql2_result_wrapper) : Prop :=
  (∃ rs, w.rows = some rs ∧ rs.length ≤ w.lastRowProcessed) ∧
  (rows_remaining w + w.lastRowProcessed ≤ w.numberOfRows ∨ w.numberOfRows = 0)

/-- The bookkeeping is consistent once a row has been processed, as long as
the native result is not released. -/
def ConsistentProgress (w : mysql2_result_wrapper) : Prop :=
  w.resultFreed = false → w.lastRowProcessed ≠ 0 → Consistent w

/-- The native result, and the statement's result when there is a statement,
were buffered on the client (`mysql_store_result`, `mysql_stmt_store_result`). -/
def Buffered (w : mysql2_result_wrapper) : Prop :=
  w.result.stored = true ∧ w.stmt.map MYSQL_STMT.stored ≠ some false

/-- The statements of one iteration of the buffered loop that obtain `row`:
the cached entry, or a fetched row, stored when rows are cached, with the
increment of `lastRowProcessed`. -/
def each_buffered_row (fetch : mysql2_result_wrapper → ROutcome (Option Row))
    (args : result_each_args) (rowsProcessed i : Nat) (w : mysql2_result_wrapper) :
    ROutcome (Option Row) :=
  match w.rows with
  | none => ROutcome.raise (RExc.undefined Undefined.not_an_array) w []
  | some rows =>
    if args.cacheRows && i < rowsProcessed then ROutcome.pure (rb_ary_entry rows i) w
    else
      (fetch w).bind fun row w1 =>
        ROutcome.pure row
          { w1 with
            rows := if args.cacheRows then w1.rows.map (fun a => rb_ary_store a i row)
                    else w1.rows
            lastRowProcessed := w1.lastRowProcessed + 1 }

/-! ## Theorems: connection -/

theorem query_scan_args_flags (opts : Option Hash) (w : Wrapper) :
    (query_scan_args opts w).1.reconnect_enabled = w.reconnect_enabled ∧
    (query_scan_args opts w).1.closed = w.closed ∧
    (query_scan_args opts w).1.active_thread = w.active_thread ∧
    (query_scan_args opts w).1.read_timeout = w.read_timeout := by
  cases opts <;> simp [query_scan_args]

theorem query_of_closed (srv : Server) (t : Thread) (sql : String) (opts : Option Hash)
    (w : Wrapper) (hg : REQUIRE_OPEN_DB w = true) :
    rb_mysql_client_query srv t sql opts w =
      { ret := .error closed_connection_error, state := w, trace := [] } := by
  simp [rb_mysql_client_query, hg]

theorem query_of_busy (srv : Server) (t : Thread) (sql : String) (opts : Option Hash)
    (w : Wrapper) (owner : Thread) (hg : REQUIRE_OPEN_DB w = false)
    (ha : w.active_thread = some owner) :
    rb_mysql_client_query srv t sql opts w =
      { ret := .error (if owner = t then busy_self_error else busy_other_error owner)
        state := (query_scan_args opts w).1
        trace := [] } := by
  have h1 : (query_scan_args opts w).1.active_thread = some owner := by
    rw [(query_scan_args_flags opts w).2.2.1, ha]
  unfold rb_mysql_client_query
  simp only [hg, h1]
  by_cases ho : owner = t <;> simp [ho]

theorem query_of_send_failure (srv : Server) (t : Thread) (sql : String)
    (opts : Option Hash) (w : Wrapper) (hg : REQUIRE_OPEN_DB w = false)
    (ha : w.active_thread = none) (hs : srv.send_rv ≠ 0) :
    rb_mysql_client_query srv t sql opts w =
      { ret := .error (rb_raise_mysql2_error srv)
        state := { (query_scan_args opts w).1 with closed := true, active_thread := none }
        trace := [Event.send_query sql, Event.shutdown 2] } := by
  have h1 : (query_scan_args opts w).1.active_thread = none := by
    rw [(query_scan_args_flags opts w).2.2.1, ha]
  unfold rb_mysql_client_query
  simp [hg, h1, do_send_query, hs, rb_rescue2, disconnect_and_raise, MARK_CONN_INACTIVE]

theorem query_of_async (srv : Server) (t : Thread) (sql : String)
    (opts : Option Hash) (w : Wrapper) (hg : REQUIRE_OPEN_DB w = false)
    (ha : w.active_thread = none) (hs : srv.send_rv = 0)
    (hasync : (query_scan_args opts w).2 = true) :
    rb_mysql_client_query srv t sql opts w =
      { ret := .ok none
        state := { (query_scan_args opts w).1 with active_thread := some t }
        trace := [Event.send_query sql] } := by
  have h1 : (query_scan_args opts w).1.active_thread = none := by
    rw [(query_scan_args_flags opts w).2.2.1, ha]
  unfold rb_mysql_client_query
  simp [hg, h1, do_send_query, hs, rb_rescue2, hasync]

theorem do_query_state (srv : Server) (w : Wrapper) : (do_query srv w).state = w := by
  unfold do_query
  cases w.read_timeout with
  | none =>
    by_cases h0 : srv.wait_rv = 0 <;> by_cases h1 : srv.wait_rv < 0 <;> simp [h0, h1]
  | some sec =>
    by_cases hs : 0 ≤ sec <;> by_cases h0 : srv.wait_rv = 0 <;>
      by_cases h1 : srv.wait_rv < 0 <;> simp [hs, h0, h1]

theorem do_query_of_timeout (srv : Server) (w : Wrapper) (sec : Int)
    (hrt : w.read_timeout = some sec) (hsec : 0 ≤ sec) (hw : srv.wait_rv = 0) :
    do_query srv w =
      { ret := .error (Exc.mysql2 (timeout_message sec) none none)
        state := w
        trace := [Event.wait_readable (some sec)] } := by
  simp [do_query, hrt, hsec, hw]

theorem query_of_wait_failure (srv : Server) (t : Thread) (sql : String)
    (opts : Option Hash) (w : Wrapper) (e : Exc) (hg : REQUIRE_OPEN_DB w = false)
    (ha : w.active_thread = none) (hs : srv.send_rv = 0)
    (hasync : (query_scan_args opts w).2 = false)
    (hq : (do_query srv { (query_scan_args opts w).1 with active_thread := some t }).ret
      = .error e) :
    rb_mysql_client_query srv t sql opts w =
      { ret := .error e
        state := { (query_scan_args opts w).1 with closed := true, active_thread := none }
        trace := Event.send_query sql ::
          ((do_query srv { (query_scan_args opts w).1 with active_thread := some t }).trace
            ++ [Event.shutdown 2]) } := by
  have h1 : (query_scan_args opts w).1.active_thread = none := by
    rw [(query_scan_args_flags opts w).2.2.1, ha]
  unfold rb_mysql_client_query
  simp [hg, h1, do_send_query, hs, rb_rescue2, hasync, hq, disconnect_and_raise,
    do_query_state]

theorem query_of_wait_success (srv : Server) (t : Thread) (sql : String)
    (opts : Option Hash) (w : Wrapper) (hg : REQUIRE_OPEN_DB w = false)
    (ha : w.active_thread = none) (hs : srv.send_rv = 0)
    (hasync : (query_scan_args opts w).2 = false)
    (hq : (do_query srv { (query_scan_args opts w).1 with active_thread := some t }).ret
      = .ok ()) :
    rb_mysql_client_query srv t sql opts w =
      { ret := (rb_mysql_client_async_result srv
          { (query_scan_args opts w).1 with active_thread := some t }).ret
        state := (rb_mysql_client_async_result srv
          { (query_scan_args opts w).1 with active_thread := some t }).state
        trace := Event.send_query sql ::
          ((do_query srv { (query_scan_args opts w).1 with active_thread := some t }).trace
            ++ (rb_mysql_client_async_result srv
              { (query_scan_args opts w).1 with active_thread := some t }).trace) } := by
  have h1 : (query_scan_args opts w).1.active_thread = none := by
    rw [(query_scan_args_flags opts w).2.2.1, ha]
  unfold rb_mysql_client_query
  simp [hg, h1, do_send_query, hs, rb_rescue2, hasync, hq, do_query_state]

/-- The final state of `rb_mysql_client_async_result` has no owner, or is the
state it started from. -/
theorem async_result_state (srv : Server) (w : Wrapper) :
    (rb_mysql_client_async_result srv w).state = w ∨
    (rb_mysql_client_async_result srv w).state = { w with active_thread := none } := by
  unfold rb_mysql_client_async_result
  by_cases h1 : w.active_thread.isNone = true
  · simp [h1]
  · by_cases h2 : REQUIRE_OPEN_DB w = true
    · simp [h1, h2]
    · by_cases h3 : srv.read_rv = 0
      · right
        by_cases h4 : rb_hash_aref w.query_options Sym.stream = RVal.qtrue <;>
          cases h5 : srv.result <;>
          by_cases h6 : srv.errno = 0 <;>
          simp [h1, h2, h3, h4, h5, h6, nogvl_use_result, nogvl_store_result,
            nogvl_do_result, MARK_CONN_INACTIVE]
      · right
        simp [h1, h2, h3, MARK_CONN_INACTIVE]

theorem require_open_scan_args (opts : Option Hash) (w : Wrapper) (a : Option Thread) :
    REQUIRE_OPEN_DB { (query_scan_args opts w).1 with active_thread := a }
      = REQUIRE_OPEN_DB w := by
  have h := query_scan_args_flags opts w
  simp [REQUIRE_OPEN_DB, h.1, h.2.1]

theorem query_preserves_ownerImpliesOpen (srv : Server) (t : Thread) (sql : String)
    (opts : Option Hash) (w : Wrapper) (h : OwnerImpliesOpen w) :
    OwnerImpliesOpen (rb_mysql_client_query srv t sql opts w).state := by
  cases hg : REQUIRE_OPEN_DB w with
  | true => rw [query_of_closed srv t sql opts w hg]; exact h
  | false =>
    cases ha : w.active_thread with
    | some owner =>
      rw [query_of_busy srv t sql opts w owner hg ha]
      intro _
      have := require_open_scan_args opts w (query_scan_args opts w).1.active_thread
      simpa [hg] using this
    | none =>
      by_cases hs : srv.send_rv = 0
      · cases hasync : (query_scan_args opts w).2 with
        | true =>
          rw [query_of_async srv t sql opts w hg ha hs hasync]
          intro _
          rw [require_open_scan_args, hg]
        | false =>
          cases hq : (do_query srv
              { (query_scan_args opts w).1 with active_thread := some t }).ret with
          | error e =>
            rw [query_of_wait_failure srv t sql opts w e hg ha hs hasync hq]
            intro hne
            exact absurd rfl hne
          | ok u =>
            rw [query_of_wait_success srv t sql opts w hg ha hs hasync hq]
            intro hne
            rcases async_result_state srv
              { (query_scan_args opts w).1 with active_thread := some t } with h1 | h1
            · simp only [h1]
              rw [require_open_scan_args, hg]
            · simp only [h1] at hne
              exact absurd rfl hne
      · rw [query_of_send_failure srv t sql opts w hg ha hs]
        intro hne
        exact absurd rfl hne

theorem step_preserves_ownerImpliesOpen (srv : Server) (c : Call) (w : Wrapper)
    (h : OwnerImpliesOpen w) : OwnerImpliesOpen (step srv c w).post := by
  cases c with
  | query t sql opts => exact query_preserves_ownerImpliesOpen srv t sql opts w h
  | async_result t =>
    show OwnerImpliesOpen (rb_mysql_client_async_result srv w).state
    rcases async_result_state srv w with h1 | h1
    · rw [h1]; exact h
    · rw [h1]; intro hne; exact absurd rfl hne
  | close t =>
    show OwnerImpliesOpen (rb_mysql_client_close w).state
    unfold rb_mysql_client_close nogvl_close
    cases hc : w.closed with
    | true => simpa [hc] using h
    | false => simp [hc, OwnerImpliesOpen]
  | ping t =>
    show OwnerImpliesOpen (rb_mysql_client_ping srv w).state
    unfold rb_mysql_client_ping
    cases hc : w.closed <;> simpa [hc] using h
  | select_db t db =>
    show OwnerImpliesOpen (rb_mysql_client_select_db srv db w).state
    unfold rb_mysql_client_select_db
    cases hg : REQUIRE_OPEN_DB w with
    | true => simpa [hg] using h
    | false => by_cases hr : srv.select_db_rv = 0 <;> simpa [hg, hr] using h

theorem reachable_ownerImpliesOpen (w : Wrapper) (h : Reachable w) : OwnerImpliesOpen w := by
  induction h with
  | idle w h0 => intro hne; exact absurd h0 hne
  | step w c srv _ ih => exact step_preserves_ownerImpliesOpen srv c w ih

theorem do_query_of_ready (srv : Server) (w : Wrapper)
    (hrt : ∀ sec, w.read_timeout = some sec → 0 ≤ sec) (hw : 0 < srv.wait_rv) :
    do_query srv w =
      { ret := .ok (), state := w, trace := [Event.wait_readable w.read_timeout] } := by
  have h0 : ¬ srv.wait_rv = 0 := by omega
  have h1 : ¬ srv.wait_rv < 0 := by omega
  unfold do_query
  cases hr : w.read_timeout with
  | none => simp [h0, h1]
  | some sec => simp [hrt sec hr, h0, h1]

theorem async_result_of_read_failure (srv : Server) (w : Wrapper) (owner : Thread)
    (ha : w.active_thread = some owner) (hg : REQUIRE_OPEN_DB w = false)
    (hr : srv.read_rv ≠ 0) :
    rb_mysql_client_async_result srv w =
      { ret := .error (rb_raise_mysql2_error srv)
        state := { w with active_thread := none }
        trace := [Event.read_query_result] } := by
  simp [rb_mysql_client_async_result, ha, hg, hr, MARK_CONN_INACTIVE]

theorem async_result_of_read_success (srv : Server) (w : Wrapper) (owner : Thread)
    (ha : w.active_thread = some owner) (hg : REQUIRE_OPEN_DB w = false)
    (hr : srv.read_rv = 0) :
    rb_mysql_client_async_result srv w =
      { ret :=
          match srv.result with
          | none => if srv.errno ≠ 0 then .error (rb_raise_mysql2_error srv) else .ok none
          | some r => .ok (some { result := r, query_options := w.query_options })
        state := { w with active_thread := none }
        trace := [Event.read_query_result, acquire_event w] } := by
  unfold rb_mysql_client_async_result acquire_event
  by_cases h4 : rb_hash_aref w.query_options Sym.stream = RVal.qtrue <;>
    cases h5 : srv.result <;>
    by_cases h6 : srv.errno = 0 <;>
    simp [ha, hg, hr, h4, h5, h6, nogvl_use_result, nogvl_store_result,
      nogvl_do_result, MARK_CONN_INACTIVE]

theorem query_scan_args_not_async (opts : Option Hash) (w : Wrapper)
    (h : ∀ o, opts = some o → rb_hash_aref (hash_merge w.query_options o) Sym.async
      ≠ RVal.qtrue) :
    (query_scan_args opts w).2 = false := by
  cases opts with
  | none => rfl
  | some o => simpa [query_scan_args] using h o rfl

/-- A call of `query` on an open, unowned connection performs the send first. -/
theorem query_of_unowned_sends (srv : Server) (t : Thread) (sql : String)
    (opts : Option Hash) (w : Wrapper) (hg : REQUIRE_OPEN_DB w = false)
    (ha : w.active_thread = none) :
    (rb_mysql_client_query srv t sql opts w).trace.head? = some (Event.send_query sql) := by
  by_cases hs : srv.send_rv = 0
  · cases hasync : (query_scan_args opts w).2 with
    | true => rw [query_of_async srv t sql opts w hg ha hs hasync]; rfl
    | false =>
      cases hq : (do_query srv
          { (query_scan_args opts w).1 with active_thread := some t }).ret with
      | error e => rw [query_of_wait_failure srv t sql opts w e hg ha hs hasync hq]; rfl
      | ok u => rw [query_of_wait_success srv t sql opts w hg ha hs hasync hq]; rfl
  · rw [query_of_send_failure srv t sql opts w hg ha hs]; rfl

theorem async_result_trace_no_send (srv : Server) (w : Wrapper) :
    ∀ e ∈ (rb_mysql_client_async_result srv w).trace, e.isSend = false := by
  cases ha : w.active_thread with
  | none => simp [rb_mysql_client_async_result, ha]
  | some owner =>
    cases hg : REQUIRE_OPEN_DB w with
    | true => simp [rb_mysql_client_async_result, ha, hg]
    | false =>
      by_cases hr : srv.read_rv = 0
      · rw [async_result_of_read_success srv w owner ha hg hr]
        intro e he
        simp only [List.mem_cons, List.mem_singleton, List.not_mem_nil, or_false] at he
        rcases he with he | he
        · rw [he]; rfl
        · rw [he]; unfold acquire_event; split <;> rfl
      · rw [async_result_of_read_failure srv w owner ha hg hr]
        intro e he
        simp only [List.mem_singleton] at he
        rw [he]; rfl

/-- A query on an owned connection performs no event, keeps the owner and
raises. -/
theorem query_of_owned (srv : Server) (t : Thread) (sql : String) (opts : Option Hash)
    (w : Wrapper) (owner : Thread) (ha : w.active_thread = some owner) :
    (rb_mysql_client_query srv t sql opts w).trace = [] ∧
    (rb_mysql_client_query srv t sql opts w).state.active_thread = some owner ∧
    (rb_mysql_client_query srv t sql opts w).raised ≠ none ∧
    (REQUIRE_OPEN_DB w = false →
      (rb_mysql_client_query srv t sql opts w).raised
        = some (if owner = t then busy_self_error else busy_other_error owner)) := by
  cases hg : REQUIRE_OPEN_DB w with
  | true =>
    rw [query_of_closed srv t sql opts w hg]
    exact ⟨rfl, ha, by simp [Outcome.raised], by intro h; cases h⟩
  | false =>
    rw [query_of_busy srv t sql opts w owner hg ha]
    refine ⟨rfl, ?_, by simp [Outcome.raised], fun _ => rfl⟩
    show (query_scan_args opts w).1.active_thread = some owner
    rw [(query_scan_args_flags opts w).2.2.1, ha]

/-- After a query the owner is absent, unchanged, or the caller who found the
connection without owner. -/
theorem query_owner_after (srv : Server) (t : Thread) (sql : String) (opts : Option Hash)
    (w : Wrapper) :
    (rb_mysql_client_query srv t sql opts w).state.active_thread = none ∨
    (rb_mysql_client_query srv t sql opts w).state.active_thread = w.active_thread ∨
    (w.active_thread = none ∧
      (rb_mysql_client_query srv t sql opts w).state.active_thread = some t) := by
  cases ha : w.active_thread with
  | some owner =>
    right; left
    exact (query_of_owned srv t sql opts w owner ha).2.1
  | none =>
    cases hg : REQUIRE_OPEN_DB w with
    | true => rw [query_of_closed srv t sql opts w hg]; left; exact ha
    | false =>
      by_cases hs : srv.send_rv = 0
      · cases hasync : (query_scan_args opts w).2 with
        | true =>
          rw [query_of_async srv t sql opts w hg ha hs hasync]
          right; right; exact ⟨rfl, rfl⟩
        | false =>
          cases hq : (do_query srv
              { (query_scan_args opts w).1 with active_thread := some t }).ret with
          | error e =>
            rw [query_of_wait_failure srv t sql opts w e hg ha hs hasync hq]
            left; rfl
          | ok u =>
            rw [query_of_wait_success srv t sql opts w hg ha hs hasync hq]
            rcases async_result_state srv
              { (query_scan_args opts w).1 with active_thread := some t } with h1 | h1
            · right; right
              refine ⟨rfl, ?_⟩
              show (rb_mysql_client_async_result srv _).state.active_thread = some t
              rw [h1]
            · left
              show (rb_mysql_client_async_result srv _).state.active_thread = none
              rw [h1]
      · rw [query_of_send_failure srv t sql opts w hg ha hs]
        left; rfl

theorem step_pre (srv : Server) (c : Call) (w : Wrapper) : (step srv c w).pre = w := by
  cases c <;> rfl

theorem step_call (srv : Server) (c : Call) (w : Wrapper) : (step srv c w).call = c := by
  cases c <;> rfl

/-- A step that performs a send started without owner. -/
theorem step_send_only_unowned (srv : Server) (c : Call) (w : Wrapper)
    (h : ∃ e ∈ (step srv c w).trace, e.isSend = true) : w.active_thread = none := by
  obtain ⟨e, he, hsend⟩ := h
  cases c with
  | query t sql opts =>
    cases ha : w.active_thread with
    | none => rfl
    | some owner =>
      have h0 := (query_of_owned srv t sql opts w owner ha).1
      have he2 : e ∈ (rb_mysql_client_query srv t sql opts w).trace := he
      rw [h0] at he2
      cases he2
  | async_result t =>
    have := async_result_trace_no_send srv w e he
    rw [this] at hsend
    cases hsend
  | close t =>
    have he2 : e ∈ (rb_mysql_client_close w).trace := he
    unfold rb_mysql_client_close nogvl_close at he2
    cases hc : w.closed <;> simp [hc] at he2
    rw [he2] at hsend
    cases hsend
  | ping t =>
    have he2 : e ∈ (rb_mysql_client_ping srv w).trace := he
    unfold rb_mysql_client_ping at he2
    cases hc : w.closed <;> simp [hc] at he2
    rw [he2] at hsend
    cases hsend
  | select_db t db =>
    have he2 : e ∈ (rb_mysql_client_select_db srv db w).trace := he
    unfold rb_mysql_client_select_db at he2
    cases hg : REQUIRE_OPEN_DB w <;> by_cases hr : srv.select_db_rv = 0 <;>
      simp [hg, hr] at he2 <;>
      (rw [he2] at hsend; cases hsend)

/-- After any step the owner is absent, unchanged, or the thread whose query
found the connection without owner. -/
theorem step_owner_after (srv : Server) (c : Call) (w : Wrapper) :
    (step srv c w).post.active_thread = none ∨
    (step srv c w).post.active_thread = w.active_thread ∨
    ∃ t sql opts, c = Call.query t sql opts ∧ w.active_thread = none ∧
      (step srv c w).post.active_thread = some t := by
  cases c with
  | query t sql opts =>
    rcases query_owner_after srv t sql opts w with h | h | h
    · left; exact h
    · right; left; exact h
    · right; right; exact ⟨t, sql, opts, rfl, h.1, h.2⟩
  | async_result t =>
    rcases async_result_state srv w with h | h
    · right; left; show (rb_mysql_client_async_result srv w).state.active_thread = _
      rw [h]
    · left; show (rb_mysql_client_async_result srv w).state.active_thread = _
      rw [h]
  | close t =>
    have hp : (step srv (Call.close t) w).post = (rb_mysql_client_close w).state := rfl
    rw [hp]
    unfold rb_mysql_client_close nogvl_close
    cases hc : w.closed <;> simp [hc]
  | ping t =>
    right; left
    show (rb_mysql_client_ping srv w).state.active_thread = _
    unfold rb_mysql_client_ping
    cases hc : w.closed <;> simp [hc]
  | select_db t db =>
    right; left
    show (rb_mysql_client_select_db srv db w).state.active_thread = _
    unfold rb_mysql_client_select_db
    cases hg : REQUIRE_OPEN_DB w <;> by_cases hr : srv.select_db_rv = 0 <;> simp [hg, hr]

/-- Every step of a run from a state satisfying `OwnerImpliesOpen` starts in
such a state and is the execution of its call on its starting state. -/
theorem run_steps (w0 : Wrapper) (calls : List (Call × Server))
    (h0 : OwnerImpliesOpen w0) :
    ∀ s ∈ run w0 calls, OwnerImpliesOpen s.pre ∧ ∃ srv, s = step srv s.call s.pre := by
  induction calls generalizing w0 with
  | nil => intro s hs; cases hs
  | cons cs rest ih =>
    obtain ⟨c, srv⟩ := cs
    intro s hs
    simp only [run, List.mem_cons] at hs
    rcases hs with hs | hs
    · subst hs
      refine ⟨by rw [step_pre]; exact h0, srv, ?_⟩
      rw [step_pre, step_call]
    · exact ih _ (step_preserves_ownerImpliesOpen srv c w0 h0) s hs

/-- C1. On a connection state reached through the caller-facing calls whose
`active_thread` is set to `owner`, `query` sends nothing and leaves the owner
in place; called by the owner it raises the "still waiting for a result"
error, called by any other thread it raises the "in use by" error whose
message is built from the owner's rendering, and the two errors differ. -/
theorem C1_query_on_owned_connection_is_busy (w : Wrapper) (hreach : Reachable w)
    (owner : Thread) (hown : w.active_thread = some owner)
    (srv : Server) (caller : Thread) (sql : String) (opts : Option Hash) :
    (rb_mysql_client_query srv caller sql opts w).trace = [] ∧
    (rb_mysql_client_query srv caller sql opts w).state.active_thread = some owner ∧
    (caller = owner →
      (rb_mysql_client_query srv caller sql opts w).ret = .error busy_self_error) ∧
    (caller ≠ owner →
      (rb_mysql_client_query srv caller sql opts w).ret
        = .error (Exc.mysql2 ("This connection is in use by: " ++ rb_inspect owner)
            none none)) ∧
    busy_other_error owner ≠ busy_self_error := by
  have hg : REQUIRE_OPEN_DB w = false :=
    reachable_ownerImpliesOpen w hreach (by rw [hown]; exact Option.some_ne_none owner)
  rw [query_of_busy srv caller sql opts w owner hg hown]
  refine ⟨rfl, ?_, ?_, ?_, ?_⟩
  · show (query_scan_args opts w).1.active_thread = some owner
    rw [(query_scan_args_flags opts w).2.2.1, hown]
  · intro hc
    simp [hc]
  · intro hc
    have : ¬ owner = caller := fun h => hc h.symm
    simp [this, busy_other_error]
  · intro h
    unfold busy_other_error busy_self_error at h
    injection h with hm _ _
    have h2 := congrArg (fun m : String => m.data.take 20) hm
    simp only [String.data_append] at h2
    have h3 : ∀ rest : List Char,
        List.take 20 ("This connection is in use by: ".data ++ rest)
          ≠ List.take 20
            "This connection is still waiting for a result, try again once you have the result".data := by
      intro rest
      simp [List.take]
    exact h3 _ h2

theorem C1_query_on_owned_connection_is_busy_witness :
    Reachable wBusy ∧ wBusy.active_thread = some 1 ∧
    (rb_mysql_client_query srvOk 2 "SELECT 2" none wBusy).trace = [] ∧
    (rb_mysql_client_query srvOk 2 "SELECT 2" none wBusy).state.active_thread = some 1 ∧
    ((2 : Thread) = 1 →
      (rb_mysql_client_query srvOk 2 "SELECT 2" none wBusy).ret = .error busy_self_error) ∧
    ((2 : Thread) ≠ 1 →
      (rb_mysql_client_query srvOk 2 "SELECT 2" none wBusy).ret
        = .error (Exc.mysql2 ("This connection is in use by: " ++ rb_inspect 1)
            none none)) ∧
    busy_other_error 1 ≠ busy_self_error :=
  ⟨Reachable.step wIdle _ srvOk (Reachable.idle wIdle rfl), by decide,
    C1_query_on_owned_connection_is_busy wBusy
      (Reachable.step wIdle _ srvOk (Reachable.idle wIdle rfl)) 1 (by decide)
      srvOk 2 "SELECT 2" none⟩

/-- C2. On a connection with `closed` set and reconnect disabled, `query`
raises the closed-connection error, performs no event at all, and leaves the
whole wrapper state (owner and closed flag included) as it was. -/
theorem C2_query_on_closed_connection (w : Wrapper) (hc : w.closed = true)
    (hr : w.reconnect_enabled = false) (srv : Server) (t : Thread) (sql : String)
    (opts : Option Hash) :
    (rb_mysql_client_query srv t sql opts w).ret
      = .error (Exc.mysql2 "closed MySQL connection" none none) ∧
    (rb_mysql_client_query srv t sql opts w).trace = [] ∧
    (rb_mysql_client_query srv t sql opts w).state = w ∧
    (rb_mysql_client_query srv t sql opts w).state.active_thread = w.active_thread ∧
    (rb_mysql_client_query srv t sql opts w).state.closed = w.closed := by
  have hg : REQUIRE_OPEN_DB w = true := by simp [REQUIRE_OPEN_DB, hc, hr]
  rw [query_of_closed srv t sql opts w hg]
  exact ⟨rfl, rfl, rfl, rfl, rfl⟩

theorem C2_query_on_closed_connection_witness :
    wClosed.closed = true ∧ wClosed.reconnect_enabled = false ∧
    (rb_mysql_client_query srvOk 1 "SELECT 1" (some [(Sym.async, RVal.qtrue)]) wClosed).ret
      = .error (Exc.mysql2 "closed MySQL connection" none none) ∧
    (rb_mysql_client_query srvOk 1 "SELECT 1" (some [(Sym.async, RVal.qtrue)]) wClosed).trace
      = [] ∧
    (rb_mysql_client_query srvOk 1 "SELECT 1" (some [(Sym.async, RVal.qtrue)]) wClosed).state
      = wClosed ∧
    (rb_mysql_client_query srvOk 1 "SELECT 1" (some [(Sym.async, RVal.qtrue)])
      wClosed).state.active_thread = wClosed.active_thread ∧
    (rb_mysql_client_query srvOk 1 "SELECT 1" (some [(Sym.async, RVal.qtrue)])
      wClosed).state.closed = wClosed.closed :=
  ⟨rfl, rfl,
    C2_query_on_closed_connection wClosed rfl rfl srvOk 1 "SELECT 1"
      (some [(Sym.async, RVal.qtrue)])⟩

/-- C3. When `query` has passed the open guard on a connection without owner
(so it takes ownership) and `mysql_send_query` fails, the server error is
raised, the final state has `closed` set and no owner, and the only events are
the send and the `shutdown(fd, 2)` of both directions: no wait, no read. -/
theorem C3_send_failure_disconnects (w : Wrapper) (hg : REQUIRE_OPEN_DB w = false)
    (ha : w.active_thread = none) (srv : Server) (hs : srv.send_rv ≠ 0)
    (t : Thread) (sql : String) (opts : Option Hash) :
    (rb_mysql_client_query srv t sql opts w).ret
      = .error (Exc.mysql2 srv.error (some srv.errno) (some srv.sqlstate)) ∧
    (rb_mysql_client_query srv t sql opts w).state.closed = true ∧
    (rb_mysql_client_query srv t sql opts w).state.active_thread = none ∧
    (rb_mysql_client_query srv t sql opts w).trace
      = [Event.send_query sql, Event.shutdown 2] := by
  rw [query_of_send_failure srv t sql opts w hg ha hs]
  exact ⟨rfl, rfl, rfl, rfl⟩

theorem C3_send_failure_disconnects_witness :
    REQUIRE_OPEN_DB wIdle = false ∧ wIdle.active_thread = none ∧ srvSendFails.send_rv ≠ 0 ∧
    (rb_mysql_client_query srvSendFails 1 "SELECT 1" none wIdle).ret
      = .error (Exc.mysql2 srvSendFails.error (some srvSendFails.errno)
          (some srvSendFails.sqlstate)) ∧
    (rb_mysql_client_query srvSendFails 1 "SELECT 1" none wIdle).state.closed = true ∧
    (rb_mysql_client_query srvSendFails 1 "SELECT 1" none wIdle).state.active_thread = none ∧
    (rb_mysql_client_query srvSendFails 1 "SELECT 1" none wIdle).trace
      = [Event.send_query "SELECT 1", Event.shutdown 2] :=
  ⟨rfl, rfl, by decide,
    C3_send_failure_disconnects wIdle rfl rfl srvSendFails (by decide) 1 "SELECT 1" none⟩

/-- C4. A non-async `query` that took ownership and sent its statement on a
connection whose read timeout is `sec ≥ 0`: when the readiness wait returns 0
(expiry) the call raises the timeout error whose message carries `sec`, the
final state has `closed` set and no owner, and the events are the send, the
wait with deadline `sec` and the socket shutdown: the result is never read. -/
theorem C4_read_timeout_disconnects (w : Wrapper) (hg : REQUIRE_OPEN_DB w = false)
    (ha : w.active_thread = none) (srv : Server) (hs : srv.send_rv = 0)
    (opts : Option Hash)
    (hsync : ∀ o, opts = some o →
      rb_hash_aref (hash_merge w.query_options o) Sym.async ≠ RVal.qtrue)
    (sec : Int) (hrt : w.read_timeout = some sec) (hsec : 0 ≤ sec)
    (hw : srv.wait_rv = 0) (t : Thread) (sql : String) :
    (rb_mysql_client_query srv t sql opts w).ret
      = .error (Exc.mysql2
          ("Timeout waiting for a response from the last query. (waited "
            ++ toString sec ++ " seconds)") none none) ∧
    (rb_mysql_client_query srv t sql opts w).state.closed = true ∧
    (rb_mysql_client_query srv t sql opts w).state.active_thread = none ∧
    (rb_mysql_client_query srv t sql opts w).trace
      = [Event.send_query sql, Event.wait_readable (some sec), Event.shutdown 2] := by
  have hasync := query_scan_args_not_async opts w hsync
  have hrt2 : ({ (query_scan_args opts w).1 with active_thread := some t } : Wrapper).read_timeout
      = some sec := by
    show (query_scan_args opts w).1.read_timeout = some sec
    rw [(query_scan_args_flags opts w).2.2.2, hrt]
  have hq := do_query_of_timeout srv _ sec hrt2 hsec hw
  rw [query_of_wait_failure srv t sql opts w _ hg ha hs hasync (by rw [hq]), hq]
  exact ⟨rfl, rfl, rfl, rfl⟩

theorem C4_read_timeout_disconnects_witness :
    REQUIRE_OPEN_DB wIdle = false ∧ wIdle.active_thread = none ∧ srvTimeout.send_rv = 0 ∧
    wIdle.read_timeout = some 5 ∧ (0 : Int) ≤ 5 ∧ srvTimeout.wait_rv = 0 ∧
    (rb_mysql_client_query srvTimeout 1 "SELECT SLEEP(9)"
      (some [(Sym.stream, RVal.qtrue)]) wIdle).ret
      = .error (Exc.mysql2
          ("Timeout waiting for a response from the last query. (waited "
            ++ toString (5 : Int) ++ " seconds)") none none) ∧
    (rb_mysql_client_query srvTimeout 1 "SELECT SLEEP(9)"
      (some [(Sym.stream, RVal.qtrue)]) wIdle).state.closed = true ∧
    (rb_mysql_client_query srvTimeout 1 "SELECT SLEEP(9)"
      (some [(Sym.stream, RVal.qtrue)]) wIdle).state.active_thread
      = none ∧
    (rb_mysql_client_query srvTimeout 1 "SELECT SLEEP(9)"
      (some [(Sym.stream, RVal.qtrue)]) wIdle).trace
      = [Event.send_query "SELECT SLEEP(9)", Event.wait_readable (some 5),
          Event.shutdown 2] :=
  ⟨rfl, rfl, rfl, rfl, by decide, rfl,
    C4_read_timeout_disconnects wIdle rfl rfl srvTimeout rfl (some [(Sym.stream, RVal.qtrue)])
      (fun o h => by cases h; decide) 5 rfl (by decide) rfl 1 "SELECT SLEEP(9)"⟩

/-- C5. Result acquisition always clears the owner: `nogvl_do_result` performs
`mysql_use_result` when asked for a cursor and `mysql_store_result` otherwise
and returns a state without owner whatever the library hands back; and when
`async_result` runs on an owned, open connection and the result-read step
succeeds, it performs the read followed by exactly one acquisition — the
cursor one iff the stored `:stream` option is `true` — and ends without owner,
whether a result, no result, or no result with an error number came back. -/
theorem C5_acquisition_clears_owner (w : Wrapper) (owner : Thread)
    (ha : w.active_thread = some owner) (hg : REQUIRE_OPEN_DB w = false)
    (srv : Server) (hr : srv.read_rv = 0) :
    (∀ use_result : Bool,
      (nogvl_do_result srv w use_result).2.1.active_thread = none ∧
      (nogvl_do_result srv w use_result).2.2
        = [if use_result then Event.use_result else Event.store_result] ∧
      (nogvl_do_result srv w use_result).1 = srv.result) ∧
    (rb_mysql_client_async_result srv w).state.active_thread = none ∧
    (rb_hash_aref w.query_options Sym.stream = RVal.qtrue →
      (rb_mysql_client_async_result srv w).trace
        = [Event.read_query_result, Event.use_result]) ∧
    (rb_hash_aref w.query_options Sym.stream ≠ RVal.qtrue →
      (rb_mysql_client_async_result srv w).trace
        = [Event.read_query_result, Event.store_result]) := by
  rw [async_result_of_read_success srv w owner ha hg hr]
  refine ⟨fun u => ⟨rfl, rfl, rfl⟩, rfl, ?_, ?_⟩
  · intro h; simp [acquire_event, h]
  · intro h; simp [acquire_event, h]

theorem C5_acquisition_clears_owner_witness :
    wOwnedStream.active_thread = some 1 ∧ REQUIRE_OPEN_DB wOwnedStream = false ∧
    srvNoResult.read_rv = 0 ∧
    (∀ use_result : Bool,
      (nogvl_do_result srvNoResult wOwnedStream use_result).2.1.active_thread = none ∧
      (nogvl_do_result srvNoResult wOwnedStream use_result).2.2
        = [if use_result then Event.use_result else Event.store_result] ∧
      (nogvl_do_result srvNoResult wOwnedStream use_result).1 = srvNoResult.result) ∧
    (rb_mysql_client_async_result srvNoResult wOwnedStream).state.active_thread = none ∧
    (rb_hash_aref wOwnedStream.query_options Sym.stream = RVal.qtrue →
      (rb_mysql_client_async_result srvNoResult wOwnedStream).trace
        = [Event.read_query_result, Event.use_result]) ∧
    (rb_hash_aref wOwnedStream.query_options Sym.stream ≠ RVal.qtrue →
      (rb_mysql_client_async_result srvNoResult wOwnedStream).trace
        = [Event.read_query_result, Event.store_result]) :=
  ⟨rfl, rfl, rfl, C5_acquisition_clears_owner wOwnedStream 1 rfl rfl srvNoResult rfl⟩

theorem async_result_of_result_failure (srv : Server) (w : Wrapper) (owner : Thread)
    (ha : w.active_thread = some owner) (hg : REQUIRE_OPEN_DB w = false)
    (hf : ResultFails srv) :
    (rb_mysql_client_async_result srv w).ret = .error (rb_raise_mysql2_error srv) ∧
    (rb_mysql_client_async_result srv w).state = { w with active_thread := none } := by
  by_cases hr : srv.read_rv = 0
  · rcases hf with hf | ⟨h1, h2⟩
    · exact absurd hr hf
    · rw [async_result_of_read_success srv w owner ha hg hr]
      simp [h1, h2]
  · rw [async_result_of_read_failure srv w owner ha hg hr]
    exact ⟨rfl, rfl⟩

/-- C6. When the result fails (`ResultFails`) in `async_result` on an owned,
open connection, or in a non-async `query` that took ownership, sent its
statement and saw the socket become readable, the call raises the error built
from the server's message with `error_number` and `sql_state` set, ends with
no owner and with the `closed` flag as before the call, and any following
`query` on that state performs its send. -/
theorem C6_server_error_keeps_connection (w : Wrapper) (hg : REQUIRE_OPEN_DB w = false)
    (srv : Server) (hf : ResultFails srv) :
    (∀ owner, w.active_thread = some owner →
      (rb_mysql_client_async_result srv w).ret
        = .error (Exc.mysql2 srv.error (some srv.errno) (some srv.sqlstate)) ∧
      (rb_mysql_client_async_result srv w).state.active_thread = none ∧
      (rb_mysql_client_async_result srv w).state.closed = w.closed ∧
      ∀ (srv2 : Server) (t2 : Thread) (sql2 : String) (opts2 : Option Hash),
        (rb_mysql_client_query srv2 t2 sql2 opts2
          (rb_mysql_client_async_result srv w).state).trace.head?
          = some (Event.send_query sql2)) ∧
    (∀ (t : Thread) (sql : String) (opts : Option Hash),
      w.active_thread = none → srv.send_rv = 0 →
      (∀ o, opts = some o →
        rb_hash_aref (hash_merge w.query_options o) Sym.async ≠ RVal.qtrue) →
      (∀ sec, w.read_timeout = some sec → 0 ≤ sec) → 0 < srv.wait_rv →
      (rb_mysql_client_query srv t sql opts w).ret
        = .error (Exc.mysql2 srv.error (some srv.errno) (some srv.sqlstate)) ∧
      (rb_mysql_client_query srv t sql opts w).state.active_thread = none ∧
      (rb_mysql_client_query srv t sql opts w).state.closed = w.closed ∧
      ∀ (srv2 : Server) (t2 : Thread) (sql2 : String) (opts2 : Option Hash),
        (rb_mysql_client_query srv2 t2 sql2 opts2
          (rb_mysql_client_query srv t sql opts w).state).trace.head?
          = some (Event.send_query sql2)) := by
  constructor
  · intro owner ha
    obtain ⟨h1, h2⟩ := async_result_of_result_failure srv w owner ha hg hf
    rw [h1, h2]
    refine ⟨rfl, rfl, rfl, ?_⟩
    intro srv2 t2 sql2 opts2
    exact query_of_unowned_sends srv2 t2 sql2 opts2 _ hg rfl
  · intro t sql opts ha hs hsync hrt hw
    have hasync := query_scan_args_not_async opts w hsync
    have hfl := query_scan_args_flags opts w
    have hq := do_query_of_ready srv
      { (query_scan_args opts w).1 with active_thread := some t }
      (by intro sec h; exact hrt sec (by rw [← hfl.2.2.2]; exact h)) hw
    have hg2 : REQUIRE_OPEN_DB { (query_scan_args opts w).1 with active_thread := some t }
        = false := by rw [require_open_scan_args, hg]
    obtain ⟨h1, h2⟩ := async_result_of_result_failure srv
      { (query_scan_args opts w).1 with active_thread := some t } t rfl hg2 hf
    rw [query_of_wait_success srv t sql opts w hg ha hs hasync (by rw [hq]), h1, h2]
    refine ⟨rfl, rfl, hfl.2.1, ?_⟩
    intro srv2 t2 sql2 opts2
    refine query_of_unowned_sends srv2 t2 sql2 opts2 _ ?_ rfl
    have := require_open_scan_args opts w none
    rw [hg] at this
    exact this

theorem C6_server_error_keeps_connection_witness :
    REQUIRE_OPEN_DB wOwned = false ∧ ResultFails srvBadSql ∧
    (rb_mysql_client_async_result srvBadSql wOwned).ret
      = .error (Exc.mysql2 "You have an error in your SQL syntax" (some 1064)
          (some "42000")) ∧
    (rb_mysql_client_async_result srvBadSql wOwned).state.active_thread = none ∧
    (rb_mysql_client_async_result srvBadSql wOwned).state.closed = false ∧
    (rb_mysql_client_query srvOk 2 "SELECT 2" none
      (rb_mysql_client_async_result srvBadSql wOwned).state).trace.head?
      = some (Event.send_query "SELECT 2") :=
  have h := (C6_server_error_keeps_connection wOwned rfl srvBadSql
    (Or.inl (by decide))).1 1 rfl
  ⟨rfl, Or.inl (by decide), h.1, h.2.1, h.2.2.1, h.2.2.2 srvOk 2 "SELECT 2" none⟩

/-- C7. In every run of calls (query, async_result, close, and also ping and
select_db) by any threads, with any answers of the library, from a connection
without owner: a step whose events contain a send started without owner; a
query issued while an owner is set raises the busy error at once, performs no
event and keeps that owner; and after every step the owner is absent, the same
as before, or the single thread whose query found the connection unowned. -/
theorem C7_single_in_flight_query (w0 : Wrapper) (h0 : w0.active_thread = none)
    (calls : List (Call × Server)) :
    ∀ s ∈ run w0 calls,
      ((∃ e ∈ s.trace, e.isSend = true) → s.pre.active_thread = none) ∧
      (∀ t sql opts owner, s.call = Call.query t sql opts →
        s.pre.active_thread = some owner →
        s.raised = some (if owner = t then busy_self_error else busy_other_error owner) ∧
        s.trace = [] ∧ s.post.active_thread = some owner) ∧
      (s.post.active_thread = none ∨ s.post.active_thread = s.pre.active_thread ∨
        ∃ t sql opts, s.call = Call.query t sql opts ∧ s.pre.active_thread = none ∧
          s.post.active_thread = some t) := by
  intro s hs
  have hinv0 : OwnerImpliesOpen w0 := fun hne => absurd h0 hne
  obtain ⟨hinv, srv, hstep⟩ := run_steps w0 calls hinv0 s hs
  refine ⟨?_, ?_, ?_⟩
  · intro h
    rw [hstep] at h
    exact step_send_only_unowned srv s.call s.pre h
  · intro t sql opts owner hc ha
    have hg : REQUIRE_OPEN_DB s.pre = false := hinv (by rw [ha]; exact Option.some_ne_none _)
    have hq := query_of_owned srv t sql opts s.pre owner ha
    have hs2 : s = step srv (Call.query t sql opts) s.pre := by rw [← hc]; exact hstep
    rw [hs2]
    exact ⟨hq.2.2.2 hg, hq.1, hq.2.1⟩
  · have h := step_owner_after srv s.call s.pre
    rw [← hstep] at h
    exact h

theorem C7_single_in_flight_query_witness :
    wIdle.active_thread = none ∧
    ∀ s ∈ run wIdle sampleCalls,
      ((∃ e ∈ s.trace, e.isSend = true) → s.pre.active_thread = none) ∧
      (∀ t sql opts owner, s.call = Call.query t sql opts →
        s.pre.active_thread = some owner →
        s.raised = some (if owner = t then busy_self_error else busy_other_error owner) ∧
        s.trace = [] ∧ s.post.active_thread = some owner) ∧
      (s.post.active_thread = none ∨ s.post.active_thread = s.pre.active_thread ∨
        ∃ t sql opts, s.call = Call.query t sql opts ∧ s.pre.active_thread = none ∧
          s.post.active_thread = some t) :=
  ⟨rfl, C7_single_in_flight_query wIdle rfl sampleCalls⟩

/-- The run of `sampleCalls`: which steps raised and which sent. -/
theorem sampleCalls_run :
    (run wIdle sampleCalls).map (fun s => (s.raised.isSome, s.trace, s.post.active_thread))
      = [ (false, [Event.send_query "SELECT 1"], some 1),
          (true, [], some 1),
          (true, [], some 1),
          (false, [Event.read_query_result, Event.store_result], none),
          (true, [Event.send_query "SELECT 4", Event.wait_readable (some 5),
                  Event.read_query_result], none),
          (false, [Event.close], none) ] := by
  decide

/-- C8 as stated fails: on a closed connection with reconnect disabled `ping`
returns `false` and `async_result` (no owner) returns `nil`; neither raises. -/
theorem C8_closed_connection_counterexample :
    wClosed.closed = true ∧ wClosed.reconnect_enabled = false ∧
    (rb_mysql_client_ping srvOk wClosed).ret = .ok false ∧
    (rb_mysql_client_ping srvOk wClosed).ret ≠ .error closed_connection_error ∧
    (rb_mysql_client_async_result srvOk wClosed).ret = .ok none ∧
    (rb_mysql_client_async_result srvOk wClosed).ret ≠ .error closed_connection_error := by
  refine ⟨rfl, rfl, rfl, ?_, rfl, ?_⟩ <;> intro h <;> cases h

/-- C8, amended. On a connection with `closed` set and reconnect disabled,
whatever the owner: `query`, `select_db` and `escape` raise the
closed-connection error; `async_result` raises it when an owner is set and
returns `nil` when none is; `ping` returns `false` without raising; and none of
the five performs an event or changes the wrapper. -/
theorem C8_closed_connection_operations (w : Wrapper) (hc : w.closed = true)
    (hr : w.reconnect_enabled = false) (srv : Server) (t : Thread) (sql : String)
    (opts : Option Hash) (db : String) (b : Build) (es : EncodingSupport)
    (escaper : List Nat → List Nat) (str : RString) :
    (rb_mysql_client_query srv t sql opts w).ret = .error closed_connection_error ∧
    (rb_mysql_client_select_db srv db w).ret = .error closed_connection_error ∧
    (rb_mysql_client_real_escape b es escaper str w).ret = .error closed_connection_error ∧
    (w.active_thread ≠ none →
      (rb_mysql_client_async_result srv w).ret = .error closed_connection_error) ∧
    (w.active_thread = none → (rb_mysql_client_async_result srv w).ret = .ok none) ∧
    (rb_mysql_client_ping srv w).ret = .ok false ∧
    (rb_mysql_client_query srv t sql opts w).trace = [] ∧
    (rb_mysql_client_select_db srv db w).trace = [] ∧
    (rb_mysql_client_real_escape b es escaper str w).trace = [] ∧
    (rb_mysql_client_async_result srv w).trace = [] ∧
    (rb_mysql_client_ping srv w).trace = [] ∧
    (rb_mysql_client_query srv t sql opts w).state = w ∧
    (rb_mysql_client_select_db srv db w).state = w ∧
    (rb_mysql_client_real_escape b es escaper str w).state = w ∧
    (rb_mysql_client_async_result srv w).state = w ∧
    (rb_mysql_client_ping srv w).state = w := by
  have hg : REQUIRE_OPEN_DB w = true := by simp [REQUIRE_OPEN_DB, hc, hr]
  rw [query_of_closed srv t sql opts w hg]
  cases ha : w.active_thread <;>
    simp [rb_mysql_client_select_db, rb_mysql_client_real_escape,
      rb_mysql_client_async_result, rb_mysql_client_ping, hg, hc, ha]

theorem C8_closed_connection_operations_witness :
    wClosedOwned.closed = true ∧ wClosedOwned.reconnect_enabled = false ∧
    (rb_mysql_client_query srvOk 2 "SELECT 1" none wClosedOwned).ret
      = .error closed_connection_error ∧
    (rb_mysql_client_select_db srvOk "test" wClosedOwned).ret
      = .error closed_connection_error ∧
    (rb_mysql_client_real_escape build19 esUtf8Internal (fun s => s)
      { bytes := [105, 116], enc := none } wClosedOwned).ret
      = .error closed_connection_error ∧
    (rb_mysql_client_async_result srvOk wClosedOwned).ret
      = .error closed_connection_error ∧
    (rb_mysql_client_ping srvOk wClosedOwned).ret = .ok false :=
  have h := C8_closed_connection_operations wClosedOwned rfl rfl srvOk 2 "SELECT 1" none
    "test" build19 esUtf8Internal (fun s => s) { bytes := [105, 116], enc := none }
  ⟨rfl, rfl, h.1, h.2.1, h.2.2.1, h.2.2.2.1 (by decide), h.2.2.2.2.2.1⟩

/-! ## Theorems: text-protocol decoding -/

theorem takeWhile_append_stop (p : Nat → Bool) (l : List Nat) (x : Nat) (r : List Nat)
    (hl : ∀ c ∈ l, p c = true) (hx : p x = false) :
    (l ++ x :: r).takeWhile p = l := by
  induction l with
  | nil => simp [List.takeWhile_cons, hx]
  | cons a t ih =>
    have ha : p a = true := hl a (List.mem_cons_self a t)
    rw [List.cons_append, List.takeWhile_cons, ha, if_pos rfl,
      ih (fun c hc => hl c (List.mem_cons_of_mem a hc))]

theorem takeWhile_all (p : Nat → Bool) (l : List Nat) (hl : ∀ c ∈ l, p c = true) :
    l.takeWhile p = l := by
  induction l with
  | nil => rfl
  | cons a t ih =>
    have ha : p a = true := hl a (List.mem_cons_self a t)
    rw [List.takeWhile_cons, ha, if_pos rfl,
      ih (fun c hc => hl c (List.mem_cons_of_mem a hc))]

theorem foldl_digits_reverse (l : List Nat) :
    (l.reverse.map (fun d => d + 48)).foldl (fun acc d => acc * 10 + (d - 48)) 0
      = Nat.ofDigits 10 l := by
  induction l with
  | nil => rfl
  | cons a t ih =>
    simp only [List.reverse_cons, List.map_append, List.foldl_append, List.map_cons,
      List.map_nil, List.foldl_cons, List.foldl_nil, Nat.ofDigits_cons]
    rw [ih]
    simp only [Nat.add_sub_cancel, Nat.cast_ofNat, Nat.cast_id]
    omega

theorem digits_value_decimal_digits (n : Nat) : digits_value (decimal_digits n) = n := by
  unfold decimal_digits digits_value
  by_cases h : n = 0
  · simp [h]
  · simp only [h, if_false]
    rw [foldl_digits_reverse, Nat.ofDigits_digits]

theorem decimal_digits_isdigit (n : Nat) : ∀ c ∈ decimal_digits n, isdigit c = true := by
  intro c hc
  unfold decimal_digits at hc
  by_cases h : n = 0
  · simp [h] at hc
    rw [hc]; rfl
  · simp only [h, if_false, List.mem_map, List.mem_reverse] at hc
    obtain ⟨d, hd, rfl⟩ := hc
    have := Nat.digits_lt_base (by decide : 1 < 10) hd
    simp [isdigit]
    omega

theorem decimal_digits_ne_nil (n : Nat) : decimal_digits n ≠ [] := by
  unfold decimal_digits
  by_cases h : n = 0
  · simp [h]
  · simp only [h, if_false]
    intro hnil
    simp only [List.map_eq_nil_iff, List.reverse_eq_nil_iff] at hnil
    exact h (Nat.digits_eq_nil_iff_eq_zero.mp hnil)

/-- The model of `rb_cstr2inum` reads back every base-10 literal. -/
theorem rb_cstr2inum_int_literal (n : Int) : rb_cstr2inum (int_literal n) = n := by
  obtain ⟨c, t, hct⟩ : ∃ c t, decimal_digits n.natAbs = c :: t := by
    cases h : decimal_digits n.natAbs with
    | nil => exact absurd h (decimal_digits_ne_nil _)
    | cons c t => exact ⟨c, t, rfl⟩
  have hdig : ∀ x ∈ c :: t, isdigit x = true := by
    rw [← hct]; exact decimal_digits_isdigit _
  have hc : 48 ≤ c ∧ c ≤ 57 := by
    have := hdig c (List.mem_cons_self c t)
    simpa [isdigit] using this
  have hnz : ∀ x ∈ c :: t, (fun y : Nat => decide (y ≠ 0)) x = true := by
    intro x hx
    have := hdig x hx
    simp only [isdigit, Bool.and_eq_true, decide_eq_true_eq] at this
    simp only [decide_eq_true_eq]
    omega
  have hval : digits_value (c :: t) = n.natAbs := by
    rw [← hct]; exact digits_value_decimal_digits _
  have htw : List.takeWhile isdigit (c :: t) = c :: t := takeWhile_all isdigit (c :: t) hdig
  have hsp : isspace c = false := by
    simp only [isspace, Bool.or_eq_false_iff, decide_eq_false_iff_not, Bool.and_eq_false_iff]
    omega
  by_cases hn : n < 0
  · have hcs : cstr (int_literal n) = 45 :: c :: t := by
      unfold int_literal cstr
      rw [hct, if_pos hn]
      exact takeWhile_append_stop (fun y => decide (y ≠ 0)) (45 :: c :: t) 0 []
        (by
          intro x hx
          rcases List.mem_cons.mp hx with hx | hx
          · rw [hx]; rfl
          · exact hnz x hx)
        (by simp)
    unfold rb_cstr2inum
    rw [hcs]
    have h2 : (45 :: c :: t).dropWhile isspace = 45 :: c :: t := by
      rw [List.dropWhile_cons]
      rfl
    rw [h2]
    simp only [List.head?_cons, if_true, List.drop_succ_cons, List.drop_zero]
    rw [htw, hval]
    omega
  · have hcs : cstr (int_literal n) = c :: t := by
      unfold int_literal cstr
      rw [hct, if_neg hn]
      exact takeWhile_append_stop (fun y => decide (y ≠ 0)) (c :: t) 0 [] hnz (by simp)
    unfold rb_cstr2inum
    rw [hcs]
    have h2 : (c :: t).dropWhile isspace = c :: t := by
      rw [List.dropWhile_cons, hsp]
      rfl
    rw [h2]
    have h45 : ¬ (c = 45) := by omega
    have h43 : ¬ (c = 43) := by omega
    simp only [List.head?_cons, Option.some.injEq, h45, h43, if_false]
    rw [htw, hval]
    omega

/-- The string built for a column is verbatim when nothing transcodes it. -/
theorem field_string_bytes_verbatim (b : Build) (es : EncodingSupport) (field : MYSQL_FIELD)
    (ptr : List Nat) (len : Nat)
    (h : b.have_ruby_encoding_h = false ∨ es.default_internal_enc = none ∨
      ((field.flags &&& BINARY_FLAG) ≠ 0 ∧ field.charsetnr = 63)) :
    (field_string b es field ptr len).bytes = ptr.take len := by
  unfold field_string
  cases hb : b.have_ruby_encoding_h with
  | false => simp [rb_str_new, hb]
  | true =>
    simp only [if_true]
    unfold mysql2_set_field_string_encoding
    by_cases hbin : ((field.flags &&& BINARY_FLAG) ≠ 0 ∧ field.charsetnr = 63)
    · simp [hbin.1, hbin.2, rb_enc_associate, rb_str_new]
    · rcases h with h | h | h
      · rw [hb] at h; cases h
      · have hc : ((decide (field.flags &&& BINARY_FLAG ≠ 0) && decide (field.charsetnr = 63))
            = true) = False := by
          simpa using hbin
        simp only [hc, if_false, h]
        cases es.encoding_from_charset_code field.charsetnr <;>
          simp [rb_enc_associate, rb_str_new]
      · exact absurd h hbin

/-- C9 as stated fails: with cast disabled, a latin1 `VARCHAR` column holding
the single byte 0xE9 decodes, under a UTF-8 default internal encoding, to a
string of the two bytes 0xC3 0xA9, not to the raw byte. -/
theorem C9_cast_disabled_counterexample :
    latin1Field.type ≠ FieldType.MYSQL_TYPE_NULL ∧
    rb_mysql_result_fetch_row_value build19 esUtf8Internal libcNonZero Zone.local none
        false false latin1Field (some [233, 0]) 1
      = .ok (Value.string { bytes := [195, 169], enc := some (Encoding.named "UTF-8") }) ∧
    ¬ ∃ s : RString,
      rb_mysql_result_fetch_row_value build19 esUtf8Internal libcNonZero Zone.local none
          false false latin1Field (some [233, 0]) 1 = .ok (Value.string s) ∧
      s.bytes = List.take 1 [233, 0] := by
  have h : rb_mysql_result_fetch_row_value build19 esUtf8Internal libcNonZero Zone.local none
        false false latin1Field (some [233, 0]) 1
      = .ok (Value.string { bytes := [195, 169], enc := some (Encoding.named "UTF-8") }) := by
    rfl
  refine ⟨by decide, h, ?_⟩
  rintro ⟨s, hs, hb⟩
  rw [h] at hs
  injection hs with hs
  injection hs with hs
  rw [← hs] at hb
  revert hb
  decide

/-- C9, amended. With cast disabled, a non-NULL column of any type but the
null type decodes to the string made by `field_string` from the first
`fieldLength` raw bytes: no parsing by type.  Its bytes are exactly those raw
bytes when the build has no encoding support, or no default internal encoding
is set, or the column is binary (binary flag and charset 63); otherwise it is
the host's export, to the default internal encoding, of those raw bytes
associated with the column's (or else the connection's) encoding.  A column of
the null type and a NULL column decode to `nil`. -/
theorem C9_cast_disabled_decoding (b : Build) (es : EncodingSupport) (libc : Libc)
    (db_timezone : Zone) (app_timezone : Option Zone) (castBool : Bool)
    (field : MYSQL_FIELD) (ptr : List Nat) (len : Nat) :
    (field.type ≠ FieldType.MYSQL_TYPE_NULL →
      rb_mysql_result_fetch_row_value b es libc db_timezone app_timezone castBool false
          field (some ptr) len
        = .ok (Value.string (field_string b es field ptr len))) ∧
    (b.have_ruby_encoding_h = false ∨ es.default_internal_enc = none ∨
        ((field.flags &&& BINARY_FLAG) ≠ 0 ∧ field.charsetnr = 63) →
      (field_string b es field ptr len).bytes = ptr.take len) ∧
    (∀ d, b.have_ruby_encoding_h = true → es.default_internal_enc = some d →
        ¬ ((field.flags &&& BINARY_FLAG) ≠ 0 ∧ field.charsetnr = 63) →
      field_string b es field ptr len
        = es.rb_str_export_to_enc
            { bytes := ptr.take len
              enc := some ((es.encoding_from_charset_code field.charsetnr).getD es.conn_enc) }
            d) ∧
    (field.type = FieldType.MYSQL_TYPE_NULL →
      rb_mysql_result_fetch_row_value b es libc db_timezone app_timezone castBool false
          field (some ptr) len = .ok Value.qnil) ∧
    rb_mysql_result_fetch_row_value b es libc db_timezone app_timezone castBool false
        field none len = .ok Value.qnil := by
  refine ⟨?_, field_string_bytes_verbatim b es field ptr len, ?_, ?_, rfl⟩
  · intro h
    simp [rb_mysql_result_fetch_row_value, h]
  · intro d hb hd hbin
    have hc : ((decide (field.flags &&& BINARY_FLAG ≠ 0) && decide (field.charsetnr = 63))
        = true) = False := by
      simpa using hbin
    unfold field_string mysql2_set_field_string_encoding
    simp only [hb, if_true, hc, if_false, hd]
    cases es.encoding_from_charset_code field.charsetnr <;>
      simp [rb_enc_associate, rb_str_new]
  · intro h
    simp [rb_mysql_result_fetch_row_value, h]

theorem C9_cast_disabled_decoding_witness :
    intField.type ≠ FieldType.MYSQL_TYPE_NULL ∧
    rb_mysql_result_fetch_row_value build19 esUtf8Internal libcNonZero Zone.local none
        false false intField (some [45, 49, 50, 0]) 3
      = .ok (Value.string (field_string build19 esUtf8Internal intField [45, 49, 50, 0] 3)) ∧
    (field_string build19 esUtf8Internal intField [45, 49, 50, 0] 3).bytes = [45, 49, 50] ∧
    field_string build19 esUtf8Internal latin1Field [233, 0] 1
      = export_latin1_to_utf8
          { bytes := [233], enc := some (Encoding.named "ISO-8859-1") }
          (Encoding.named "UTF-8") :=
  have h := C9_cast_disabled_decoding build19 esUtf8Internal libcNonZero Zone.local none
    false intField [45, 49, 50, 0] 3
  have h2 := C9_cast_disabled_decoding build19 esUtf8Internal libcNonZero Zone.local none
    false latin1Field [233, 0] 1
  ⟨by decide, h.1 (by decide), h.2.1 (Or.inr (Or.inr (by decide))),
    h2.2.2.1 (Encoding.named "UTF-8") rfl rfl (by decide)⟩

/-- C10 as stated fails for the bit type: with cast enabled a `BIT(1)` column
holding the byte 0x01 decodes to the one-byte binary string, not to an
integer. -/
theorem C10_bit_column_counterexample :
    rb_mysql_result_fetch_row_value build19 esUtf8Internal libcNonZero Zone.local none
        false true bitField (some [1, 0]) 1
      = .ok (Value.string { bytes := [1], enc := some Encoding.binary }) ∧
    ∀ n : Int,
      rb_mysql_result_fetch_row_value build19 esUtf8Internal libcNonZero Zone.local none
          false true bitField (some [1, 0]) 1 ≠ .ok (Value.integer n) := by
  have h : rb_mysql_result_fetch_row_value build19 esUtf8Internal libcNonZero Zone.local none
        false true bitField (some [1, 0]) 1
      = .ok (Value.string { bytes := [1], enc := some Encoding.binary }) := by
    rfl
  refine ⟨h, ?_⟩
  intro n hn
  rw [h] at hn
  injection hn with hn
  cases hn

/-- C10, amended. With cast enabled, a non-NULL column of type short, int24,
long, longlong or year, or of type tiny when boolean coercion does not apply,
decodes to the integer that `rb_cstr2inum` parses in base 10 from the
column's C string; a non-NULL column of the bit type decodes to the string of
its first `fieldLength` raw bytes, unparsed; and on the base-10 literal of any
integer `n` the integer columns decode to `n` itself. -/
theorem C10_integer_decoding (b : Build) (es : EncodingSupport) (libc : Libc)
    (db_timezone : Zone) (app_timezone : Option Zone) (castBool : Bool)
    (field : MYSQL_FIELD) (ptr : List Nat) (len : Nat) :
    (parsed_as_integer castBool field →
      rb_mysql_result_fetch_row_value b es libc db_timezone app_timezone castBool true
          field (some ptr) len
        = .ok (Value.integer (rb_cstr2inum ptr))) ∧
    (field.type = FieldType.MYSQL_TYPE_BIT →
      rb_mysql_result_fetch_row_value b es libc db_timezone app_timezone castBool true
          field (some ptr) len
        = .ok (Value.string { bytes := ptr.take len
                              enc := if b.have_ruby_encoding_h then some Encoding.binary
                                     else none })) ∧
    (∀ n : Int, parsed_as_integer castBool field →
      rb_mysql_result_fetch_row_value b es libc db_timezone app_timezone castBool true
          field (some (int_literal n)) len
        = .ok (Value.integer n)) := by
  have hint : ∀ p : List Nat, parsed_as_integer castBool field →
      rb_mysql_result_fetch_row_value b es libc db_timezone app_timezone castBool true
          field (some p) len
        = .ok (Value.integer (rb_cstr2inum p)) := by
    intro p h
    rcases h with h | h | h | h | h | ⟨h, hb⟩
    · simp [rb_mysql_result_fetch_row_value, h]
    · simp [rb_mysql_result_fetch_row_value, h]
    · simp [rb_mysql_result_fetch_row_value, h]
    · simp [rb_mysql_result_fetch_row_value, h]
    · simp [rb_mysql_result_fetch_row_value, h]
    · have hc : (castBool && decide (field.length = 1)) = false := by
        cases castBool
        · rfl
        · simpa using hb
      simp [rb_mysql_result_fetch_row_value, h, hc]
  refine ⟨hint ptr, ?_, ?_⟩
  · intro h
    simp [rb_mysql_result_fetch_row_value, h, rb_str_new]
  · intro n h
    rw [hint (int_literal n) h, rb_cstr2inum_int_literal]

theorem C10_integer_decoding_witness :
    parsed_as_integer false intField ∧
    rb_mysql_result_fetch_row_value build19 esUtf8Internal libcNonZero Zone.local none
        false true intField (some [45, 49, 50, 0]) 3
      = .ok (Value.integer (rb_cstr2inum [45, 49, 50, 0])) ∧
    rb_cstr2inum [45, 49, 50, 0] = -12 ∧
    rb_mysql_result_fetch_row_value build19 esUtf8Internal libcNonZero Zone.local none
        false true bitField (some [1, 0]) 1
      = .ok (Value.string { bytes := List.take 1 [1, 0]
                            enc := if build19.have_ruby_encoding_h then some Encoding.binary
                                   else none }) ∧
    rb_mysql_result_fetch_row_value build19 esUtf8Internal libcNonZero Zone.local none
        false true intField (some (int_literal (-12))) 3
      = .ok (Value.integer (-12)) :=
  ⟨Or.inr (Or.inr (Or.inl rfl)),
    (C10_integer_decoding build19 esUtf8Internal libcNonZero Zone.local none false
      intField [45, 49, 50, 0] 3).1 (Or.inr (Or.inr (Or.inl rfl))),
    by decide,
    (C10_integer_decoding build19 esUtf8Internal libcNonZero Zone.local none false
      bitField [1, 0] 1).2.1 rfl,
    (C10_integer_decoding build19 esUtf8Internal libcNonZero Zone.local none false
      intField [45, 49, 50, 0] 3).2.2 (-12) (Or.inr (Or.inr (Or.inl rfl)))⟩

/-! ## Theorems: decimals and temporal literals (text protocol) -/

/-- C11. With cast enabled, a non-NULL decimal / new-decimal column decodes by
the three-way rule: declared decimal-digit count 0 gives the base-10 integer
of the literal; otherwise, when `strtod` of the literal compares equal to
zero, the decimal built from the literal `0.0`, whatever the digits or sign of
the column's own literal; otherwise the decimal built from the first
`fieldLength` raw bytes. -/
theorem C11_decimal_decoding (b : Build) (es : EncodingSupport) (libc : Libc)
    (db_timezone : Zone) (app_timezone : Option Zone) (castBool : Bool)
    (field : MYSQL_FIELD) (ptr : List Nat) (len : Nat)
    (ht : field.type = FieldType.MYSQL_TYPE_DECIMAL ∨
      field.type = FieldType.MYSQL_TYPE_NEWDECIMAL) :
    (field.decimals = 0 →
      rb_mysql_result_fetch_row_value b es libc db_timezone app_timezone castBool true
          field (some ptr) len
        = .ok (Value.integer (rb_cstr2inum ptr))) ∧
    (field.decimals ≠ 0 → libc.strtod_is_zero (cstr ptr) = true →
      rb_mysql_result_fetch_row_value b es libc db_timezone app_timezone castBool true
          field (some ptr) len
        = .ok (Value.big_decimal
            { bytes := [48, 46, 48]
              enc := if b.have_ruby_encoding_h then some Encoding.binary else none })) ∧
    (field.decimals ≠ 0 → libc.strtod_is_zero (cstr ptr) = false →
      rb_mysql_result_fetch_row_value b es libc db_timezone app_timezone castBool true
          field (some ptr) len
        = .ok (Value.big_decimal
            { bytes := ptr.take len
              enc := if b.have_ruby_encoding_h then some Encoding.binary else none })) := by
  rcases ht with ht | ht <;>
    refine ⟨?_, ?_, ?_⟩ <;>
    intros <;>
    simp_all [rb_mysql_result_fetch_row_value, rb_str_new]

theorem C11_decimal_decoding_witness :
    (decimalField.type = FieldType.MYSQL_TYPE_DECIMAL ∨
      decimalField.type = FieldType.MYSQL_TYPE_NEWDECIMAL) ∧
    rb_mysql_result_fetch_row_value build19 esUtf8Internal libcZero Zone.local none false true
        decimalField (some [45, 48, 46, 48, 48, 0]) 5
      = .ok (Value.big_decimal { bytes := [48, 46, 48], enc := some Encoding.binary }) ∧
    rb_mysql_result_fetch_row_value build19 esUtf8Internal libcZero Zone.local none false true
        decimalField (some [49, 46, 53, 48, 0]) 4
      = .ok (Value.big_decimal { bytes := [49, 46, 53, 48], enc := some Encoding.binary }) ∧
    rb_mysql_result_fetch_row_value build19 esUtf8Internal libcZero Zone.local none false true
        { decimalField with decimals := 0 } (some [45, 49, 50, 0]) 3
      = .ok (Value.integer (-12)) :=
  ⟨Or.inr rfl,
    (C11_decimal_decoding build19 esUtf8Internal libcZero Zone.local none false
      decimalField [45, 48, 46, 48, 48, 0] 5 (Or.inr rfl)).2.1 (by decide) (by decide),
    (C11_decimal_decoding build19 esUtf8Internal libcZero Zone.local none false
      decimalField [49, 46, 53, 48, 0] 4 (Or.inr rfl)).2.2 (by decide) (by decide),
    (C11_decimal_decoding build19 esUtf8Internal libcZero Zone.local none false
      { decimalField with decimals := 0 } [45, 49, 50, 0] 3 (Or.inr rfl)).1 rfl⟩

theorem scan_int_of_digit_head (w : Nat) (a : Nat) (t : List Nat)
    (ha : 48 ≤ a ∧ a ≤ 57) :
    scan_int w (a :: t) =
      if (((a :: t).take w).takeWhile isdigit).isEmpty then none
      else some (((digits_value (((a :: t).take w).takeWhile isdigit) : Nat) : Int),
        (a :: t).drop (((a :: t).take w).takeWhile isdigit).length) := by
  obtain ⟨h1, h2⟩ := ha
  interval_cases a <;> cases w <;> simp [scan_int, List.dropWhile, isspace]

theorem isdigit_add48 (a : Nat) (ha : a < 10) : isdigit (a + 48) = true := by
  simp only [isdigit, Bool.and_eq_true, decide_eq_true_eq]
  omega

theorem scan_int_pad2 (n : Nat) (hn : n < 100) (rest : List Nat) :
    scan_int 2 (pad2 n ++ rest) = some ((n : Int), rest) := by
  have h1 : n / 10 % 10 < 10 := Nat.mod_lt _ (by decide)
  have h2 : n % 10 < 10 := Nat.mod_lt _ (by decide)
  unfold pad2
  rw [List.cons_append, scan_int_of_digit_head 2 _ _ (by omega)]
  simp only [List.cons_append, List.nil_append, List.take_succ_cons, List.take_zero,
    List.takeWhile_cons, List.takeWhile_nil, isdigit_add48 _ h1, isdigit_add48 _ h2,
    if_true, List.isEmpty_cons, Bool.false_eq_true, if_false, List.length_cons,
    List.length_nil, List.drop_succ_cons, List.drop_zero, digits_value, List.foldl_cons,
    List.foldl_nil, Nat.add_sub_cancel]
  congr 2
  omega

theorem scan_int_pad4 (n : Nat) (hn : n < 10000) (rest : List Nat) :
    scan_int 4 (pad4 n ++ rest) = some ((n : Int), rest) := by
  have h0 : n / 1000 % 10 < 10 := Nat.mod_lt _ (by decide)
  have h1 : n / 100 % 10 < 10 := Nat.mod_lt _ (by decide)
  have h2 : n / 10 % 10 < 10 := Nat.mod_lt _ (by decide)
  have h3 : n % 10 < 10 := Nat.mod_lt _ (by decide)
  unfold pad4
  rw [List.cons_append, scan_int_of_digit_head 4 _ _ (by omega)]
  simp only [List.cons_append, List.nil_append, List.take_succ_cons, List.take_zero,
    List.takeWhile_cons, List.takeWhile_nil, isdigit_add48 _ h0, isdigit_add48 _ h1,
    isdigit_add48 _ h2, isdigit_add48 _ h3,
    if_true, List.isEmpty_cons, Bool.false_eq_true, if_false, List.length_cons,
    List.length_nil, List.drop_succ_cons, List.drop_zero, digits_value, List.foldl_cons,
    List.foldl_nil, Nat.add_sub_cancel]
  congr 2
  omega
theorem pad2_nonzero (n : Nat) : ∀ c ∈ pad2 n, c ≠ 0 := by
  intro c hc
  simp only [pad2, List.mem_cons, List.mem_singleton, List.not_mem_nil, or_false] at hc
  rcases hc with hc | hc <;> omega

theorem pad4_nonzero (n : Nat) : ∀ c ∈ pad4 n, c ≠ 0 := by
  intro c hc
  simp only [pad4, List.mem_cons, List.mem_singleton, List.not_mem_nil, or_false] at hc
  rcases hc with hc | hc | hc | hc <;> omega

theorem cstr_of_terminated (l : List Nat) (hl : ∀ c ∈ l, c ≠ 0) : cstr (l ++ [0]) = l := by
  unfold cstr
  exact takeWhile_append_stop (fun c => decide (c ≠ 0)) l 0 []
    (by intro c hc; simpa using hl c hc) (by simp)

theorem cstr_date_literal (y m d : Nat) :
    cstr (date_literal y m d) = pad4 y ++ 45 :: (pad2 m ++ 45 :: pad2 d) := by
  have h : date_literal y m d = (pad4 y ++ 45 :: (pad2 m ++ 45 :: pad2 d)) ++ [0] := by
    simp [date_literal]
  rw [h]
  apply cstr_of_terminated
  intro c hc
  simp only [List.mem_append, List.mem_cons] at hc
  rcases hc with hc | hc | hc | hc | hc
  · exact pad4_nonzero y c hc
  · omega
  · exact pad2_nonzero m c hc
  · omega
  · exact pad2_nonzero d c hc

theorem sscanf_int_cons (w : Nat) (fmt : List ScanItem) (s : List Nat) (v : Int)
    (rest : List Nat) (h : scan_int w s = some (v, rest)) :
    sscanf (ScanItem.int w :: fmt) s = v :: sscanf fmt rest := by
  simp only [sscanf, h]

theorem sscanf_lit_cons (c : Nat) (fmt : List ScanItem) (rest : List Nat) :
    sscanf (ScanItem.lit c :: fmt) (c :: rest) = sscanf fmt rest := by
  simp only [sscanf, if_true]

/-- Scanning `-MM-DD` with the rest of a format. -/
theorem sscanf_date_tail (m d : Nat) (hm : m < 100) (hd : d < 100) (fmt : List ScanItem)
    (rest : List Nat) :
    sscanf (ScanItem.lit 45 :: ScanItem.int 2 :: ScanItem.lit 45 :: ScanItem.int 2 :: fmt)
        (45 :: (pad2 m ++ 45 :: (pad2 d ++ rest)))
      = (m : Int) :: (d : Int) :: sscanf fmt rest := by
  rw [sscanf_lit_cons, sscanf_int_cons 2 _ _ _ _ (scan_int_pad2 m hm _), sscanf_lit_cons,
    sscanf_int_cons 2 _ _ _ _ (scan_int_pad2 d hd _)]

/-- Scanning ` HH:MM:SS` (white space, then the time of day). -/
theorem sscanf_time_tail (h mi s : Nat) (hh : h < 100) (hmi : mi < 100) (hs : s < 100)
    (rest : List Nat) :
    sscanf (ScanItem.ws :: time_format) (32 :: (pad2 h ++ 58 :: (pad2 mi ++ 58 :: (pad2 s ++ rest))))
      = [(h : Int), (mi : Int), (s : Int)] := by
  have hd : (32 :: (pad2 h ++ 58 :: (pad2 mi ++ 58 :: (pad2 s ++ rest)))).dropWhile isspace
      = pad2 h ++ 58 :: (pad2 mi ++ 58 :: (pad2 s ++ rest)) := by
    have h1 : h / 10 % 10 < 10 := Nat.mod_lt _ (by decide)
    have hsp : isspace (h / 10 % 10 + 48) = false := by
      simp only [isspace, Bool.or_eq_false_iff, decide_eq_false_iff_not,
        Bool.and_eq_false_iff]
      omega
    rw [List.dropWhile_cons]
    simp only [show isspace 32 = true from rfl, if_true]
    unfold pad2
    rw [List.cons_append, List.dropWhile_cons, hsp]
    rfl
  unfold time_format
  rw [sscanf, hd, sscanf_int_cons 2 _ _ _ _ (scan_int_pad2 h hh _), sscanf_lit_cons,
    sscanf_int_cons 2 _ _ _ _ (scan_int_pad2 mi hmi _), sscanf_lit_cons,
    sscanf_int_cons 2 _ _ _ _ (scan_int_pad2 s hs _)]
  rfl

/-- The literal `YYYY-MM-DD` is scanned into its three components. -/
theorem sscanf_date_literal (y m d : Nat) (hy : y < 10000) (hm : m < 100) (hd : d < 100) :
    sscanf date_format (cstr (date_literal y m d)) = [(y : Int), (m : Int), (d : Int)] := by
  rw [cstr_date_literal]
  have h := sscanf_date_tail m d hm hd [] []
  simp only [List.append_nil] at h
  unfold date_format
  rw [sscanf_int_cons 4 _ _ _ _ (scan_int_pad4 y hy _), h]
  rfl

theorem cstr_datetime_literal (y mo d h mi s : Nat) :
    cstr (datetime_literal y mo d h mi s)
      = pad4 y ++ 45 :: (pad2 mo ++ 45 :: (pad2 d ++ 32 :: (pad2 h ++ 58 :: (pad2 mi ++ 58 ::
          pad2 s)))) := by
  have h0 : datetime_literal y mo d h mi s
      = (pad4 y ++ 45 :: (pad2 mo ++ 45 :: (pad2 d ++ 32 :: (pad2 h ++ 58 :: (pad2 mi ++ 58 ::
          pad2 s))))) ++ [0] := by
    simp [datetime_literal]
  rw [h0]
  apply cstr_of_terminated
  intro c hc
  simp only [List.mem_append, List.mem_cons] at hc
  rcases hc with hc | hc | hc | hc | hc | hc | hc | hc | hc | hc | hc
  · exact pad4_nonzero y c hc
  · omega
  · exact pad2_nonzero mo c hc
  · omega
  · exact pad2_nonzero d c hc
  · omega
  · exact pad2_nonzero h c hc
  · omega
  · exact pad2_nonzero mi c hc
  · omega
  · exact pad2_nonzero s c hc

/-- The literal `YYYY-MM-DD HH:MM:SS` is scanned into its six components. -/
theorem sscanf_datetime_literal (y mo d h mi s : Nat) (hy : y < 10000) (hmo : mo < 100)
    (hd : d < 100) (hh : h < 100) (hmi : mi < 100) (hs : s < 100) :
    sscanf datetime_format (cstr (datetime_literal y mo d h mi s))
      = [(y : Int), (mo : Int), (d : Int), (h : Int), (mi : Int), (s : Int)] := by
  rw [cstr_datetime_literal]
  have ht := sscanf_time_tail h mi s hh hmi hs []
  simp only [List.append_nil] at ht
  have hfmt : datetime_format = ScanItem.int 4 :: ScanItem.lit 45 :: ScanItem.int 2 ::
      ScanItem.lit 45 :: ScanItem.int 2 :: (ScanItem.ws :: time_format) := rfl
  rw [hfmt, sscanf_int_cons 4 _ _ _ _ (scan_int_pad4 y hy _),
    sscanf_date_tail mo d hmo hd, ht]
theorem to_unsigned_int_natCast (n : Nat) (h : n < 4294967296) :
    to_unsigned_int (n : Int) = n := by
  unfold to_unsigned_int
  omega

theorem to_int_of_lt (n : Nat) (h : n < 2147483648) : to_int n = (n : Int) := by
  unfold to_int
  have h1 : n % 4294967296 = n := Nat.mod_eq_of_lt (by omega)
  rw [h1]
  simp [h]

theorem linear_seconds_eq_zero (y mo d h mi s : Nat) :
    linear_seconds y mo d h mi s = 0 ↔
      (y = 0 ∧ mo = 0 ∧ d = 0 ∧ h = 0 ∧ mi = 0 ∧ s = 0) := by
  unfold linear_seconds
  omega

/-- The datetime case of the text decoder on a parse into six components that
the format admits. -/
theorem fetch_row_datetime_of_parse (b : Build) (db_timezone : Zone)
    (app_timezone : Option Zone) (ptr : List Nat) (y mo d h mi s : Nat)
    (hparse : sscanf datetime_format (cstr ptr)
      = [(y : Int), (mo : Int), (d : Int), (h : Int), (mi : Int), (s : Int)])
    (hy : y ≤ 9999) (hmo : mo ≤ 99) (hd : d ≤ 99) (hh : h ≤ 99) (hmi : mi ≤ 99)
    (hs : s ≤ 99) :
    fetch_row_datetime b db_timezone app_timezone ptr =
      if linear_seconds y mo d h mi s = 0 then .ok Value.qnil
      else if mo < 1 ∨ d < 1 then .error (DecodeError.mysql2 (invalid_date_message ptr))
      else if linear_seconds y mo d h mi s < MYSQL2_MIN_TIME b ∨
          linear_seconds y mo d h mi s > MYSQL2_MAX_TIME b then
        .ok (Value.datetime y mo d h mi s
          (if db_timezone = Zone.local then Offset.local_offset else Offset.zero)
          (app_timezone.map
            (fun z => if z = Zone.local then Offset.local_offset else Offset.zero)))
      else .ok (Value.time db_timezone y mo d h mi s app_timezone) := by
  have hL : (y * 31557600 + mo * 2592000 + d * 86400 + h * 3600 + mi * 60 + s) % 2 ^ 64
      = linear_seconds y mo d h mi s := by
    unfold linear_seconds
    apply Nat.mod_eq_of_lt
    have : (2 : Nat) ^ 64 = 18446744073709551616 := by norm_num
    omega
  unfold fetch_row_datetime
  rw [hparse]
  simp only [to_unsigned_int_natCast y (by omega), to_unsigned_int_natCast mo (by omega),
    to_unsigned_int_natCast d (by omega), to_unsigned_int_natCast h (by omega),
    to_unsigned_int_natCast mi (by omega), to_unsigned_int_natCast s (by omega),
    to_int_of_lt y (by omega), to_int_of_lt mo (by omega), to_int_of_lt d (by omega),
    to_int_of_lt h (by omega), to_int_of_lt mi (by omega), to_int_of_lt s (by omega), hL]
  by_cases h0 : linear_seconds y mo d h mi s = 0
  · simp [h0]
  · by_cases h1 : mo < 1 ∨ d < 1
    · have h1b : (decide (mo < 1) || decide (d < 1)) = true := by simpa using h1
      simp [h0, h1, h1b]
    · have h1b : (decide (mo < 1) || decide (d < 1)) = false := by
        simpa using h1
      by_cases h2 : linear_seconds y mo d h mi s < MYSQL2_MIN_TIME b ∨
          linear_seconds y mo d h mi s > MYSQL2_MAX_TIME b
      · have h2b : (decide (linear_seconds y mo d h mi s < MYSQL2_MIN_TIME b) ||
            decide (linear_seconds y mo d h mi s > MYSQL2_MAX_TIME b)) = true := by
          simpa using h2
        simp only [h0, if_false, h1b, Bool.false_eq_true, h1, h2b, if_true, h2]
      · have h2b : (decide (linear_seconds y mo d h mi s < MYSQL2_MIN_TIME b) ||
            decide (linear_seconds y mo d h mi s > MYSQL2_MAX_TIME b)) = false := by
          simpa using h2
        simp only [h0, if_false, h1b, Bool.false_eq_true, h1, h2b, h2]
theorem fetch_row_value_of_datetime (b : Build) (es : EncodingSupport) (libc : Libc)
    (db_timezone : Zone) (app_timezone : Option Zone) (castBool : Bool)
    (field : MYSQL_FIELD) (ptr : List Nat) (len : Nat)
    (ht : field.type = FieldType.MYSQL_TYPE_TIMESTAMP ∨
      field.type = FieldType.MYSQL_TYPE_DATETIME) :
    rb_mysql_result_fetch_row_value b es libc db_timezone app_timezone castBool true
        field (some ptr) len
      = fetch_row_datetime b db_timezone app_timezone ptr := by
  rcases ht with ht | ht <;> simp [rb_mysql_result_fetch_row_value, ht]

/-- C13. With cast enabled, a non-NULL date / new-date column whose literal
is scanned by `"%4d-%2d-%2d"` into `(year, month, day)` decodes to `nil` when
all three are zero, raises the error with message `Invalid date: ` followed by
the literal when they are not all zero but month or day is zero, and decodes
to the date `(year, month, day)` otherwise; every literal `YYYY-MM-DD` is
scanned into its three components. -/
theorem C13_date_decoding (b : Build) (es : EncodingSupport) (libc : Libc)
    (db_timezone : Zone) (app_timezone : Option Zone) (castBool : Bool)
    (field : MYSQL_FIELD) (ptr : List Nat) (len : Nat)
    (ht : field.type = FieldType.MYSQL_TYPE_DATE ∨
      field.type = FieldType.MYSQL_TYPE_NEWDATE)
    (year month day : Nat)
    (hparse : sscanf date_format (cstr ptr) = [(year : Int), (month : Int), (day : Int)]) :
    (year = 0 ∧ month = 0 ∧ day = 0 →
      rb_mysql_result_fetch_row_value b es libc db_timezone app_timezone castBool true
          field (some ptr) len = .ok Value.qnil) ∧
    (¬ (year = 0 ∧ month = 0 ∧ day = 0) → (month = 0 ∨ day = 0) →
      rb_mysql_result_fetch_row_value b es libc db_timezone app_timezone castBool true
          field (some ptr) len
        = .error (DecodeError.mysql2
            ([73, 110, 118, 97, 108, 105, 100, 32, 100, 97, 116, 101, 58, 32] ++ cstr ptr))) ∧
    (month ≠ 0 → day ≠ 0 →
      rb_mysql_result_fetch_row_value b es libc db_timezone app_timezone castBool true
          field (some ptr) len = .ok (Value.date year month day)) ∧
    (∀ y m d : Nat, y < 10000 → m < 100 → d < 100 →
      sscanf date_format (cstr (date_literal y m d)) = [(y : Int), (m : Int), (d : Int)]) := by
  have hdec : rb_mysql_result_fetch_row_value b es libc db_timezone app_timezone castBool true
      field (some ptr) len = fetch_row_date ptr := by
    rcases ht with ht | ht <;> simp [rb_mysql_result_fetch_row_value, ht]
  rw [hdec]
  unfold fetch_row_date
  rw [hparse]
  refine ⟨?_, ?_, ?_, sscanf_date_literal⟩
  · rintro ⟨h1, h2, h3⟩
    simp [h1, h2, h3]
  · intro hnz hz
    have hs : ¬ ((year : Int) + month + day = 0) := by omega
    have hb : (decide ((month : Int) < 1) || decide ((day : Int) < 1)) = true := by
      rcases hz with hz | hz
      · simp [hz]
      · simp [hz]
    simp only [hs, if_false, hb, if_true, invalid_date_message]
  · intro hm hd
    have hs : ¬ ((year : Int) + month + day = 0) := by omega
    have hb : (decide ((month : Int) < 1) || decide ((day : Int) < 1)) = false := by
      have h1 : ¬ ((month : Int) < 1) := by omega
      have h2 : ¬ ((day : Int) < 1) := by omega
      simp [h1, h2]
    simp only [hs, if_false, hb, Bool.false_eq_true]

theorem C13_date_decoding_witness :
    (dateField.type = FieldType.MYSQL_TYPE_DATE ∨
      dateField.type = FieldType.MYSQL_TYPE_NEWDATE) ∧
    sscanf date_format (cstr [50, 48, 50, 52, 45, 48, 48, 45, 49, 53, 0])
      = [((2024 : Nat) : Int), ((0 : Nat) : Int), ((15 : Nat) : Int)] ∧
    rb_mysql_result_fetch_row_value build19 esUtf8Internal libcNonZero Zone.local none false
        true dateField (some [50, 48, 50, 52, 45, 48, 48, 45, 49, 53, 0]) 10
      = .error (DecodeError.mysql2
          ([73, 110, 118, 97, 108, 105, 100, 32, 100, 97, 116, 101, 58, 32]
            ++ [50, 48, 50, 52, 45, 48, 48, 45, 49, 53])) ∧
    rb_mysql_result_fetch_row_value build19 esUtf8Internal libcNonZero Zone.local none false
        true dateField (some [48, 48, 48, 48, 45, 48, 48, 45, 48, 48, 0]) 10
      = .ok Value.qnil ∧
    rb_mysql_result_fetch_row_value build19 esUtf8Internal libcNonZero Zone.local none false
        true dateField (some [50, 48, 50, 52, 45, 48, 51, 45, 49, 53, 0]) 10
      = .ok (Value.date 2024 3 15) :=
  ⟨Or.inl rfl, by decide,
    (C13_date_decoding build19 esUtf8Internal libcNonZero Zone.local none false dateField
      [50, 48, 50, 52, 45, 48, 48, 45, 49, 53, 0] 10 (Or.inl rfl) 2024 0 15
      (by decide)).2.1 (by decide) (Or.inl rfl),
    (C13_date_decoding build19 esUtf8Internal libcNonZero Zone.local none false dateField
      [48, 48, 48, 48, 45, 48, 48, 45, 48, 48, 0] 10 (Or.inl rfl) 0 0 0
      (by decide)).1 ⟨rfl, rfl, rfl⟩,
    (C13_date_decoding build19 esUtf8Internal libcNonZero Zone.local none false dateField
      [50, 48, 50, 52, 45, 48, 51, 45, 49, 53, 0] 10 (Or.inl rfl) 2024 3 15
      (by decide)).2.2.1 (by decide) (by decide)⟩
/-- C14. With cast enabled, a non-NULL datetime / timestamp column whose
literal is scanned into `(Y, M, D, h, m, s)` (each within the width of its
conversion, so the linear value `L` is computed without overflow): the result
is `nil` iff `L = 0`, which holds iff all six components are zero; otherwise
`Invalid date` is raised if `M < 1` or `D < 1`; otherwise the value is
`DateTime.civil` with offset 0, or the local offset when the database
timezone is local, if `L < MYSQL2_MIN_TIME` or `L > MYSQL2_MAX_TIME`, and
`Time` in the database timezone if `MYSQL2_MIN_TIME ≤ L ≤ MYSQL2_MAX_TIME`. -/
theorem C14_datetime_decoding (b : Build) (es : EncodingSupport) (libc : Libc)
    (db_timezone : Zone) (app_timezone : Option Zone) (castBool : Bool)
    (field : MYSQL_FIELD) (ptr : List Nat) (len : Nat)
    (ht : field.type = FieldType.MYSQL_TYPE_TIMESTAMP ∨
      field.type = FieldType.MYSQL_TYPE_DATETIME)
    (y mo d h mi s : Nat)
    (hparse : sscanf datetime_format (cstr ptr)
      = [(y : Int), (mo : Int), (d : Int), (h : Int), (mi : Int), (s : Int)])
    (hy : y ≤ 9999) (hmo : mo ≤ 99) (hd : d ≤ 99) (hh : h ≤ 99) (hmi : mi ≤ 99)
    (hs : s ≤ 99) :
    (rb_mysql_result_fetch_row_value b es libc db_timezone app_timezone castBool true
        field (some ptr) len = .ok Value.qnil
      ↔ linear_seconds y mo d h mi s = 0) ∧
    (linear_seconds y mo d h mi s = 0
      ↔ (y = 0 ∧ mo = 0 ∧ d = 0 ∧ h = 0 ∧ mi = 0 ∧ s = 0)) ∧
    (linear_seconds y mo d h mi s ≠ 0 → (mo < 1 ∨ d < 1) →
      rb_mysql_result_fetch_row_value b es libc db_timezone app_timezone castBool true
          field (some ptr) len
        = .error (DecodeError.mysql2
            ([73, 110, 118, 97, 108, 105, 100, 32, 100, 97, 116, 101, 58, 32] ++ cstr ptr))) ∧
    (1 ≤ mo → 1 ≤ d →
      (linear_seconds y mo d h mi s < MYSQL2_MIN_TIME b ∨
        linear_seconds y mo d h mi s > MYSQL2_MAX_TIME b) →
      rb_mysql_result_fetch_row_value b es libc db_timezone app_timezone castBool true
          field (some ptr) len
        = .ok (Value.datetime y mo d h mi s
            (if db_timezone = Zone.local then Offset.local_offset else Offset.zero)
            (app_timezone.map
              (fun z => if z = Zone.local then Offset.local_offset else Offset.zero)))) ∧
    (1 ≤ mo → 1 ≤ d →
      MYSQL2_MIN_TIME b ≤ linear_seconds y mo d h mi s →
      linear_seconds y mo d h mi s ≤ MYSQL2_MAX_TIME b →
      rb_mysql_result_fetch_row_value b es libc db_timezone app_timezone castBool true
          field (some ptr) len
        = .ok (Value.time db_timezone y mo d h mi s app_timezone)) := by
  rw [fetch_row_value_of_datetime b es libc db_timezone app_timezone castBool field ptr len ht,
    fetch_row_datetime_of_parse b db_timezone app_timezone ptr y mo d h mi s hparse
      hy hmo hd hh hmi hs]
  refine ⟨?_, linear_seconds_eq_zero y mo d h mi s, ?_, ?_, ?_⟩
  · constructor
    · intro hres
      by_contra h0
      by_cases h1 : mo < 1 ∨ d < 1
      · simp only [h0, if_false, h1, if_true] at hres
        cases hres
      · by_cases h2 : linear_seconds y mo d h mi s < MYSQL2_MIN_TIME b ∨
            linear_seconds y mo d h mi s > MYSQL2_MAX_TIME b
        · simp only [h0, if_false, h1, h2, if_true] at hres
          injection hres with hres
          cases hres
        · simp only [h0, if_false, h1, h2] at hres
          injection hres with hres
          cases hres
    · intro h0
      simp [h0]
  · intro h0 h1
    simp only [h0, if_false, h1, if_true, invalid_date_message]
  · intro h1 h2 h3
    have h0 : linear_seconds y mo d h mi s ≠ 0 := by
      intro hz
      have := (linear_seconds_eq_zero y mo d h mi s).mp hz
      omega
    have h12 : ¬ (mo < 1 ∨ d < 1) := by omega
    simp only [h0, if_false, h12, h3, if_true]
  · intro h1 h2 h3 h4
    have h0 : linear_seconds y mo d h mi s ≠ 0 := by
      intro hz
      have := (linear_seconds_eq_zero y mo d h mi s).mp hz
      omega
    have h12 : ¬ (mo < 1 ∨ d < 1) := by omega
    have h34 : ¬ (linear_seconds y mo d h mi s < MYSQL2_MIN_TIME b ∨
        linear_seconds y mo d h mi s > MYSQL2_MAX_TIME b) := by omega
    simp only [h0, if_false, h12, h34]

theorem C14_datetime_decoding_witness :
    (datetimeField.type = FieldType.MYSQL_TYPE_TIMESTAMP ∨
      datetimeField.type = FieldType.MYSQL_TYPE_DATETIME) ∧
    sscanf datetime_format (cstr lastSecondLiteral)
      = [((9999 : Nat) : Int), ((12 : Nat) : Int), ((31 : Nat) : Int), ((23 : Nat) : Int),
          ((59 : Nat) : Int), ((59 : Nat) : Int)] ∧
    (linear_seconds 9999 12 31 23 59 59 < MYSQL2_MIN_TIME build19 ∨
      linear_seconds 9999 12 31 23 59 59 > MYSQL2_MAX_TIME build19) ∧
    rb_mysql_result_fetch_row_value build19 esUtf8Internal libcNonZero Zone.utc
        (some Zone.local) false true datetimeField (some lastSecondLiteral) 19
      = .ok (Value.datetime 9999 12 31 23 59 59 Offset.zero (some Offset.local_offset)) :=
  ⟨Or.inr rfl, by decide, Or.inr (by decide),
    (C14_datetime_decoding build19 esUtf8Internal libcNonZero Zone.utc (some Zone.local) false
      datetimeField lastSecondLiteral 19 (Or.inr rfl) 9999 12 31 23 59 59 (by decide)
      (by decide) (by decide) (by decide) (by decide) (by decide)
      (by decide)).2.2.2.1 (by decide) (by decide) (Or.inr (by decide))⟩
/-- C15 as stated fails in a build with encoding support: there the minimum
bound is 2678400, the literal `0001-01-01 00:00:00` has linear value 34236000,
which is not below it, and the literal decodes to a `Time`, not to a
`DateTime`. -/
theorem C15_year_one_counterexample :
    linear_seconds 1 1 1 0 0 0 = 34236000 ∧
    MYSQL2_MIN_TIME build19 = 2678400 ∧
    ¬ (linear_seconds 1 1 1 0 0 0 < MYSQL2_MIN_TIME build19) ∧
    rb_mysql_result_fetch_row_value build19 esUtf8Internal libcNonZero Zone.local none false
        true datetimeField (some yearOneLiteral) 19
      = .ok (Value.time Zone.local 1 1 1 0 0 0 none) := by
  refine ⟨by decide, by decide, by decide, ?_⟩
  rfl

/-- C15, amended. The literal `0001-01-01 00:00:00` has linear value 34236000.
In a build without encoding support it lies below the minimum bound and
decodes to `DateTime.civil` with an explicit offset; in a build with encoding
support the minimum bound is 2678400, the value lies within the bounds, and
the literal decodes to a `Time`.  The literal `2024-03-01 10:00:00` lies
within the bounds of every build and decodes to a `Time`. -/
theorem C15_year_one_and_2024 (b : Build) (es : EncodingSupport) (libc : Libc)
    (db_timezone : Zone) (app_timezone : Option Zone) (castBool : Bool)
    (field : MYSQL_FIELD) (len : Nat)
    (ht : field.type = FieldType.MYSQL_TYPE_TIMESTAMP ∨
      field.type = FieldType.MYSQL_TYPE_DATETIME) :
    linear_seconds 1 1 1 0 0 0 = 34236000 ∧
    (b.have_ruby_encoding_h = false →
      linear_seconds 1 1 1 0 0 0 < MYSQL2_MIN_TIME b ∧
      rb_mysql_result_fetch_row_value b es libc db_timezone app_timezone castBool true
          field (some yearOneLiteral) len
        = .ok (Value.datetime 1 1 1 0 0 0
            (if db_timezone = Zone.local then Offset.local_offset else Offset.zero)
            (app_timezone.map
              (fun z => if z = Zone.local then Offset.local_offset else Offset.zero)))) ∧
    (b.have_ruby_encoding_h = true →
      MYSQL2_MIN_TIME b = 2678400 ∧
      MYSQL2_MIN_TIME b ≤ linear_seconds 1 1 1 0 0 0 ∧
      linear_seconds 1 1 1 0 0 0 ≤ MYSQL2_MAX_TIME b ∧
      rb_mysql_result_fetch_row_value b es libc db_timezone app_timezone castBool true
          field (some yearOneLiteral) len
        = .ok (Value.time db_timezone 1 1 1 0 0 0 app_timezone)) ∧
    MYSQL2_MIN_TIME b ≤ linear_seconds 2024 3 1 10 0 0 ∧
    linear_seconds 2024 3 1 10 0 0 ≤ MYSQL2_MAX_TIME b ∧
    rb_mysql_result_fetch_row_value b es libc db_timezone app_timezone castBool true
        field (some year2024Literal) len
      = .ok (Value.time db_timezone 2024 3 1 10 0 0 app_timezone) := by
  have h1 := fetch_row_datetime_of_parse b db_timezone app_timezone yearOneLiteral
    1 1 1 0 0 0 (by decide) (by decide) (by decide) (by decide) (by decide) (by decide)
    (by decide)
  have h2 := fetch_row_datetime_of_parse b db_timezone app_timezone year2024Literal
    2024 3 1 10 0 0 (by decide) (by decide) (by decide) (by decide) (by decide) (by decide)
    (by decide)
  have hL1 : linear_seconds 1 1 1 0 0 0 = 34236000 := by decide
  have hL2 : linear_seconds 2024 3 1 10 0 0 = 63880480800 := by decide
  rw [fetch_row_value_of_datetime b es libc db_timezone app_timezone castBool field _ len ht,
    fetch_row_value_of_datetime b es libc db_timezone app_timezone castBool field _ len ht,
    h1, h2, hL1, hL2]
  obtain ⟨e, l, n⟩ := b
  cases e <;> cases l <;> cases n <;>
    simp [MYSQL2_MIN_TIME, MYSQL2_MAX_TIME]

theorem C15_year_one_and_2024_witness :
    (datetimeField.type = FieldType.MYSQL_TYPE_TIMESTAMP ∨
      datetimeField.type = FieldType.MYSQL_TYPE_DATETIME) ∧
    build18.have_ruby_encoding_h = false ∧
    linear_seconds 1 1 1 0 0 0 < MYSQL2_MIN_TIME build18 ∧
    rb_mysql_result_fetch_row_value build18 esUtf8Internal libcNonZero Zone.utc none false
        true datetimeField (some yearOneLiteral) 19
      = .ok (Value.datetime 1 1 1 0 0 0
          (if Zone.utc = Zone.local then Offset.local_offset else Offset.zero)
          ((none : Option Zone).map
            (fun z => if z = Zone.local then Offset.local_offset else Offset.zero))) ∧
    rb_mysql_result_fetch_row_value build18 esUtf8Internal libcNonZero Zone.utc none false
        true datetimeField (some year2024Literal) 19
      = .ok (Value.time Zone.utc 2024 3 1 10 0 0 none) :=
  have h := C15_year_one_and_2024 build18 esUtf8Internal libcNonZero Zone.utc none false
    datetimeField 19 (Or.inr rfl)
  ⟨Or.inr rfl, rfl, (h.2.1 rfl).1, (h.2.1 rfl).2, h.2.2.2.2.2⟩

/-! ## Theorems: binary protocol -/

theorem buffer_unsigned_one (buffer : List Nat) :
    buffer_unsigned 1 buffer = buffer.getD 0 0 % 256 := by
  simp [buffer_unsigned, List.range_succ]

/-- C12 as stated fails: with cast disabled and boolean casting enabled, the
text decoder returns the raw string for a `TINYINT(1)` column, neither a
boolean nor an integer. -/
theorem C12_cast_disabled_counterexample :
    tinyField.type = FieldType.MYSQL_TYPE_TINY ∧ tinyField.length = 1 ∧
    rb_mysql_result_fetch_row_value build19 esUtf8Internal libcNonZero Zone.local none
        true false tinyField (some [49, 0]) 1
      = .ok (Value.string { bytes := [49], enc := some Encoding.binary }) ∧
    rb_mysql_result_fetch_row_value build19 esUtf8Internal libcNonZero Zone.local none
        true false tinyField (some [49, 0]) 1 ≠ .ok Value.qtrue ∧
    rb_mysql_result_fetch_row_value build19 esUtf8Internal libcNonZero Zone.local none
        true false tinyField (some [49, 0]) 1 ≠ .ok Value.qfalse := by
  have h : rb_mysql_result_fetch_row_value build19 esUtf8Internal libcNonZero Zone.local none
        true false tinyField (some [49, 0]) 1
      = .ok (Value.string { bytes := [49], enc := some Encoding.binary }) := by
    rfl
  refine ⟨rfl, rfl, h, ?_, ?_⟩ <;>
  · rw [h]
    intro hn
    injection hn with hn
    cases hn

/-- C12, amended. For a non-NULL tiny-integer column decoded by the text
decoder with cast enabled, or by the binary decoder: when boolean casting is
enabled and the declared length is 1 the value is a boolean — in the text
decoder `false` exactly when the first character of the literal is `0`, in the
binary decoder `false` exactly when the buffered byte is 0 — and otherwise it
is an integer (parsed from the literal, or read from the buffer). -/
theorem C12_boolean_coercion (b : Build) (es : EncodingSupport) (libc : Libc)
    (db_timezone : Zone) (app_timezone : Option Zone) (castBool : Bool)
    (field : MYSQL_FIELD) (ptr : List Nat) (len : Nat)
    (result_buffer : MYSQL_BIND) (cell : StmtCell)
    (ht : field.type = FieldType.MYSQL_TYPE_TINY)
    (hb : result_buffer.buffer_type = FieldType.MYSQL_TYPE_TINY)
    (hnull : cell.is_null = false) :
    (castBool = true ∧ field.length = 1 →
      rb_mysql_result_fetch_row_value b es libc db_timezone app_timezone castBool true
          field (some ptr) len
        = .ok (if ptr.headD 0 = 48 then Value.qfalse else Value.qtrue) ∧
      rb_mysql_result_stmt_fetch_row_value b es db_timezone app_timezone castBool
          field result_buffer cell
        = .ok (if cell.buffer.getD 0 0 % 256 = 0 then Value.qfalse else Value.qtrue)) ∧
    (¬ (castBool = true ∧ field.length = 1) →
      rb_mysql_result_fetch_row_value b es libc db_timezone app_timezone castBool true
          field (some ptr) len
        = .ok (Value.integer (rb_cstr2inum ptr)) ∧
      rb_mysql_result_stmt_fetch_row_value b es db_timezone app_timezone castBool
          field result_buffer cell
        = .ok (Value.integer (buffer_integer 1 result_buffer.is_unsigned cell.buffer))) := by
  constructor
  · rintro ⟨h1, h2⟩
    constructor
    · by_cases hp : ptr.headD 0 = 48 <;>
        simp [rb_mysql_result_fetch_row_value, ht, h1, h2, hp]
    · by_cases hp : cell.buffer.getD 0 0 % 256 = 0 <;>
        simp [rb_mysql_result_stmt_fetch_row_value, hb, hnull, h1, h2, hp,
          buffer_unsigned_one]
  · intro h
    have hc : (castBool && decide (field.length = 1)) = false := by
      cases castBool
      · rfl
      · simpa using h
    constructor
    · simp [rb_mysql_result_fetch_row_value, ht, hc]
    · simp [rb_mysql_result_stmt_fetch_row_value, hb, hnull, hc]

theorem C12_boolean_coercion_witness :
    tinyField.type = FieldType.MYSQL_TYPE_TINY ∧
    tinyBind.buffer_type = FieldType.MYSQL_TYPE_TINY ∧ cellFF.is_null = false ∧
    rb_mysql_result_fetch_row_value build19 esUtf8Internal libcNonZero Zone.local none
        true true tinyField (some [48, 0]) 1 = .ok Value.qfalse ∧
    rb_mysql_result_stmt_fetch_row_value build19 esUtf8Internal Zone.local none true
        tinyField tinyBind cellFF = .ok Value.qtrue ∧
    rb_mysql_result_fetch_row_value build19 esUtf8Internal libcNonZero Zone.local none
        false true tinyField (some [48, 0]) 1 = .ok (Value.integer 0) ∧
    rb_mysql_result_stmt_fetch_row_value build19 esUtf8Internal Zone.local none false
        tinyField tinyBind cellFF = .ok (Value.integer (-1)) :=
  have h1 := (C12_boolean_coercion build19 esUtf8Internal libcNonZero Zone.local none true
    tinyField [48, 0] 1 tinyBind cellFF rfl rfl rfl).1 ⟨rfl, rfl⟩
  have h2 := (C12_boolean_coercion build19 esUtf8Internal libcNonZero Zone.local none false
    tinyField [48, 0] 1 tinyBind cellFF rfl rfl rfl).2 (by decide)
  ⟨rfl, rfl, rfl, h1.1, h1.2, h2.1, h2.2⟩

theorem buffer_unsigned_lt (n : Nat) (buffer : List Nat) :
    buffer_unsigned n buffer < 2 ^ (8 * n) := by
  have h256 : ∀ k : Nat, (2 : Nat) ^ (8 * k) = 256 ^ k := by
    intro k
    rw [pow_mul]
    norm_num
  rw [h256]
  unfold buffer_unsigned
  induction n with
  | zero => simp
  | succ n ih =>
    rw [List.range_succ, List.map_append, List.sum_append]
    simp only [List.map_cons, List.map_nil, List.sum_cons, List.sum_nil, Nat.add_zero]
    have hb : buffer.getD n 0 % 256 < 256 := Nat.mod_lt _ (by decide)
    have hm : buffer.getD n 0 % 256 * 256 ^ n ≤ 255 * 256 ^ n :=
      Nat.mul_le_mul_right _ (by omega)
    have hp : 256 ^ (n + 1) = 256 * 256 ^ n := by rw [pow_succ]; ring
    omega

theorem to_signed_bounds (bits : Nat) (hbits : 1 ≤ bits) (u : Nat) (hu : u < 2 ^ bits) :
    -((2 ^ (bits - 1) : Nat) : Int) ≤ to_signed bits u ∧
    to_signed bits u < ((2 ^ (bits - 1) : Nat) : Int) ∧
    (to_signed bits u = (u : Int) ∨ to_signed bits u = (u : Int) - ((2 ^ bits : Nat) : Int)) ∧
    (u < 2 ^ (bits - 1) → to_signed bits u = (u : Int)) ∧
    (2 ^ (bits - 1) ≤ u → to_signed bits u = (u : Int) - ((2 ^ bits : Nat) : Int)) := by
  have hp : 2 ^ bits = 2 * 2 ^ (bits - 1) := by
    have : bits = (bits - 1) + 1 := by omega
    conv_lhs => rw [this, pow_succ]
    ring
  have hpz : ((2 ^ bits : Nat) : Int) = 2 * ((2 ^ (bits - 1) : Nat) : Int) := by
    rw [hp]
    push_cast
    ring
  unfold to_signed
  rw [hpz]
  rw [hp] at hu
  generalize 2 ^ (bits - 1) = P at hu ⊢
  by_cases h : u < P
  · rw [if_pos h]
    refine ⟨by omega, by omega, Or.inl rfl, fun _ => rfl, fun h2 => by omega⟩
  · rw [if_neg h]
    refine ⟨by omega, by omega, Or.inr rfl, fun h2 => by omega, fun _ => rfl⟩

theorem alloc_bind_ok_type (b : Build) (field : MYSQL_FIELD) (bind : MYSQL_BIND)
    (h : alloc_bind b field = .ok bind) :
    bind.buffer_type = field.type ∧
    bind.is_unsigned = decide ((field.flags &&& UNSIGNED_FLAG) ≠ 0) ∧
    bind.bound = true ∧
    alloc_buffer_size b field = some (bind.buffer, bind.buffer_length) := by
  unfold alloc_bind at h
  cases hs : alloc_buffer_size b field with
  | none => rw [hs] at h; cases h
  | some p =>
    obtain ⟨a, l⟩ := p
    rw [hs] at h
    injection h with h
    subst h
    exact ⟨rfl, rfl, rfl, rfl⟩

/-- C17 as stated fails for a tiny column under boolean coercion: with
boolean casting enabled a `TINYINT(1)` column whose buffer holds `0xFF`
decodes to `true`, not to an integer. -/
theorem C17_tiny_boolean_counterexample :
    tinyField.type = FieldType.MYSQL_TYPE_TINY ∧ cellFF.is_null = false ∧
    alloc_bind build19 tinyField = .ok tinyBind ∧
    rb_mysql_result_stmt_fetch_row_value build19 esUtf8Internal Zone.local none true
        tinyField tinyBind cellFF = .ok Value.qtrue ∧
    ∀ n : Int,
      rb_mysql_result_stmt_fetch_row_value build19 esUtf8Internal Zone.local none true
          tinyField tinyBind cellFF ≠ .ok (Value.integer n) := by
  have h : rb_mysql_result_stmt_fetch_row_value build19 esUtf8Internal Zone.local none true
      tinyField tinyBind cellFF = .ok Value.qtrue := by
    rfl
  refine ⟨rfl, rfl, rfl, h, ?_⟩
  intro n hn
  rw [h] at hn
  injection hn with hn
  cases hn

/-- C17, amended. For a non-NULL column of type short, int24, long, year or
longlong, or of type tiny when boolean coercion does not apply, of width
`nbytes` bytes, bound by buffer allocation: the binary decoder yields the
integer read from the buffer; the bind's unsigned flag is the column's; the
buffer's bit pattern `u` is below `2^(8·nbytes)`; with the unsigned flag the
integer is `u`; without it the integer is the two's-complement reading of
`u`: `u` below `2^(8·nbytes-1)`, `u - 2^(8·nbytes)` from there on, hence in
`[-2^(8·nbytes-1), 2^(8·nbytes-1))`. -/
theorem C17_binary_integer_decoding (b : Build) (es : EncodingSupport)
    (db_timezone : Zone) (app_timezone : Option Zone) (castBool : Bool)
    (field : MYSQL_FIELD) (result_buffer : MYSQL_BIND) (cell : StmtCell) (nbytes : Nat)
    (halloc : alloc_bind b field = .ok result_buffer)
    (hw : integer_width field.type = some nbytes)
    (hcoerce : ¬ (field.type = FieldType.MYSQL_TYPE_TINY ∧ castBool = true ∧
      field.length = 1))
    (hnull : cell.is_null = false) :
    rb_mysql_result_stmt_fetch_row_value b es db_timezone app_timezone castBool
        field result_buffer cell
      = .ok (Value.integer (buffer_integer nbytes result_buffer.is_unsigned cell.buffer)) ∧
    (nbytes = 1 ∨ nbytes = 2 ∨ nbytes = 4 ∨ nbytes = 8) ∧
    result_buffer.is_unsigned = decide ((field.flags &&& UNSIGNED_FLAG) ≠ 0) ∧
    buffer_unsigned nbytes cell.buffer < 2 ^ (8 * nbytes) ∧
    ((field.flags &&& UNSIGNED_FLAG) ≠ 0 →
      buffer_integer nbytes result_buffer.is_unsigned cell.buffer
        = (buffer_unsigned nbytes cell.buffer : Int)) ∧
    ((field.flags &&& UNSIGNED_FLAG) = 0 →
      -((2 ^ (8 * nbytes - 1) : Nat) : Int)
        ≤ buffer_integer nbytes result_buffer.is_unsigned cell.buffer ∧
      buffer_integer nbytes result_buffer.is_unsigned cell.buffer
        < ((2 ^ (8 * nbytes - 1) : Nat) : Int) ∧
      (buffer_unsigned nbytes cell.buffer < 2 ^ (8 * nbytes - 1) →
        buffer_integer nbytes result_buffer.is_unsigned cell.buffer
          = (buffer_unsigned nbytes cell.buffer : Int)) ∧
      (2 ^ (8 * nbytes - 1) ≤ buffer_unsigned nbytes cell.buffer →
        buffer_integer nbytes result_buffer.is_unsigned cell.buffer
          = (buffer_unsigned nbytes cell.buffer : Int) - ((2 ^ (8 * nbytes) : Nat) : Int))) := by
  obtain ⟨hty, hun, _, _⟩ := alloc_bind_ok_type b field result_buffer halloc
  have hn : nbytes = 1 ∨ nbytes = 2 ∨ nbytes = 4 ∨ nbytes = 8 := by
    cases hft : field.type <;> rw [hft] at hw <;> simp [integer_width] at hw <;> omega
  have hlt := buffer_unsigned_lt nbytes cell.buffer
  refine ⟨?_, hn, hun, hlt, ?_, ?_⟩
  · cases hft : field.type <;> rw [hft] at hw <;> simp [integer_width] at hw
    · have hc : (castBool && decide (field.length = 1)) = false := by
        cases castBool
        · rfl
        · have : ¬ field.length = 1 := fun h => hcoerce ⟨hft, rfl, h⟩
          simpa using this
      subst hw
      simp [rb_mysql_result_stmt_fetch_row_value, hty, hft, hnull, hc]
    all_goals
      subst hw
      simp [rb_mysql_result_stmt_fetch_row_value, hty, hft, hnull]
  · intro hflag
    have : result_buffer.is_unsigned = true := by rw [hun]; simpa using hflag
    simp [buffer_integer, this]
  · intro hflag
    have hu : result_buffer.is_unsigned = false := by rw [hun]; simpa using hflag
    have hb := to_signed_bounds (8 * nbytes) (by omega) (buffer_unsigned nbytes cell.buffer) hlt
    simp only [buffer_integer, hu, Bool.false_eq_true, if_false]
    exact ⟨hb.1, hb.2.1, hb.2.2.2.1, hb.2.2.2.2⟩

theorem C17_binary_integer_decoding_witness :
    alloc_bind build19 { tinyField with type := FieldType.MYSQL_TYPE_SHORT, length := 6 }
      = .ok { tinyBind with buffer_type := FieldType.MYSQL_TYPE_SHORT, buffer_length := 2 } ∧
    integer_width FieldType.MYSQL_TYPE_SHORT = some 2 ∧
    rb_mysql_result_stmt_fetch_row_value build19 esUtf8Internal Zone.local none true
        { tinyField with type := FieldType.MYSQL_TYPE_SHORT, length := 6 }
        { tinyBind with buffer_type := FieldType.MYSQL_TYPE_SHORT, buffer_length := 2 }
        { cellFF with buffer := [254, 255], length := 2 }
      = .ok (Value.integer (buffer_integer 2 false [254, 255])) ∧
    buffer_integer 2 false [254, 255] = -2 ∧
    buffer_unsigned 2 [254, 255] = 65534 :=
  ⟨rfl, rfl,
    (C17_binary_integer_decoding build19 esUtf8Internal Zone.local none true
      { tinyField with type := FieldType.MYSQL_TYPE_SHORT, length := 6 }
      { tinyBind with buffer_type := FieldType.MYSQL_TYPE_SHORT, buffer_length := 2 }
      { cellFF with buffer := [254, 255], length := 2 } 2 rfl rfl (by decide) rfl).1,
    by decide, by decide⟩

theorem alloc_bind_follows_rule (b : Build) (f : MYSQL_FIELD) (bind : MYSQL_BIND)
    (h : alloc_bind b f = .ok bind) : BindFollowsRule b f bind := by
  obtain ⟨hty, hun, _, hsz⟩ := alloc_bind_ok_type b f bind h
  unfold BindFollowsRule
  refine ⟨hty, hun, ?_⟩
  cases hft : f.type <;> rw [alloc_buffer_size, hft] at hsz <;>
    simp only [Option.some.injEq, Prod.mk.injEq] at hsz <;>
    first
    | (obtain ⟨h1, h2⟩ := hsz
       simp [← h1, ← h2])
    | cases hsz

theorem alloc_bind_of_handled (b : Build) (f : MYSQL_FIELD)
    (h : ∀ c, f.type ≠ FieldType.other c) : ∃ bind, alloc_bind b f = .ok bind := by
  unfold alloc_bind alloc_buffer_size
  cases hft : f.type <;> simp
  exact h _ hft

theorem alloc_bind_of_other (b : Build) (f : MYSQL_FIELD) (c : Nat)
    (h : f.type = FieldType.other c) :
    alloc_bind b f = .error { zero_bind with buffer_type := FieldType.other c } := by
  simp [alloc_bind, alloc_buffer_size, h]

theorem alloc_binds_of_handled (b : Build) (fields : List MYSQL_FIELD)
    (h : ∀ f ∈ fields, ∀ c, f.type ≠ FieldType.other c) :
    (alloc_binds b fields).2 = none ∧
    List.Forall₂ (BindFollowsRule b) fields (alloc_binds b fields).1 := by
  induction fields with
  | nil => exact ⟨rfl, List.Forall₂.nil⟩
  | cons f fs ih =>
    obtain ⟨bind, hb⟩ := alloc_bind_of_handled b f (h f (List.mem_cons_self f fs))
    have ih2 := ih (fun g hg => h g (List.mem_cons_of_mem f hg))
    simp only [alloc_binds, hb]
    exact ⟨ih2.1, List.Forall₂.cons (alloc_bind_follows_rule b f bind hb) ih2.2⟩

theorem alloc_binds_of_unhandled (b : Build) (pre : List MYSQL_FIELD) (f : MYSQL_FIELD)
    (post : List MYSQL_FIELD) (c : Nat)
    (hpre : ∀ g ∈ pre, ∀ c, g.type ≠ FieldType.other c) (hf : f.type = FieldType.other c) :
    (alloc_binds b (pre ++ f :: post)).2 = some c := by
  induction pre with
  | nil =>
    simp only [List.nil_append, alloc_binds, alloc_bind_of_other b f c hf, hf]
    rfl
  | cons g gs ih =>
    obtain ⟨bind, hb⟩ := alloc_bind_of_handled b g (hpre g (List.mem_cons_self g gs))
    simp only [List.cons_append, alloc_binds, hb]
    exact ih (fun x hx => hpre x (List.mem_cons_of_mem g hx))

/-- C16. Buffer allocation on a result without buffers, for a field list of
`numberOfFields` entries: when every wire type is one the code names, it
returns normally and the bind array has one entry per column that follows the
sizing rule `BindFollowsRule` (1 / 2 / 4 / 8 bytes for the integer types, 8
for float and double, `sizeof(MYSQL_TIME)` for the temporal types, the
column's `max_length` for the decimal, character, blob, bit, set, enum and
geometry types, no buffer for the null type, the column's unsigned flag);
when a column has any other wire type it raises `unhandled mysql type` with
that type's code.  On a result that has buffers it does nothing at all, so a
second request after a first one changes nothing. -/
theorem C16_buffer_allocation (b : Build) (fields : List MYSQL_FIELD)
    (w : mysql2_result_wrapper) (hn : w.numberOfFields = fields.length) :
    (w.result_buffers = none → (∀ f ∈ fields, ∀ c, f.type ≠ FieldType.other c) →
      (rb_mysql_result_alloc_result_buffers b fields w).ret = .ok () ∧
      ∃ binds, (rb_mysql_result_alloc_result_buffers b fields w).state.result_buffers
          = some binds ∧
        List.Forall₂ (BindFollowsRule b) fields binds) ∧
    (w.result_buffers = none →
      ∀ (pre : List MYSQL_FIELD) (f : MYSQL_FIELD) (post : List MYSQL_FIELD) (c : Nat),
        fields = pre ++ f :: post → (∀ g ∈ pre, ∀ c, g.type ≠ FieldType.other c) →
        f.type = FieldType.other c →
        (rb_mysql_result_alloc_result_buffers b fields w).ret
          = .error (RExc.unhandled_mysql_type c)) ∧
    (w.result_buffers ≠ none →
      (rb_mysql_result_alloc_result_buffers b fields w).ret = .ok () ∧
      (rb_mysql_result_alloc_result_buffers b fields w).state = w ∧
      (rb_mysql_result_alloc_result_buffers b fields w).trace = []) ∧
    (rb_mysql_result_alloc_result_buffers b fields
        (rb_mysql_result_alloc_result_buffers b fields w).state).state
      = (rb_mysql_result_alloc_result_buffers b fields w).state := by
  have htake : fields.take w.numberOfFields = fields := by
    rw [hn]; exact List.take_length fields
  have hsecond : ∀ w' : mysql2_result_wrapper, w'.result_buffers ≠ none →
      rb_mysql_result_alloc_result_buffers b fields w' = ROutcome.pure () w' := by
    intro w' h
    cases hb : w'.result_buffers with
    | none => exact absurd hb h
    | some x => simp [rb_mysql_result_alloc_result_buffers, hb]
  refine ⟨?_, ?_, ?_, ?_⟩
  · intro hnone hall
    obtain ⟨h1, h2⟩ := alloc_binds_of_handled b fields hall
    have hout : rb_mysql_result_alloc_result_buffers b fields w
        = ROutcome.pure () { w with result_buffers := some (alloc_binds b fields).1 } := by
      simp only [rb_mysql_result_alloc_result_buffers, hnone, htake, h1, Option.isSome_none,
        Bool.false_eq_true, if_false]
    rw [hout]
    exact ⟨rfl, _, rfl, h2⟩
  · intro hnone pre f post c hfields hpre hf
    have h1 := alloc_binds_of_unhandled b pre f post c hpre hf
    rw [← hfields] at h1
    have hout : rb_mysql_result_alloc_result_buffers b fields w
        = ROutcome.raise (RExc.unhandled_mysql_type c)
            { w with result_buffers := some (alloc_binds b fields).1 } [] := by
      simp only [rb_mysql_result_alloc_result_buffers, hnone, htake, h1, Option.isSome_none,
        Bool.false_eq_true, if_false]
    rw [hout]
    rfl
  · intro h
    rw [hsecond w h]
    exact ⟨rfl, rfl, rfl⟩
  · cases hb : w.result_buffers with
    | some x =>
      have h := hsecond w (by rw [hb]; exact Option.some_ne_none x)
      rw [h]
      show (rb_mysql_result_alloc_result_buffers b fields w).state = w
      rw [h]
      rfl
    | none =>
      apply congrArg ROutcome.state (hsecond _ _)
      simp only [rb_mysql_result_alloc_result_buffers, hb, Option.isSome_none,
        Bool.false_eq_true, if_false]
      cases (alloc_binds b (fields.take w.numberOfFields)).2 <;>
        simp [ROutcome.pure, ROutcome.raise]

theorem C16_buffer_allocation_witness :
    wThreeColumns.numberOfFields = [tinyField, decimalField, datetimeField].length ∧
    wThreeColumns.result_buffers = none ∧
    (rb_mysql_result_alloc_result_buffers build19 [tinyField, decimalField, datetimeField]
      wThreeColumns).ret = .ok () ∧
    (rb_mysql_result_alloc_result_buffers build19 [tinyField, decimalField, datetimeField]
      wThreeColumns).state.result_buffers
      = some
        [ { buffer_type := FieldType.MYSQL_TYPE_TINY, buffer := true, buffer_length := 1,
            is_unsigned := false, bound := true },
          { buffer_type := FieldType.MYSQL_TYPE_NEWDECIMAL, buffer := true,
            buffer_length := 5, is_unsigned := false, bound := true },
          { buffer_type := FieldType.MYSQL_TYPE_DATETIME, buffer := true,
            buffer_length := 40, is_unsigned := false, bound := true } ] ∧
    (rb_mysql_result_alloc_result_buffers build19 [tinyField, decimalField, datetimeField]
        (rb_mysql_result_alloc_result_buffers build19 [tinyField, decimalField, datetimeField]
          wThreeColumns).state).state
      = (rb_mysql_result_alloc_result_buffers build19 [tinyField, decimalField, datetimeField]
          wThreeColumns).state :=
  have h := C16_buffer_allocation build19 [tinyField, decimalField, datetimeField]
    wThreeColumns rfl
  ⟨rfl, rfl,
    (h.1 rfl (by
      intro f hf c
      simp only [List.mem_cons, List.mem_singleton, List.not_mem_nil, or_false] at hf
      rcases hf with rfl | rfl | rfl <;> simp [tinyField, decimalField, datetimeField])).1,
    by decide, h.2.2.2⟩

theorem decimal_digits_head (n : Nat) (hn : n ≠ 0) : (decimal_digits n).head? ≠ some 48 := by
  unfold decimal_digits
  simp only [hn, if_false, List.head?_map, List.head?_reverse]
  have hne : Nat.digits 10 n ≠ [] := Nat.digits_ne_nil_iff_ne_zero.mpr hn
  rw [List.getLast?_eq_getLast _ hne]
  have := Nat.getLast_digit_ne_zero 10 hn
  simp only [Option.map_some', ne_eq, Option.some.injEq]
  omega

/-- The base-10 literal of an integer starts with the character `0` exactly
when the integer is zero. -/
theorem int_literal_head (v : Int) : (int_literal v).headD 0 = 48 ↔ v = 0 := by
  unfold int_literal
  by_cases hneg : v < 0
  · simp only [hneg, if_true, List.cons_append, List.nil_append, List.headD_cons]
    constructor
    · intro h; omega
    · intro h; omega
  · simp only [hneg, if_false, List.nil_append, List.headD_eq_head?_getD, List.head?_append]
    by_cases h0 : v = 0
    · subst h0
      simp [decimal_digits]
    · have hn : v.natAbs ≠ 0 := by omega
      have hh := decimal_digits_head v.natAbs hn
      constructor
      · intro h
        exfalso
        cases hd : (decimal_digits v.natAbs).head? with
        | none =>
          have := decimal_digits_ne_nil v.natAbs
          cases hl : decimal_digits v.natAbs with
          | nil => exact this hl
          | cons a t => rw [hl] at hd; cases hd
        | some c =>
          rw [hd] at h hh
          simp only [Option.or_some, Option.getD_some] at h
          exact hh (by rw [h])
      · intro h; exact absurd h h0

theorem buffer_integer_one_eq_zero (is_unsigned : Bool) (buffer : List Nat) :
    buffer_integer 1 is_unsigned buffer = 0 ↔ buffer.getD 0 0 % 256 = 0 := by
  have hlt : buffer.getD 0 0 % 256 < 256 := Nat.mod_lt _ (by decide)
  unfold buffer_integer
  rw [buffer_unsigned_one]
  generalize buffer.getD 0 0 % 256 = x at hlt
  cases is_unsigned with
  | true =>
    simp only [if_true]
    omega
  | false =>
    simp only [Bool.false_eq_true, if_false, to_signed]
    norm_num
    split <;> omega

theorem stmt_fetch_row_datetime_of_valid (b : Build) (db_timezone : Zone)
    (app_timezone : Option Zone) (ts : MYSQL_TIME)
    (hy : ts.year ≤ 9999) (hmo : ts.month ≤ 99) (hd : ts.day ≤ 99) (hh : ts.hour ≤ 99)
    (hmi : ts.minute ≤ 99) (hs : ts.second ≤ 99) :
    stmt_fetch_row_datetime b db_timezone app_timezone ts =
      if linear_seconds ts.year ts.month ts.day ts.hour ts.minute ts.second
            < MYSQL2_MIN_TIME b ∨
          linear_seconds ts.year ts.month ts.day ts.hour ts.minute ts.second
            > MYSQL2_MAX_TIME b then
        Value.datetime ts.year ts.month ts.day ts.hour ts.minute ts.second
          (if db_timezone = Zone.local then Offset.local_offset else Offset.zero)
          (app_timezone.map
            (fun z => if z = Zone.local then Offset.local_offset else Offset.zero))
      else Value.time db_timezone ts.year ts.month ts.day ts.hour ts.minute ts.second
        app_timezone := by
  have e1 : ts.year % 4294967296 = ts.year := Nat.mod_eq_of_lt (by omega)
  have e2 : ts.month % 4294967296 = ts.month := Nat.mod_eq_of_lt (by omega)
  have e3 : ts.day % 4294967296 = ts.day := Nat.mod_eq_of_lt (by omega)
  have e4 : ts.hour % 4294967296 = ts.hour := Nat.mod_eq_of_lt (by omega)
  have e5 : ts.minute % 4294967296 = ts.minute := Nat.mod_eq_of_lt (by omega)
  have e6 : ts.second % 4294967296 = ts.second := Nat.mod_eq_of_lt (by omega)
  have hL : (ts.year * 31557600 + ts.month * 2592000 + ts.day * 86400 + ts.hour * 3600
      + ts.minute * 60 + ts.second) % 2 ^ 64
      = linear_seconds ts.year ts.month ts.day ts.hour ts.minute ts.second := by
    unfold linear_seconds
    apply Nat.mod_eq_of_lt
    have : (2 : Nat) ^ 64 = 18446744073709551616 := by norm_num
    omega
  unfold stmt_fetch_row_datetime
  simp only [e1, e2, e3, e4, e5, e6, hL]
  by_cases h2 : linear_seconds ts.year ts.month ts.day ts.hour ts.minute ts.second
        < MYSQL2_MIN_TIME b ∨
      linear_seconds ts.year ts.month ts.day ts.hour ts.minute ts.second > MYSQL2_MAX_TIME b
  · have h2b : (decide (linear_seconds ts.year ts.month ts.day ts.hour ts.minute ts.second
          < MYSQL2_MIN_TIME b) ||
        decide (linear_seconds ts.year ts.month ts.day ts.hour ts.minute ts.second
          > MYSQL2_MAX_TIME b)) = true := by
      simpa using h2
    simp only [h2b, if_true, h2]
  · have h2b : (decide (linear_seconds ts.year ts.month ts.day ts.hour ts.minute ts.second
          < MYSQL2_MIN_TIME b) ||
        decide (linear_seconds ts.year ts.month ts.day ts.hour ts.minute ts.second
          > MYSQL2_MAX_TIME b)) = false := by
      simpa using h2
    simp only [h2b, Bool.false_eq_true, if_false, h2]

/-- C18. The binary decoder at three inputs where the text decoder takes a
branch of its own: for a decimal column with declared digit count 0 holding
`12` the text decoder yields the integer 12 and the binary decoder the decimal
built from the bytes `12`; for the zero date the text decoder yields null and
the binary decoder the call `Date.new(0, 0, 0)`; for `2024-00-15` the text
decoder raises the invalid-date error and the binary decoder yields the call
`Date.new(2024, 0, 15)`. -/
theorem C18_binary_decoder_divergence :
    (decimalField0.decimals = 0 ∧
      rb_mysql_result_fetch_row_value build19 esUtf8Internal libcNonZero Zone.local none
          false true decimalField0 (some [49, 50, 0]) 2 = .ok (Value.integer 12) ∧
      rb_mysql_result_stmt_fetch_row_value build19 esUtf8Internal Zone.local none false
          decimalField0 decimalBind cell12
        = .ok (Value.big_decimal { bytes := [49, 50], enc := some Encoding.binary })) ∧
    (rb_mysql_result_fetch_row_value build19 esUtf8Internal libcNonZero Zone.local none
          false true dateField (some (date_literal 0 0 0)) 10 = .ok Value.qnil ∧
      rb_mysql_result_stmt_fetch_row_value build19 esUtf8Internal Zone.local none false
          dateField dateBind cellZeroDate = .ok (Value.date 0 0 0)) ∧
    (rb_mysql_result_fetch_row_value build19 esUtf8Internal libcNonZero Zone.local none
          false true dateField (some (date_literal 2024 0 15)) 10
        = .error (DecodeError.mysql2 (invalid_date_message (date_literal 2024 0 15))) ∧
      rb_mysql_result_stmt_fetch_row_value build19 esUtf8Internal Zone.local none false
          dateField dateBind cellZeroMonth = .ok (Value.date 2024 0 15)) :=
  ⟨⟨rfl, rfl, rfl⟩, ⟨rfl, rfl⟩, ⟨rfl, rfl⟩⟩

theorem fetch_row_value_of_integer (b : Build) (es : EncodingSupport) (libc : Libc)
    (db_timezone : Zone) (app_timezone : Option Zone) (castBool : Bool)
    (field : MYSQL_FIELD) (ptr : List Nat) (len : Nat) (nbytes : Nat)
    (hw : integer_width field.type = some nbytes)
    (hcoerce : ¬ (field.type = FieldType.MYSQL_TYPE_TINY ∧ castBool = true ∧
      field.length = 1)) :
    rb_mysql_result_fetch_row_value b es libc db_timezone app_timezone castBool true
        field (some ptr) len
      = .ok (Value.integer (rb_cstr2inum ptr)) := by
  cases hft : field.type <;> rw [hft] at hw <;> simp [integer_width] at hw
  · have hc : (castBool && decide (field.length = 1)) = false := by
      cases castBool
      · rfl
      · have : ¬ field.length = 1 := fun h => hcoerce ⟨hft, rfl, h⟩
        simpa using this
    simp [rb_mysql_result_fetch_row_value, hft, hc]
  all_goals simp [rb_mysql_result_fetch_row_value, hft]

theorem stmt_fetch_row_value_of_integer (b : Build) (es : EncodingSupport)
    (db_timezone : Zone) (app_timezone : Option Zone) (castBool : Bool)
    (field : MYSQL_FIELD) (result_buffer : MYSQL_BIND) (cell : StmtCell) (nbytes : Nat)
    (hbt : result_buffer.buffer_type = field.type)
    (hw : integer_width field.type = some nbytes)
    (hcoerce : ¬ (field.type = FieldType.MYSQL_TYPE_TINY ∧ castBool = true ∧
      field.length = 1))
    (hnull : cell.is_null = false) :
    rb_mysql_result_stmt_fetch_row_value b es db_timezone app_timezone castBool
        field result_buffer cell
      = .ok (Value.integer (buffer_integer nbytes result_buffer.is_unsigned cell.buffer)) := by
  cases hft : field.type <;> rw [hft] at hw <;> simp [integer_width] at hw
  · have hc : (castBool && decide (field.length = 1)) = false := by
      cases castBool
      · rfl
      · have : ¬ field.length = 1 := fun h => hcoerce ⟨hft, rfl, h⟩
        simpa using this
    subst hw
    simp [rb_mysql_result_stmt_fetch_row_value, hbt, hft, hnull, hc]
  all_goals
    subst hw
    simp [rb_mysql_result_stmt_fetch_row_value, hbt, hft, hnull]

/-- Where the two decoders agree.  For a non-NULL value whose bind entry has
the column's wire type, the binary decoder and the text decoder with cast
enabled give the same result on: integer columns (the integer read from the
buffer, and its base-10 literal); tiny columns under boolean coercion; date
columns with month and day at least 1; datetime / timestamp columns with month
and day at least 1; and decimal columns with a non-zero declared digit count
whose value `strtod` does not find zero.  The binary decoder builds the decimal
from the buffer bytes for every decimal column, where the text decoder yields
an integer for declared digit count 0 and the decimal `0.0` for a zero
value. -/
theorem decoders_agree_on_shared_cases (b : Build) (es : EncodingSupport) (libc : Libc)
    (db_timezone : Zone) (app_timezone : Option Zone) (castBool : Bool)
    (field : MYSQL_FIELD) (result_buffer : MYSQL_BIND) (cell : StmtCell) (len : Nat)
    (hbt : result_buffer.buffer_type = field.type) (hnull : cell.is_null = false) :
    (∀ nbytes, integer_width field.type = some nbytes →
      ¬ (field.type = FieldType.MYSQL_TYPE_TINY ∧ castBool = true ∧ field.length = 1) →
      rb_mysql_result_stmt_fetch_row_value b es db_timezone app_timezone castBool
          field result_buffer cell
        = rb_mysql_result_fetch_row_value b es libc db_timezone app_timezone castBool true
            field
            (some (int_literal (buffer_integer nbytes result_buffer.is_unsigned cell.buffer)))
            len) ∧
    (field.type = FieldType.MYSQL_TYPE_TINY → castBool = true → field.length = 1 →
      rb_mysql_result_stmt_fetch_row_value b es db_timezone app_timezone castBool
          field result_buffer cell
        = rb_mysql_result_fetch_row_value b es libc db_timezone app_timezone castBool true
            field
            (some (int_literal (buffer_integer 1 result_buffer.is_unsigned cell.buffer)))
            len) ∧
    (field.type = FieldType.MYSQL_TYPE_DATE ∨ field.type = FieldType.MYSQL_TYPE_NEWDATE →
      cell.time.year ≤ 9999 → 1 ≤ cell.time.month → cell.time.month ≤ 99 →
      1 ≤ cell.time.day → cell.time.day ≤ 99 →
      rb_mysql_result_stmt_fetch_row_value b es db_timezone app_timezone castBool
          field result_buffer cell
        = rb_mysql_result_fetch_row_value b es libc db_timezone app_timezone castBool true
            field (some (date_literal cell.time.year cell.time.month cell.time.day)) len) ∧
    (field.type = FieldType.MYSQL_TYPE_TIMESTAMP ∨
        field.type = FieldType.MYSQL_TYPE_DATETIME →
      cell.time.year ≤ 9999 → 1 ≤ cell.time.month → cell.time.month ≤ 99 →
      1 ≤ cell.time.day → cell.time.day ≤ 99 → cell.time.hour ≤ 99 →
      cell.time.minute ≤ 99 → cell.time.second ≤ 99 →
      rb_mysql_result_stmt_fetch_row_value b es db_timezone app_timezone castBool
          field result_buffer cell
        = rb_mysql_result_fetch_row_value b es libc db_timezone app_timezone castBool true
            field
            (some (datetime_literal cell.time.year cell.time.month cell.time.day
              cell.time.hour cell.time.minute cell.time.second)) len) ∧
    (field.type = FieldType.MYSQL_TYPE_DECIMAL ∨
        field.type = FieldType.MYSQL_TYPE_NEWDECIMAL →
      rb_mysql_result_stmt_fetch_row_value b es db_timezone app_timezone castBool
          field result_buffer cell
        = .ok (Value.big_decimal
            { bytes := cell.buffer.take cell.length
              enc := if b.have_ruby_encoding_h then some Encoding.binary else none }) ∧
      (field.decimals ≠ 0 → libc.strtod_is_zero (cstr cell.buffer) = false →
        rb_mysql_result_stmt_fetch_row_value b es db_timezone app_timezone castBool
            field result_buffer cell
          = rb_mysql_result_fetch_row_value b es libc db_timezone app_timezone castBool true
              field (some cell.buffer) cell.length) ∧
      (field.decimals = 0 →
        rb_mysql_result_fetch_row_value b es libc db_timezone app_timezone castBool true
            field (some cell.buffer) cell.length
          = .ok (Value.integer (rb_cstr2inum cell.buffer))) ∧
      (field.decimals ≠ 0 → libc.strtod_is_zero (cstr cell.buffer) = true →
        rb_mysql_result_fetch_row_value b es libc db_timezone app_timezone castBool true
            field (some cell.buffer) cell.length
          = .ok (Value.big_decimal
              { bytes := [48, 46, 48]
                enc := if b.have_ruby_encoding_h then some Encoding.binary else none }))) := by
  refine ⟨?_, ?_, ?_, ?_, ?_⟩
  · intro nbytes hw hcoerce
    rw [stmt_fetch_row_value_of_integer b es db_timezone app_timezone castBool field
        result_buffer cell nbytes hbt hw hcoerce hnull,
      fetch_row_value_of_integer b es libc db_timezone app_timezone castBool field _ len
        nbytes hw hcoerce,
      rb_cstr2inum_int_literal]
  · intro ht hc hl
    have h1 := int_literal_head (buffer_integer 1 result_buffer.is_unsigned cell.buffer)
    have h2 := buffer_integer_one_eq_zero result_buffer.is_unsigned cell.buffer
    by_cases hz : cell.buffer.getD 0 0 % 256 = 0
    · have hh := h1.mpr (h2.mpr hz)
      simp at hz hh
      simp [rb_mysql_result_stmt_fetch_row_value, rb_mysql_result_fetch_row_value, hbt, ht,
        hnull, hc, hl, buffer_unsigned_one, hz, hh]
    · have hh : ¬ (int_literal (buffer_integer 1 result_buffer.is_unsigned
          cell.buffer)).headD 0 = 48 := fun h => hz (h2.mp (h1.mp h))
      simp at hz hh
      simp [rb_mysql_result_stmt_fetch_row_value, rb_mysql_result_fetch_row_value, hbt, ht,
        hnull, hc, hl, buffer_unsigned_one, hz, hh]
  · intro ht hy hm1 hm hd1 hd
    have hparse := sscanf_date_literal cell.time.year cell.time.month cell.time.day
      (by omega) (by omega) (by omega)
    have htext : rb_mysql_result_fetch_row_value b es libc db_timezone app_timezone castBool
        true field (some (date_literal cell.time.year cell.time.month cell.time.day)) len
        = .ok (Value.date cell.time.year cell.time.month cell.time.day) := by
      have hs : ¬ ((cell.time.year : Int) + cell.time.month + cell.time.day = 0) := by omega
      have hb : (decide ((cell.time.month : Int) < 1) || decide ((cell.time.day : Int) < 1))
          = false := by
        have h1 : ¬ ((cell.time.month : Int) < 1) := by omega
        have h2 : ¬ ((cell.time.day : Int) < 1) := by omega
        simp [h1, h2]
      rcases ht with ht | ht <;>
        simp only [rb_mysql_result_fetch_row_value, ht, fetch_row_date, hparse, hs, hb,
          Bool.not_true, Bool.false_eq_true, if_false]
    rw [htext]
    rcases ht with ht | ht <;>
      simp [rb_mysql_result_stmt_fetch_row_value, hbt, ht, hnull,
        to_int_of_lt cell.time.year (by omega), to_int_of_lt cell.time.month (by omega),
        to_int_of_lt cell.time.day (by omega)]
  · intro ht hy hm1 hm hd1 hd hh hmi hs
    have hparse := sscanf_datetime_literal cell.time.year cell.time.month cell.time.day
      cell.time.hour cell.time.minute cell.time.second
      (by omega) (by omega) (by omega) (by omega) (by omega) (by omega)
    have h0 : linear_seconds cell.time.year cell.time.month cell.time.day cell.time.hour
        cell.time.minute cell.time.second ≠ 0 := by
      unfold linear_seconds
      omega
    have h12 : ¬ (cell.time.month < 1 ∨ cell.time.day < 1) := by omega
    rw [fetch_row_value_of_datetime b es libc db_timezone app_timezone castBool field _ len ht,
      fetch_row_datetime_of_parse b db_timezone app_timezone _ _ _ _ _ _ _ hparse
        hy hm hd hh hmi hs]
    simp only [h0, if_false, h12]
    have hbin : rb_mysql_result_stmt_fetch_row_value b es db_timezone app_timezone castBool
        field result_buffer cell
        = .ok (stmt_fetch_row_datetime b db_timezone app_timezone cell.time) := by
      rcases ht with ht | ht <;>
        simp [rb_mysql_result_stmt_fetch_row_value, hbt, ht, hnull]
    rw [hbin, stmt_fetch_row_datetime_of_valid b db_timezone app_timezone cell.time
      hy hm hd hh hmi hs]
    split <;> rfl
  · intro ht
    have hbin : rb_mysql_result_stmt_fetch_row_value b es db_timezone app_timezone castBool
        field result_buffer cell
        = .ok (Value.big_decimal
            { bytes := cell.buffer.take cell.length
              enc := if b.have_ruby_encoding_h then some Encoding.binary else none }) := by
      rcases ht with ht | ht <;>
        simp [rb_mysql_result_stmt_fetch_row_value, hbt, ht, hnull, rb_str_new]
    refine ⟨hbin, ?_, ?_, ?_⟩
    · intro hd hz
      rw [hbin]
      rcases ht with ht | ht <;>
        simp [rb_mysql_result_fetch_row_value, ht, hd, hz, rb_str_new]
    · intro hd
      rcases ht with ht | ht <;> simp [rb_mysql_result_fetch_row_value, ht, hd]
    · intro hd hz
      rcases ht with ht | ht <;>
        simp [rb_mysql_result_fetch_row_value, ht, hd, hz, rb_str_new]

theorem decoders_agree_on_shared_cases_witness :
    tinyBind.buffer_type = tinyField.type ∧ cellFF.is_null = false ∧
    rb_mysql_result_stmt_fetch_row_value build19 esUtf8Internal Zone.local none false
        tinyField tinyBind cellFF
      = rb_mysql_result_fetch_row_value build19 esUtf8Internal libcNonZero Zone.local none
          false true tinyField (some (int_literal (buffer_integer 1 false [255]))) 2 ∧
    buffer_integer 1 false [255] = -1 ∧
    rb_mysql_result_stmt_fetch_row_value build19 esUtf8Internal Zone.local none true
        tinyField tinyBind cellFF
      = rb_mysql_result_fetch_row_value build19 esUtf8Internal libcNonZero Zone.local none
          true true tinyField (some (int_literal (buffer_integer 1 false [255]))) 2 :=
  ⟨rfl, rfl,
    (decoders_agree_on_shared_cases build19 esUtf8Internal libcNonZero Zone.local none false
      tinyField tinyBind cellFF 2 rfl rfl).1 1 rfl (by decide),
    by decide,
    (decoders_agree_on_shared_cases build19 esUtf8Internal libcNonZero Zone.local none true
      tinyField tinyBind cellFF 2 rfl rfl).2.1 rfl rfl rfl⟩

/-! ## Theorems: iteration -/

theorem bind_of_ok {α β : Type} (o : ROutcome α)
    (f : α → mysql2_result_wrapper → ROutcome β) (a : α) (h : o.ret = .ok a) :
    o.bind f = { ret := (f a o.state).ret, state := (f a o.state).state,
                 trace := o.trace ++ (f a o.state).trace } := by
  simp only [ROutcome.bind, h]

theorem bind_of_error {α β : Type} (o : ROutcome α)
    (f : α → mysql2_result_wrapper → ROutcome β) (e : RExc) (h : o.ret = .error e) :
    o.bind f = { ret := .error e, state := o.state, trace := o.trace } := by
  simp only [ROutcome.bind, h]

theorem bind_ret_ok {α β : Type} (o : ROutcome α)
    (f : α → mysql2_result_wrapper → ROutcome β) (v : β) (h : (o.bind f).ret = .ok v) :
    ∃ a, o.ret = .ok a ∧ (f a o.state).ret = .ok v := by
  cases hr : o.ret with
  | error e => rw [bind_of_error o f e hr] at h; cases h
  | ok a => rw [bind_of_ok o f a hr] at h; exact ⟨a, rfl, h⟩

theorem iteration_events_append (s t : List REvent) :
    iteration_events (s ++ t) = iteration_events s ++ iteration_events t := by
  simp [iteration_events]

theorem yielded_append (s t : List REvent) :
    yielded (s ++ t) = yielded s ++ yielded t := by
  induction s with
  | nil => rfl
  | cons e s ih => cases e <;> simp [yielded, ih]

theorem SameProgress.refl (w : mysql2_result_wrapper) : SameProgress w w :=
  ⟨rfl, rfl, rfl, rfl, rfl, rfl, rfl, rfl⟩

theorem SameProgress.trans {w w1 w2 : mysql2_result_wrapper}
    (h1 : SameProgress w w1) (h2 : SameProgress w1 w2) : SameProgress w w2 := by
  obtain ⟨a1, a2, a3, a4, a5, a6, a7, a8⟩ := h1
  obtain ⟨b1, b2, b3, b4, b5, b6, b7, b8⟩ := h2
  exact ⟨b1.trans a1, b2.trans a2, b3.trans a3, b4.trans a4, b5.trans a5, b6.trans a6,
    b7.trans a7, b8.trans a8⟩

theorem quiet_pure {α : Type} (a : α) (w : mysql2_result_wrapper) :
    Quiet w (ROutcome.pure a w) :=
  ⟨SameProgress.refl w, rfl, rfl, rfl, by simp [ROutcome.pure]⟩

theorem quiet_raise {α : Type} (e : RExc) (w : mysql2_result_wrapper) (t : List REvent)
    (he : e ≠ RExc.fetch_bound) (ht : iteration_events t = []) :
    Quiet w (ROutcome.raise e w t : ROutcome α) :=
  ⟨SameProgress.refl w, rfl, rfl, ht, by simpa [ROutcome.raise] using he⟩

theorem quiet_bind {α β : Type} {w : mysql2_result_wrapper} {o : ROutcome α}
    {f : α → mysql2_result_wrapper → ROutcome β} (ho : Quiet w o)
    (hf : ∀ a, o.ret = .ok a → Quiet o.state (f a o.state)) : Quiet w (o.bind f) := by
  obtain ⟨p, r, s, t, nb⟩ := ho
  cases hr : o.ret with
  | error e =>
    rw [bind_of_error o f e hr]
    rw [hr] at nb
    refine ⟨p, r, s, t, ?_⟩
    intro h
    injection h with h1
    exact nb (by rw [h1])
  | ok a =>
    rw [bind_of_ok o f a hr]
    obtain ⟨p1, r1, s1, t1, nb1⟩ := hf a hr
    refine ⟨p.trans p1, r1.trans r, s1.trans s, ?_, nb1⟩
    show iteration_events (o.trace ++ (f a o.state).trace) = []
    rw [iteration_events_append, t, t1]
    rfl

theorem init_fields_quiet (w : mysql2_result_wrapper) : Quiet w (init_fields w) := by
  unfold init_fields
  cases hf : w.fields with
  | some fs => exact quiet_pure () w
  | none =>
    by_cases hfr : w.result.freed = true
    · simp only [hfr, if_true]
      exact quiet_raise _ w [] (by simp) rfl
    · simp only [hfr, if_false]
      exact ⟨⟨rfl, rfl, rfl, rfl, rfl, rfl, rfl, rfl⟩, rfl, rfl, rfl, by simp⟩

theorem fetch_field_quiet (b : Build) (es : EncodingSupport) (idx : Nat) (sk : Bool)
    (w : mysql2_result_wrapper) : Quiet w (rb_mysql_result_fetch_field b es idx sk w) := by
  unfold rb_mysql_result_fetch_field
  refine quiet_bind (init_fields_quiet w) ?_
  intro _ _
  generalize (init_fields w).state = w1
  cases rb_ary_entry (w1.fields.getD []) idx with
  | some k => exact quiet_pure k w1
  | none =>
    by_cases hfr : w1.result.freed = true
    · simp only [hfr, if_true]
      exact quiet_raise _ w1 [] (by simp) rfl
    · simp only [hfr, if_false]
      cases w1.result.fields.get? idx with
      | none => exact quiet_raise _ w1 _ (by simp) rfl
      | some f => exact ⟨⟨rfl, rfl, rfl, rfl, rfl, rfl, rfl, rfl⟩, rfl, rfl, rfl, by simp⟩

theorem fetch_row_columns_quiet (b : Build) (es : EncodingSupport) (libc : Libc)
    (args : result_each_args) (fields : List MYSQL_FIELD) (row : TextRow) (n : Nat) :
    ∀ (i : Nat) (rowVal : Row) (w : mysql2_result_wrapper),
      Quiet w (fetch_row_columns b es libc args fields row n i rowVal w) := by
  induction n with
  | zero => intro i rowVal w; exact quiet_pure rowVal w
  | succ n ih =>
    intro i rowVal w
    unfold fetch_row_columns
    refine quiet_bind (fetch_field_quiet b es i args.symbolizeKeys w) ?_
    intro field _
    generalize (rb_mysql_result_fetch_field b es i args.symbolizeKeys w).state = w1
    cases row.get? i with
    | none => exact quiet_raise _ w1 [] (by simp) rfl
    | some cell =>
      obtain ⟨p, len⟩ := cell
      cases p with
      | none => exact ih _ _ _
      | some ptr =>
        cases fields.get? i with
        | none => exact quiet_raise _ w1 [] (by simp) rfl
        | some f =>
          simp only
          cases rb_mysql_result_fetch_row_value b es libc args.db_timezone args.app_timezone
              args.castBool args.cast f (some ptr) len with
          | error e => exact quiet_raise _ w1 [] (by simp) rfl
          | ok val => exact ih _ _ _

theorem stmt_fetch_row_columns_quiet (b : Build) (es : EncodingSupport)
    (args : result_each_args) (fields : List MYSQL_FIELD) (cells : List StmtCell) (n : Nat) :
    ∀ (i : Nat) (rowVal : Row) (w : mysql2_result_wrapper),
      Quiet w (stmt_fetch_row_columns b es args fields cells n i rowVal w) := by
  induction n with
  | zero => intro i rowVal w; exact quiet_pure rowVal w
  | succ n ih =>
    intro i rowVal w
    unfold stmt_fetch_row_columns
    refine quiet_bind (fetch_field_quiet b es i args.symbolizeKeys w) ?_
    intro field _
    generalize (rb_mysql_result_fetch_field b es i args.symbolizeKeys w).state = w1
    split
    · split
      · exact quiet_raise _ w1 [] (by simp) rfl
      · exact ih _ _ _
    · exact quiet_raise _ w1 [] (by simp) rfl

theorem alloc_result_buffers_quiet (b : Build) (fields : List MYSQL_FIELD)
    (w : mysql2_result_wrapper) : Quiet w (rb_mysql_result_alloc_result_buffers b fields w) := by
  unfold rb_mysql_result_alloc_result_buffers
  split
  · exact quiet_pure () w
  · simp only
    cases (alloc_binds b (List.take w.numberOfFields fields)).2 with
    | none =>
      exact ⟨⟨rfl, rfl, rfl, rfl, rfl, rfl, rfl, rfl⟩, rfl, rfl, rfl, by simp [ROutcome.pure]⟩
    | some code =>
      exact ⟨⟨rfl, rfl, rfl, rfl, rfl, rfl, rfl, rfl⟩, rfl, rfl, rfl, by simp [ROutcome.raise]⟩

theorem fetchlike_of_quiet_bind {α : Type} (isStmt : Bool) {w : mysql2_result_wrapper}
    {o : ROutcome α} {f : α → mysql2_result_wrapper → ROutcome (Option Row)}
    (ho : Quiet w o) (hf : ∀ a, o.ret = .ok a → FetchLike isStmt o.state (f a o.state)) :
    FetchLike isStmt w (o.bind f) := by
  obtain ⟨p, r, s, t, nb⟩ := ho
  have hrem : rows_remaining o.state = rows_remaining w := by
    simp only [rows_remaining, r, s]
  cases hr : o.ret with
  | error e =>
    rw [bind_of_error o f e hr]
    rw [hr] at nb
    refine ⟨p, ?_, ?_⟩
    · intro h
      injection h with h1
      exact nb (by rw [h1])
    · intro _
      exact ⟨fun a h => (by cases h), fun a h => (by cases h), fun h => (by cases h)⟩
  | ok a =>
    rw [bind_of_ok o f a hr]
    obtain ⟨p1, nb1, h1⟩ := hf a hr
    refine ⟨p.trans p1, nb1, ?_⟩
    intro hs
    obtain ⟨e1, e2, e3⟩ := h1 (by rw [s]; exact hs)
    refine ⟨?_, ?_, ?_⟩
    · intro v hv
      show iteration_events (o.trace ++ (f a o.state).trace) = [fetch_event isStmt]
      rw [iteration_events_append, t, e1 v hv]
      rfl
    · intro v hv
      rw [← hrem]
      exact e2 v hv
    · intro hv
      rw [← hrem]
      exact e3 hv

theorem fetchlike_of_fetched (isStmt : Bool) {w : mysql2_result_wrapper}
    (w1 : mysql2_result_wrapper) (t : List REvent) (o1 : ROutcome (Option Row))
    (hp : SameProgress w w1) (ht : iteration_events t = [fetch_event isStmt])
    (hrem : w.stmt.isSome = isStmt → rows_remaining w1 + 1 = rows_remaining w)
    (hq : Quiet w1 o1) (hne : o1.ret ≠ .ok none) :
    FetchLike isStmt w { ret := o1.ret, state := o1.state, trace := t ++ o1.trace } := by
  obtain ⟨p, r, s, e, nb⟩ := hq
  have hrem1 : rows_remaining o1.state = rows_remaining w1 := by
    simp only [rows_remaining, r, s]
  refine ⟨hp.trans p, nb, fun hs => ⟨?_, ?_, ?_⟩⟩
  · intro a _
    show iteration_events (t ++ o1.trace) = [fetch_event isStmt]
    rw [iteration_events_append, ht, e]
    rfl
  · intro v _
    show rows_remaining o1.state + 1 = rows_remaining w
    rw [hrem1]
    exact hrem hs
  · intro h
    exact absurd h hne

theorem stmt_none_of_isSome {w : mysql2_result_wrapper} (hs : w.stmt.isSome = false) :
    w.stmt = none := by
  cases hw : w.stmt with
  | none => rfl
  | some st => rw [hw] at hs; simp at hs

theorem fetch_row_spec (b : Build) (es : EncodingSupport) (libc : Libc)
    (args : result_each_args) (fields : List MYSQL_FIELD) :
    FetchSpec false (rb_mysql_result_fetch_row b es libc args fields) := by
  intro w
  unfold rb_mysql_result_fetch_row
  by_cases hfr : w.result.freed = true
  · rw [if_pos hfr]
    exact ⟨SameProgress.refl w, by simp [ROutcome.raise], fun _ =>
      ⟨fun a h => (by cases h), fun a h => (by cases h), fun h => (by cases h)⟩⟩
  · rw [if_neg hfr]
    cases hrows : w.result.rows with
    | nil =>
      dsimp only
      refine ⟨SameProgress.refl w, by simp, fun hs => ⟨fun a _ => rfl, fun r h => (by cases h),
        fun _ => ?_⟩⟩
      simp [rows_remaining, stmt_none_of_isSome hs, hrows]
    | cons row rest =>
      dsimp only
      rw [bind_of_ok _ _ () rfl]
      refine fetchlike_of_fetched false
        { w with result := { w.result with rows := rest, fetched := w.result.fetched + 1 } }
        _ _ ⟨rfl, rfl, rfl, rfl, rfl, rfl, rfl, rfl⟩ rfl ?_ ?_ ?_
      · intro hs
        simp only [rows_remaining, stmt_none_of_isSome hs, hrows, List.length_cons]
      · refine quiet_bind (init_fields_quiet _) ?_
        intro _ _
        refine quiet_bind (fetch_row_columns_quiet _ _ _ _ _ _ _ _ _ _) ?_
        intro rowVal _
        exact quiet_pure _ _
      · intro h
        obtain ⟨_, _, h2⟩ := bind_ret_ok _ _ none h
        obtain ⟨r, _, h3⟩ := bind_ret_ok _ _ none h2
        simp [ROutcome.pure] at h3

theorem fetchlike_of_error (isStmt : Bool) {w : mysql2_result_wrapper}
    {o : ROutcome (Option Row)} (e : RExc) (hp : SameProgress w o.state)
    (hr : o.ret = .error e) (he : e ≠ RExc.fetch_bound) : FetchLike isStmt w o := by
  refine ⟨hp, ?_, fun _ => ⟨?_, ?_, ?_⟩⟩
  · rw [hr]
    intro h
    injection h with h1
    exact he h1
  · intro a h
    rw [hr] at h
    cases h
  · intro a h
    rw [hr] at h
    cases h
  · intro h
    rw [hr] at h
    cases h

theorem stmt_fetch_row_spec (b : Build) (es : EncodingSupport)
    (args : result_each_args) (fields : List MYSQL_FIELD) :
    FetchSpec true (rb_mysql_result_stmt_fetch_row b es args fields) := by
  intro w
  unfold rb_mysql_result_stmt_fetch_row
  refine fetchlike_of_quiet_bind true (init_fields_quiet w) ?_
  intro _ _
  generalize (init_fields w).state = w1
  refine fetchlike_of_quiet_bind true ?_ ?_
  · split
    · exact alloc_result_buffers_quiet b fields w1
    · split
      · exact quiet_raise _ w1 [] (by simp) rfl
      · exact quiet_pure () w1
  · intro _ _
    generalize (if w1.result_buffers.isNone = true then
        rb_mysql_result_alloc_result_buffers b fields w1
      else if w1.resultFreed = true then
        ROutcome.raise (RExc.undefined Undefined.use_after_free) w1 []
      else ROutcome.pure () w1).state = w2
    cases hst : w2.stmt with
    | none =>
      exact fetchlike_of_error true _ (SameProgress.refl w2) rfl (by simp)
    | some st =>
      dsimp only
      by_cases hb : st.bind_result_fails = true
      · rw [if_pos hb]
        exact fetchlike_of_error true _ (SameProgress.refl w2) rfl (by simp)
      · rw [if_neg hb]
        by_cases hf : st.result_freed = true
        · rw [if_pos hf]
          exact fetchlike_of_error true _ (SameProgress.refl w2) rfl (by simp)
        · rw [if_neg hf]
          cases hfs : st.fetches with
          | nil =>
            dsimp only
            refine ⟨SameProgress.refl w2, by simp, fun _ => ⟨fun a _ => rfl,
              fun r h => (by cases h), fun _ => ?_⟩⟩
            simp [rows_remaining, hst, hfs]
          | cons fe rest =>
            cases fe with
            | error =>
              dsimp only
              refine fetchlike_of_error true _ ?_ rfl (by simp)
              exact ⟨rfl, rfl, rfl, rfl, rfl, rfl, rfl, by simp [ROutcome.raise, hst]⟩
            | data_truncated =>
              dsimp only
              refine fetchlike_of_error true _ ?_ rfl (by simp)
              exact ⟨rfl, rfl, rfl, rfl, rfl, rfl, rfl, by simp [ROutcome.raise, hst]⟩
            | row cells =>
              dsimp only
              rw [bind_of_ok _ _ () rfl]
              refine fetchlike_of_fetched true
                { w2 with stmt := some { st with fetches := rest, fetched := st.fetched + 1 } }
                _ _ ⟨rfl, rfl, rfl, rfl, rfl, rfl, rfl, by simp [hst]⟩ rfl ?_ ?_ ?_
              · intro _
                simp only [rows_remaining, hst, hfs, List.length_cons]
              · refine quiet_bind (stmt_fetch_row_columns_quiet _ _ _ _ _ _ _ _ _) ?_
                intro rowVal _
                exact quiet_pure _ _
              · intro h
                obtain ⟨r, _, h3⟩ := bind_ret_ok _ _ none h
                simp [ROutcome.pure] at h3

theorem yielded_iteration_events (t : List REvent) :
    yielded (iteration_events t) = yielded t := by
  induction t with
  | nil => rfl
  | cons e t ih =>
    cases e <;>
      simp [iteration_events, List.filter_cons, REvent.isFetch, REvent.isYield,
        REvent.isRelease, yielded] <;>
      simpa [iteration_events] using ih

theorem yielded_fetch_event (isStmt : Bool) : yielded [fetch_event isStmt] = [] := by
  cases isStmt <;> rfl

theorem rb_ary_entry_append {α : Type} (pre post : List (Option α)) (p : Option α) :
    rb_ary_entry (pre ++ p :: post) pre.length = p := by
  have h : (pre ++ p :: post).get? pre.length = some p := by
    rw [List.get?_eq_getElem?, List.getElem?_append_right (Nat.le_refl _)]
    simp
  simp only [rb_ary_entry, h]

theorem rb_ary_store_length {α : Type} (ary : List (Option α)) (val : Option α) :
    rb_ary_store ary ary.length val = ary ++ [val] := by
  simp [rb_ary_store]

theorem yield_step (block : Option Block) (bg : Bool) (row : Option Row)
    (w : mysql2_result_wrapper) :
    (if bg = true then rb_yield block row w else ROutcome.pure () w).state = w ∧
    (if bg = true then rb_yield block row w else ROutcome.pure () w).ret
      ≠ .error RExc.fetch_bound ∧
    (∀ u, (if bg = true then rb_yield block row w else ROutcome.pure () w).ret = .ok u →
      (if bg = true then rb_yield block row w else ROutcome.pure () w).trace
        = if bg = true then [REvent.rb_yield row] else []) := by
  cases bg
  · simp [ROutcome.pure]
  · simp only [if_true]
    cases block with
    | none => simp [rb_yield, ROutcome.raise]
    | some blk =>
      by_cases h : blk row = true <;> simp [rb_yield, ROutcome.raise, h]

theorem each_cached_loop_total (blk : Block) (hblk : ∀ row, blk row = true)
    (post : List (Option Row)) :
    ∀ (pre : List (Option Row)) (w : mysql2_result_wrapper), w.rows = some (pre ++ post) →
      each_cached_loop (some blk) post.length pre.length w
        = { ret := .ok (), state := w, trace := post.map REvent.rb_yield } := by
  induction post with
  | nil => intro pre w _; rfl
  | cons p post ih =>
    intro pre w hw
    have hy : rb_yield (some blk) (rb_ary_entry (pre ++ p :: post) pre.length) w
        = { ret := .ok (), state := w, trace := [REvent.rb_yield p] } := by
      rw [rb_ary_entry_append]
      simp [rb_yield, hblk]
    have hnext := ih (pre ++ [p]) w (by rw [hw]; simp)
    simp only [List.length_append, List.length_singleton] at hnext
    simp only [List.length_cons, each_cached_loop, hw, hy]
    rw [bind_of_ok _ _ () rfl]
    simp only [hnext, List.map_cons, List.singleton_append]

theorem each_buffered_loop_step (fetch : mysql2_result_wrapper → ROutcome (Option Row))
    (block : Option Block) (args : result_each_args) (hc : args.cacheRows = true)
    (n i : Nat) (w : mysql2_result_wrapper) (rows : List (Option Row))
    (hw : w.rows = some rows) :
    each_buffered_loop fetch block args 0 (n + 1) i w
      = ((fetch w).bind fun row w1 =>
          ROutcome.pure row
            { w1 with rows := w1.rows.map (fun a => rb_ary_store a i row),
                      lastRowProcessed := w1.lastRowProcessed + 1 }).bind fun row w2 =>
        match row with
        | none =>
          { ret := .ok true, state := (rb_mysql_result_free_result w2).1,
            trace := (rb_mysql_result_free_result w2).2 }
        | some r =>
          (if args.block_given then rb_yield block (some r) w2
            else ROutcome.pure () w2).bind fun _ w3 =>
            each_buffered_loop fetch block args 0 n (i + 1) w3 := by
  rw [each_buffered_loop]
  simp only [hw, hc, Nat.not_lt_zero, decide_False, Bool.and_false, Bool.false_eq_true,
    if_false, if_true]

theorem each_buffered_loop_caching (isStmt : Bool)
    (fetch : mysql2_result_wrapper → ROutcome (Option Row)) (hfetch : FetchSpec isStmt fetch)
    (block : Option Block) (args : result_each_args) (hc : args.cacheRows = true) (n : Nat) :
    ∀ (ys : List Row) (w : mysql2_result_wrapper), w.stmt.isSome = isStmt →
      w.rows = some (ys.map some) →
      (each_buffered_loop fetch block args 0 n ys.length w).ret = .ok false →
      ∃ zs : List Row, zs.length = n ∧
        (each_buffered_loop fetch block args 0 n ys.length w).state.rows
          = some ((ys ++ zs).map some) ∧
        (each_buffered_loop fetch block args 0 n ys.length w).state.lastRowProcessed
          = w.lastRowProcessed + n ∧
        (each_buffered_loop fetch block args 0 n ys.length w).state.numberOfRows
          = w.numberOfRows ∧
        (each_buffered_loop fetch block args 0 n ys.length w).state.resultFreed
          = w.resultFreed ∧
        (each_buffered_loop fetch block args 0 n ys.length w).state.streamingComplete
          = w.streamingComplete ∧
        (each_buffered_loop fetch block args 0 n ys.length w).state.query_options
          = w.query_options ∧
        (each_buffered_loop fetch block args 0 n ys.length w).state.result.freed
          = w.result.freed ∧
        (each_buffered_loop fetch block args 0 n ys.length w).state.stmt.isSome
          = w.stmt.isSome ∧
        rows_remaining (each_buffered_loop fetch block args 0 n ys.length w).state + n
          = rows_remaining w ∧
        iteration_events (each_buffered_loop fetch block args 0 n ys.length w).trace
          = zs.flatMap (fun r => fetch_event isStmt ::
              (if args.block_given = true then [REvent.rb_yield (some r)] else [])) := by
  induction n with
  | zero =>
    intro ys w _ hw _
    refine ⟨[], rfl, ?_⟩
    simp [each_buffered_loop, ROutcome.pure, hw, iteration_events]
  | succ n ih =>
    intro ys w hs hw h
    rw [each_buffered_loop_step fetch block args hc n ys.length w _ hw] at h ⊢
    obtain ⟨hframe, _, hspec⟩ := hfetch w
    obtain ⟨hev, hsome, _⟩ := hspec hs
    obtain ⟨row, h1, h2⟩ := bind_ret_ok _ _ _ h
    obtain ⟨row1, hF, h3⟩ := bind_ret_ok _ _ _ h1
    have hrow : row1 = row := by
      simp only [ROutcome.pure] at h3
      injection h3
    subst hrow
    rw [bind_of_ok (fetch w) _ row1 hF] at h ⊢
    rw [bind_of_ok _ _ row1 rfl] at h ⊢
    cases row1 with
    | none => simp at h
    | some r =>
      obtain ⟨f1, f2, f3, f4, f5, f6, f7, f8⟩ := hframe
      obtain ⟨y1, _, y3⟩ := yield_step block args.block_given (some r)
        { (fetch w).state with
          rows := (fetch w).state.rows.map (fun a => rb_ary_store a ys.length (some r)),
          lastRowProcessed := (fetch w).state.lastRowProcessed + 1 }
      simp only [ROutcome.pure] at h y1 y3 ⊢
      obtain ⟨u, hY, h4⟩ := bind_ret_ok _ _ _ h
      rw [bind_of_ok _ _ u hY] at h ⊢
      simp only [y1] at h ⊢
      have hrows : (Option.map (fun a => rb_ary_store a ys.length (some r)) (fetch w).state.rows)
          = some ((ys ++ [r]).map some) := by
        rw [f1, hw]
        simp only [Option.map_some', List.map_append, List.map_cons, List.map_nil]
        rw [← rb_ary_store_length (List.map some ys) (some r), List.length_map]
      have hlen : (ys ++ [r]).length = ys.length + 1 := by simp
      rw [← hlen] at h ⊢
      obtain ⟨zs, z0, z1, z2, z3, z4, z5, z6, z7, z8, z9, z10⟩ :=
        ih (ys ++ [r]) _ (by simpa [f8] using hs) hrows h
      dsimp only at z2 z3 z4 z5 z6 z7 z8
      refine ⟨r :: zs, by simp [z0], ?_, ?_, ?_, ?_, ?_, ?_, ?_, ?_, ?_, ?_⟩
      · exact z1.trans (by simp)
      · exact z2.trans (by rw [f3]; omega)
      · exact z3.trans f2
      · exact z4.trans f4
      · exact z5.trans f5
      · exact z6.trans f6
      · exact z7.trans f7
      · exact z8.trans f8
      · have hr := hsome r hF
        have hrem : rows_remaining
            { (fetch w).state with
              rows := (fetch w).state.rows.map (fun a => rb_ary_store a ys.length (some r)),
              lastRowProcessed := (fetch w).state.lastRowProcessed + 1 }
            = rows_remaining (fetch w).state := rfl
        rw [hrem] at z9
        show rows_remaining (each_buffered_loop fetch block args 0 n (ys ++ [r]).length _).state
          + (n + 1) = rows_remaining w
        omega
      · have ht := y3 u hY
        simp only [iteration_events_append, z10, hev _ hF, ht, List.flatMap_cons]
        cases args.block_given <;> simp [iteration_events, REvent.isFetch, REvent.isYield]

theorem free_result_state (w : mysql2_result_wrapper) :
    (rb_mysql_result_free_result w).1.rows = w.rows ∧
    (rb_mysql_result_free_result w).1.lastRowProcessed = w.lastRowProcessed ∧
    (rb_mysql_result_free_result w).1.numberOfRows = w.numberOfRows ∧
    (rb_mysql_result_free_result w).1.streamingComplete = w.streamingComplete ∧
    (rb_mysql_result_free_result w).1.query_options = w.query_options ∧
    (rb_mysql_result_free_result w).1.stmt.isSome = w.stmt.isSome ∧
    rows_remaining (rb_mysql_result_free_result w).1 = rows_remaining w ∧
    (rb_mysql_result_free_result w).1.resultFreed = true ∧
    (w.resultFreed = false → (rb_mysql_result_free_result w).1.result.freed = true) ∧
    iteration_events (rb_mysql_result_free_result w).2
      = if w.resultFreed = true then [] else [REvent.mysql_free_result] := by
  unfold rb_mysql_result_free_result
  cases hf : w.resultFreed
  · cases hs : w.stmt with
    | none => simp [rows_remaining, hs, iteration_events, REvent.isFetch, REvent.isYield,
        REvent.isRelease]
    | some st =>
      cases hb : w.result_buffers.isSome <;>
        simp [rows_remaining, hs, hb, iteration_events, REvent.isFetch, REvent.isYield,
          REvent.isRelease]
  · simp [hf, iteration_events]

theorem yielded_flatMap_fetch (isStmt bg : Bool) (zs : List Row) :
    yielded (zs.flatMap (fun r => fetch_event isStmt ::
      (if bg = true then [REvent.rb_yield (some r)] else [])))
      = if bg = true then zs.map some else [] := by
  induction zs with
  | nil => cases bg <;> rfl
  | cons z zs ih =>
    rw [List.flatMap_cons, yielded_append, ih]
    cases bg <;> cases isStmt <;> simp [fetch_event, yielded]

theorem mysql_fetch_fields_quiet (w : mysql2_result_wrapper) :
    (mysql_fetch_fields w).state = w ∧ iteration_events (mysql_fetch_fields w).trace = [] := by
  unfold mysql_fetch_fields
  by_cases h : w.result.freed = true
  · rw [if_pos h]; exact ⟨rfl, rfl⟩
  · rw [if_neg h]; exact ⟨rfl, rfl⟩

theorem each_body_first_pass (isStmt : Bool)
    (fetch : List MYSQL_FIELD → mysql2_result_wrapper → ROutcome (Option Row))
    (hfetch : ∀ fields, FetchSpec isStmt (fetch fields))
    (block : Option Block) (args : result_each_args)
    (hc : args.cacheRows = true) (hns : args.streaming = false)
    (w : mysql2_result_wrapper) (hs : w.stmt.isSome = isStmt)
    (hrows : w.rows = some []) (hl : w.lastRowProcessed = 0) (hn : w.numberOfRows ≠ 0)
    (rws : List (Option Row)) (h : (each_body fetch block args w).ret = .ok (some rws)) :
    ∃ zs : List Row, zs.length = w.numberOfRows ∧ rws = zs.map some ∧
      (each_body fetch block args w).state.rows = some (zs.map some) ∧
      (each_body fetch block args w).state.lastRowProcessed = zs.length ∧
      (each_body fetch block args w).state.numberOfRows = zs.length ∧
      (each_body fetch block args w).state.query_options = w.query_options ∧
      (each_body fetch block args w).state.streamingComplete = w.streamingComplete ∧
      (each_body fetch block args w).state.stmt.isSome = w.stmt.isSome ∧
      (each_body fetch block args w).state.resultFreed = true ∧
      rows_remaining (each_body fetch block args w).state + zs.length = rows_remaining w ∧
      iteration_events (each_body fetch block args w).trace
        = zs.flatMap (fun r => fetch_event isStmt ::
            (if args.block_given = true then [REvent.rb_yield (some r)] else []))
          ++ (if w.resultFreed = true then [] else [REvent.mysql_free_result]) := by
  have hcond : (args.cacheRows && decide (w.lastRowProcessed = w.numberOfRows)) = false := by
    have : ¬ w.lastRowProcessed = w.numberOfRows := by rw [hl]; exact fun e => hn e.symm
    simp [this]
  have hunfold : each_body fetch block args w
      = (mysql_fetch_fields w).bind fun fields w1 =>
          (each_buffered_loop (fetch fields) block args 0 w1.numberOfRows 0 w1).bind
            fun returned w2 =>
              if returned then ROutcome.pure none w2
              else if w2.lastRowProcessed = w2.numberOfRows then
                { ret := .ok (rb_mysql_result_free_result w2).1.rows,
                  state := (rb_mysql_result_free_result w2).1,
                  trace := (rb_mysql_result_free_result w2).2 }
              else ROutcome.pure w2.rows w2 := by
    unfold each_body
    simp only [hns, Bool.false_eq_true, if_false, hcond, hrows, List.length_nil]
  rw [hunfold] at h ⊢
  obtain ⟨fields, hF, h1⟩ := bind_ret_ok _ _ _ h
  obtain ⟨q1, q2⟩ := mysql_fetch_fields_quiet w
  rw [bind_of_ok _ _ fields hF] at h ⊢
  simp only [q1] at h h1 ⊢
  obtain ⟨returned, hL, h2⟩ := bind_ret_ok _ _ _ h1
  rw [bind_of_ok _ _ returned hL] at h ⊢
  cases returned with
  | true => simp [ROutcome.pure] at h2
  | false =>
    obtain ⟨zs, z0, z1, z2, z3, z4, z5, z6, z7, z8, z9, z10⟩ :=
      each_buffered_loop_caching isStmt (fetch fields) (hfetch fields) block args hc
        w.numberOfRows [] w hs (by rw [hrows]; rfl) hL
    simp only [List.length_nil] at z1 z2 z3 z4 z5 z6 z7 z8 z9 z10
    have hlast : (each_buffered_loop (fetch fields) block args 0 w.numberOfRows 0 w).state.lastRowProcessed
        = (each_buffered_loop (fetch fields) block args 0 w.numberOfRows 0
            w).state.numberOfRows := by
      rw [z2, z3, hl]; omega
    simp only [Bool.false_eq_true, if_false, hlast, if_true] at h h2 ⊢
    obtain ⟨r1, r2, r3, r4, r5, r6, r7, r8, _, r10⟩ := free_result_state
      (each_buffered_loop (fetch fields) block args 0 w.numberOfRows 0 w).state
    refine ⟨zs, z0, ?_, ?_, ?_, ?_, ?_, ?_, ?_, ?_, ?_, ?_⟩
    · have h3 : (rb_mysql_result_free_result
          (each_buffered_loop (fetch fields) block args 0 w.numberOfRows 0 w).state).1.rows
          = some rws := by
        injection h2
      rw [r1, z1] at h3
      simp only [List.nil_append] at h3
      injection h3 with h4
      exact h4.symm
    · exact r1.trans (by rw [z1]; rfl)
    · exact r2.trans (by rw [z2, hl, z0]; omega)
    · exact r3.trans (by rw [z3, z0])
    · exact r5.trans z6
    · exact r4.trans z5
    · exact r6.trans z8
    · exact r8
    · show rows_remaining (rb_mysql_result_free_result _).1 + zs.length = rows_remaining w
      rw [r7, z0]
      exact z9
    · simp only [iteration_events_append, q2, z10, r10, z4, List.nil_append]

theorem each_body_cached (fetch : List MYSQL_FIELD → mysql2_result_wrapper →
      ROutcome (Option Row))
    (blk : Block) (hblk : ∀ row, blk row = true) (args : result_each_args)
    (hc : args.cacheRows = true) (hns : args.streaming = false)
    (w : mysql2_result_wrapper) (rws : List (Option Row))
    (hrows : w.rows = some rws) (hl : w.lastRowProcessed = w.numberOfRows)
    (hn : w.numberOfRows = rws.length) :
    each_body fetch (some blk) args w
      = { ret := .ok (some rws), state := w, trace := rws.map REvent.rb_yield } := by
  have hloop := each_cached_loop_total blk hblk rws [] w (by rw [hrows]; rfl)
  unfold each_body
  simp only [hns, Bool.false_eq_true, if_false, hc, hl, decide_True, Bool.and_self, if_true, hn]
  rw [List.length_nil] at hloop
  rw [hloop, bind_of_ok _ _ () rfl]
  simp [ROutcome.pure, hrows]

theorem each_warnings_quiet (opts : Hash) (args : result_each_args)
    (w : mysql2_result_wrapper) :
    iteration_events (each_warnings opts args w) = [] ∧
    yielded (each_warnings opts args w) = [] := by
  unfold each_warnings
  constructor
  · simp only [iteration_events_append]
    split <;> split <;> split <;> rfl
  · simp only [yielded_append]
    split <;> split <;> split <;> rfl

theorem each_count_rows_quiet (w : mysql2_result_wrapper) :
    (each_count_rows w).state = w ∧ iteration_events (each_count_rows w).trace = [] := by
  unfold each_count_rows
  cases w.stmt with
  | some st => exact ⟨rfl, rfl⟩
  | none =>
    by_cases h : w.result.freed = true
    · rw [if_pos h]; exact ⟨rfl, rfl⟩
    · rw [if_neg h]; exact ⟨rfl, rfl⟩

theorem each_count_rows_ret (w : mysql2_result_wrapper) (n : Nat) (rows : Option (List (Option Row))) :
    (each_count_rows { w with numberOfRows := n, rows := rows }).ret = (each_count_rows w).ret := by
  unfold each_count_rows
  cases hs : w.stmt with
  | some st => simp only [hs]
  | none =>
    simp only [hs]
    by_cases h : w.result.freed = true
    · rw [if_pos h, if_pos h]; rfl
    · rw [if_neg h, if_neg h]

theorem each_args_cacheRows (opts : Hash) (block : Option Block) :
    (each_args opts block).cacheRows = true ↔ rb_hash_aref opts Sym.cache_rows ≠ RVal.qfalse := by
  simp [each_args]

theorem each_args_streaming (opts : Hash) (block : Option Block) :
    (each_args opts block).streaming = false ↔ rb_hash_aref opts Sym.stream ≠ RVal.qtrue := by
  simp [each_args]

theorem each_dispatch (b : Build) (es : EncodingSupport) (libc : Libc)
    (block : Option Block) (args : result_each_args) (w : mysql2_result_wrapper) :
    ∃ fetch : List MYSQL_FIELD → mysql2_result_wrapper → ROutcome (Option Row),
      (∀ fields, FetchSpec w.stmt.isSome (fetch fields)) ∧
      (match w.stmt with
        | none => rb_mysql_result_each_nonstmt b es libc block args w
        | some _ => rb_mysql_result_each_stmt b es block args w)
        = each_body fetch block args w := by
  cases hs : w.stmt with
  | none =>
    exact ⟨rb_mysql_result_fetch_row b es libc args,
      fun fields => fetch_row_spec b es libc args fields, rfl⟩
  | some st =>
    exact ⟨rb_mysql_result_stmt_fetch_row b es args,
      fun fields => stmt_fetch_row_spec b es args fields, rfl⟩

theorem each_unfold (b : Build) (es : EncodingSupport) (libc : Libc)
    (opts : Option Hash) (block : Option Block) (w : mysql2_result_wrapper) :
    ∃ fetch : mysql2_result_wrapper → List MYSQL_FIELD → mysql2_result_wrapper →
        ROutcome (Option Row),
      (∀ w2 fields, FetchSpec w2.stmt.isSome (fetch w2 fields)) ∧
      rb_mysql_result_each b es libc opts block w
        = (({ ret := .ok (), state := w,
              trace := each_warnings (each_opts opts w)
                (each_args (each_opts opts w) block) w } : ROutcome Unit).bind fun _ w1 =>
            (each_init (each_args (each_opts opts w) block) w1).bind fun returned w2 =>
              if returned then ROutcome.pure w2.rows w2
              else each_body (fetch w2) block (each_args (each_opts opts w) block) w2) := by
  refine ⟨fun w2 => (each_dispatch b es libc block
    (each_args (each_opts opts w) block) w2).choose, fun w2 fields =>
      (each_dispatch b es libc block
        (each_args (each_opts opts w) block) w2).choose_spec.1 fields, ?_⟩
  unfold rb_mysql_result_each
  simp only
  congr 1
  funext _ w1
  congr 1
  funext returned w2
  cases returned
  · simp only [Bool.false_eq_true, if_false]
    exact (each_dispatch b es libc block (each_args (each_opts opts w) block) w2).choose_spec.2
  · rfl

theorem iteration_events_yields (rws : List (Option Row)) :
    iteration_events (rws.map REvent.rb_yield) = rws.map REvent.rb_yield := by
  induction rws with
  | nil => rfl
  | cons r rws ih =>
    simp only [iteration_events, List.map_cons] at ih ⊢
    rw [List.filter_cons_of_pos (by simp [REvent.isYield]), ih]

theorem yielded_yields (rws : List (Option Row)) :
    yielded (rws.map REvent.rb_yield) = rws := by
  induction rws with
  | nil => rfl
  | cons r rws ih => simp [yielded, ih]

theorem yielded_of_no_events (t : List REvent) (h : iteration_events t = []) :
    yielded t = [] := by
  rw [← yielded_iteration_events, h]
  rfl

theorem each_count_rows_value (w : mysql2_result_wrapper) (n : Nat)
    (h : (each_count_rows w).ret = .ok n) : n = native_row_count w := by
  unfold each_count_rows at h
  unfold native_row_count
  cases hs : w.stmt with
  | some st =>
    rw [hs] at h
    injection h with h1
    exact h1.symm
  | none =>
    rw [hs] at h
    by_cases hf : w.result.freed = true
    · simp [hf, ROutcome.raise] at h
    · simp only [hf, if_false] at h
      injection h with h1
      exact h1.symm

theorem each_opts_congr (opts : Option Hash) (w w1 : mysql2_result_wrapper)
    (h : w1.query_options = w.query_options) : each_opts opts w1 = each_opts opts w := by
  unfold each_opts
  rw [h]

theorem each_second_pass_cached (b : Build) (es : EncodingSupport) (libc : Libc)
    (opts2 : Option Hash) (blk2 : Block) (hblk : ∀ row, blk2 row = true)
    (w1 : mysql2_result_wrapper) (rws : List (Option Row))
    (hc : (each_args (each_opts opts2 w1) (some blk2)).cacheRows = true)
    (hns : (each_args (each_opts opts2 w1) (some blk2)).streaming = false)
    (hrows : w1.rows = some rws) (hl : w1.lastRowProcessed = rws.length)
    (hn : w1.numberOfRows = rws.length) (hz : rws.length ≠ 0) :
    (rb_mysql_result_each b es libc opts2 (some blk2) w1).ret = .ok (some rws) ∧
    (rb_mysql_result_each b es libc opts2 (some blk2) w1).state = w1 ∧
    iteration_events (rb_mysql_result_each b es libc opts2 (some blk2) w1).trace
      = rws.map REvent.rb_yield ∧
    yielded (rb_mysql_result_each b es libc opts2 (some blk2) w1).trace = rws := by
  obtain ⟨fetch, _, hu⟩ := each_unfold b es libc opts2 (some blk2) w1
  have hinit : each_init (each_args (each_opts opts2 w1) (some blk2)) w1
      = ROutcome.pure false w1 := by
    unfold each_init
    rw [if_neg (by rw [hl]; exact hz)]
  rw [hu, bind_of_ok _ _ () rfl]
  simp only [hinit]
  rw [bind_of_ok _ _ false rfl]
  simp only [ROutcome.pure, Bool.false_eq_true, if_false]
  rw [each_body_cached (fetch w1) blk2 hblk _ hc hns w1 rws hrows (by rw [hl, hn]) hn]
  obtain ⟨e1, e2⟩ := each_warnings_quiet (each_opts opts2 w1)
    (each_args (each_opts opts2 w1) (some blk2)) w1
  refine ⟨rfl, rfl, ?_, ?_⟩
  · simp only [iteration_events_append, e1, iteration_events_yields, List.nil_append]
  · simp only [yielded_append, e2, yielded_yields, List.nil_append]

theorem each_second_pass_empty (b : Build) (es : EncodingSupport) (libc : Libc)
    (opts2 : Option Hash) (block2 : Option Block)
    (w1 : mysql2_result_wrapper)
    (hns : (each_args (each_opts opts2 w1) block2).streaming = false)
    (hrows : w1.rows = some []) (hl : w1.lastRowProcessed = 0)
    (hn : w1.numberOfRows = 0) (hcount : (each_count_rows w1).ret = .ok 0) :
    (rb_mysql_result_each b es libc opts2 block2 w1).ret = .ok (some []) ∧
    (rb_mysql_result_each b es libc opts2 block2 w1).state = w1 ∧
    iteration_events (rb_mysql_result_each b es libc opts2 block2 w1).trace = [] ∧
    yielded (rb_mysql_result_each b es libc opts2 block2 w1).trace = [] := by
  obtain ⟨fetch, _, hu⟩ := each_unfold b es libc opts2 block2 w1
  obtain ⟨c1, c2⟩ := each_count_rows_quiet w1
  have hw : ({ w1 with numberOfRows := 0, rows := some [] } : mysql2_result_wrapper) = w1 := by
    cases w1
    simp only at hrows hn
    simp only [hrows, hn]
  have hinit : each_init (each_args (each_opts opts2 w1) block2) w1
      = { ret := .ok true, state := w1, trace := (each_count_rows w1).trace } := by
    unfold each_init
    rw [if_pos hl]
    simp only [hns, Bool.false_eq_true, if_false]
    rw [bind_of_ok _ _ 0 hcount]
    simp only [ROutcome.pure, c1, hw, decide_True, List.append_nil]
  obtain ⟨e1, e2⟩ := each_warnings_quiet (each_opts opts2 w1)
    (each_args (each_opts opts2 w1) block2) w1
  have hev : iteration_events (rb_mysql_result_each b es libc opts2 block2 w1).trace = [] := by
    rw [hu, bind_of_ok _ _ () rfl]
    simp only [hinit]
    rw [bind_of_ok _ _ true rfl]
    simp only [ROutcome.pure, if_true, iteration_events_append, e1, c2]
    rfl
  refine ⟨?_, ?_, hev, yielded_of_no_events _ hev⟩
  · rw [hu, bind_of_ok _ _ () rfl]
    simp only [hinit]
    rw [bind_of_ok _ _ true rfl]
    simp only [ROutcome.pure, if_true, hrows]
  · rw [hu, bind_of_ok _ _ () rfl]
    simp only [hinit]
    rw [bind_of_ok _ _ true rfl]
    simp only [ROutcome.pure, if_true]

theorem each_first_pass_caching (b : Build) (es : EncodingSupport) (libc : Libc)
    (r : MYSQL_RES) (s : Option MYSQL_STMT) (query_options : Hash)
    (opts1 : Option Hash) (block1 : Option Block) (rws : List (Option Row))
    (hc : (each_args (each_opts opts1 (rb_mysql_result_to_obj r s query_options))
      block1).cacheRows = true)
    (hns : (each_args (each_opts opts1 (rb_mysql_result_to_obj r s query_options))
      block1).streaming = false)
    (h : (rb_mysql_result_each b es libc opts1 block1
      (rb_mysql_result_to_obj r s query_options)).ret = .ok (some rws)) :
    ∃ zs : List Row, rws = zs.map some ∧
      zs.length = native_row_count (rb_mysql_result_to_obj r s query_options) ∧
      (rb_mysql_result_each b es libc opts1 block1
        (rb_mysql_result_to_obj r s query_options)).state.rows = some rws ∧
      (rb_mysql_result_each b es libc opts1 block1
        (rb_mysql_result_to_obj r s query_options)).state.lastRowProcessed = zs.length ∧
      (rb_mysql_result_each b es libc opts1 block1
        (rb_mysql_result_to_obj r s query_options)).state.numberOfRows = zs.length ∧
      (rb_mysql_result_each b es libc opts1 block1
        (rb_mysql_result_to_obj r s query_options)).state.query_options = query_options ∧
      (zs.length = 0 → (each_count_rows (rb_mysql_result_each b es libc opts1 block1
        (rb_mysql_result_to_obj r s query_options)).state).ret = .ok 0) ∧
      (zs.length ≠ 0 → (rb_mysql_result_each b es libc opts1 block1
        (rb_mysql_result_to_obj r s query_options)).state.resultFreed = true) ∧
      iteration_events (rb_mysql_result_each b es libc opts1 block1
        (rb_mysql_result_to_obj r s query_options)).trace
        = zs.flatMap (fun row => fetch_event s.isSome ::
            (if block1.isSome = true then [REvent.rb_yield (some row)] else []))
          ++ (if zs.length = 0 then [] else [REvent.mysql_free_result]) := by
  obtain ⟨fetch, hfetch, hu⟩ := each_unfold b es libc opts1 block1
    (rb_mysql_result_to_obj r s query_options)
  obtain ⟨e1, _⟩ := each_warnings_quiet
    (each_opts opts1 (rb_mysql_result_to_obj r s query_options))
    (each_args (each_opts opts1 (rb_mysql_result_to_obj r s query_options)) block1)
    (rb_mysql_result_to_obj r s query_options)
  obtain ⟨c1, c2⟩ := each_count_rows_quiet (rb_mysql_result_to_obj r s query_options)
  have hbg : (each_args (each_opts opts1 (rb_mysql_result_to_obj r s query_options))
      block1).block_given = block1.isSome := rfl
  generalize each_args (each_opts opts1 (rb_mysql_result_to_obj r s query_options)) block1
    = args at hc hns hu e1 hbg
  generalize each_warnings (each_opts opts1 (rb_mysql_result_to_obj r s query_options)) args
    (rb_mysql_result_to_obj r s query_options) = warnings at hu e1
  have hinit : each_init args (rb_mysql_result_to_obj r s query_options)
      = (each_count_rows (rb_mysql_result_to_obj r s query_options)).bind fun n w1 =>
          ROutcome.pure (decide (n = 0)) { w1 with numberOfRows := n, rows := some [] } := by
    unfold each_init
    rw [if_pos (show (rb_mysql_result_to_obj r s query_options).lastRowProcessed = 0 from rfl)]
    simp only [hns, Bool.false_eq_true, if_false]
  rw [hu, bind_of_ok _ _ () rfl] at h ⊢
  simp only [hinit] at h ⊢
  obtain ⟨returned, h1, h2⟩ := bind_ret_ok _ _ _ h
  obtain ⟨n, hcount, h3⟩ := bind_ret_ok _ _ _ h1
  have hn := each_count_rows_value _ n hcount
  rw [bind_of_ok _ _ n hcount] at h ⊢
  simp only [ROutcome.pure, c1] at h ⊢
  rw [bind_of_ok _ _ (decide (n = 0)) rfl] at h ⊢
  by_cases hz : n = 0
  · subst hz
    simp only [decide_True, if_true] at h ⊢
    have hr : rws = [] := by
      injection h with h4
      injection h4 with h5
      exact h5.symm
    subst hr
    refine ⟨[], rfl, hn, rfl, rfl, rfl, rfl, ?_, ?_, ?_⟩
    · intro _
      exact (each_count_rows_ret _ 0 (some [])).trans hcount
    · intro hne
      exact absurd rfl hne
    · simp only [iteration_events_append, e1, c2]
      rfl
  · simp only [hz, decide_False, Bool.false_eq_true, if_false] at h ⊢
    obtain ⟨zs, z0, z1, z2, z3, z4, z5, _, _, z8, _, z10⟩ :=
      each_body_first_pass s.isSome
        (fetch { rb_mysql_result_to_obj r s query_options with
          numberOfRows := n, rows := some [] })
        (hfetch _) block1 args hc hns
        { rb_mysql_result_to_obj r s query_options with numberOfRows := n, rows := some [] }
        rfl rfl rfl hz rws h
    have z0n : zs.length = n := z0
    refine ⟨zs, z1, z0n.trans hn, ?_, z3, z4, z5, ?_, ?_, ?_⟩
    · rw [z1]; exact z2
    · intro hzero
      exact absurd (z0n.symm.trans hzero) hz
    · intro _
      exact z8
    · simp only [iteration_events_append, e1, c2, z10, hbg, List.nil_append]
      have hne : ¬ zs.length = 0 := fun e => hz (z0n.symm.trans e)
      simp only [hne, if_false]
      rfl

theorem filter_isFetch_iteration_events (t : List REvent) :
    (iteration_events t).filter REvent.isFetch = t.filter REvent.isFetch := by
  unfold iteration_events
  rw [List.filter_filter]
  congr 1
  funext e
  cases e <;> rfl

theorem filter_isFetch_yields (rws : List (Option Row)) :
    (rws.map REvent.rb_yield).filter REvent.isFetch = [] := by
  induction rws with
  | nil => rfl
  | cons r rws ih => simp [REvent.isFetch]

/-- C19. Buffered iteration with cacheRows enabled: on a fresh result object,
when a first buffered `each` pass with cacheRows enabled ran to its end and
returned the row array `rws` (all N rows reported by the library were
decoded), a second buffered `each` pass with cacheRows enabled and a block
that returns normally yields exactly the entries of `rws`, in order, which
are the rows the first pass yielded when it had a block; it calls the fetch
primitive zero times, releases nothing and leaves the wrapper unchanged. -/
theorem C19_cached_second_pass (b : Build) (es : EncodingSupport) (libc : Libc)
    (r : MYSQL_RES) (s : Option MYSQL_STMT) (query_options : Hash)
    (opts1 opts2 : Option Hash) (block1 : Option Block) (blk2 : Block)
    (rws : List (Option Row))
    (hcache1 : rb_hash_aref (each_opts opts1 (rb_mysql_result_to_obj r s query_options))
      Sym.cache_rows ≠ RVal.qfalse)
    (hbuffered1 : rb_hash_aref (each_opts opts1 (rb_mysql_result_to_obj r s query_options))
      Sym.stream ≠ RVal.qtrue)
    (hcache2 : rb_hash_aref (each_opts opts2 (rb_mysql_result_to_obj r s query_options))
      Sym.cache_rows ≠ RVal.qfalse)
    (hbuffered2 : rb_hash_aref (each_opts opts2 (rb_mysql_result_to_obj r s query_options))
      Sym.stream ≠ RVal.qtrue)
    (hfirst : (rb_mysql_result_each b es libc opts1 block1
      (rb_mysql_result_to_obj r s query_options)).ret = .ok (some rws))
    (hblk2 : ∀ row, blk2 row = true) :
    rws.length = native_row_count (rb_mysql_result_to_obj r s query_options) ∧
    (∀ row ∈ rws, row ≠ none) ∧
    (block1.isSome = true →
      yielded (rb_mysql_result_each b es libc opts1 block1
        (rb_mysql_result_to_obj r s query_options)).trace = rws) ∧
    (rb_mysql_result_each b es libc opts2 (some blk2)
      (rb_mysql_result_each b es libc opts1 block1
        (rb_mysql_result_to_obj r s query_options)).state).ret = .ok (some rws) ∧
    yielded (rb_mysql_result_each b es libc opts2 (some blk2)
      (rb_mysql_result_each b es libc opts1 block1
        (rb_mysql_result_to_obj r s query_options)).state).trace = rws ∧
    iteration_events (rb_mysql_result_each b es libc opts2 (some blk2)
      (rb_mysql_result_each b es libc opts1 block1
        (rb_mysql_result_to_obj r s query_options)).state).trace
      = rws.map REvent.rb_yield ∧
    (rb_mysql_result_each b es libc opts2 (some blk2)
      (rb_mysql_result_each b es libc opts1 block1
        (rb_mysql_result_to_obj r s query_options)).state).trace.filter REvent.isFetch = [] ∧
    (rb_mysql_result_each b es libc opts2 (some blk2)
      (rb_mysql_result_each b es libc opts1 block1
        (rb_mysql_result_to_obj r s query_options)).state).state
      = (rb_mysql_result_each b es libc opts1 block1
        (rb_mysql_result_to_obj r s query_options)).state := by
  obtain ⟨zs, z1, z2, z3, z4, z5, z6, z7, _, z9⟩ :=
    each_first_pass_caching b es libc r s query_options opts1 block1 rws
      ((each_args_cacheRows _ _).mpr hcache1) ((each_args_streaming _ _).mpr hbuffered1) hfirst
  have hlen : rws.length = zs.length := by rw [z1, List.length_map]
  have hopts : each_opts opts2 (rb_mysql_result_each b es libc opts1 block1
      (rb_mysql_result_to_obj r s query_options)).state
      = each_opts opts2 (rb_mysql_result_to_obj r s query_options) :=
    each_opts_congr opts2 _ _ z6
  have hc2 : (each_args (each_opts opts2 (rb_mysql_result_each b es libc opts1 block1
      (rb_mysql_result_to_obj r s query_options)).state) (some blk2)).cacheRows = true := by
    rw [hopts]; exact (each_args_cacheRows _ _).mpr hcache2
  have hns2 : (each_args (each_opts opts2 (rb_mysql_result_each b es libc opts1 block1
      (rb_mysql_result_to_obj r s query_options)).state) (some blk2)).streaming = false := by
    rw [hopts]; exact (each_args_streaming _ _).mpr hbuffered2
  have hsecond :
      (rb_mysql_result_each b es libc opts2 (some blk2)
        (rb_mysql_result_each b es libc opts1 block1
          (rb_mysql_result_to_obj r s query_options)).state).ret = .ok (some rws) ∧
      (rb_mysql_result_each b es libc opts2 (some blk2)
        (rb_mysql_result_each b es libc opts1 block1
          (rb_mysql_result_to_obj r s query_options)).state).state
        = (rb_mysql_result_each b es libc opts1 block1
          (rb_mysql_result_to_obj r s query_options)).state ∧
      iteration_events (rb_mysql_result_each b es libc opts2 (some blk2)
        (rb_mysql_result_each b es libc opts1 block1
          (rb_mysql_result_to_obj r s query_options)).state).trace
        = rws.map REvent.rb_yield ∧
      yielded (rb_mysql_result_each b es libc opts2 (some blk2)
        (rb_mysql_result_each b es libc opts1 block1
          (rb_mysql_result_to_obj r s query_options)).state).trace = rws := by
    by_cases hz : zs.length = 0
    · have hnil : rws = [] := List.eq_nil_of_length_eq_zero (hlen.trans hz)
      subst hnil
      exact each_second_pass_empty b es libc opts2 (some blk2) _ hns2 z3 (z4.trans hz)
        (z5.trans hz) (z7 hz)
    · exact each_second_pass_cached b es libc opts2 blk2 hblk2 _ rws hc2 hns2 z3
        (z4.trans hlen.symm) (z5.trans hlen.symm) (by rw [hlen]; exact hz)
  obtain ⟨s1, s2, s3, s4⟩ := hsecond
  refine ⟨hlen.trans z2, ?_, ?_, s1, s4, s3, ?_, s2⟩
  · intro row hrow
    rw [z1] at hrow
    obtain ⟨z, _, hz⟩ := List.mem_map.mp hrow
    rw [← hz]
    simp
  · intro hb
    rw [← yielded_iteration_events, z9, yielded_append, yielded_flatMap_fetch, hb, z1]
    simp only [if_true]
    split <;> simp [yielded]
  · rw [← filter_isFetch_iteration_events, s3, filter_isFetch_yields]

theorem C19_cached_second_pass_witness :
    (rb_mysql_result_each build19 esUtf8Internal libcNonZero none (some blockReturns)
      (rb_mysql_result_to_obj twoRowResult none asArrayOptions)).ret = .ok (some twoRows) ∧
    yielded (rb_mysql_result_each build19 esUtf8Internal libcNonZero none (some blockReturns)
      (rb_mysql_result_each build19 esUtf8Internal libcNonZero none (some blockReturns)
        (rb_mysql_result_to_obj twoRowResult none asArrayOptions)).state).trace = twoRows ∧
    (rb_mysql_result_each build19 esUtf8Internal libcNonZero none (some blockReturns)
      (rb_mysql_result_each build19 esUtf8Internal libcNonZero none (some blockReturns)
        (rb_mysql_result_to_obj twoRowResult none asArrayOptions)).state).trace.filter
        REvent.isFetch = [] :=
  have h := C19_cached_second_pass build19 esUtf8Internal libcNonZero twoRowResult none
    asArrayOptions none none (some blockReturns) blockReturns twoRows
    (by decide) (by decide) (by decide) (by decide) rfl (fun _ => rfl)
  ⟨rfl, h.2.2.2.2.1, h.2.2.2.2.2.2.1⟩

theorem rb_yield_cases (block : Option Block) (row : Option Row)
    (w : mysql2_result_wrapper) :
    (rb_yield block row w).state = w ∧
    (rb_yield block row w).ret ≠ .error RExc.fetch_bound ∧
    (∀ u, (rb_yield block row w).ret = .ok u →
      (rb_yield block row w).trace = [REvent.rb_yield row]) := by
  cases block with
  | none => simp [rb_yield, ROutcome.raise]
  | some blk =>
    by_cases h : blk row = true <;> simp [rb_yield, ROutcome.raise, h]

theorem each_streaming_loop_spec (isStmt : Bool)
    (fetch : mysql2_result_wrapper → ROutcome (Option Row)) (hfetch : FetchSpec isStmt fetch)
    (block : Option Block) (args : result_each_args) (hbg : args.block_given = true)
    (fuel : Nat) :
    ∀ (w : mysql2_result_wrapper), w.stmt.isSome = isStmt → rows_remaining w < fuel →
      (each_streaming_loop fetch block args fuel w).ret ≠ .error RExc.fetch_bound ∧
      (∀ u, (each_streaming_loop fetch block args fuel w).ret = .ok u →
        ∃ zs : List Row, zs.length = rows_remaining w ∧
          (each_streaming_loop fetch block args fuel w).state.rows = w.rows ∧
          (each_streaming_loop fetch block args fuel w).state.lastRowProcessed
            = w.lastRowProcessed + zs.length ∧
          (each_streaming_loop fetch block args fuel w).state.numberOfRows
            = w.numberOfRows ∧
          (each_streaming_loop fetch block args fuel w).state.resultFreed = w.resultFreed ∧
          (each_streaming_loop fetch block args fuel w).state.streamingComplete
            = w.streamingComplete ∧
          (each_streaming_loop fetch block args fuel w).state.query_options
            = w.query_options ∧
          (each_streaming_loop fetch block args fuel w).state.result.freed
            = w.result.freed ∧
          (each_streaming_loop fetch block args fuel w).state.stmt.isSome = w.stmt.isSome ∧
          rows_remaining (each_streaming_loop fetch block args fuel w).state = 0 ∧
          iteration_events (each_streaming_loop fetch block args fuel w).trace
            = zs.flatMap (fun r => [fetch_event isStmt, REvent.rb_yield (some r)])
              ++ [fetch_event isStmt]) := by
  induction fuel with
  | zero => intro w _ h; exact absurd h (Nat.not_lt_zero _)
  | succ fuel ih =>
    intro w hs hlt
    obtain ⟨⟨f1, f2, f3, f4, f5, f6, f7, f8⟩, hnb, hspec⟩ := hfetch w
    obtain ⟨hev, hsome, hnone⟩ := hspec hs
    rw [each_streaming_loop]
    cases hF : (fetch w).ret with
    | error e =>
      rw [bind_of_error _ _ e hF]
      refine ⟨?_, fun u h => (by cases h)⟩
      rw [hF] at hnb
      intro h
      injection h with h1
      exact hnb (by rw [h1])
    | ok row =>
      rw [bind_of_ok _ _ row hF]
      cases row with
      | none =>
        obtain ⟨n1, n2⟩ := hnone hF
        refine ⟨by simp [ROutcome.pure], fun u _ => ⟨[], n1.symm, f1, f3, f2, f4, f5, f6, f7, f8,
          n2, ?_⟩⟩
        simp only [ROutcome.pure, List.append_nil, hev _ hF, List.flatMap_nil, List.nil_append]
      | some r =>
        simp only [hbg, if_true]
        obtain ⟨y1, y2, y3⟩ := rb_yield_cases block (some r) (fetch w).state
        cases hY : (rb_yield block (some r) (fetch w).state).ret with
        | error e =>
          rw [bind_of_error _ _ e hY]
          refine ⟨?_, fun u h => (by cases h)⟩
          rw [hY] at y2
          intro h
          injection h with h1
          exact y2 (by rw [h1])
        | ok u1 =>
          rw [bind_of_ok _ _ u1 hY]
          simp only [y1]
          have hrem := hsome r hF
          have hrem1 : rows_remaining
              { (fetch w).state with
                lastRowProcessed := (fetch w).state.lastRowProcessed + 1 }
              = rows_remaining (fetch w).state := rfl
          obtain ⟨i1, i2⟩ := ih
            { (fetch w).state with lastRowProcessed := (fetch w).state.lastRowProcessed + 1 }
            (by simpa [f8] using hs) (by rw [hrem1]; omega)
          refine ⟨i1, ?_⟩
          intro u hu
          obtain ⟨zs, z0, z1, z2, z3, z4, z5, z6, z7, z8, z9, z10⟩ := i2 u hu
          dsimp only at z1 z2 z3 z4 z5 z6 z7 z8
          refine ⟨r :: zs, ?_, z1.trans f1, ?_, z3.trans f2, z4.trans f4, z5.trans f5,
            z6.trans f6, z7.trans f7, z8.trans f8, z9, ?_⟩
          · rw [List.length_cons, z0, hrem1]
            exact hrem
          · exact z2.trans (by rw [f3, List.length_cons]; omega)
          · simp only [iteration_events_append, hev _ hF, y3 u1 hY, z10, List.flatMap_cons]
            cases isStmt <;>
              simp [iteration_events, fetch_event, REvent.isFetch, REvent.isYield,
                REvent.isRelease]

theorem yielded_flatMap_pairs (isStmt : Bool) (zs : List Row) :
    yielded (zs.flatMap (fun r => [fetch_event isStmt, REvent.rb_yield (some r)]))
      = zs.map some := by
  induction zs with
  | nil => rfl
  | cons z zs ih =>
    rw [List.flatMap_cons, yielded_append, ih]
    cases isStmt <;> simp [fetch_event, yielded]

theorem each_body_streaming (isStmt : Bool)
    (fetch : List MYSQL_FIELD → mysql2_result_wrapper → ROutcome (Option Row))
    (hfetch : ∀ fields, FetchSpec isStmt (fetch fields))
    (block : Option Block) (args : result_each_args)
    (hbg : args.block_given = true) (hst : args.streaming = true)
    (w : mysql2_result_wrapper) (hs : w.stmt.isSome = isStmt)
    (hsc : w.streamingComplete = false) :
    (each_body fetch block args w).ret ≠ .error RExc.fetch_bound ∧
    (∀ v, (each_body fetch block args w).ret = .ok v →
      ∃ zs : List Row, zs.length = rows_remaining w ∧ v = w.rows ∧
        (each_body fetch block args w).state.rows = w.rows ∧
        (each_body fetch block args w).state.lastRowProcessed
          = w.lastRowProcessed + zs.length ∧
        (each_body fetch block args w).state.numberOfRows = w.lastRowProcessed + zs.length ∧
        (each_body fetch block args w).state.streamingComplete = true ∧
        (each_body fetch block args w).state.resultFreed = true ∧
        (w.resultFreed = false → (each_body fetch block args w).state.result.freed = true) ∧
        (each_body fetch block args w).state.query_options = w.query_options ∧
        (each_body fetch block args w).state.stmt.isSome = w.stmt.isSome ∧
        iteration_events (each_body fetch block args w).trace
          = zs.flatMap (fun r => [fetch_event isStmt, REvent.rb_yield (some r)])
            ++ [fetch_event isStmt]
            ++ (if w.resultFreed = true then [] else [REvent.mysql_free_result])) := by
  have hunfold : each_body fetch block args w
      = (mysql_fetch_fields w).bind fun fields w1 =>
          (each_streaming_loop (fetch fields) block args (rows_remaining w1 + 1) w1).bind
            fun _ w2 =>
              { ret := .ok (rb_mysql_result_free_result w2).1.rows
                state := { (rb_mysql_result_free_result w2).1 with
                  numberOfRows := (rb_mysql_result_free_result w2).1.lastRowProcessed,
                  streamingComplete := true }
                trace := (rb_mysql_result_free_result w2).2 } := by
    unfold each_body
    simp only [hst, if_true, hsc, Bool.not_false]
  rw [hunfold]
  obtain ⟨q1, q2⟩ := mysql_fetch_fields_quiet w
  cases hF : (mysql_fetch_fields w).ret with
  | error e =>
    rw [bind_of_error _ _ e hF]
    refine ⟨?_, fun v h => (by cases h)⟩
    unfold mysql_fetch_fields at hF
    by_cases hfr : w.result.freed = true
    · rw [if_pos hfr] at hF
      simp only [ROutcome.raise] at hF
      injection hF with h1
      rw [← h1]
      simp
    · rw [if_neg hfr] at hF
      cases hF
  | ok fields =>
    rw [bind_of_ok _ _ fields hF]
    simp only [q1]
    obtain ⟨l1, l2⟩ := each_streaming_loop_spec isStmt (fetch fields) (hfetch fields) block args
      hbg (rows_remaining w + 1) w hs (Nat.lt_succ_self _)
    cases hL : (each_streaming_loop (fetch fields) block args (rows_remaining w + 1) w).ret with
    | error e =>
      rw [bind_of_error _ _ e hL]
      refine ⟨?_, fun v h => (by cases h)⟩
      rw [hL] at l1
      intro h
      injection h with h1
      exact l1 (by rw [h1])
    | ok u =>
      rw [bind_of_ok _ _ u hL]
      obtain ⟨zs, z0, z1, z2, z3, z4, z5, z6, z7, z8, z9, z10⟩ := l2 u hL
      obtain ⟨r1, r2, r3, r4, r5, r6, r7, r8, r9, r10⟩ := free_result_state
        (each_streaming_loop (fetch fields) block args (rows_remaining w + 1) w).state
      refine ⟨by simp, fun v hv => ⟨zs, z0, ?_, ?_, ?_, ?_, rfl, r8, ?_, ?_, ?_, ?_⟩⟩
      · injection hv with h1
        rw [← h1]
        exact r1.trans z1
      · exact r1.trans z1
      · exact r2.trans z2
      · exact r2.trans z2
      · intro hnf
        exact r9 (z4.trans hnf)
      · exact r5.trans z6
      · exact r6.trans z8
      · simp only [iteration_events_append, q2, z10, r10, z4, List.nil_append]

theorem init_fields_returns (w : mysql2_result_wrapper) (hfr : w.result.freed = false)
    (hfc : FieldsCounted w) :
    (init_fields w).ret = .ok () ∧ (init_fields w).state.fields.isSome = true ∧
    (init_fields w).state.numberOfFields = w.result.fields.length ∧
    (init_fields w).state.result = w.result ∧ (init_fields w).state.stmt = w.stmt := by
  unfold init_fields
  cases hf : w.fields with
  | some fs => exact ⟨rfl, by simp [ROutcome.pure, hf], hfc (by simp [hf]), rfl, rfl⟩
  | none =>
    have hnf : ¬ w.result.freed = true := by simp [hfr]
    dsimp only
    rw [if_neg hnf]
    exact ⟨rfl, rfl, rfl, rfl, rfl⟩

theorem fetch_field_returns (b : Build) (es : EncodingSupport) (idx : Nat) (sk : Bool)
    (w : mysql2_result_wrapper) (hf : w.fields.isSome = true)
    (hfr : w.result.freed = false) (hidx : idx < w.result.fields.length) :
    (∃ k, (rb_mysql_result_fetch_field b es idx sk w).ret = .ok k) ∧
    (rb_mysql_result_fetch_field b es idx sk w).state.fields.isSome = true ∧
    (rb_mysql_result_fetch_field b es idx sk w).state.numberOfFields = w.numberOfFields ∧
    (rb_mysql_result_fetch_field b es idx sk w).state.result = w.result ∧
    (rb_mysql_result_fetch_field b es idx sk w).state.stmt = w.stmt := by
  have hinit : init_fields w = ROutcome.pure () w := by
    unfold init_fields
    cases hfs : w.fields with
    | some fs => rfl
    | none => rw [hfs] at hf; simp at hf
  have hfget : w.result.fields[idx]? = some w.result.fields[idx] :=
    List.getElem?_eq_getElem hidx
  cases h : rb_ary_entry (w.fields.getD []) idx with
  | some k =>
    simp [rb_mysql_result_fetch_field, hinit, ROutcome.bind, ROutcome.pure, h, hf]
  | none =>
    simp [rb_mysql_result_fetch_field, hinit, ROutcome.bind, ROutcome.pure, h, hfr, hfget]

theorem text_row_decodes_spec (b : Build) (es : EncodingSupport) (libc : Libc)
    (args : result_each_args) (fields : List MYSQL_FIELD) (row : TextRow)
    (h : text_row_decodes b es libc args fields row = true) :
    row.length = fields.length ∧
    ∀ (j : Nat) (f : MYSQL_FIELD) (cell : Option (List Nat) × Nat),
      fields[j]? = some f → row[j]? = some cell →
      ∃ val, rb_mysql_result_fetch_row_value b es libc args.db_timezone args.app_timezone
        args.castBool args.cast f cell.1 cell.2 = .ok val := by
  unfold text_row_decodes at h
  rw [Bool.and_eq_true] at h
  obtain ⟨h1, h2⟩ := h
  refine ⟨by simpa using h1, ?_⟩
  intro j f cell hf hc
  have hz : (fields.zip row)[j]? = some (f, cell) :=
    List.getElem?_zip_eq_some.mpr ⟨hf, hc⟩
  have hm := List.getElem?_mem hz
  have hp := List.all_eq_true.mp h2 (f, cell) hm
  dsimp only at hp
  cases hv : rb_mysql_result_fetch_row_value b es libc args.db_timezone args.app_timezone
      args.castBool args.cast f cell.1 cell.2 with
  | ok val => exact ⟨val, rfl⟩
  | error e => rw [hv] at hp; cases hp

theorem fetch_row_columns_returns (b : Build) (es : EncodingSupport) (libc : Libc)
    (args : result_each_args) (fields : List MYSQL_FIELD) (row : TextRow)
    (hlen : row.length = fields.length)
    (hdec : ∀ (j : Nat) (f : MYSQL_FIELD) (cell : Option (List Nat) × Nat),
      fields[j]? = some f → row[j]? = some cell →
      ∃ val, rb_mysql_result_fetch_row_value b es libc args.db_timezone args.app_timezone
        args.castBool args.cast f cell.1 cell.2 = .ok val)
    (n : Nat) :
    ∀ (i : Nat) (rowVal : Row) (w : mysql2_result_wrapper),
      w.fields.isSome = true → w.result.freed = false → w.result.fields = fields →
      i + n ≤ fields.length →
      (∃ rv, (fetch_row_columns b es libc args fields row n i rowVal w).ret = .ok rv) ∧
      (fetch_row_columns b es libc args fields row n i rowVal w).state.fields.isSome = true ∧
      (fetch_row_columns b es libc args fields row n i rowVal w).state.numberOfFields
        = w.numberOfFields ∧
      (fetch_row_columns b es libc args fields row n i rowVal w).state.result = w.result ∧
      (fetch_row_columns b es libc args fields row n i rowVal w).state.stmt = w.stmt := by
  induction n with
  | zero =>
    intro i rowVal w hf _ _ _
    exact ⟨⟨rowVal, rfl⟩, hf, rfl, rfl, rfl⟩
  | succ n ih =>
    intro i rowVal w hf hfr hfs hi
    have hilt : i < fields.length := by omega
    obtain ⟨⟨k, hk⟩, g1, g2, g3, g4⟩ :=
      fetch_field_returns b es i args.symbolizeKeys w hf hfr (by rw [hfs]; exact hilt)
    have hrow : row[i]? = some row[i] := List.getElem?_eq_getElem (by rw [hlen]; exact hilt)
    have hfield : fields[i]? = some fields[i] := List.getElem?_eq_getElem hilt
    have hnext : ∀ rv1, 
        (∃ rv, (fetch_row_columns b es libc args fields row n (i + 1) rv1
          (rb_mysql_result_fetch_field b es i args.symbolizeKeys w).state).ret = .ok rv) ∧
        (fetch_row_columns b es libc args fields row n (i + 1) rv1
          (rb_mysql_result_fetch_field b es i args.symbolizeKeys w).state).state.fields.isSome
          = true ∧
        (fetch_row_columns b es libc args fields row n (i + 1) rv1
          (rb_mysql_result_fetch_field b es i args.symbolizeKeys w).state).state.numberOfFields
          = w.numberOfFields ∧
        (fetch_row_columns b es libc args fields row n (i + 1) rv1
          (rb_mysql_result_fetch_field b es i args.symbolizeKeys w).state).state.result
          = w.result ∧
        (fetch_row_columns b es libc args fields row n (i + 1) rv1
          (rb_mysql_result_fetch_field b es i args.symbolizeKeys w).state).state.stmt
          = w.stmt := by
      intro rv1
      obtain ⟨a1, a2, a3, a4, a5⟩ := ih (i + 1) rv1
        (rb_mysql_result_fetch_field b es i args.symbolizeKeys w).state g1
        (by rw [g3]; exact hfr) (by rw [g3]; exact hfs) (by omega)
      exact ⟨a1, a2, a3.trans g2, a4.trans g3, a5.trans g4⟩
    rw [fetch_row_columns, bind_of_ok _ _ k hk]
    simp only [List.get?_eq_getElem?, hrow]
    cases hcell : row[i] with
    | mk p len =>
      cases p with
      | none => exact hnext _
      | some ptr =>
        simp only [hfield]
        obtain ⟨val, hval⟩ := hdec i fields[i] row[i] hfield hrow
        rw [hcell] at hval
        simp only [hval]
        exact hnext _

theorem fetch_row_returns (b : Build) (es : EncodingSupport) (libc : Libc)
    (args : result_each_args) (w : mysql2_result_wrapper)
    (hfr : w.result.freed = false) (hfc : FieldsCounted w)
    (row : TextRow) (rest : List TextRow) (hrows : w.result.rows = row :: rest)
    (hdec : text_row_decodes b es libc args w.result.fields row = true) :
    (∃ rv, (rb_mysql_result_fetch_row b es libc args w.result.fields w).ret = .ok (some rv)) ∧
    FieldsCounted (rb_mysql_result_fetch_row b es libc args w.result.fields w).state ∧
    (rb_mysql_result_fetch_row b es libc args w.result.fields w).state.result.rows = rest ∧
    (rb_mysql_result_fetch_row b es libc args w.result.fields w).state.result.fields
      = w.result.fields ∧
    (rb_mysql_result_fetch_row b es libc args w.result.fields w).state.result.freed = false ∧
    (rb_mysql_result_fetch_row b es libc args w.result.fields w).state.stmt = w.stmt := by
  have hnf : ¬ w.result.freed = true := by simp [hfr]
  obtain ⟨hlen, hcols⟩ := text_row_decodes_spec b es libc args w.result.fields row hdec
  obtain ⟨i1, i2, i3, i4, i5⟩ := init_fields_returns
    { w with result := { w.result with rows := rest, fetched := w.result.fetched + 1 } }
    hfr hfc
  obtain ⟨⟨rv, c1⟩, c2, c3, c4, c5⟩ := fetch_row_columns_returns b es libc args
    w.result.fields row hlen hcols
    (init_fields { w with result := { w.result with rows := rest,
                                                      fetched := w.result.fetched + 1 } }).state.numberOfFields
    0 (row_new args.asArray)
    (init_fields { w with result := { w.result with rows := rest,
                                                      fetched := w.result.fetched + 1 } }).state
    i2 (by rw [i4]; exact hfr) (by rw [i4]) (by rw [i3]; simp)
  unfold rb_mysql_result_fetch_row
  rw [if_neg hnf, hrows]
  dsimp only
  rw [bind_of_ok _ _ () rfl, bind_of_ok _ _ () i1, bind_of_ok _ _ rv c1]
  refine ⟨⟨rv, rfl⟩, ?_, ?_, ?_, ?_, ?_⟩
  · intro _
    show (fetch_row_columns _ _ _ _ _ _ _ _ _ _).state.numberOfFields
      = (fetch_row_columns _ _ _ _ _ _ _ _ _ _).state.result.fields.length
    rw [c3, c4, i3, i4]
  · show (fetch_row_columns _ _ _ _ _ _ _ _ _ _).state.result.rows = rest
    rw [c4, i4]
  · show (fetch_row_columns _ _ _ _ _ _ _ _ _ _).state.result.fields = w.result.fields
    rw [c4, i4]
  · show (fetch_row_columns _ _ _ _ _ _ _ _ _ _).state.result.freed = false
    rw [c4, i4]
    exact hfr
  · show (fetch_row_columns _ _ _ _ _ _ _ _ _ _).state.stmt = w.stmt
    rw [c5, i5]

theorem fetch_row_of_no_rows (b : Build) (es : EncodingSupport) (libc : Libc)
    (args : result_each_args) (fields : List MYSQL_FIELD) (w : mysql2_result_wrapper)
    (hfr : w.result.freed = false) (hrows : w.result.rows = []) :
    rb_mysql_result_fetch_row b es libc args fields w
      = { ret := .ok none, state := w, trace := [REvent.mysql_fetch_row] } := by
  have hnf : ¬ w.result.freed = true := by simp [hfr]
  unfold rb_mysql_result_fetch_row
  rw [if_neg hnf, hrows]

theorem each_streaming_loop_returns (b : Build) (es : EncodingSupport) (libc : Libc)
    (args : result_each_args) (blk : Block) (hblk : ∀ row, blk row = true)
    (fields : List MYSQL_FIELD) (fuel : Nat) :
    ∀ (w : mysql2_result_wrapper), w.result.fields = fields → w.result.freed = false →
      FieldsCounted w →
      (∀ row ∈ w.result.rows, text_row_decodes b es libc args fields row = true) →
      w.result.rows.length < fuel →
      ∃ u, (each_streaming_loop (rb_mysql_result_fetch_row b es libc args fields) (some blk)
        args fuel w).ret = .ok u := by
  induction fuel with
  | zero => intro w _ _ _ _ h; exact absurd h (Nat.not_lt_zero _)
  | succ fuel ih =>
    intro w hfs hfr hfc hdec hlt
    rw [each_streaming_loop]
    cases hrows : w.result.rows with
    | nil =>
      rw [fetch_row_of_no_rows b es libc args fields w hfr hrows, bind_of_ok _ _ none rfl]
      exact ⟨(), rfl⟩
    | cons row rest =>
      subst hfs
      obtain ⟨⟨rv, f1⟩, f2, f3, f4, f5, _⟩ := fetch_row_returns b es libc args w hfr hfc
        row rest hrows (hdec row (by rw [hrows]; exact List.mem_cons_self _ _))
      have hrest : ∀ r ∈ rest, text_row_decodes b es libc args w.result.fields r = true :=
        fun r hr => hdec r (by rw [hrows]; exact List.mem_cons_of_mem _ hr)
      have hlt1 : rest.length < fuel := by
        rw [hrows, List.length_cons] at hlt
        omega
      rw [bind_of_ok _ _ (some rv) f1]
      dsimp only
      by_cases hbg : args.block_given = true
      · rw [if_pos hbg]
        have hy : rb_yield (some blk) (some rv)
            (rb_mysql_result_fetch_row b es libc args w.result.fields w).state
            = { ret := .ok (),
                state := (rb_mysql_result_fetch_row b es libc args w.result.fields w).state,
                trace := [REvent.rb_yield (some rv)] } := by
          simp [rb_yield, hblk]
        rw [hy, bind_of_ok _ _ () rfl]
        exact ih _ f4 f5 f2 (by rw [show ({ (rb_mysql_result_fetch_row b es libc args
            w.result.fields w).state with lastRowProcessed := _ } :
            mysql2_result_wrapper).result.rows = rest from f3]; exact hrest)
          (by rw [show ({ (rb_mysql_result_fetch_row b es libc args
            w.result.fields w).state with lastRowProcessed := _ } :
            mysql2_result_wrapper).result.rows = rest from f3]; exact hlt1)
      · rw [if_neg hbg]
        exact ih _ f4 f5 f2 (by rw [f3]; exact hrest) (by rw [f3]; exact hlt1)

theorem each_streaming_returns (b : Build) (es : EncodingSupport) (libc : Libc)
    (r : MYSQL_RES) (query_options : Hash) (opts1 : Option Hash) (blk1 : Block)
    (hstream1 : rb_hash_aref (each_opts opts1 (rb_mysql_result_to_obj r none query_options))
      Sym.stream = RVal.qtrue)
    (hfr : r.freed = false)
    (hdec : ∀ row ∈ r.rows, text_row_decodes b es libc
      (each_args (each_opts opts1 (rb_mysql_result_to_obj r none query_options)) (some blk1))
      r.fields row = true)
    (hblk : ∀ row, blk1 row = true) :
    ∃ v, (rb_mysql_result_each b es libc opts1 (some blk1)
      (rb_mysql_result_to_obj r none query_options)).ret = .ok v := by
  have hst : (each_args (each_opts opts1 (rb_mysql_result_to_obj r none query_options))
      (some blk1)).streaming = true := by
    simp [each_args, hstream1]
  have hu : rb_mysql_result_each b es libc opts1 (some blk1)
      (rb_mysql_result_to_obj r none query_options)
      = (({ ret := .ok (), state := rb_mysql_result_to_obj r none query_options,
            trace := each_warnings (each_opts opts1 (rb_mysql_result_to_obj r none
              query_options)) (each_args (each_opts opts1 (rb_mysql_result_to_obj r none
              query_options)) (some blk1)) (rb_mysql_result_to_obj r none query_options) } :
          ROutcome Unit).bind fun _ w1 =>
          (each_init (each_args (each_opts opts1 (rb_mysql_result_to_obj r none
              query_options)) (some blk1)) w1).bind fun returned w2 =>
            if returned then ROutcome.pure w2.rows w2
            else
              match w2.stmt with
              | none => rb_mysql_result_each_nonstmt b es libc (some blk1)
                  (each_args (each_opts opts1 (rb_mysql_result_to_obj r none
                    query_options)) (some blk1)) w2
              | some _ => rb_mysql_result_each_stmt b es (some blk1)
                  (each_args (each_opts opts1 (rb_mysql_result_to_obj r none
                    query_options)) (some blk1)) w2) := rfl
  generalize each_args (each_opts opts1 (rb_mysql_result_to_obj r none query_options))
    (some blk1) = args at hst hdec hu
  have hinit : each_init args (rb_mysql_result_to_obj r none query_options)
      = ROutcome.pure false
          { rb_mysql_result_to_obj r none query_options with
            numberOfRows := 0, rows := some [] } := by
    unfold each_init
    rw [if_pos (show (rb_mysql_result_to_obj r none query_options).lastRowProcessed = 0
      from rfl)]
    simp only [hst, if_true]
  have hnf : ¬ r.freed = true := by simp [hfr]
  have hff : mysql_fetch_fields
      { rb_mysql_result_to_obj r none query_options with numberOfRows := 0, rows := some [] }
      = { ret := .ok r.fields,
          state := { rb_mysql_result_to_obj r none query_options with
            numberOfRows := 0, rows := some [] },
          trace := [REvent.mysql_fetch_fields] } := by
    unfold mysql_fetch_fields
    show (if r.freed = true then _ else _) = _
    rw [if_neg hnf]
    rfl
  obtain ⟨u, hloop⟩ := each_streaming_loop_returns b es libc args blk1 hblk r.fields
    (r.rows.length + 1)
    { rb_mysql_result_to_obj r none query_options with numberOfRows := 0, rows := some [] }
    rfl hfr (fun h => by cases h) hdec (Nat.lt_succ_self _)
  have hbody : ∃ v, (each_body (rb_mysql_result_fetch_row b es libc args) (some blk1) args
      { rb_mysql_result_to_obj r none query_options with
        numberOfRows := 0, rows := some [] }).ret = .ok v := by
    unfold each_body
    simp only [hst, if_true]
    rw [if_pos (by rfl), hff, bind_of_ok _ _ r.fields rfl]
    have hrem : rows_remaining
        { rb_mysql_result_to_obj r none query_options with
          numberOfRows := 0, rows := some [] } = r.rows.length := rfl
    simp only [hrem]
    rw [bind_of_ok _ _ u hloop]
    exact ⟨_, rfl⟩
  obtain ⟨v, hv⟩ := hbody
  rw [hu, bind_of_ok _ _ () rfl, hinit, bind_of_ok _ _ false rfl]
  exact ⟨v, hv⟩

/-- C20. Streaming iteration: on a fresh result object, a first `each` pass in
streaming mode with a block never stops on the bound of the fetch loop; on a
text result whose rows all decode, with a block that returns for every row, it
returns; and when it returns it has called the fetch primitive once per
available row and once more for the end, has yielded each row right after its
fetch, once and in fetch order, has released the native result once, after
the last fetch, retains no row, has set the row count to the number of rows
yielded and `streamingComplete`; every later `each` call in streaming mode
raises the already-fetched error and leaves the wrapper, hence the count,
unchanged. -/
theorem C20_streaming_pass (b : Build) (es : EncodingSupport) (libc : Libc)
    (r : MYSQL_RES) (s : Option MYSQL_STMT) (query_options : Hash)
    (opts1 : Option Hash) (blk1 : Block)
    (hstream1 : rb_hash_aref (each_opts opts1 (rb_mysql_result_to_obj r s query_options))
      Sym.stream = RVal.qtrue) :
    (rb_mysql_result_each b es libc opts1 (some blk1)
      (rb_mysql_result_to_obj r s query_options)).ret ≠ .error RExc.fetch_bound ∧
    (s = none → r.freed = false →
      (∀ row ∈ r.rows, text_row_decodes b es libc
        (each_args (each_opts opts1 (rb_mysql_result_to_obj r s query_options)) (some blk1))
        r.fields row = true) →
      (∀ row, blk1 row = true) →
      ∃ v, (rb_mysql_result_each b es libc opts1 (some blk1)
        (rb_mysql_result_to_obj r s query_options)).ret = .ok v) ∧
    (∀ v, (rb_mysql_result_each b es libc opts1 (some blk1)
        (rb_mysql_result_to_obj r s query_options)).ret = .ok v →
      v = some [] ∧
      (rb_mysql_result_each b es libc opts1 (some blk1)
        (rb_mysql_result_to_obj r s query_options)).state.rows = some [] ∧
      (rb_mysql_result_each b es libc opts1 (some blk1)
        (rb_mysql_result_to_obj r s query_options)).state.resultFreed = true ∧
      (rb_mysql_result_each b es libc opts1 (some blk1)
        (rb_mysql_result_to_obj r s query_options)).state.result.freed = true ∧
      (rb_mysql_result_each b es libc opts1 (some blk1)
        (rb_mysql_result_to_obj r s query_options)).state.streamingComplete = true ∧
      (∃ zs : List Row,
        zs.length = rows_remaining (rb_mysql_result_to_obj r s query_options) ∧
        yielded (rb_mysql_result_each b es libc opts1 (some blk1)
          (rb_mysql_result_to_obj r s query_options)).trace = zs.map some ∧
        iteration_events (rb_mysql_result_each b es libc opts1 (some blk1)
          (rb_mysql_result_to_obj r s query_options)).trace
          = zs.flatMap (fun row => [fetch_event s.isSome, REvent.rb_yield (some row)])
            ++ [fetch_event s.isSome, REvent.mysql_free_result] ∧
        (rb_mysql_result_each b es libc opts1 (some blk1)
          (rb_mysql_result_to_obj r s query_options)).state.numberOfRows = zs.length) ∧
      (∀ (opts3 : Option Hash) (block3 : Option Block),
        rb_hash_aref (each_opts opts3 (rb_mysql_result_to_obj r s query_options)) Sym.stream
          = RVal.qtrue →
        (rb_mysql_result_each b es libc opts3 block3
          (rb_mysql_result_each b es libc opts1 (some blk1)
            (rb_mysql_result_to_obj r s query_options)).state).ret
          = .error RExc.already_fetched ∧
        (rb_mysql_result_each b es libc opts3 block3
          (rb_mysql_result_each b es libc opts1 (some blk1)
            (rb_mysql_result_to_obj r s query_options)).state).state
          = (rb_mysql_result_each b es libc opts1 (some blk1)
            (rb_mysql_result_to_obj r s query_options)).state)) := by
  have hreturns : s = none → r.freed = false →
      (∀ row ∈ r.rows, text_row_decodes b es libc
        (each_args (each_opts opts1 (rb_mysql_result_to_obj r s query_options)) (some blk1))
        r.fields row = true) →
      (∀ row, blk1 row = true) →
      ∃ v, (rb_mysql_result_each b es libc opts1 (some blk1)
        (rb_mysql_result_to_obj r s query_options)).ret = .ok v := by
    intro hs hfr hdec hblk
    subst hs
    exact each_streaming_returns b es libc r query_options opts1 blk1 hstream1 hfr hdec hblk
  obtain ⟨fetch, hfetch, hu⟩ := each_unfold b es libc opts1 (some blk1)
    (rb_mysql_result_to_obj r s query_options)
  obtain ⟨e1, _⟩ := each_warnings_quiet
    (each_opts opts1 (rb_mysql_result_to_obj r s query_options))
    (each_args (each_opts opts1 (rb_mysql_result_to_obj r s query_options)) (some blk1))
    (rb_mysql_result_to_obj r s query_options)
  have hst : (each_args (each_opts opts1 (rb_mysql_result_to_obj r s query_options))
      (some blk1)).streaming = true := by
    simp [each_args, hstream1]
  have hbg : (each_args (each_opts opts1 (rb_mysql_result_to_obj r s query_options))
      (some blk1)).block_given = true := rfl
  generalize each_args (each_opts opts1 (rb_mysql_result_to_obj r s query_options))
    (some blk1) = args at hst hu e1 hbg hreturns ⊢
  generalize each_warnings (each_opts opts1 (rb_mysql_result_to_obj r s query_options)) args
    (rb_mysql_result_to_obj r s query_options) = warnings at hu e1
  have hinit : each_init args (rb_mysql_result_to_obj r s query_options)
      = ROutcome.pure false
          { rb_mysql_result_to_obj r s query_options with numberOfRows := 0, rows := some [] } := by
    unfold each_init
    rw [if_pos (show (rb_mysql_result_to_obj r s query_options).lastRowProcessed = 0 from rfl)]
    simp only [hst, if_true]
  obtain ⟨b1, b2⟩ := each_body_streaming s.isSome
    (fetch { rb_mysql_result_to_obj r s query_options with numberOfRows := 0, rows := some [] })
    (hfetch _) (some blk1) args hbg hst
    { rb_mysql_result_to_obj r s query_options with numberOfRows := 0, rows := some [] }
    rfl rfl
  have hout : rb_mysql_result_each b es libc opts1 (some blk1)
      (rb_mysql_result_to_obj r s query_options)
      = { ret := (each_body (fetch { rb_mysql_result_to_obj r s query_options with
              numberOfRows := 0, rows := some [] }) (some blk1) args
            { rb_mysql_result_to_obj r s query_options with
              numberOfRows := 0, rows := some [] }).ret
          state := (each_body (fetch { rb_mysql_result_to_obj r s query_options with
              numberOfRows := 0, rows := some [] }) (some blk1) args
            { rb_mysql_result_to_obj r s query_options with
              numberOfRows := 0, rows := some [] }).state
          trace := warnings ++ ([] ++ (each_body (fetch { rb_mysql_result_to_obj r s
              query_options with numberOfRows := 0, rows := some [] }) (some blk1) args
            { rb_mysql_result_to_obj r s query_options with
              numberOfRows := 0, rows := some [] }).trace) } := by
    rw [hu, bind_of_ok _ _ () rfl]
    simp only [hinit]
    rw [bind_of_ok _ _ false rfl]
    simp only [ROutcome.pure, Bool.false_eq_true, if_false]
  refine ⟨by rw [hout]; exact b1, hreturns, ?_⟩
  rw [hout]
  intro v hv
  obtain ⟨zs, z0, z1, z2, z3, z4, z5, z6, z7, z8, z9, z10⟩ := b2 v hv
  have hz3 : (each_body (fetch { rb_mysql_result_to_obj r s query_options with
        numberOfRows := 0, rows := some [] }) (some blk1) args
      { rb_mysql_result_to_obj r s query_options with
        numberOfRows := 0, rows := some [] }).state.lastRowProcessed = zs.length := by
    rw [z3]; exact Nat.zero_add _
  have hz4 : (each_body (fetch { rb_mysql_result_to_obj r s query_options with
        numberOfRows := 0, rows := some [] }) (some blk1) args
      { rb_mysql_result_to_obj r s query_options with
        numberOfRows := 0, rows := some [] }).state.numberOfRows = zs.length := by
    rw [z4]; exact Nat.zero_add _
  have hev : iteration_events (warnings ++ ([] ++ (each_body (fetch { rb_mysql_result_to_obj r s
        query_options with numberOfRows := 0, rows := some [] }) (some blk1) args
      { rb_mysql_result_to_obj r s query_options with
        numberOfRows := 0, rows := some [] }).trace))
      = zs.flatMap (fun row => [fetch_event s.isSome, REvent.rb_yield (some row)])
        ++ [fetch_event s.isSome, REvent.mysql_free_result] := by
    rw [List.nil_append, iteration_events_append, e1, z10, List.nil_append]
    simp [rb_mysql_result_to_obj]
  refine ⟨z1, z2, z6, z7 rfl, z5, ⟨zs, z0, ?_, hev, hz4⟩, ?_⟩
  · show yielded (warnings ++ ([] ++ _)) = _
    rw [← yielded_iteration_events, hev, yielded_append, yielded_flatMap_pairs]
    cases s <;> simp [fetch_event, yielded]
  · intro opts3 block3 hstream3
    generalize (each_body (fetch { rb_mysql_result_to_obj r s query_options with
        numberOfRows := 0, rows := some [] }) (some blk1) args
      { rb_mysql_result_to_obj r s query_options with
        numberOfRows := 0, rows := some [] }).state = w1 at z2 z5 z8 hz3 hz4
    show (rb_mysql_result_each b es libc opts3 block3 w1).ret = _ ∧
      (rb_mysql_result_each b es libc opts3 block3 w1).state = w1
    obtain ⟨fetch3, _, hu3⟩ := each_unfold b es libc opts3 block3 w1
    have hst3 : (each_args (each_opts opts3 w1) block3).streaming = true := by
      have h8 : w1.query_options = (rb_mysql_result_to_obj r s query_options).query_options := z8
      rw [each_opts_congr opts3 (rb_mysql_result_to_obj r s query_options) w1 h8]
      simp [each_args, hstream3]
    have hinit3 : each_init (each_args (each_opts opts3 w1) block3) w1
        = ROutcome.pure false w1 := by
      unfold each_init
      by_cases hl : w1.lastRowProcessed = 0
      · rw [if_pos hl]
        simp only [hst3, if_true]
        have hw : ({ w1 with numberOfRows := 0, rows := some [] } : mysql2_result_wrapper)
            = w1 := by
          have hn0 : w1.numberOfRows = 0 := by rw [hz4, ← hz3, hl]
          cases w1
          simp only at z2 hn0
          simp only [z2, hn0]
        rw [hw]
      · rw [if_neg hl]
    have hbody3 : each_body (fetch3 w1) block3 (each_args (each_opts opts3 w1) block3) w1
        = ROutcome.raise RExc.already_fetched w1 [] := by
      unfold each_body
      simp only [hst3, if_true, z5, Bool.not_true, Bool.false_eq_true, if_false]
    rw [hu3, bind_of_ok _ _ () rfl]
    simp only [hinit3]
    rw [bind_of_ok _ _ false rfl]
    simp only [ROutcome.pure, Bool.false_eq_true, if_false, hbody3]
    exact ⟨rfl, rfl⟩

theorem C20_streaming_pass_witness :
    (rb_mysql_result_each build19 esUtf8Internal libcNonZero none (some blockReturns)
      (rb_mysql_result_to_obj twoRowStream none streamOptions)).ret = .ok (some []) ∧
    yielded (rb_mysql_result_each build19 esUtf8Internal libcNonZero none (some blockReturns)
      (rb_mysql_result_to_obj twoRowStream none streamOptions)).trace = twoRows ∧
    (rb_mysql_result_each build19 esUtf8Internal libcNonZero none (some blockReturns)
      (rb_mysql_result_to_obj twoRowStream none streamOptions)).state.numberOfRows = 2 ∧
    (∃ v, (rb_mysql_result_each build19 esUtf8Internal libcNonZero none (some blockReturns)
      (rb_mysql_result_to_obj twoRowStream none streamOptions)).ret = .ok v) ∧
    (rb_mysql_result_each build19 esUtf8Internal libcNonZero none (some blockReturns)
      (rb_mysql_result_each build19 esUtf8Internal libcNonZero none (some blockReturns)
        (rb_mysql_result_to_obj twoRowStream none streamOptions)).state).ret
      = .error RExc.already_fetched :=
  ⟨rfl, rfl, rfl,
    (C20_streaming_pass build19 esUtf8Internal libcNonZero twoRowStream none streamOptions
      none blockReturns (by decide)).2.1 rfl rfl (by decide) (fun _ => rfl),
    ((C20_streaming_pass build19 esUtf8Internal libcNonZero twoRowStream none streamOptions
      none blockReturns (by decide)).2.2 (some []) rfl).2.2.2.2.2.2 none (some blockReturns)
      (by decide) |>.1⟩

/-- Outside C19: when the first buffered pass ran with cacheRows disabled (the
rows were yielded but not stored), a later pass with cacheRows enabled takes
the cached branch all the same and yields `nil` once per row. -/
theorem cached_pass_after_uncached_pass :
    yielded (rb_mysql_result_each build19 esUtf8Internal libcNonZero
      (some [(Sym.cache_rows, RVal.qfalse)]) (some blockReturns)
      (rb_mysql_result_to_obj twoRowResult none asArrayOptions)).trace = twoRows ∧
    yielded (rb_mysql_result_each build19 esUtf8Internal libcNonZero none (some blockReturns)
      (rb_mysql_result_each build19 esUtf8Internal libcNonZero
        (some [(Sym.cache_rows, RVal.qfalse)]) (some blockReturns)
        (rb_mysql_result_to_obj twoRowResult none asArrayOptions)).state).trace
      = [none, none] :=
  ⟨rfl, rfl⟩

/-! ## Theorems: stored query options -/

theorem rescue_query_options {α : Type} (body : Outcome α) :
    (rb_rescue2 body).state.query_options = body.state.query_options := by
  unfold rb_rescue2
  cases body.ret <;> rfl

theorem query_state_query_options (srv : Server) (t : Thread) (sql : String)
    (opts : Option Hash) (w : Wrapper) :
    (rb_mysql_client_query srv t sql opts w).state.query_options
      = if REQUIRE_OPEN_DB w = true then w.query_options
        else (query_scan_args opts w).1.query_options := by
  by_cases hg : REQUIRE_OPEN_DB w = true
  · rw [if_pos hg]
    simp [rb_mysql_client_query, hg]
  · rw [if_neg hg]
    have hg0 : REQUIRE_OPEN_DB w = false := by simpa using hg
    cases ha : w.active_thread with
    | some owner => rw [query_of_busy srv t sql opts w owner hg0 ha]
    | none =>
      have h1 : (query_scan_args opts w).1.active_thread = none := by
        rw [(query_scan_args_flags opts w).2.2.1, ha]
      have hsend : (rb_rescue2 (do_send_query srv sql
          { (query_scan_args opts w).1 with active_thread := some t })).state.query_options
          = (query_scan_args opts w).1.query_options := by
        rw [rescue_query_options]
        unfold do_send_query
        split <;> rfl
      unfold rb_mysql_client_query
      simp only [hg0, Bool.false_eq_true, if_false, h1]
      split
      · exact hsend
      · split
        · have hq : (rb_rescue2 (do_query srv (rb_rescue2 (do_send_query srv sql
              { (query_scan_args opts w).1 with
                active_thread := some t })).state)).state.query_options
              = (query_scan_args opts w).1.query_options := by
            rw [rescue_query_options, do_query_state, hsend]
          split
          · exact hq
          · show (rb_mysql_client_async_result srv _).state.query_options = _
            rcases async_result_state srv (rb_rescue2 (do_query srv (rb_rescue2
              (do_send_query srv sql { (query_scan_args opts w).1 with
                active_thread := some t })).state)).state with h | h
            · rw [h, hq]
            · rw [h]
              exact hq
        · exact hsend

/-- C30. On an open connection, `query` called with an options argument
stores the merged options in `@query_options` before it looks at the owner: a
call rejected as busy sends nothing, changes nothing else and leaves the
merged options stored, and a later `async_result` that gets as far as the
acquisition chooses `mysql_use_result` or `mysql_store_result` by the `:stream`
entry of those merged options.  A call without an options argument leaves
`@query_options` as it was, whatever its outcome. -/
theorem C30_options_stored_before_ownership_check (srv : Server) (t : Thread)
    (sql : String) (w : Wrapper) (owner : Thread)
    (hg : REQUIRE_OPEN_DB w = false) (ha : w.active_thread = some owner) :
    (∀ o : Hash,
      rb_mysql_client_query srv t sql (some o) w
        = { ret := .error (if owner = t then busy_self_error else busy_other_error owner)
            state := { w with query_options := hash_merge w.query_options o }
            trace := [] }) ∧
    (∀ (o : Hash) (srv2 : Server), srv2.read_rv = 0 →
      (rb_mysql_client_async_result srv2
        (rb_mysql_client_query srv t sql (some o) w).state).trace
        = [Event.read_query_result,
           if rb_hash_aref (hash_merge w.query_options o) Sym.stream = RVal.qtrue
           then Event.use_result else Event.store_result]) ∧
    (∀ (srv1 : Server) (t1 : Thread) (sql1 : String) (w1 : Wrapper),
      (rb_mysql_client_query srv1 t1 sql1 none w1).state.query_options
        = w1.query_options) := by
  have hbusy : ∀ o : Hash,
      rb_mysql_client_query srv t sql (some o) w
        = { ret := .error (if owner = t then busy_self_error else busy_other_error owner)
            state := { w with query_options := hash_merge w.query_options o }
            trace := [] } := by
    intro o
    rw [query_of_busy srv t sql (some o) w owner hg ha]
    rfl
  refine ⟨hbusy, ?_, ?_⟩
  · intro o srv2 hr
    rw [hbusy o]
    rw [async_result_of_read_success srv2 { w with query_options := hash_merge w.query_options o }
      owner ha hg hr]
    rfl
  · intro srv1 t1 sql1 w1
    rw [query_state_query_options]
    split <;> rfl

theorem C30_options_stored_before_ownership_check_witness :
    REQUIRE_OPEN_DB wOwnedBuffered = false ∧ wOwnedBuffered.active_thread = some 1 ∧
    (rb_mysql_client_query srvOk 2 "SELECT 1" (some [(Sym.stream, RVal.qtrue)])
      wOwnedBuffered).trace = [] ∧
    (rb_mysql_client_async_result srvOk wOwnedBuffered).trace
      = [Event.read_query_result, Event.store_result] ∧
    (rb_mysql_client_async_result srvOk
      (rb_mysql_client_query srvOk 2 "SELECT 1" (some [(Sym.stream, RVal.qtrue)])
        wOwnedBuffered).state).trace
      = [Event.read_query_result, Event.use_result] :=
  ⟨rfl, rfl, rfl, rfl,
    (C30_options_stored_before_ownership_check srvOk 2 "SELECT 1" wOwnedBuffered 1 rfl
      rfl).2.1 [(Sym.stream, RVal.qtrue)] srvOk rfl⟩

/-! ## Theorems: the upper time bound -/

theorem stmt_fetch_row_value_of_datetime (b : Build) (es : EncodingSupport)
    (db_timezone : Zone) (app_timezone : Option Zone) (castBool : Bool)
    (field : MYSQL_FIELD) (result_buffer : MYSQL_BIND) (cell : StmtCell)
    (hbt : result_buffer.buffer_type = field.type)
    (ht : field.type = FieldType.MYSQL_TYPE_TIMESTAMP ∨
      field.type = FieldType.MYSQL_TYPE_DATETIME)
    (hnull : cell.is_null = false) :
    rb_mysql_result_stmt_fetch_row_value b es db_timezone app_timezone castBool
        field result_buffer cell
      = .ok (stmt_fetch_row_datetime b db_timezone app_timezone cell.time) := by
  rcases ht with ht | ht <;>
    simp [rb_mysql_result_stmt_fetch_row_value, hbt, ht, hnull]

theorem linear_seconds_gt_max (y mo d h mi s : Nat)
    (hy : y ≤ 9999) (hmo : mo ≤ 12) (hd : d ≤ 31) (hh : h ≤ 23) (hmi : mi ≤ 59)
    (hs : s ≤ 59) :
    linear_seconds y mo d h mi s > 315578267999 ↔ (y = 9999 ∧ mo = 12 ∧ d = 31 ∧ 12 ≤ h) := by
  unfold linear_seconds
  constructor
  · intro hgt
    refine ⟨?_, ?_, ?_, ?_⟩ <;> omega
  · rintro ⟨rfl, rfl, rfl, h12⟩
    omega

/-- C28. In a build where `MYSQL2_MAX_TIME` is the 64-bit / encoding-enabled
constant 315578267999, for every datetime with year at most 9999, month in
1..12, day in 1..31, hour at most 23, minute and second at most 59, the linear
value exceeds `MYSQL2_MAX_TIME` iff the date is 9999-12-31 and the hour is at
least 12; 9999-12-31 11:59:59 has exactly the value `MYSQL2_MAX_TIME`.  Both
decoders then yield `DateTime.civil` on 9999-12-31 from 12:00:00 on, and `Time`
on every other such datetime whose linear value is not below
`MYSQL2_MIN_TIME`. -/
theorem C28_max_time_boundary (b : Build) (es : EncodingSupport) (libc : Libc)
    (db_timezone : Zone) (app_timezone : Option Zone) (castBool : Bool)
    (field : MYSQL_FIELD) (result_buffer : MYSQL_BIND) (cell : StmtCell) (len : Nat)
    (hb : (b.sizeof_int_lt_sizeof_long || b.have_ruby_encoding_h) = true)
    (hbt : result_buffer.buffer_type = field.type)
    (ht : field.type = FieldType.MYSQL_TYPE_TIMESTAMP ∨
      field.type = FieldType.MYSQL_TYPE_DATETIME)
    (hnull : cell.is_null = false)
    (hy : cell.time.year ≤ 9999) (hmo1 : 1 ≤ cell.time.month) (hmo : cell.time.month ≤ 12)
    (hd1 : 1 ≤ cell.time.day) (hd : cell.time.day ≤ 31) (hh : cell.time.hour ≤ 23)
    (hmi : cell.time.minute ≤ 59) (hs : cell.time.second ≤ 59) :
    MYSQL2_MAX_TIME b = 315578267999 ∧
    linear_seconds 9999 12 31 11 59 59 = MYSQL2_MAX_TIME b ∧
    (linear_seconds cell.time.year cell.time.month cell.time.day cell.time.hour
        cell.time.minute cell.time.second > MYSQL2_MAX_TIME b
      ↔ (cell.time.year = 9999 ∧ cell.time.month = 12 ∧ cell.time.day = 31 ∧
          12 ≤ cell.time.hour)) ∧
    ((cell.time.year = 9999 ∧ cell.time.month = 12 ∧ cell.time.day = 31 ∧
        12 ≤ cell.time.hour) →
      rb_mysql_result_fetch_row_value b es libc db_timezone app_timezone castBool true field
          (some (datetime_literal cell.time.year cell.time.month cell.time.day
            cell.time.hour cell.time.minute cell.time.second)) len
        = .ok (Value.datetime cell.time.year cell.time.month cell.time.day cell.time.hour
            cell.time.minute cell.time.second
            (if db_timezone = Zone.local then Offset.local_offset else Offset.zero)
            (app_timezone.map
              (fun z => if z = Zone.local then Offset.local_offset else Offset.zero))) ∧
      rb_mysql_result_stmt_fetch_row_value b es db_timezone app_timezone castBool
          field result_buffer cell
        = .ok (Value.datetime cell.time.year cell.time.month cell.time.day cell.time.hour
            cell.time.minute cell.time.second
            (if db_timezone = Zone.local then Offset.local_offset else Offset.zero)
            (app_timezone.map
              (fun z => if z = Zone.local then Offset.local_offset else Offset.zero)))) ∧
    (¬ (cell.time.year = 9999 ∧ cell.time.month = 12 ∧ cell.time.day = 31 ∧
        12 ≤ cell.time.hour) →
      MYSQL2_MIN_TIME b ≤ linear_seconds cell.time.year cell.time.month cell.time.day
        cell.time.hour cell.time.minute cell.time.second →
      rb_mysql_result_fetch_row_value b es libc db_timezone app_timezone castBool true field
          (some (datetime_literal cell.time.year cell.time.month cell.time.day
            cell.time.hour cell.time.minute cell.time.second)) len
        = .ok (Value.time db_timezone cell.time.year cell.time.month cell.time.day
            cell.time.hour cell.time.minute cell.time.second app_timezone) ∧
      rb_mysql_result_stmt_fetch_row_value b es db_timezone app_timezone castBool
          field result_buffer cell
        = .ok (Value.time db_timezone cell.time.year cell.time.month cell.time.day
            cell.time.hour cell.time.minute cell.time.second app_timezone)) := by
  have hmax : MYSQL2_MAX_TIME b = 315578267999 := by
    unfold MYSQL2_MAX_TIME
    rw [if_pos hb]
  have hiff := linear_seconds_gt_max cell.time.year cell.time.month cell.time.day
    cell.time.hour cell.time.minute cell.time.second hy hmo hd hh hmi hs
  have hparse := sscanf_datetime_literal cell.time.year cell.time.month cell.time.day
    cell.time.hour cell.time.minute cell.time.second
    (by omega) (by omega) (by omega) (by omega) (by omega) (by omega)
  have h0 : linear_seconds cell.time.year cell.time.month cell.time.day cell.time.hour
      cell.time.minute cell.time.second ≠ 0 := by
    unfold linear_seconds
    omega
  have h12 : ¬ (cell.time.month < 1 ∨ cell.time.day < 1) := by omega
  have htext := fetch_row_datetime_of_parse b db_timezone app_timezone
    (datetime_literal cell.time.year cell.time.month cell.time.day cell.time.hour
      cell.time.minute cell.time.second) _ _ _ _ _ _ hparse
    hy (by omega) (by omega) (by omega) (by omega) (by omega)
  rw [if_neg h0, if_neg h12] at htext
  have hbin := stmt_fetch_row_datetime_of_valid b db_timezone app_timezone cell.time
    hy (by omega) (by omega) (by omega) (by omega) (by omega)
  rw [hmax] at htext hbin
  refine ⟨hmax, by rw [hmax]; rfl, by rw [hmax]; exact hiff, ?_, ?_⟩
  · intro hlast
    have hgt := hiff.mpr hlast
    refine ⟨?_, ?_⟩
    · rw [fetch_row_value_of_datetime b es libc db_timezone app_timezone castBool field _ len
        ht, htext, if_pos (Or.inr hgt)]
    · rw [stmt_fetch_row_value_of_datetime b es db_timezone app_timezone castBool field
        result_buffer cell hbt ht hnull, hbin, if_pos (Or.inr hgt)]
  · intro hnot hmin
    have hle : ¬ (linear_seconds cell.time.year cell.time.month cell.time.day cell.time.hour
        cell.time.minute cell.time.second < MYSQL2_MIN_TIME b ∨
        linear_seconds cell.time.year cell.time.month cell.time.day cell.time.hour
          cell.time.minute cell.time.second > 315578267999) := by
      intro hor
      rcases hor with h1 | h2
      · omega
      · exact hnot (hiff.mp h2)
    refine ⟨?_, ?_⟩
    · rw [fetch_row_value_of_datetime b es libc db_timezone app_timezone castBool field _ len
        ht, htext, if_neg hle]
    · rw [stmt_fetch_row_value_of_datetime b es db_timezone app_timezone castBool field
        result_buffer cell hbt ht hnull, hbin, if_neg hle]

theorem C28_max_time_boundary_witness :
    MYSQL2_MAX_TIME build19 = 315578267999 ∧
    rb_mysql_result_fetch_row_value build19 esUtf8Internal libcNonZero Zone.local none
        false true datetimeField (some lastSecondLiteral) 19
      = .ok (Value.datetime 9999 12 31 23 59 59 Offset.local_offset none) ∧
    rb_mysql_result_stmt_fetch_row_value build19 esUtf8Internal Zone.local none false
        datetimeField datetimeBind cellLastSecond
      = .ok (Value.datetime 9999 12 31 23 59 59 Offset.local_offset none) ∧
    rb_mysql_result_fetch_row_value build19 esUtf8Internal libcNonZero Zone.local none
        false true datetimeField (some (datetime_literal 9999 12 31 11 59 59)) 19
      = .ok (Value.time Zone.local 9999 12 31 11 59 59 none) ∧
    rb_mysql_result_stmt_fetch_row_value build19 esUtf8Internal Zone.local none false
        datetimeField datetimeBind cellLastMorning
      = .ok (Value.time Zone.local 9999 12 31 11 59 59 none) :=
  have h1 := C28_max_time_boundary build19 esUtf8Internal libcNonZero Zone.local none false
    datetimeField datetimeBind cellLastSecond 19 rfl rfl (Or.inr rfl) rfl
    (by decide) (by decide) (by decide) (by decide) (by decide) (by decide) (by decide)
    (by decide)
  have h2 := C28_max_time_boundary build19 esUtf8Internal libcNonZero Zone.local none false
    datetimeField datetimeBind cellLastMorning 19 rfl rfl (Or.inr rfl) rfl
    (by decide) (by decide) (by decide) (by decide) (by decide) (by decide) (by decide)
    (by decide)
  ⟨h1.1, (h1.2.2.2.1 ⟨rfl, rfl, rfl, by decide⟩).1, (h1.2.2.2.1 ⟨rfl, rfl, rfl, by decide⟩).2,
    (h2.2.2.2.2 (by decide) (by decide)).1, (h2.2.2.2.2 (by decide) (by decide)).2⟩

/-! ## Theorems: the library version check -/

/-- C26. The version check on a library `10.1.48` loaded by an extension
compiled against `10.11.2`: the MINOR components differ (`1` and `11`), and the
check does not raise, because the loop leaves at the library's second dot
before it compares that position.  With the two strings exchanged the check
raises. -/
theorem C26_version_check_minor_prefix :
    major_minor version_10_1_48 = [[49, 48], [49]] ∧
    major_minor version_10_11_2 = [[49, 48], [49, 49]] ∧
    major_minor version_10_1_48 ≠ major_minor version_10_11_2 ∧
    init_mysql2_client version_10_1_48 version_10_11_2 = .ok () ∧
    init_mysql2_client version_10_11_2 version_10_1_48
      = .error (InitError.incorrect_client_library_version [49, 48, 46, 49, 46, 52, 56]
          [49, 48, 46, 49, 49, 46, 50]) :=
  ⟨by decide, by decide, by decide, rfl, rfl⟩

/-! ## Theorems: escaping -/

theorem backslash_escaper_length (s : List Nat) :
    (backslash_escaper s).length ≤ 2 * s.length := by
  induction s with
  | nil => simp [backslash_escaper]
  | cons c s ih =>
    have hc : backslash_escaper (c :: s)
        = backslash_escaper [c] ++ backslash_escaper s := by
      simp [backslash_escaper]
    have h1 : (backslash_escaper [c]).length ≤ 2 := by
      simp only [backslash_escaper, List.flatMap_cons, List.flatMap_nil, List.append_nil]
      repeat' split
      all_goals simp
    rw [hc, List.length_append, List.length_cons]
    omega

/-- C25 as stated fails for the connection-level escape: with a UTF-8
connection, the ISO-8859-1 string `é` needs no escaping, yet what comes back is
not the argument but its export to the connection's encoding, a string of
other bytes. -/
theorem C25_transcoded_input_counterexample :
    REQUIRE_OPEN_DB wIdle = false ∧
    backslash_escaper latin1EAcute.bytes = latin1EAcute.bytes ∧
    (rb_mysql_client_real_escape build19 esUtf8Internal backslash_escaper latin1EAcute
      wIdle).ret
      = .ok (Escaped.same { bytes := [195, 169], enc := some (Encoding.named "UTF-8") }) ∧
    (rb_mysql_client_real_escape build19 esUtf8Internal backslash_escaper latin1EAcute
      wIdle).ret ≠ .ok (Escaped.same latin1EAcute) := by
  have h : (rb_mysql_client_real_escape build19 esUtf8Internal backslash_escaper latin1EAcute
      wIdle).ret
      = .ok (Escaped.same { bytes := [195, 169], enc := some (Encoding.named "UTF-8") }) := by
    rfl
  refine ⟨rfl, rfl, h, ?_⟩
  rw [h]
  intro hc
  injection hc with hc
  injection hc with hc
  cases hc

/-- C25, amended. With an escaper that writes at most twice the bytes it is
given: the class-level escape returns its argument itself when the escaped
length equals the length of the argument, and otherwise a new string of exactly
the escaped bytes, at most `2*len` of them.  The connection-level escape on an
open connection escapes the argument exported to the connection's encoding
(the argument itself in a build without encoding support, or when the export
has nothing to convert); it returns that string itself when the escaped length
equals its length, and otherwise a new string built from the escaped bytes,
at most `2*len` of them, which is then exported to the default internal
encoding when there is one. -/
theorem C25_escape (b : Build) (es : EncodingSupport) (escaper : List Nat → List Nat)
    (str : RString) (w : Wrapper) (hopen : REQUIRE_OPEN_DB w = false)
    (hbound : ∀ s, (escaper s).length ≤ 2 * s.length) :
    ((escaper str.bytes).length = str.bytes.length →
      rb_mysql_client_escape b escaper str = Escaped.same str) ∧
    ((escaper str.bytes).length ≠ str.bytes.length →
      ∃ rb_str, rb_mysql_client_escape b escaper str = Escaped.fresh rb_str ∧
        rb_str.bytes = escaper str.bytes ∧ rb_str.bytes.length < 2 * str.bytes.length + 1) ∧
    (b.have_ruby_encoding_h = false ∨ es.rb_str_export_to_enc str es.conn_enc = str →
      (if b.have_ruby_encoding_h then es.rb_str_export_to_enc str es.conn_enc else str) = str) ∧
    ((escaper (if b.have_ruby_encoding_h then es.rb_str_export_to_enc str es.conn_enc
          else str).bytes).length
        = (if b.have_ruby_encoding_h then es.rb_str_export_to_enc str es.conn_enc
          else str).bytes.length →
      (rb_mysql_client_real_escape b es escaper str w).ret
        = .ok (Escaped.same (if b.have_ruby_encoding_h then
            es.rb_str_export_to_enc str es.conn_enc else str))) ∧
    ((escaper (if b.have_ruby_encoding_h then es.rb_str_export_to_enc str es.conn_enc
          else str).bytes).length
        ≠ (if b.have_ruby_encoding_h then es.rb_str_export_to_enc str es.conn_enc
          else str).bytes.length →
      (escaper (if b.have_ruby_encoding_h then es.rb_str_export_to_enc str es.conn_enc
          else str).bytes).length
        < 2 * (if b.have_ruby_encoding_h then es.rb_str_export_to_enc str es.conn_enc
          else str).bytes.length + 1 ∧
      (b.have_ruby_encoding_h = false →
        (rb_mysql_client_real_escape b es escaper str w).ret
          = .ok (Escaped.fresh { bytes := escaper str.bytes, enc := none })) ∧
      (b.have_ruby_encoding_h = true → es.default_internal_enc = none →
        (rb_mysql_client_real_escape b es escaper str w).ret
          = .ok (Escaped.fresh
              { bytes := escaper (es.rb_str_export_to_enc str es.conn_enc).bytes,
                enc := some es.conn_enc })) ∧
      (b.have_ruby_encoding_h = true → ∀ d, es.default_internal_enc = some d →
        (rb_mysql_client_real_escape b es escaper str w).ret
          = .ok (Escaped.fresh (es.rb_str_export_to_enc
              { bytes := escaper (es.rb_str_export_to_enc str es.conn_enc).bytes,
                enc := some es.conn_enc } d)))) ∧
    (rb_mysql_client_real_escape b es escaper str w).state = w := by
  refine ⟨?_, ?_, ?_, ?_, ?_, ?_⟩
  · intro h
    simp [rb_mysql_client_escape, h]
  · intro h
    have hb := hbound str.bytes
    cases hh : b.have_ruby_encoding_h <;>
      simp [rb_mysql_client_escape, h, hh, rb_str_new] <;> omega
  · intro h
    rcases h with h | h
    · simp [h]
    · simp [h]
  · intro h
    simp [rb_mysql_client_real_escape, hopen, h]
  · intro h
    refine ⟨?_, ?_, ?_, ?_⟩
    · have hb := hbound (if b.have_ruby_encoding_h then
        es.rb_str_export_to_enc str es.conn_enc else str).bytes
      omega
    · intro hh
      rw [hh] at h
      simp only [Bool.false_eq_true, if_false] at h
      simp [rb_mysql_client_real_escape, hopen, hh, h, rb_str_new]
    · intro hh hd
      rw [hh] at h
      simp only [if_true] at h
      simp [rb_mysql_client_real_escape, hopen, hh, h, hd, rb_str_new, rb_enc_associate]
    · intro hh d hd
      rw [hh] at h
      simp only [if_true] at h
      simp [rb_mysql_client_real_escape, hopen, hh, h, hd, rb_str_new, rb_enc_associate]
  · unfold rb_mysql_client_real_escape
    rw [hopen]
    simp only [Bool.false_eq_true, if_false]
    split_ifs <;> rfl

theorem C25_escape_witness :
    REQUIRE_OPEN_DB wIdle = false ∧
    backslash_escaper strIts.bytes = [105, 116, 92, 39, 115] ∧
    rb_mysql_client_escape build19 backslash_escaper strIts
      = Escaped.fresh { bytes := [105, 116, 92, 39, 115],
                        enc := some (Encoding.named "UTF-8") } ∧
    (rb_mysql_client_real_escape build19 esUtf8Internal backslash_escaper strIts wIdle).ret
      = .ok (Escaped.fresh { bytes := [105, 116, 92, 39, 115],
                             enc := some (Encoding.named "UTF-8") }) ∧
    rb_mysql_client_escape build19 backslash_escaper
        { bytes := [105, 116], enc := some (Encoding.named "UTF-8") }
      = Escaped.same { bytes := [105, 116], enc := some (Encoding.named "UTF-8") } :=
  have h := C25_escape build19 esUtf8Internal backslash_escaper strIts wIdle rfl
    backslash_escaper_length
  have h2 := C25_escape build19 esUtf8Internal backslash_escaper
    { bytes := [105, 116], enc := some (Encoding.named "UTF-8") } wIdle rfl
    backslash_escaper_length
  ⟨rfl, rfl, rfl, (h.2.2.2.2.1 (by decide)).2.2.2 rfl (Encoding.named "UTF-8") rfl, h2.1 rfl⟩

/-! ## Theorems: count -/

theorem INT2FIX_of_small (b : Build) (n : Nat) (h : n < 2 ^ (long_bits b - 2)) :
    INT2FIX b n = (n : Int) := by
  have hb : long_bits b = 64 ∨ long_bits b = 32 := by
    unfold long_bits
    cases b.sizeof_int_lt_sizeof_long <;> simp
  unfold INT2FIX to_signed
  rcases hb with hb | hb <;> rw [hb] at h ⊢ <;> simp only [Nat.reduceSub, Nat.reducePow] at h ⊢
  · rw [Nat.mod_eq_of_lt (by omega), if_pos (by omega)]
  · rw [Nat.mod_eq_of_lt (by omega), if_pos (by omega)]

theorem LONG2NUM_of_small (b : Build) (n : Nat) (h : n < 2 ^ (long_bits b - 1)) :
    LONG2NUM b n = (n : Int) := by
  have hb : long_bits b = 64 ∨ long_bits b = 32 := by
    unfold long_bits
    cases b.sizeof_int_lt_sizeof_long <;> simp
  unfold LONG2NUM to_signed
  rcases hb with hb | hb <;> rw [hb] at h ⊢ <;> simp only [Nat.reduceSub, Nat.reducePow] at h ⊢
  · rw [Nat.mod_eq_of_lt (by omega), if_pos (by omega)]
  · rw [Nat.mod_eq_of_lt (by omega), if_pos (by omega)]

/-- C21. What `count` returns, for counts that fit the host's small integers
(below `2^(long_bits - 2)`): the finalized row count `numberOfRows` when the
native result has been released and streaming completed; the number of
entries of the retained row array when the native result has been released
and streaming has not completed (buffered mode); and otherwise the row count
reported by the live statement handle when there is one, by the live native
result when there is none.  In the two released cases no library call is
made; in every case the wrapper is left as it was. -/
theorem C21_count (b : Build) (w : mysql2_result_wrapper) (n : Nat)
    (hsmall : n < 2 ^ (long_bits b - 2)) :
    (w.resultFreed = true → w.streamingComplete = true → w.numberOfRows = n →
      rb_mysql_result_count b w = { ret := .ok (n : Int), state := w, trace := [] }) ∧
    (w.resultFreed = true → w.streamingComplete = false →
      ∀ rows, w.rows = some rows → rows.length = n →
        rb_mysql_result_count b w = { ret := .ok (n : Int), state := w, trace := [] }) ∧
    (w.resultFreed = false → ∀ st, w.stmt = some st → mysql_stmt_num_rows st = n →
      rb_mysql_result_count b w
        = { ret := .ok (n : Int), state := w, trace := [REvent.mysql_stmt_num_rows] }) ∧
    (w.resultFreed = false → w.stmt = none → w.result.freed = false →
      mysql_num_rows w.result = n →
      rb_mysql_result_count b w
        = { ret := .ok (n : Int), state := w, trace := [REvent.mysql_num_rows] }) := by
  have hb : long_bits b = 64 ∨ long_bits b = 32 := by
    unfold long_bits
    cases b.sizeof_int_lt_sizeof_long <;> simp
  have hle : 2 ^ (long_bits b - 2) ≤ 2 ^ (long_bits b - 1) :=
    Nat.pow_le_pow_right (by decide) (by omega)
  have h1 := INT2FIX_of_small b n hsmall
  have h2 := LONG2NUM_of_small b n (by omega)
  refine ⟨?_, ?_, ?_, ?_⟩
  · intro hf hs hn
    simp [rb_mysql_result_count, hf, hs, hn, h2, ROutcome.pure]
  · intro hf hs rows hr hn
    simp [rb_mysql_result_count, hf, hs, hr, hn, h2, ROutcome.pure]
  · intro hf st hst hn
    simp [rb_mysql_result_count, hf, hst, hn, h1]
  · intro hf hst hfr hn
    simp [rb_mysql_result_count, hf, hst, hfr, hn, h1]

theorem C21_count_witness :
    rb_mysql_result_count build19
        { rb_mysql_result_to_obj twoRowStream none streamOptions with
          resultFreed := true, streamingComplete := true, numberOfRows := 2, rows := some [] }
      = { ret := .ok 2
          state := { rb_mysql_result_to_obj twoRowStream none streamOptions with
            resultFreed := true, streamingComplete := true, numberOfRows := 2, rows := some [] }
          trace := [] } ∧
    rb_mysql_result_count build19
        { rb_mysql_result_to_obj twoRowResult none asArrayOptions with
          resultFreed := true, numberOfRows := 2, lastRowProcessed := 2, rows := some twoRows }
      = { ret := .ok 2
          state := { rb_mysql_result_to_obj twoRowResult none asArrayOptions with
            resultFreed := true, numberOfRows := 2, lastRowProcessed := 2,
            rows := some twoRows }
          trace := [] } ∧
    rb_mysql_result_count build19 (rb_mysql_result_to_obj twoRowResult (some stmtDone) [])
      = { ret := .ok 2, state := rb_mysql_result_to_obj twoRowResult (some stmtDone) [],
          trace := [REvent.mysql_stmt_num_rows] } ∧
    rb_mysql_result_count build19 (rb_mysql_result_to_obj twoRowResult none asArrayOptions)
      = { ret := .ok 2, state := rb_mysql_result_to_obj twoRowResult none asArrayOptions,
          trace := [REvent.mysql_num_rows] } :=
  have h := fun w => C21_count build19 w 2 (by decide)
  ⟨(h _).1 rfl rfl rfl, (h _).2.1 rfl rfl twoRows rfl rfl,
    (h _).2.2.1 rfl stmtDone rfl rfl, (h _).2.2.2 rfl rfl rfl rfl⟩

/-! ## Theorems: buffered passes without the row cache -/

theorem each_buffered_loop_step_uncached
    (fetch : mysql2_result_wrapper → ROutcome (Option Row))
    (block : Option Block) (args : result_each_args) (hc : args.cacheRows = false)
    (rp n i : Nat) (w : mysql2_result_wrapper) (rows : List (Option Row))
    (hw : w.rows = some rows) :
    each_buffered_loop fetch block args rp (n + 1) i w
      = ((fetch w).bind fun row w1 =>
          ROutcome.pure row { w1 with lastRowProcessed := w1.lastRowProcessed + 1 }).bind
        fun row w2 =>
        match row with
        | none =>
          { ret := .ok true, state := (rb_mysql_result_free_result w2).1,
            trace := (rb_mysql_result_free_result w2).2 }
        | some r =>
          (if args.block_given then rb_yield block (some r) w2
            else ROutcome.pure () w2).bind fun _ w3 =>
            each_buffered_loop fetch block args rp n (i + 1) w3 := by
  rw [each_buffered_loop]
  simp only [hw, hc, Bool.false_and, Bool.false_eq_true, if_false]

theorem each_buffered_loop_uncached (isStmt : Bool)
    (fetch : mysql2_result_wrapper → ROutcome (Option Row)) (hfetch : FetchSpec isStmt fetch)
    (block : Option Block) (args : result_each_args) (hc : args.cacheRows = false)
    (rp n : Nat) :
    ∀ (i : Nat) (w : mysql2_result_wrapper), w.stmt.isSome = isStmt →
      w.rows.isSome = true →
      (each_buffered_loop fetch block args rp n i w).ret = .ok false →
      ∃ zs : List Row, zs.length = n ∧
        (each_buffered_loop fetch block args rp n i w).state.rows = w.rows ∧
        (each_buffered_loop fetch block args rp n i w).state.lastRowProcessed
          = w.lastRowProcessed + n ∧
        (each_buffered_loop fetch block args rp n i w).state.numberOfRows
          = w.numberOfRows ∧
        (each_buffered_loop fetch block args rp n i w).state.resultFreed
          = w.resultFreed ∧
        (each_buffered_loop fetch block args rp n i w).state.streamingComplete
          = w.streamingComplete ∧
        (each_buffered_loop fetch block args rp n i w).state.query_options
          = w.query_options ∧
        (each_buffered_loop fetch block args rp n i w).state.result.freed
          = w.result.freed ∧
        (each_buffered_loop fetch block args rp n i w).state.stmt.isSome
          = w.stmt.isSome ∧
        rows_remaining (each_buffered_loop fetch block args rp n i w).state + n
          = rows_remaining w ∧
        iteration_events (each_buffered_loop fetch block args rp n i w).trace
          = zs.flatMap (fun r => fetch_event isStmt ::
              (if args.block_given = true then [REvent.rb_yield (some r)] else [])) := by
  induction n with
  | zero =>
    intro i w _ hw _
    refine ⟨[], rfl, ?_⟩
    simp [each_buffered_loop, ROutcome.pure, iteration_events]
  | succ n ih =>
    intro i w hs hw h
    obtain ⟨rows, hrows⟩ := Option.isSome_iff_exists.mp hw
    rw [each_buffered_loop_step_uncached fetch block args hc rp n i w rows hrows] at h ⊢
    obtain ⟨hframe, _, hspec⟩ := hfetch w
    obtain ⟨hev, hsome, _⟩ := hspec hs
    obtain ⟨row, h1, h2⟩ := bind_ret_ok _ _ _ h
    obtain ⟨row1, hF, h3⟩ := bind_ret_ok _ _ _ h1
    have hrow : row1 = row := by
      simp only [ROutcome.pure] at h3
      injection h3
    subst hrow
    rw [bind_of_ok (fetch w) _ row1 hF] at h ⊢
    rw [bind_of_ok _ _ row1 rfl] at h ⊢
    cases row1 with
    | none => simp at h
    | some r =>
      obtain ⟨f1, f2, f3, f4, f5, f6, f7, f8⟩ := hframe
      obtain ⟨y1, _, y3⟩ := yield_step block args.block_given (some r)
        { (fetch w).state with lastRowProcessed := (fetch w).state.lastRowProcessed + 1 }
      simp only [ROutcome.pure] at h y1 y3 ⊢
      obtain ⟨u, hY, h4⟩ := bind_ret_ok _ _ _ h
      rw [bind_of_ok _ _ u hY] at h ⊢
      simp only [y1] at h ⊢
      obtain ⟨zs, z0, z1, z2, z3, z4, z5, z6, z7, z8, z9, z10⟩ :=
        ih (i + 1)
          { (fetch w).state with lastRowProcessed := (fetch w).state.lastRowProcessed + 1 }
          (by simpa [f8] using hs) (by simpa [f1] using hw) h
      dsimp only at z1 z2 z3 z4 z5 z6 z7 z8
      refine ⟨r :: zs, by simp [z0], ?_, ?_, ?_, ?_, ?_, ?_, ?_, ?_, ?_, ?_⟩
      · exact z1.trans f1
      · exact z2.trans (by rw [f3]; omega)
      · exact z3.trans f2
      · exact z4.trans f4
      · exact z5.trans f5
      · exact z6.trans f6
      · exact z7.trans f7
      · exact z8.trans f8
      · have hr := hsome r hF
        exact (show ∀ a c d : Nat, a + n = c → c + 1 = d → a + (n + 1) = d from
          fun a c d h1 h2 => by omega) _ _ _ z9 hr
      · have ht := y3 u hY
        simp only [iteration_events_append, z10, hev _ hF, ht, List.flatMap_cons]
        cases args.block_given <;> simp [iteration_events, REvent.isFetch, REvent.isYield]

theorem each_body_first_pass_uncached (isStmt : Bool)
    (fetch : List MYSQL_FIELD → mysql2_result_wrapper → ROutcome (Option Row))
    (hfetch : ∀ fields, FetchSpec isStmt (fetch fields))
    (block : Option Block) (args : result_each_args)
    (hc : args.cacheRows = false) (hns : args.streaming = false)
    (w : mysql2_result_wrapper) (hs : w.stmt.isSome = isStmt)
    (rs : List (Option Row)) (hrows : w.rows = some rs) (hl : w.lastRowProcessed = 0)
    (rws : List (Option Row)) (h : (each_body fetch block args w).ret = .ok (some rws)) :
    rws = rs ∧
    (each_body fetch block args w).state.rows = some rs ∧
    (each_body fetch block args w).state.lastRowProcessed = w.numberOfRows ∧
    (each_body fetch block args w).state.numberOfRows = w.numberOfRows ∧
    (each_body fetch block args w).state.query_options = w.query_options ∧
    (each_body fetch block args w).state.streamingComplete = w.streamingComplete ∧
    (each_body fetch block args w).state.stmt.isSome = w.stmt.isSome ∧
    (each_body fetch block args w).state.resultFreed = true ∧
    rows_remaining (each_body fetch block args w).state + w.numberOfRows = rows_remaining w ∧
    ∃ zs : List Row, zs.length = w.numberOfRows ∧
      iteration_events (each_body fetch block args w).trace
        = zs.flatMap (fun r => fetch_event isStmt ::
            (if args.block_given = true then [REvent.rb_yield (some r)] else []))
          ++ (if w.resultFreed = true then [] else [REvent.mysql_free_result]) := by
  have hunfold : each_body fetch block args w
      = (mysql_fetch_fields w).bind fun fields w1 =>
          (each_buffered_loop (fetch fields) block args rs.length w1.numberOfRows 0 w1).bind
            fun returned w2 =>
              if returned then ROutcome.pure none w2
              else if w2.lastRowProcessed = w2.numberOfRows then
                { ret := .ok (rb_mysql_result_free_result w2).1.rows,
                  state := (rb_mysql_result_free_result w2).1,
                  trace := (rb_mysql_result_free_result w2).2 }
              else ROutcome.pure w2.rows w2 := by
    unfold each_body
    simp only [hns, Bool.false_eq_true, if_false, hc, Bool.false_and, hrows]
  rw [hunfold] at h ⊢
  obtain ⟨fields, hF, h1⟩ := bind_ret_ok _ _ _ h
  obtain ⟨q1, q2⟩ := mysql_fetch_fields_quiet w
  rw [bind_of_ok _ _ fields hF] at h ⊢
  simp only [q1] at h h1 ⊢
  obtain ⟨returned, hL, h2⟩ := bind_ret_ok _ _ _ h1
  rw [bind_of_ok _ _ returned hL] at h ⊢
  cases returned with
  | true => simp [ROutcome.pure] at h2
  | false =>
    obtain ⟨zs, z0, z1, z2, z3, z4, z5, z6, z7, z8, z9, z10⟩ :=
      each_buffered_loop_uncached isStmt (fetch fields) (hfetch fields) block args hc
        rs.length w.numberOfRows 0 w hs (by rw [hrows]; rfl) hL
    have hlast : (each_buffered_loop (fetch fields) block args rs.length w.numberOfRows 0
          w).state.lastRowProcessed
        = (each_buffered_loop (fetch fields) block args rs.length w.numberOfRows 0
            w).state.numberOfRows := by
      rw [z2, z3, hl]; omega
    simp only [Bool.false_eq_true, if_false, hlast, if_true] at h h2 ⊢
    obtain ⟨r1, r2, r3, r4, r5, r6, r7, r8, _, r10⟩ := free_result_state
      (each_buffered_loop (fetch fields) block args rs.length w.numberOfRows 0 w).state
    refine ⟨?_, ?_, ?_, ?_, ?_, ?_, ?_, ?_, ?_, zs, z0, ?_⟩
    · have h3 : (rb_mysql_result_free_result
          (each_buffered_loop (fetch fields) block args rs.length w.numberOfRows 0
            w).state).1.rows = some rws := by
        injection h2
      rw [r1, z1, hrows] at h3
      injection h3 with h4
      exact h4.symm
    · exact r1.trans (z1.trans hrows)
    · exact r2.trans (by rw [z2, hl]; omega)
    · exact r3.trans z3
    · exact r5.trans z6
    · exact r4.trans z5
    · exact r6.trans z8
    · exact r8
    · show rows_remaining (rb_mysql_result_free_result _).1 + w.numberOfRows = rows_remaining w
      rw [r7]
      exact z9
    · simp only [iteration_events_append, q2, z10, r10, z4, List.nil_append]

theorem yield_returns (block : Option Block) (bg : Bool) (hbg : bg = block.isSome)
    (hblk : ∀ blk, block = some blk → ∀ row, blk row = true) (row : Option Row)
    (w : mysql2_result_wrapper) :
    (if bg = true then rb_yield block row w else ROutcome.pure () w).ret = .ok () := by
  cases block with
  | none =>
    have h : bg = false := hbg
    rw [h]
    rfl
  | some blk =>
    have h : bg = true := hbg
    rw [h]
    simp [rb_yield, hblk blk rfl row]

theorem each_buffered_loop_returns (b : Build) (es : EncodingSupport) (libc : Libc)
    (args : result_each_args) (block : Option Block)
    (hblk : ∀ blk, block = some blk → ∀ row, blk row = true)
    (hbg : args.block_given = block.isSome)
    (fields : List MYSQL_FIELD) (rp n : Nat) (hrp : args.cacheRows = false ∨ rp = 0) :
    ∀ (i : Nat) (w : mysql2_result_wrapper), w.result.fields = fields →
      w.result.freed = false → FieldsCounted w →
      (∀ row ∈ w.result.rows, text_row_decodes b es libc args fields row = true) →
      n ≤ w.result.rows.length → w.rows.isSome = true →
      (each_buffered_loop (rb_mysql_result_fetch_row b es libc args fields) block args rp n i
        w).ret = .ok false := by
  induction n with
  | zero => intro i w _ _ _ _ _ _; rfl
  | succ n ih =>
    intro i w hfs hfr hfc hdec hle hw
    obtain ⟨rows, hrows⟩ := Option.isSome_iff_exists.mp hw
    have hcond : (args.cacheRows && decide (i < rp)) = false := by
      rcases hrp with h | h
      · simp [h]
      · simp [h]
    cases hnr : w.result.rows with
    | nil => rw [hnr] at hle; simp at hle
    | cons row rest =>
      subst hfs
      obtain ⟨⟨rv, f1⟩, f2, f3, f4, f5, _⟩ := fetch_row_returns b es libc args w hfr hfc
        row rest hnr (hdec row (by rw [hnr]; exact List.mem_cons_self _ _))
      obtain ⟨⟨g1, _⟩, _⟩ := fetch_row_spec b es libc args w.result.fields w
      have hrest : ∀ r ∈ rest, text_row_decodes b es libc args w.result.fields r = true :=
        fun r hr => hdec r (by rw [hnr]; exact List.mem_cons_of_mem _ hr)
      have hle1 : n ≤ rest.length := by
        rw [hnr, List.length_cons] at hle
        omega
      rw [each_buffered_loop]
      simp only [hrows, hcond, Bool.false_eq_true, if_false]
      rw [bind_of_ok _ _ (some rv) f1, bind_of_ok _ _ (some rv) rfl]
      dsimp only
      rw [bind_of_ok _ _ () (yield_returns block args.block_given hbg hblk _ _)]
      rw [(yield_step block args.block_given (some rv) _).1]
      refine ih (i + 1) _ f4 f5 f2 ?_ ?_ ?_
      · intro r hr
        exact hrest r (by rw [← f3]; exact hr)
      · show n ≤ (rb_mysql_result_fetch_row b es libc args w.result.fields
          w).state.result.rows.length
        rw [f3]
        exact hle1
      · show (if args.cacheRows = true then
            Option.map (fun a => rb_ary_store a i (some rv))
              (rb_mysql_result_fetch_row b es libc args w.result.fields w).state.rows
          else (rb_mysql_result_fetch_row b es libc args w.result.fields w).state.rows).isSome
          = true
        rw [g1, hrows]
        split <;> rfl

theorem each_first_pass_uncached (b : Build) (es : EncodingSupport) (libc : Libc)
    (r : MYSQL_RES) (s : Option MYSQL_STMT) (query_options : Hash)
    (opts1 : Option Hash) (block1 : Option Block) (rws : List (Option Row))
    (hc : (each_args (each_opts opts1 (rb_mysql_result_to_obj r s query_options))
      block1).cacheRows = false)
    (hns : (each_args (each_opts opts1 (rb_mysql_result_to_obj r s query_options))
      block1).streaming = false)
    (h : (rb_mysql_result_each b es libc opts1 block1
      (rb_mysql_result_to_obj r s query_options)).ret = .ok (some rws)) :
    rws = [] ∧
    (rb_mysql_result_each b es libc opts1 block1
      (rb_mysql_result_to_obj r s query_options)).state.rows = some [] ∧
    (rb_mysql_result_each b es libc opts1 block1
      (rb_mysql_result_to_obj r s query_options)).state.lastRowProcessed
      = native_row_count (rb_mysql_result_to_obj r s query_options) ∧
    (rb_mysql_result_each b es libc opts1 block1
      (rb_mysql_result_to_obj r s query_options)).state.numberOfRows
      = native_row_count (rb_mysql_result_to_obj r s query_options) ∧
    (rb_mysql_result_each b es libc opts1 block1
      (rb_mysql_result_to_obj r s query_options)).state.query_options = query_options ∧
    (rb_mysql_result_each b es libc opts1 block1
      (rb_mysql_result_to_obj r s query_options)).state.streamingComplete = false ∧
    (native_row_count (rb_mysql_result_to_obj r s query_options) ≠ 0 →
      (rb_mysql_result_each b es libc opts1 block1
        (rb_mysql_result_to_obj r s query_options)).state.resultFreed = true) ∧
    ∃ zs : List Row, zs.length = native_row_count (rb_mysql_result_to_obj r s query_options) ∧
      iteration_events (rb_mysql_result_each b es libc opts1 block1
        (rb_mysql_result_to_obj r s query_options)).trace
        = zs.flatMap (fun row => fetch_event s.isSome ::
            (if block1.isSome = true then [REvent.rb_yield (some row)] else []))
          ++ (if zs.length = 0 then [] else [REvent.mysql_free_result]) := by
  obtain ⟨fetch, hfetch, hu⟩ := each_unfold b es libc opts1 block1
    (rb_mysql_result_to_obj r s query_options)
  obtain ⟨e1, _⟩ := each_warnings_quiet
    (each_opts opts1 (rb_mysql_result_to_obj r s query_options))
    (each_args (each_opts opts1 (rb_mysql_result_to_obj r s query_options)) block1)
    (rb_mysql_result_to_obj r s query_options)
  obtain ⟨c1, c2⟩ := each_count_rows_quiet (rb_mysql_result_to_obj r s query_options)
  have hbg : (each_args (each_opts opts1 (rb_mysql_result_to_obj r s query_options))
      block1).block_given = block1.isSome := rfl
  generalize each_args (each_opts opts1 (rb_mysql_result_to_obj r s query_options)) block1
    = args at hc hns hu e1 hbg
  generalize each_warnings (each_opts opts1 (rb_mysql_result_to_obj r s query_options)) args
    (rb_mysql_result_to_obj r s query_options) = warnings at hu e1
  have hinit : each_init args (rb_mysql_result_to_obj r s query_options)
      = (each_count_rows (rb_mysql_result_to_obj r s query_options)).bind fun n w1 =>
          ROutcome.pure (decide (n = 0)) { w1 with numberOfRows := n, rows := some [] } := by
    unfold each_init
    rw [if_pos (show (rb_mysql_result_to_obj r s query_options).lastRowProcessed = 0 from rfl)]
    simp only [hns, Bool.false_eq_true, if_false]
  rw [hu, bind_of_ok _ _ () rfl] at h ⊢
  simp only [hinit] at h ⊢
  obtain ⟨returned, h1, h2⟩ := bind_ret_ok _ _ _ h
  obtain ⟨n, hcount, h3⟩ := bind_ret_ok _ _ _ h1
  have hn := each_count_rows_value _ n hcount
  rw [bind_of_ok _ _ n hcount] at h ⊢
  simp only [ROutcome.pure, c1] at h ⊢
  rw [bind_of_ok _ _ (decide (n = 0)) rfl] at h ⊢
  rw [← hn]
  by_cases hz : n = 0
  · subst hz
    simp only [decide_True, if_true] at h ⊢
    have hr : rws = [] := by
      injection h with h4
      injection h4 with h5
      exact h5.symm
    refine ⟨hr, by trivial, by trivial, by trivial, by trivial, by trivial, ?_, [],
      by trivial, ?_⟩
    · intro hne
      exact absurd rfl hne
    · simp only [iteration_events_append, e1, c2]
      rfl
  · simp only [hz, decide_False, Bool.false_eq_true, if_false] at h ⊢
    obtain ⟨z1, z2, z3, z4, z5, z6, _, z8, _, zs, z0, z10⟩ :=
      each_body_first_pass_uncached s.isSome
        (fetch { rb_mysql_result_to_obj r s query_options with
          numberOfRows := n, rows := some [] })
        (hfetch _) block1 args hc hns
        { rb_mysql_result_to_obj r s query_options with numberOfRows := n, rows := some [] }
        rfl [] rfl rfl rws h
    have z0n : zs.length = n := z0
    refine ⟨z1, z2, z3, z4, z5, z6, fun _ => z8, zs, z0n, ?_⟩
    simp only [iteration_events_append, e1, c2, z10, hbg, List.nil_append]
    have hne : ¬ zs.length = 0 := fun e => hz (z0n.symm.trans e)
    simp only [hne, if_false]
    rfl

theorem each_buffered_loop_rows_isSome (isStmt : Bool)
    (fetch : mysql2_result_wrapper → ROutcome (Option Row)) (hfetch : FetchSpec isStmt fetch)
    (block : Option Block) (args : result_each_args) (n : Nat) (w : mysql2_result_wrapper)
    (hs : w.stmt.isSome = isStmt) (hw : w.rows = some [])
    (h : (each_buffered_loop fetch block args 0 n 0 w).ret = .ok false) :
    (each_buffered_loop fetch block args 0 n 0 w).state.rows.isSome = true := by
  cases hc : args.cacheRows with
  | true =>
    obtain ⟨zs, _, z1, _⟩ := each_buffered_loop_caching isStmt fetch hfetch block args hc n []
      w hs (by rw [hw]; rfl) h
    rw [List.length_nil] at z1
    rw [z1]
    rfl
  | false =>
    obtain ⟨zs, _, z1, _⟩ := each_buffered_loop_uncached isStmt fetch hfetch block args hc 0 n
      0 w hs (by rw [hw]; rfl) h
    rw [z1, hw]
    rfl

theorem each_buffered_first_pass_returns (b : Build) (es : EncodingSupport) (libc : Libc)
    (r : MYSQL_RES) (query_options : Hash) (opts1 : Option Hash) (block1 : Option Block)
    (hbuffered1 : rb_hash_aref (each_opts opts1 (rb_mysql_result_to_obj r none query_options))
      Sym.stream ≠ RVal.qtrue)
    (hstored : r.stored = true) (hfr : r.freed = false) (hfetched : r.fetched = 0)
    (hN : r.rows ≠ [])
    (hdec : ∀ row ∈ r.rows, text_row_decodes b es libc
      (each_args (each_opts opts1 (rb_mysql_result_to_obj r none query_options)) block1)
      r.fields row = true)
    (hblk : ∀ blk, block1 = some blk → ∀ row, blk row = true) :
    ∃ rws, (rb_mysql_result_each b es libc opts1 block1
      (rb_mysql_result_to_obj r none query_options)).ret = .ok (some rws) := by
  have hns : (each_args (each_opts opts1 (rb_mysql_result_to_obj r none query_options))
      block1).streaming = false := (each_args_streaming _ _).mpr hbuffered1
  have hbg : (each_args (each_opts opts1 (rb_mysql_result_to_obj r none query_options))
      block1).block_given = block1.isSome := rfl
  have hu : rb_mysql_result_each b es libc opts1 block1
      (rb_mysql_result_to_obj r none query_options)
      = (({ ret := .ok (), state := rb_mysql_result_to_obj r none query_options,
            trace := each_warnings (each_opts opts1 (rb_mysql_result_to_obj r none
              query_options)) (each_args (each_opts opts1 (rb_mysql_result_to_obj r none
              query_options)) block1) (rb_mysql_result_to_obj r none query_options) } :
          ROutcome Unit).bind fun _ w1 =>
          (each_init (each_args (each_opts opts1 (rb_mysql_result_to_obj r none
              query_options)) block1) w1).bind fun returned w2 =>
            if returned then ROutcome.pure w2.rows w2
            else
              match w2.stmt with
              | none => rb_mysql_result_each_nonstmt b es libc block1
                  (each_args (each_opts opts1 (rb_mysql_result_to_obj r none
                    query_options)) block1) w2
              | some _ => rb_mysql_result_each_stmt b es block1
                  (each_args (each_opts opts1 (rb_mysql_result_to_obj r none
                    query_options)) block1) w2) := rfl
  generalize each_args (each_opts opts1 (rb_mysql_result_to_obj r none query_options))
    block1 = args at hns hdec hu hbg
  have hnf : ¬ r.freed = true := by simp [hfr]
  have hlen : r.rows.length ≠ 0 := fun e => hN (List.eq_nil_of_length_eq_zero e)
  have hcount : each_count_rows (rb_mysql_result_to_obj r none query_options)
      = { ret := .ok r.rows.length, state := rb_mysql_result_to_obj r none query_options,
          trace := [REvent.mysql_num_rows] } := by
    unfold each_count_rows
    show (if r.freed = true then _ else _) = _
    rw [if_neg hnf]
    simp [mysql_num_rows, rb_mysql_result_to_obj, hstored, hfetched]
  have hinit : each_init args (rb_mysql_result_to_obj r none query_options)
      = { ret := .ok false,
          state := { rb_mysql_result_to_obj r none query_options with
            numberOfRows := r.rows.length, rows := some [] },
          trace := [REvent.mysql_num_rows] } := by
    unfold each_init
    rw [if_pos (show (rb_mysql_result_to_obj r none query_options).lastRowProcessed = 0
      from rfl)]
    simp only [hns, Bool.false_eq_true, if_false]
    rw [hcount, bind_of_ok _ _ r.rows.length rfl]
    simp [ROutcome.pure, hlen]
  have hff : mysql_fetch_fields
      { rb_mysql_result_to_obj r none query_options with
        numberOfRows := r.rows.length, rows := some [] }
      = { ret := .ok r.fields,
          state := { rb_mysql_result_to_obj r none query_options with
            numberOfRows := r.rows.length, rows := some [] },
          trace := [REvent.mysql_fetch_fields] } := by
    unfold mysql_fetch_fields
    show (if r.freed = true then _ else _) = _
    rw [if_neg hnf]
    rfl
  have hloop := each_buffered_loop_returns b es libc args block1 hblk hbg r.fields 0
    r.rows.length (Or.inr rfl) 0
    { rb_mysql_result_to_obj r none query_options with
      numberOfRows := r.rows.length, rows := some [] }
    rfl hfr (fun h => by cases h) hdec (Nat.le_refl _) rfl
  have hsome := each_buffered_loop_rows_isSome false
    (rb_mysql_result_fetch_row b es libc args r.fields)
    (fetch_row_spec b es libc args r.fields) block1 args r.rows.length
    { rb_mysql_result_to_obj r none query_options with
      numberOfRows := r.rows.length, rows := some [] } rfl rfl hloop
  obtain ⟨rws, hrws⟩ := Option.isSome_iff_exists.mp hsome
  have hcond : (args.cacheRows && decide ((0 : Nat) = r.rows.length)) = false := by
    have : ¬ (0 : Nat) = r.rows.length := fun e => hlen e.symm
    simp [this]
  have hbody : (each_body (rb_mysql_result_fetch_row b es libc args) block1 args
      { rb_mysql_result_to_obj r none query_options with
        numberOfRows := r.rows.length, rows := some [] }).ret = .ok (some rws) := by
    unfold each_body
    simp only [hns, Bool.false_eq_true, if_false]
    rw [if_neg (by
      show ¬ (args.cacheRows && decide ((0 : Nat) = r.rows.length)) = true
      rw [hcond]
      simp)]
    rw [hff, bind_of_ok _ _ r.fields rfl]
    dsimp only [List.length_nil]
    rw [bind_of_ok _ _ false hloop]
    dsimp only
    simp only [Bool.false_eq_true, if_false]
    split
    · show Except.ok (rb_mysql_result_free_result _).1.rows = _
      rw [(free_result_state _).1, hrws]
    · exact congrArg Except.ok hrws
  refine ⟨rws, ?_⟩
  rw [hu, bind_of_ok _ _ () rfl, hinit, bind_of_ok _ _ false rfl]
  exact hbody

/-! ## Theorems: count around a buffered pass -/

theorem count_of_released_buffered (b : Build) (w : mysql2_result_wrapper)
    (rows : List (Option Row)) (hf : w.resultFreed = true) (hr : w.rows = some rows)
    (hn : w.streamingComplete = true → w.numberOfRows = rows.length)
    (hsmall : rows.length < 2 ^ (long_bits b - 2)) :
    rb_mysql_result_count b w = { ret := .ok (rows.length : Int), state := w, trace := [] } := by
  have hb : long_bits b = 64 ∨ long_bits b = 32 := by
    unfold long_bits
    cases b.sizeof_int_lt_sizeof_long <;> simp
  have hle : 2 ^ (long_bits b - 2) ≤ 2 ^ (long_bits b - 1) :=
    Nat.pow_le_pow_right (by decide) (by omega)
  have h2 := LONG2NUM_of_small b rows.length (by omega)
  cases hs : w.streamingComplete with
  | true => simp [rb_mysql_result_count, hf, hs, hn hs, h2, ROutcome.pure]
  | false => simp [rb_mysql_result_count, hf, hs, hr, h2, ROutcome.pure]

/-- C29. On a fresh buffered text result with N >= 1 rows (N small enough for
the host's small integers), whose rows all decode, `count` before any pass
returns N; a buffered `each` pass whose block, if any, returns for every row
returns; after such a pass with cacheRows disabled the retained row array is
empty and `count` returns its size, 0; after such a pass with cacheRows
enabled `count` returns N.  After the pass `count` makes no library call. -/
theorem C29_count_after_pass (b : Build) (es : EncodingSupport) (libc : Libc)
    (r : MYSQL_RES) (query_options : Hash) (opts1 : Option Hash) (block1 : Option Block)
    (hstored : r.stored = true) (hfr : r.freed = false) (hfetched : r.fetched = 0)
    (hN : 1 ≤ r.rows.length) (hsmall : r.rows.length < 2 ^ (long_bits b - 2))
    (hbuffered1 : rb_hash_aref (each_opts opts1 (rb_mysql_result_to_obj r none query_options))
      Sym.stream ≠ RVal.qtrue)
    (hdec : ∀ row ∈ r.rows, text_row_decodes b es libc
      (each_args (each_opts opts1 (rb_mysql_result_to_obj r none query_options)) block1)
      r.fields row = true)
    (hblk : ∀ blk, block1 = some blk → ∀ row, blk row = true) :
    rb_mysql_result_count b (rb_mysql_result_to_obj r none query_options)
      = { ret := .ok (r.rows.length : Int),
          state := rb_mysql_result_to_obj r none query_options,
          trace := [REvent.mysql_num_rows] } ∧
    (∃ rws, (rb_mysql_result_each b es libc opts1 block1
      (rb_mysql_result_to_obj r none query_options)).ret = .ok (some rws)) ∧
    (rb_hash_aref (each_opts opts1 (rb_mysql_result_to_obj r none query_options))
        Sym.cache_rows = RVal.qfalse →
      (rb_mysql_result_each b es libc opts1 block1
        (rb_mysql_result_to_obj r none query_options)).state.rows = some [] ∧
      rb_mysql_result_count b (rb_mysql_result_each b es libc opts1 block1
          (rb_mysql_result_to_obj r none query_options)).state
        = { ret := .ok 0,
            state := (rb_mysql_result_each b es libc opts1 block1
              (rb_mysql_result_to_obj r none query_options)).state,
            trace := [] }) ∧
    (rb_hash_aref (each_opts opts1 (rb_mysql_result_to_obj r none query_options))
        Sym.cache_rows ≠ RVal.qfalse →
      rb_mysql_result_count b (rb_mysql_result_each b es libc opts1 block1
          (rb_mysql_result_to_obj r none query_options)).state
        = { ret := .ok (r.rows.length : Int),
            state := (rb_mysql_result_each b es libc opts1 block1
              (rb_mysql_result_to_obj r none query_options)).state,
            trace := [] }) := by
  have hnf : ¬ r.freed = true := by simp [hfr]
  have hnative : native_row_count (rb_mysql_result_to_obj r none query_options)
      = r.rows.length := by
    simp [native_row_count, rb_mysql_result_to_obj, mysql_num_rows, hstored, hfetched]
  have hrows : r.rows ≠ [] := by
    intro e
    rw [e] at hN
    exact absurd hN (by decide)
  obtain ⟨rws, hret⟩ := each_buffered_first_pass_returns b es libc r query_options opts1 block1
    hbuffered1 hstored hfr hfetched hrows hdec hblk
  have hns := (each_args_streaming (each_opts opts1 (rb_mysql_result_to_obj r none
    query_options)) block1).mpr hbuffered1
  refine ⟨?_, ⟨rws, hret⟩, ?_, ?_⟩
  · have h1 := INT2FIX_of_small b r.rows.length hsmall
    have hnum : mysql_num_rows (rb_mysql_result_to_obj r none query_options).result
        = r.rows.length := by
      simp [mysql_num_rows, rb_mysql_result_to_obj, hstored, hfetched]
    unfold rb_mysql_result_count
    show (if r.freed = true then _ else _) = _
    rw [if_neg hnf, hnum, h1]
  · intro hoff
    have hc : (each_args (each_opts opts1 (rb_mysql_result_to_obj r none query_options))
        block1).cacheRows = false := by
      simp [each_args, hoff]
    obtain ⟨_, z2, _, _, _, z6, z7, _⟩ := each_first_pass_uncached b es libc r none
      query_options opts1 block1 rws hc hns hret
    refine ⟨z2, ?_⟩
    have hcount := count_of_released_buffered b _ [] (z7 (by rw [hnative]; omega)) z2
      (fun h => by rw [z6] at h; cases h) (by
        rw [List.length_nil]
        exact Nat.two_pow_pos _)
    simpa using hcount
  · intro hon
    have hc := (each_args_cacheRows (each_opts opts1 (rb_mysql_result_to_obj r none
      query_options)) block1).mpr hon
    obtain ⟨zs, z1, z2, z3, _, z5, _, _, z8, _⟩ := each_first_pass_caching b es libc r none
      query_options opts1 block1 rws hc hns hret
    have hlen : rws.length = r.rows.length := by
      rw [z1, List.length_map, z2, hnative]
    have hcount := count_of_released_buffered b _ rws (z8 (by rw [z2, hnative]; omega)) z3
      (fun _ => by rw [z5, z2, hnative, hlen]) (by rw [hlen]; exact hsmall)
    rw [hlen] at hcount
    exact hcount

theorem C29_count_after_pass_witness :
    rb_mysql_result_count build19 (rb_mysql_result_to_obj twoRowResult none cacheOffOptions)
      = { ret := .ok 2, state := rb_mysql_result_to_obj twoRowResult none cacheOffOptions,
          trace := [REvent.mysql_num_rows] } ∧
    (rb_mysql_result_count build19
      (rb_mysql_result_each build19 esUtf8Internal libcNonZero none (some blockReturns)
        (rb_mysql_result_to_obj twoRowResult none cacheOffOptions)).state).ret = .ok 0 ∧
    (rb_mysql_result_count build19
      (rb_mysql_result_each build19 esUtf8Internal libcNonZero none (some blockReturns)
        (rb_mysql_result_to_obj twoRowResult none asArrayOptions)).state).ret = .ok 2 :=
  have hoff := C29_count_after_pass build19 esUtf8Internal libcNonZero twoRowResult
    cacheOffOptions none (some blockReturns) rfl rfl rfl (by decide) (by decide) (by decide)
    (by decide) (fun _ h _ => by cases h; rfl)
  have hon := C29_count_after_pass build19 esUtf8Internal libcNonZero twoRowResult
    asArrayOptions none (some blockReturns) rfl rfl rfl (by decide) (by decide) (by decide)
    (by decide) (fun _ h _ => by cases h; rfl)
  ⟨hoff.1, congrArg ROutcome.ret (hoff.2.2.1 (by decide)).2,
    congrArg ROutcome.ret (hon.2.2.2 (by decide))⟩

/-! ## Theorems: what every operation keeps, and the accounting of releases -/

theorem kept_refl (w : mysql2_result_wrapper) : Kept w w :=
  ⟨fun _ _ h => h, fun h => ⟨h, rfl⟩, rfl, rfl, rfl, fun h => h⟩

theorem kept_trans {w w1 w2 : mysql2_result_wrapper} (h1 : Kept w w1) (h2 : Kept w1 w2) :
    Kept w w2 := by
  obtain ⟨a1, a2, a3, a4, a5, a6⟩ := h1
  obtain ⟨b1, b2, b3, b4, b5, b6⟩ := h2
  refine ⟨fun i k h => b1 i k (a1 i k h), ?_, b3.trans a3, b4.trans a4, b5.trans a5,
    fun h => b6 (a6 h)⟩
  intro h
  obtain ⟨c1, c2⟩ := a2 h
  obtain ⟨d1, d2⟩ := b2 c1
  exact ⟨d1, d2.trans c2⟩

theorem count_of_no_teardown (t : List REvent) (h : t.filter REvent.isTeardown = [])
    (e : REvent) (he : e.isTeardown = true) : t.count e = 0 := by
  rw [List.count_eq_zero]
  intro hm
  have : e ∈ t.filter REvent.isTeardown := List.mem_filter.mpr ⟨hm, he⟩
  rw [h] at this
  cases this

theorem steady_pure {α : Type} (a : α) (w : mysql2_result_wrapper) :
    Steady w (ROutcome.pure a w) :=
  ⟨kept_refl w, rfl, rfl⟩

theorem steady_raise {α : Type} (e : RExc) (w : mysql2_result_wrapper) (t : List REvent)
    (ht : t.filter REvent.isTeardown = []) : Steady w (ROutcome.raise e w t : ROutcome α) :=
  ⟨kept_refl w, rfl, ht⟩

theorem steady_bind {α β : Type} {w : mysql2_result_wrapper} {o : ROutcome α}
    {f : α → mysql2_result_wrapper → ROutcome β} (ho : Steady w o)
    (hf : ∀ a, o.ret = .ok a → Steady o.state (f a o.state)) : Steady w (o.bind f) := by
  obtain ⟨k, r, t⟩ := ho
  cases hr : o.ret with
  | error e =>
    rw [bind_of_error o f e hr]
    exact ⟨k, r, t⟩
  | ok a =>
    rw [bind_of_ok o f a hr]
    obtain ⟨k1, r1, t1⟩ := hf a hr
    refine ⟨kept_trans k k1, r1.trans r, ?_⟩
    show List.filter REvent.isTeardown (o.trace ++ (f a o.state).trace) = []
    rw [List.filter_append, t, t1]
    rfl

theorem tidy_of_steady {α : Type} {w : mysql2_result_wrapper} {o : ROutcome α}
    (h : Steady w o) : Tidy w o := by
  obtain ⟨k, r, t⟩ := h
  have c1 := count_of_no_teardown o.trace t REvent.mysql_free_result rfl
  have c2 := count_of_no_teardown o.trace t REvent.mysql_stmt_free_result rfl
  have c3 := count_of_no_teardown o.trace t REvent.free_result_buffers rfl
  refine ⟨k, ?_, ?_, ?_, fun _ _ => ⟨r, t⟩⟩
  · rw [c1, r, Nat.zero_add]
  · rw [c2]; exact Nat.zero_le _
  · rw [c3]; exact Nat.zero_le _

theorem tidy_bind {α β : Type} {w : mysql2_result_wrapper} {o : ROutcome α}
    {f : α → mysql2_result_wrapper → ROutcome β} (ho : Steady w o)
    (hf : ∀ a, o.ret = .ok a → Tidy o.state (f a o.state)) : Tidy w (o.bind f) := by
  obtain ⟨k, r, t⟩ := ho
  cases hr : o.ret with
  | error e =>
    rw [bind_of_error o f e hr]
    exact tidy_of_steady ⟨k, r, t⟩
  | ok a =>
    rw [bind_of_ok o f a hr]
    obtain ⟨k1, n1, n2, n3, n4⟩ := hf a hr
    have c1 := count_of_no_teardown o.trace t REvent.mysql_free_result rfl
    have c2 := count_of_no_teardown o.trace t REvent.mysql_stmt_free_result rfl
    have c3 := count_of_no_teardown o.trace t REvent.free_result_buffers rfl
    refine ⟨kept_trans k k1, ?_, ?_, ?_, ?_⟩
    · show List.count _ (o.trace ++ (f a o.state).trace) + _ = _
      rw [List.count_append, c1, Nat.zero_add, ← r]
      exact n1
    · show List.count _ (o.trace ++ (f a o.state).trace)
        ≤ List.count _ (o.trace ++ (f a o.state).trace)
      rw [List.count_append, List.count_append, c1, c2]
      simpa using n2
    · show List.count _ (o.trace ++ (f a o.state).trace)
        ≤ List.count _ (o.trace ++ (f a o.state).trace)
      rw [List.count_append, List.count_append, c1, c3]
      simpa using n3
    · intro e he
      obtain ⟨m1, m2⟩ := n4 e he
      refine ⟨m1.trans r, ?_⟩
      show List.filter REvent.isTeardown (o.trace ++ (f a o.state).trace) = []
      rw [List.filter_append, t, m2]
      rfl

theorem rb_ary_entry_store_ne {α : Type} (ary : List (Option α)) (idx i : Nat)
    (val k : Option α) (hne : i ≠ idx) (h : rb_ary_entry ary i = k) (hk : k ≠ none) :
    rb_ary_entry (rb_ary_store ary idx val) i = k := by
  have hlt : i < ary.length := by
    by_contra hge
    have : ary.get? i = none := List.get?_eq_none.mpr (by omega)
    simp only [rb_ary_entry, this] at h
    exact hk h.symm
  unfold rb_ary_store
  split
  · simp only [rb_ary_entry, List.get?_eq_getElem?] at h ⊢
    rw [List.getElem?_set_ne (Ne.symm hne)]
    exact h
  · simp only [rb_ary_entry, List.get?_eq_getElem?] at h ⊢
    rw [List.append_assoc, List.getElem?_append_left hlt]
    exact h

theorem init_fields_steady (w : mysql2_result_wrapper) : Steady w (init_fields w) := by
  unfold init_fields
  cases hf : w.fields with
  | some fs => exact steady_pure () w
  | none =>
    by_cases hfr : w.result.freed = true
    · simp only [hfr, if_true]
      exact steady_raise _ w [] rfl
    · simp only [hfr, if_false]
      refine ⟨⟨?_, ?_, rfl, rfl, rfl, fun h => h⟩, rfl, rfl⟩
      · intro i k h
        rw [hf] at h
        simp [rb_ary_entry] at h
      · intro h
        rw [hf] at h
        cases h

theorem fetch_field_steady (b : Build) (es : EncodingSupport) (idx : Nat) (sk : Bool)
    (w : mysql2_result_wrapper) : Steady w (rb_mysql_result_fetch_field b es idx sk w) := by
  unfold rb_mysql_result_fetch_field
  refine steady_bind (init_fields_steady w) ?_
  intro _ _
  generalize (init_fields w).state = w1
  cases hent : rb_ary_entry (w1.fields.getD []) idx with
  | some k => exact steady_pure k w1
  | none =>
    by_cases hfr : w1.result.freed = true
    · simp only [hfr, if_true]
      exact steady_raise _ w1 [] rfl
    · simp only [hfr, if_false]
      cases w1.result.fields.get? idx with
      | none => exact steady_raise _ w1 _ rfl
      | some f =>
        refine ⟨⟨?_, ?_, rfl, rfl, rfl, fun h => h⟩, rfl, rfl⟩
        · intro i k h
          have hne : i ≠ idx := by
            intro e
            rw [e, hent] at h
            cases h
          exact rb_ary_entry_store_ne _ idx i _ (some k) hne h (by simp)
        · intro _
          exact ⟨rfl, rfl⟩

theorem fetch_row_columns_steady (b : Build) (es : EncodingSupport) (libc : Libc)
    (args : result_each_args) (fields : List MYSQL_FIELD) (row : TextRow) (n : Nat) :
    ∀ (i : Nat) (rowVal : Row) (w : mysql2_result_wrapper),
      Steady w (fetch_row_columns b es libc args fields row n i rowVal w) := by
  induction n with
  | zero => intro i rowVal w; exact steady_pure rowVal w
  | succ n ih =>
    intro i rowVal w
    unfold fetch_row_columns
    refine steady_bind (fetch_field_steady b es i args.symbolizeKeys w) ?_
    intro field _
    generalize (rb_mysql_result_fetch_field b es i args.symbolizeKeys w).state = w1
    cases row.get? i with
    | none => exact steady_raise _ w1 [] rfl
    | some cell =>
      obtain ⟨p, len⟩ := cell
      cases p with
      | none => exact ih _ _ _
      | some ptr =>
        cases fields.get? i with
        | none => exact steady_raise _ w1 [] rfl
        | some f =>
          simp only
          cases rb_mysql_result_fetch_row_value b es libc args.db_timezone args.app_timezone
              args.castBool args.cast f (some ptr) len with
          | error e => exact steady_raise _ w1 [] rfl
          | ok val => exact ih _ _ _

theorem stmt_fetch_row_columns_steady (b : Build) (es : EncodingSupport)
    (args : result_each_args) (fields : List MYSQL_FIELD) (cells : List StmtCell) (n : Nat) :
    ∀ (i : Nat) (rowVal : Row) (w : mysql2_result_wrapper),
      Steady w (stmt_fetch_row_columns b es args fields cells n i rowVal w) := by
  induction n with
  | zero => intro i rowVal w; exact steady_pure rowVal w
  | succ n ih =>
    intro i rowVal w
    unfold stmt_fetch_row_columns
    refine steady_bind (fetch_field_steady b es i args.symbolizeKeys w) ?_
    intro field _
    generalize (rb_mysql_result_fetch_field b es i args.symbolizeKeys w).state = w1
    split
    · split
      · exact steady_raise _ w1 [] rfl
      · exact ih _ _ _
    · exact steady_raise _ w1 [] rfl

theorem alloc_result_buffers_steady (b : Build) (fields : List MYSQL_FIELD)
    (w : mysql2_result_wrapper) : Steady w (rb_mysql_result_alloc_result_buffers b fields w) := by
  unfold rb_mysql_result_alloc_result_buffers
  split
  · exact steady_pure () w
  · simp only
    cases (alloc_binds b (List.take w.numberOfFields fields)).2 with
    | none => exact ⟨⟨fun _ _ h => h, fun h => ⟨h, rfl⟩, rfl, rfl, rfl, fun h => h⟩, rfl, rfl⟩
    | some code =>
      exact ⟨⟨fun _ _ h => h, fun h => ⟨h, rfl⟩, rfl, rfl, rfl, fun h => h⟩, rfl, rfl⟩

theorem fetch_row_steady (b : Build) (es : EncodingSupport) (libc : Libc)
    (args : result_each_args) (fields : List MYSQL_FIELD) (w : mysql2_result_wrapper) :
    Steady w (rb_mysql_result_fetch_row b es libc args fields w) := by
  unfold rb_mysql_result_fetch_row
  by_cases hfr : w.result.freed = true
  · rw [if_pos hfr]
    exact steady_raise _ w [] rfl
  · rw [if_neg hfr]
    cases hrows : w.result.rows with
    | nil => exact ⟨kept_refl w, rfl, rfl⟩
    | cons row rest =>
      dsimp only
      refine steady_bind ?_ ?_
      · exact ⟨⟨fun _ _ h => h, fun h => ⟨h, rfl⟩, rfl, rfl, rfl, fun h => h⟩, rfl, rfl⟩
      · intro _ _
        refine steady_bind (init_fields_steady _) ?_
        intro _ _
        refine steady_bind (fetch_row_columns_steady _ _ _ _ _ _ _ _ _ _) ?_
        intro rowVal _
        exact steady_pure _ _

theorem stmt_fetch_row_steady (b : Build) (es : EncodingSupport)
    (args : result_each_args) (fields : List MYSQL_FIELD) (w : mysql2_result_wrapper) :
    Steady w (rb_mysql_result_stmt_fetch_row b es args fields w) := by
  unfold rb_mysql_result_stmt_fetch_row
  refine steady_bind (init_fields_steady w) ?_
  intro _ _
  generalize (init_fields w).state = w1
  refine steady_bind ?_ ?_
  · split
    · exact alloc_result_buffers_steady b fields w1
    · split
      · exact steady_raise _ w1 [] rfl
      · exact steady_pure () w1
  · intro _ _
    generalize (if w1.result_buffers.isNone = true then
        rb_mysql_result_alloc_result_buffers b fields w1
      else if w1.resultFreed = true then
        ROutcome.raise (RExc.undefined Undefined.use_after_free) w1 []
      else ROutcome.pure () w1).state = w2
    cases hst : w2.stmt with
    | none => exact steady_raise _ w2 [] rfl
    | some st =>
      dsimp only
      by_cases hb : st.bind_result_fails = true
      · rw [if_pos hb]
        exact steady_raise _ w2 _ rfl
      · rw [if_neg hb]
        by_cases hf : st.result_freed = true
        · rw [if_pos hf]
          exact steady_raise _ w2 _ rfl
        · rw [if_neg hf]
          have hk : ∀ st1 : MYSQL_STMT, st1.stored = st.stored →
              Kept w2 { w2 with stmt := some st1 } := by
            intro st1 h1
            refine ⟨fun _ _ h => h, fun h => ⟨h, rfl⟩, rfl, rfl, ?_, fun h => h⟩
            simp [hst, h1]
          cases hfs : st.fetches with
          | nil => exact ⟨kept_refl w2, rfl, rfl⟩
          | cons fe rest =>
            cases fe with
            | error => exact ⟨hk _ rfl, rfl, rfl⟩
            | data_truncated => exact ⟨hk _ rfl, rfl, rfl⟩
            | row cells =>
              dsimp only
              refine steady_bind ?_ ?_
              · exact ⟨hk _ rfl, rfl, rfl⟩
              · intro _ _
                refine steady_bind (stmt_fetch_row_columns_steady _ _ _ _ _ _ _ _ _) ?_
                intro rowVal _
                exact steady_pure _ _

theorem rb_yield_steady (block : Option Block) (row : Option Row)
    (w : mysql2_result_wrapper) : Steady w (rb_yield block row w) := by
  unfold rb_yield
  cases block with
  | none => exact steady_raise _ w [] rfl
  | some blk =>
    dsimp only
    split
    · exact ⟨kept_refl w, rfl, rfl⟩
    · exact steady_raise _ w _ rfl

theorem each_count_rows_steady (w : mysql2_result_wrapper) : Steady w (each_count_rows w) := by
  unfold each_count_rows
  cases w.stmt with
  | some st => exact ⟨kept_refl w, rfl, rfl⟩
  | none =>
    dsimp only
    split
    · exact steady_raise _ w [] rfl
    · exact ⟨kept_refl w, rfl, rfl⟩

theorem mysql_fetch_fields_steady (w : mysql2_result_wrapper) :
    Steady w (mysql_fetch_fields w) := by
  unfold mysql_fetch_fields
  split
  · exact steady_raise _ w [] rfl
  · exact ⟨kept_refl w, rfl, rfl⟩

theorem each_init_steady (args : result_each_args) (w : mysql2_result_wrapper) :
    Steady w (each_init args w) := by
  unfold each_init
  split
  · split
    · exact ⟨⟨fun _ _ h => h, fun h => ⟨h, rfl⟩, rfl, rfl, rfl, fun h => h⟩, rfl, rfl⟩
    · refine steady_bind (each_count_rows_steady w) ?_
      intro n _
      exact ⟨⟨fun _ _ h => h, fun h => ⟨h, rfl⟩, rfl, rfl, rfl, fun h => h⟩, rfl, rfl⟩
  · exact steady_pure _ w

theorem steady_of_update {α : Type} {w : mysql2_result_wrapper} (w1 : mysql2_result_wrapper)
    {o : ROutcome α} (hk : Kept w w1) (hr : w1.resultFreed = w.resultFreed) (h : Steady w1 o) : Steady w o :=
  ⟨kept_trans hk h.1, h.2.1.trans hr, h.2.2⟩

theorem each_streaming_loop_steady
    (fetch : mysql2_result_wrapper → ROutcome (Option Row)) (hfetch : ∀ w, Steady w (fetch w))
    (block : Option Block) (args : result_each_args) (fuel : Nat) :
    ∀ w, Steady w (each_streaming_loop fetch block args fuel w) := by
  induction fuel with
  | zero => intro w; exact steady_raise _ w [] rfl
  | succ fuel ih =>
    intro w
    rw [each_streaming_loop]
    refine steady_bind (hfetch w) ?_
    intro row _
    generalize (fetch w).state = w1
    cases row with
    | none => exact steady_pure () w1
    | some r =>
      dsimp only
      split
      · refine steady_bind (rb_yield_steady block (some r) w1) ?_
        intro _ _
        generalize (rb_yield block (some r) w1).state = w2
        exact steady_of_update { w2 with lastRowProcessed := w2.lastRowProcessed + 1 }
          ⟨fun _ _ h => h, fun h => ⟨h, rfl⟩, rfl, rfl, rfl, fun h => h⟩ rfl (ih _)
      · exact ih w1

theorem each_cached_loop_steady (block : Option Block) (n : Nat) :
    ∀ i w, Steady w (each_cached_loop block n i w) := by
  induction n with
  | zero => intro i w; exact steady_pure () w
  | succ n ih =>
    intro i w
    rw [each_cached_loop]
    cases w.rows with
    | none => exact steady_raise _ w [] rfl
    | some rows =>
      dsimp only
      refine steady_bind (rb_yield_steady block _ w) ?_
      intro _ _
      exact ih _ _

theorem free_result_tidy {α : Type} (v : α) (w : mysql2_result_wrapper) :
    Tidy w ({ ret := .ok v, state := (rb_mysql_result_free_result w).1,
              trace := (rb_mysql_result_free_result w).2 } : ROutcome α) := by
  unfold rb_mysql_result_free_result
  cases hf : w.resultFreed with
  | true =>
    simp only [Bool.not_true, Bool.false_eq_true, if_false]
    refine ⟨kept_refl w, ?_, ?_, ?_, ?_⟩
    · simp [hf]
    · simp
    · simp
    · intro e he
      cases he
  | false =>
    simp only [Bool.not_false, if_true]
    refine ⟨⟨fun _ _ h => h, fun h => ⟨h, rfl⟩, rfl, rfl, ?_, fun _ => rfl⟩, ?_, ?_, ?_, ?_⟩
    · cases w.stmt <;> rfl
    · cases w.stmt with
      | none => simp [hf]
      | some st => cases w.result_buffers.isSome <;> simp [hf]
    · cases w.stmt with
      | none => simp
      | some st => cases w.result_buffers.isSome <;> simp
    · cases w.stmt with
      | none => simp
      | some st => cases w.result_buffers.isSome <;> simp
    · intro e he
      cases he

theorem buffered_continuation_tidy (block : Option Block) (args : result_each_args)
    (cont : mysql2_result_wrapper → ROutcome Bool) (hcont : ∀ w, Tidy w (cont w))
    (row : Option Row) (w2 : mysql2_result_wrapper) :
    Tidy w2 (match row with
      | none =>
        let fr := rb_mysql_result_free_result w2
        { ret := .ok true, state := fr.1, trace := fr.2 }
      | some r =>
        (if args.block_given then rb_yield block (some r) w2
          else ROutcome.pure () w2).bind fun _ w3 => cont w3) := by
  cases row with
  | none => exact free_result_tidy true w2
  | some r =>
    dsimp only
    refine tidy_bind ?_ ?_
    · split
      · exact rb_yield_steady block (some r) w2
      · exact steady_pure () w2
    · intro _ _
      exact hcont _

theorem each_buffered_loop_tidy
    (fetch : mysql2_result_wrapper → ROutcome (Option Row)) (hfetch : ∀ w, Steady w (fetch w))
    (block : Option Block) (args : result_each_args) (rp n : Nat) :
    ∀ i w, Tidy w (each_buffered_loop fetch block args rp n i w) := by
  induction n with
  | zero => intro i w; exact tidy_of_steady (steady_pure false w)
  | succ n ih =>
    intro i w
    rw [each_buffered_loop]
    refine tidy_bind ?_ ?_
    · cases w.rows with
      | none => exact steady_raise _ w [] rfl
      | some rows =>
        dsimp only
        split
        · exact steady_pure _ w
        · refine steady_bind (hfetch w) ?_
          intro row _
          exact ⟨⟨fun _ _ h => h, fun h => ⟨h, rfl⟩, rfl, rfl, rfl, fun h => h⟩, rfl, rfl⟩
    · intro row _
      exact buffered_continuation_tidy block args
        (fun w3 => each_buffered_loop fetch block args rp n (i + 1) w3) (ih _) row _

theorem tidy_bind_total {α β : Type} {w : mysql2_result_wrapper} {o : ROutcome α}
    {f : α → mysql2_result_wrapper → ROutcome β} (ho : Tidy w o)
    (hf : ∀ a, o.ret = .ok a →
      Tidy o.state (f a o.state) ∧ ∃ v, (f a o.state).ret = .ok v) :
    Tidy w (o.bind f) := by
  obtain ⟨k, n1, n2, n3, n4⟩ := ho
  cases hr : o.ret with
  | error e =>
    rw [bind_of_error o f e hr]
    exact ⟨k, n1, n2, n3, fun e1 _ => n4 e hr⟩
  | ok a =>
    rw [bind_of_ok o f a hr]
    obtain ⟨⟨k1, m1, m2, m3, _⟩, v, hv⟩ := hf a hr
    refine ⟨kept_trans k k1, ?_, ?_, ?_, ?_⟩
    · show List.count _ (o.trace ++ (f a o.state).trace) + _ = _
      rw [List.count_append, ← m1]
      omega
    · show List.count _ (o.trace ++ (f a o.state).trace)
        ≤ List.count _ (o.trace ++ (f a o.state).trace)
      rw [List.count_append, List.count_append]
      omega
    · show List.count _ (o.trace ++ (f a o.state).trace)
        ≤ List.count _ (o.trace ++ (f a o.state).trace)
      rw [List.count_append, List.count_append]
      omega
    · intro e he
      have he1 : (f a o.state).ret = .error e := he
      rw [hv] at he1
      cases he1

theorem tidy_forget {α β : Type} {w : mysql2_result_wrapper} {o : ROutcome α} (v : β)
    (h : Tidy w o) :
    Tidy w ({ ret := .ok v, state := o.state, trace := o.trace } : ROutcome β) :=
  ⟨h.1, h.2.1, h.2.2.1, h.2.2.2.1, fun e he => by cases he⟩

theorem free_result_streaming_tidy (w : mysql2_result_wrapper) :
    Tidy w ({ ret := .ok (rb_mysql_result_free_result w).1.rows,
              state := { (rb_mysql_result_free_result w).1 with
                numberOfRows := (rb_mysql_result_free_result w).1.lastRowProcessed,
                streamingComplete := true },
              trace := (rb_mysql_result_free_result w).2 } :
      ROutcome (Option (List (Option Row)))) := by
  obtain ⟨⟨k1, k2, k3, k4, k5, k6⟩, n1, n2, n3, _⟩ := free_result_tidy () w
  exact ⟨⟨k1, k2, k3, k4, k5, k6⟩, n1, n2, n3, fun e he => by cases he⟩

theorem each_body_tidy
    (fetch : List MYSQL_FIELD → mysql2_result_wrapper → ROutcome (Option Row))
    (hfetch : ∀ fields w, Steady w (fetch fields w))
    (block : Option Block) (args : result_each_args) (w : mysql2_result_wrapper) :
    Tidy w (each_body fetch block args w) := by
  unfold each_body
  split
  · split
    · refine tidy_bind (mysql_fetch_fields_steady w) ?_
      intro fields _
      refine tidy_bind (each_streaming_loop_steady (fetch fields) (hfetch fields) block args
        _ _) ?_
      intro _ _
      exact free_result_streaming_tidy _
    · exact tidy_of_steady (steady_raise _ w [] rfl)
  · split
    · refine tidy_of_steady (steady_bind (each_cached_loop_steady block _ _ w) ?_)
      intro _ _
      exact steady_pure _ _
    · cases w.rows with
      | none => exact tidy_of_steady (steady_raise _ w [] rfl)
      | some rows =>
        dsimp only
        refine tidy_bind (mysql_fetch_fields_steady w) ?_
        intro fields _
        refine tidy_bind_total (each_buffered_loop_tidy (fetch fields) (hfetch fields) block
          args _ _ _ _) ?_
        intro returned _
        cases returned with
        | true => exact ⟨tidy_of_steady (steady_pure _ _), _, rfl⟩
        | false =>
          simp only [Bool.false_eq_true, if_false]
          split
          · exact ⟨free_result_tidy _ _, _, rfl⟩
          · exact ⟨tidy_of_steady (steady_pure _ _), _, rfl⟩

theorem each_warnings_no_teardown (opts : Hash) (args : result_each_args)
    (w : mysql2_result_wrapper) :
    (each_warnings opts args w).filter REvent.isTeardown = [] := by
  unfold each_warnings
  simp only [List.filter_append]
  split <;> split <;> split <;> rfl

theorem each_dispatch_tidy (b : Build) (es : EncodingSupport) (libc : Libc)
    (block : Option Block) (args : result_each_args) (returned : Bool)
    (w2 : mysql2_result_wrapper) :
    Tidy w2 (if returned then ROutcome.pure w2.rows w2
      else
        match w2.stmt with
        | none => rb_mysql_result_each_nonstmt b es libc block args w2
        | some _ => rb_mysql_result_each_stmt b es block args w2) := by
  cases returned with
  | true => exact tidy_of_steady (steady_pure _ _)
  | false =>
    simp only [Bool.false_eq_true, if_false]
    cases w2.stmt with
    | none =>
      exact each_body_tidy _ (fun fields w => fetch_row_steady b es libc args fields w) _ _ _
    | some st =>
      exact each_body_tidy _ (fun fields w => stmt_fetch_row_steady b es args fields w) _ _ _

theorem each_tidy (b : Build) (es : EncodingSupport) (libc : Libc)
    (opts : Option Hash) (block : Option Block) (w : mysql2_result_wrapper) :
    Tidy w (rb_mysql_result_each b es libc opts block w) := by
  unfold rb_mysql_result_each
  dsimp only
  refine tidy_bind ⟨kept_refl w, rfl, each_warnings_no_teardown _ _ _⟩ ?_
  intro _ _
  refine tidy_bind (each_init_steady _ _) ?_
  intro returned _
  exact each_dispatch_tidy b es libc block _ returned _

theorem count_steady (b : Build) (w : mysql2_result_wrapper) :
    Steady w (rb_mysql_result_count b w) := by
  unfold rb_mysql_result_count
  split
  · split
    · exact steady_pure _ w
    · cases w.rows with
      | none => exact steady_raise _ w [] rfl
      | some rows => exact steady_pure _ w
  · cases w.stmt with
    | some st => exact ⟨kept_refl w, rfl, rfl⟩
    | none =>
      dsimp only
      split
      · exact steady_raise _ w [] rfl
      · exact ⟨kept_refl w, rfl, rfl⟩

theorem fetch_fields_loop_steady (b : Build) (es : EncodingSupport) (sk : Bool) (n : Nat) :
    ∀ i w, Steady w (fetch_fields_loop b es sk n i w) := by
  induction n with
  | zero => intro i w; exact steady_pure () w
  | succ n ih =>
    intro i w
    rw [fetch_fields_loop]
    refine steady_bind (fetch_field_steady b es i sk w) ?_
    intro _ _
    exact ih _ _

theorem fetch_fields_continuation_steady (b : Build) (es : EncodingSupport) (sk : Bool)
    (w1 : mysql2_result_wrapper) :
    Steady w1 (match w1.fields with
      | none => ROutcome.raise (RExc.undefined Undefined.not_an_array) w1 []
      | some fs =>
        (if fs.length ≠ w1.numberOfFields then
            fetch_fields_loop b es sk w1.numberOfFields 0 w1
          else ROutcome.pure () w1).bind fun _ w2 =>
          ROutcome.pure w2.fields w2) := by
  cases w1.fields with
  | none => exact steady_raise _ w1 [] rfl
  | some fs =>
    dsimp only
    refine steady_bind ?_ ?_
    · split
      · exact fetch_fields_loop_steady b es sk _ _ _
      · exact steady_pure () w1
    · intro _ _
      exact steady_pure _ _

theorem fetch_fields_steady (b : Build) (es : EncodingSupport) (w : mysql2_result_wrapper) :
    Steady w (rb_mysql_result_fetch_fields b es w) := by
  unfold rb_mysql_result_fetch_fields
  dsimp only
  refine steady_bind (init_fields_steady w) ?_
  intro _ _
  exact fetch_fields_continuation_steady b es _ _

theorem result_step_tidy (b : Build) (es : EncodingSupport) (libc : Libc) (c : ResultCall)
    (w : mysql2_result_wrapper) :
    Tidy w ({ ret := .ok (), state := (result_step b es libc c w).1,
              trace := (result_step b es libc c w).2 } : ROutcome Unit) := by
  cases c with
  | each opts block => exact tidy_forget () (each_tidy b es libc opts block w)
  | count => exact tidy_forget () (tidy_of_steady (count_steady b w))
  | fields => exact tidy_forget () (tidy_of_steady (fetch_fields_steady b es w))
  | free_result => exact free_result_tidy () w

theorem result_run_tidy (b : Build) (es : EncodingSupport) (libc : Libc)
    (calls : List ResultCall) :
    ∀ w, Tidy w ({ ret := .ok (), state := (result_run b es libc calls w).1,
                   trace := (result_run b es libc calls w).2 } : ROutcome Unit) := by
  induction calls with
  | nil => intro w; exact tidy_of_steady (steady_pure () w)
  | cons c cs ih =>
    intro w
    have h := tidy_bind_total (result_step_tidy b es libc c w)
      (f := fun _ w1 => ({ ret := .ok (), state := (result_run b es libc cs w1).1,
                           trace := (result_run b es libc cs w1).2 } : ROutcome Unit))
      (fun _ _ => ⟨ih _, (), rfl⟩)
    exact h

theorem free_result_of_freed (w : mysql2_result_wrapper) (h : w.resultFreed = true) :
    rb_mysql_result_free_result w = (w, []) := by
  unfold rb_mysql_result_free_result
  simp [h]

/-- C24. Releasing is idempotent: for every state of a result object, a second
release right after a release changes nothing and makes no call; and over any
sequence of `each`, `count`, `fields` and release calls from any state, the
native result is released at most once, and so are the statement's result and
the bound column buffers; the native result is released in the sequence
exactly when it was not released before it and is released after it. -/
theorem C24_release_idempotent (b : Build) (es : EncodingSupport) (libc : Libc)
    (w : mysql2_result_wrapper) (calls : List ResultCall) :
    rb_mysql_result_free_result (rb_mysql_result_free_result w).1
      = ((rb_mysql_result_free_result w).1, []) ∧
    (result_run b es libc calls w).2.count REvent.mysql_free_result ≤ 1 ∧
    (result_run b es libc calls w).2.count REvent.mysql_stmt_free_result ≤ 1 ∧
    (result_run b es libc calls w).2.count REvent.free_result_buffers ≤ 1 ∧
    ((result_run b es libc calls w).2.count REvent.mysql_free_result = 1 ↔
      (w.resultFreed = false ∧ (result_run b es libc calls w).1.resultFreed = true)) := by
  obtain ⟨_, n1, n2, n3, _⟩ := result_run_tidy b es libc calls w
  dsimp only at n1 n2 n3
  have hle : (result_run b es libc calls w).2.count REvent.mysql_free_result ≤ 1 := by
    have : (if (result_run b es libc calls w).1.resultFreed = true then 1 else 0) ≤ 1 := by
      split <;> omega
    omega
  refine ⟨?_, hle, by omega, by omega, ?_⟩
  · have hfreed : (rb_mysql_result_free_result w).1.resultFreed = true :=
      (free_result_state w).2.2.2.2.2.2.2.1
    exact free_result_of_freed _ hfreed
  · cases hw : w.resultFreed <;> cases he : (result_run b es libc calls w).1.resultFreed <;>
      simp [hw, he] at n1 ⊢ <;> omega

theorem C24_release_idempotent_witness :
    (result_run build19 esUtf8Internal libcNonZero
      [ResultCall.each none (some blockReturns), ResultCall.count, ResultCall.free_result,
       ResultCall.each none (some blockReturns), ResultCall.fields, ResultCall.free_result]
      (rb_mysql_result_to_obj twoRowResult none asArrayOptions)).2.count
        REvent.mysql_free_result = 1 ∧
    (rb_mysql_result_to_obj twoRowResult none asArrayOptions).resultFreed = false ∧
    (result_run build19 esUtf8Internal libcNonZero
      [ResultCall.each none (some blockReturns), ResultCall.count, ResultCall.free_result,
       ResultCall.each none (some blockReturns), ResultCall.fields, ResultCall.free_result]
      (rb_mysql_result_to_obj twoRowResult none asArrayOptions)).1.resultFreed = true :=
  have h := (C24_release_idempotent build19 esUtf8Internal libcNonZero
    (rb_mysql_result_to_obj twoRowResult none asArrayOptions)
    [ResultCall.each none (some blockReturns), ResultCall.count, ResultCall.free_result,
     ResultCall.each none (some blockReturns), ResultCall.fields,
     ResultCall.free_result]).2.2.2.2.mpr ⟨rfl, rfl⟩
  ⟨h, rfl, rfl⟩

/-! ## Theorems: passes and field requests after the release -/

/-- C27 fails on the code. On the buffered two-row result with cacheRows
disabled, a first `each` pass returns with the native result released and
`lastRowProcessed = numberOfRows = 2`; a second `each` pass with cacheRows
disabled then calls `mysql_fetch_fields` on the released native result (the
pass with cacheRows enabled, and the streaming pass once complete, are guarded
and do not).  And after a pass that the block left at the first row, a pass
with cacheRows disabled fetches the second row and the end of the result and
leaves `lastRowProcessed = 3` with `numberOfRows = 2`. -/
theorem C27_uncached_pass_after_release :
    (rb_mysql_result_each build19 esUtf8Internal libcNonZero none (some blockReturns)
      (rb_mysql_result_to_obj twoRowResult none cacheOffOptions)).ret = .ok (some []) ∧
    (rb_mysql_result_each build19 esUtf8Internal libcNonZero none (some blockReturns)
      (rb_mysql_result_to_obj twoRowResult none cacheOffOptions)).state.resultFreed = true ∧
    (rb_mysql_result_each build19 esUtf8Internal libcNonZero none (some blockReturns)
      (rb_mysql_result_to_obj twoRowResult none cacheOffOptions)).state.result.freed = true ∧
    (rb_mysql_result_each build19 esUtf8Internal libcNonZero none (some blockReturns)
      (rb_mysql_result_to_obj twoRowResult none cacheOffOptions)).state.lastRowProcessed = 2 ∧
    (rb_mysql_result_each build19 esUtf8Internal libcNonZero none (some blockReturns)
      (rb_mysql_result_each build19 esUtf8Internal libcNonZero none (some blockReturns)
        (rb_mysql_result_to_obj twoRowResult none cacheOffOptions)).state).ret
      = .error (RExc.undefined Undefined.use_after_free) ∧
    mysql_fetch_fields
        (rb_mysql_result_each build19 esUtf8Internal libcNonZero none (some blockReturns)
          (rb_mysql_result_to_obj twoRowResult none cacheOffOptions)).state
      = ROutcome.raise (RExc.undefined Undefined.use_after_free)
          (rb_mysql_result_each build19 esUtf8Internal libcNonZero none (some blockReturns)
            (rb_mysql_result_to_obj twoRowResult none cacheOffOptions)).state [] ∧
    (rb_mysql_result_each build19 esUtf8Internal libcNonZero none (some blockBreaks)
      (rb_mysql_result_to_obj twoRowResult none cacheOffOptions)).ret
      = .error RExc.block_exit ∧
    (rb_mysql_result_each build19 esUtf8Internal libcNonZero none (some blockBreaks)
      (rb_mysql_result_to_obj twoRowResult none cacheOffOptions)).state.lastRowProcessed = 1 ∧
    (rb_mysql_result_each build19 esUtf8Internal libcNonZero none (some blockReturns)
      (rb_mysql_result_each build19 esUtf8Internal libcNonZero none (some blockBreaks)
        (rb_mysql_result_to_obj twoRowResult none cacheOffOptions)).state).ret = .ok none ∧
    (rb_mysql_result_each build19 esUtf8Internal libcNonZero none (some blockReturns)
      (rb_mysql_result_each build19 esUtf8Internal libcNonZero none (some blockBreaks)
        (rb_mysql_result_to_obj twoRowResult none cacheOffOptions)).state).state.lastRowProcessed
      = 3 ∧
    (rb_mysql_result_each build19 esUtf8Internal libcNonZero none (some blockReturns)
      (rb_mysql_result_each build19 esUtf8Internal libcNonZero none (some blockBreaks)
        (rb_mysql_result_to_obj twoRowResult none cacheOffOptions)).state).state.numberOfRows
      = 2 :=
  ⟨rfl, rfl, rfl, rfl, rfl, rfl, rfl, rfl, rfl, rfl, rfl⟩

/-- C22 fails on the code. A streaming `each` pass over a result without rows
returns, with the native result released and no key memoized (no row asked
for one); `fields` then reads the column count from the released native
result, where `count`, on the same state, is guarded by the release flag and
returns 0. -/
theorem C22_fields_after_release :
    (rb_mysql_result_each build19 esUtf8Internal libcNonZero none (some blockReturns)
      (rb_mysql_result_to_obj emptyStream none streamOptions)).ret = .ok (some []) ∧
    (rb_mysql_result_each build19 esUtf8Internal libcNonZero none (some blockReturns)
      (rb_mysql_result_to_obj emptyStream none streamOptions)).state.resultFreed = true ∧
    (rb_mysql_result_each build19 esUtf8Internal libcNonZero none (some blockReturns)
      (rb_mysql_result_to_obj emptyStream none streamOptions)).state.result.freed = true ∧
    (rb_mysql_result_each build19 esUtf8Internal libcNonZero none (some blockReturns)
      (rb_mysql_result_to_obj emptyStream none streamOptions)).state.fields = none ∧
    (rb_mysql_result_fetch_fields build19 esUtf8Internal
      (rb_mysql_result_each build19 esUtf8Internal libcNonZero none (some blockReturns)
        (rb_mysql_result_to_obj emptyStream none streamOptions)).state).ret
      = .error (RExc.undefined Undefined.use_after_free) ∧
    (rb_mysql_result_count build19
      (rb_mysql_result_each build19 esUtf8Internal libcNonZero none (some blockReturns)
        (rb_mysql_result_to_obj emptyStream none streamOptions)).state).ret = .ok 0 ∧
    (rb_mysql_result_fetch_fields build19 esUtf8Internal
      (rb_mysql_result_to_obj emptyStream none streamOptions)).ret
      = .ok (some [some (Key.str { bytes := [110], enc := some (Encoding.named "UTF-8") })]) :=
  ⟨rfl, rfl, rfl, rfl, rfl, rfl, rfl⟩

/-! ## Theorems: consistency of the progress bookkeeping -/

theorem quiet_remaining {α : Type} {w : mysql2_result_wrapper} {o : ROutcome α}
    (h : Quiet w o) : rows_remaining o.state = rows_remaining w := by
  obtain ⟨_, r, s, _, _⟩ := h
  simp only [rows_remaining, r, s]

theorem shrinks_of_quiet_bind {α β : Type} {w : mysql2_result_wrapper} {o : ROutcome α}
    {f : α → mysql2_result_wrapper → ROutcome β} (ho : Quiet w o)
    (hf : ∀ a, o.ret = .ok a → rows_remaining (f a o.state).state ≤ rows_remaining o.state) :
    rows_remaining (o.bind f).state ≤ rows_remaining w := by
  have hq := quiet_remaining ho
  cases hr : o.ret with
  | error e =>
    rw [bind_of_error o f e hr]
    exact Nat.le_of_eq hq
  | ok a =>
    rw [bind_of_ok o f a hr]
    exact Nat.le_trans (hf a hr) (Nat.le_of_eq hq)

theorem fetch_row_tail_quiet (b : Build) (es : EncodingSupport) (libc : Libc)
    (args : result_each_args) (fields : List MYSQL_FIELD) (row : TextRow)
    (w1 : mysql2_result_wrapper) :
    Quiet w1 ((init_fields w1).bind fun _ w2 =>
      (fetch_row_columns b es libc args fields row w2.numberOfFields 0
        (row_new args.asArray) w2).bind fun rowVal w3 =>
          ROutcome.pure (some rowVal) w3) := by
  refine quiet_bind (init_fields_quiet _) ?_
  intro _ _
  refine quiet_bind (fetch_row_columns_quiet _ _ _ _ _ _ _ _ _ _) ?_
  intro rowVal _
  exact quiet_pure _ _

theorem stmt_fetch_row_tail_quiet (b : Build) (es : EncodingSupport)
    (args : result_each_args) (fields : List MYSQL_FIELD) (cells : List StmtCell)
    (w3 : mysql2_result_wrapper) :
    Quiet w3 ((stmt_fetch_row_columns b es args fields cells w3.numberOfFields 0
        (row_new args.asArray) w3).bind fun rowVal w4 =>
          ROutcome.pure (some rowVal) w4) := by
  refine quiet_bind (stmt_fetch_row_columns_quiet _ _ _ _ _ _ _ _ _) ?_
  intro rowVal _
  exact quiet_pure _ _

theorem fetch_row_shrinks (b : Build) (es : EncodingSupport) (libc : Libc)
    (args : result_each_args) (fields : List MYSQL_FIELD) (w : mysql2_result_wrapper) :
    rows_remaining (rb_mysql_result_fetch_row b es libc args fields w).state
      ≤ rows_remaining w := by
  unfold rb_mysql_result_fetch_row
  by_cases hfr : w.result.freed = true
  · rw [if_pos hfr]
    exact Nat.le_refl _
  · rw [if_neg hfr]
    cases hrows : w.result.rows with
    | nil => exact Nat.le_refl _
    | cons row rest =>
      dsimp only
      rw [bind_of_ok _ _ () rfl]
      have h := quiet_remaining (fetch_row_tail_quiet b es libc args fields row
        { w with result := { w.result with rows := rest, fetched := w.result.fetched + 1 } })
      refine Nat.le_trans (Nat.le_of_eq h) ?_
      simp only [rows_remaining, hrows]
      cases w.stmt <;> simp

theorem stmt_fetch_row_shrinks (b : Build) (es : EncodingSupport)
    (args : result_each_args) (fields : List MYSQL_FIELD) (w : mysql2_result_wrapper) :
    rows_remaining (rb_mysql_result_stmt_fetch_row b es args fields w).state
      ≤ rows_remaining w := by
  unfold rb_mysql_result_stmt_fetch_row
  refine shrinks_of_quiet_bind (init_fields_quiet w) ?_
  intro _ _
  generalize (init_fields w).state = w1
  refine shrinks_of_quiet_bind ?_ ?_
  · split
    · exact alloc_result_buffers_quiet b fields w1
    · split
      · exact quiet_raise _ w1 [] (by simp) rfl
      · exact quiet_pure () w1
  · intro _ _
    generalize (if w1.result_buffers.isNone = true then
        rb_mysql_result_alloc_result_buffers b fields w1
      else if w1.resultFreed = true then
        ROutcome.raise (RExc.undefined Undefined.use_after_free) w1 []
      else ROutcome.pure () w1).state = w2
    cases hst : w2.stmt with
    | none => exact Nat.le_refl _
    | some st =>
      dsimp only
      by_cases hb : st.bind_result_fails = true
      · rw [if_pos hb]
        exact Nat.le_refl _
      · rw [if_neg hb]
        by_cases hf : st.result_freed = true
        · rw [if_pos hf]
          exact Nat.le_refl _
        · rw [if_neg hf]
          cases hfs : st.fetches with
          | nil => exact Nat.le_refl _
          | cons fe rest =>
            have hle : rows_remaining
                { w2 with stmt := some { st with fetches := rest } } ≤ rows_remaining w2 := by
              simp [rows_remaining, hst, hfs]
            cases fe with
            | error => exact hle
            | data_truncated => exact hle
            | row cells =>
              dsimp only
              rw [bind_of_ok _ _ () rfl]
              have h := quiet_remaining (stmt_fetch_row_tail_quiet b es args fields cells
                { w2 with stmt := some { st with fetches := rest, fetched := st.fetched + 1 } })
              refine Nat.le_trans (Nat.le_of_eq h) ?_
              simp [rows_remaining, hst, hfs]

theorem rb_ary_store_length_le {α : Type} (ary : List (Option α)) (i : Nat)
    (val : Option α) (bound : Nat) (h1 : ary.length ≤ bound) (h2 : i + 1 ≤ bound) :
    (rb_ary_store ary i val).length ≤ bound := by
  unfold rb_ary_store
  split
  · rw [List.length_set]
    exact h1
  · simp only [List.length_append, List.length_replicate, List.length_singleton]
    omega

theorem each_buffered_loop_succ (fetch : mysql2_result_wrapper → ROutcome (Option Row))
    (block : Option Block) (args : result_each_args) (rp n i : Nat)
    (w : mysql2_result_wrapper) :
    each_buffered_loop fetch block args rp (n + 1) i w
      = (each_buffered_row fetch args rp i w).bind fun row w2 =>
        match row with
        | none =>
          { ret := .ok true, state := (rb_mysql_result_free_result w2).1,
            trace := (rb_mysql_result_free_result w2).2 }
        | some r =>
          (if args.block_given then rb_yield block (some r) w2
            else ROutcome.pure () w2).bind fun _ w3 =>
            each_buffered_loop fetch block args rp n (i + 1) w3 := by
  rw [each_buffered_loop]
  rfl

theorem each_buffered_row_spec (isStmt : Bool)
    (fetch : mysql2_result_wrapper → ROutcome (Option Row)) (hfetch : FetchSpec isStmt fetch)
    (hshr : ∀ w, rows_remaining (fetch w).state ≤ rows_remaining w)
    (args : result_each_args) (rp i : Nat) (w : mysql2_result_wrapper)
    (hs : w.stmt.isSome = isStmt) (rs : List (Option Row)) (hrows : w.rows = some rs) :
    (each_buffered_row fetch args rp i w).state.resultFreed = w.resultFreed ∧
    (each_buffered_row fetch args rp i w).state.numberOfRows = w.numberOfRows ∧
    (each_buffered_row fetch args rp i w).state.stmt.isSome = w.stmt.isSome ∧
    (∀ e, (each_buffered_row fetch args rp i w).ret = .error e →
      (each_buffered_row fetch args rp i w).state.rows = w.rows ∧
      (each_buffered_row fetch args rp i w).state.lastRowProcessed = w.lastRowProcessed ∧
      rows_remaining (each_buffered_row fetch args rp i w).state ≤ rows_remaining w) ∧
    (∀ r, (each_buffered_row fetch args rp i w).ret = .ok (some r) →
      ((args.cacheRows = true ∧ i < rp) → (each_buffered_row fetch args rp i w).state = w) ∧
      (¬ (args.cacheRows = true ∧ i < rp) →
        (each_buffered_row fetch args rp i w).state.lastRowProcessed
          = w.lastRowProcessed + 1 ∧
        rows_remaining (each_buffered_row fetch args rp i w).state + 1 = rows_remaining w ∧
        (each_buffered_row fetch args rp i w).state.rows
          = some (if args.cacheRows = true then rb_ary_store rs i (some r) else rs))) := by
  unfold each_buffered_row
  rw [hrows]
  dsimp only
  by_cases hc : args.cacheRows = true ∧ i < rp
  · have hcond : (args.cacheRows && decide (i < rp)) = true := by simp [hc.1, hc.2]
    rw [if_pos hcond]
    refine ⟨rfl, rfl, rfl, ?_, ?_⟩
    · intro e he
      cases he
    · intro r _
      exact ⟨fun _ => rfl, fun h => absurd hc h⟩
  · have hcond : ¬ (args.cacheRows && decide (i < rp)) = true := by
      simpa using hc
    rw [if_neg hcond]
    obtain ⟨⟨f1, f2, f3, f4, f5, f6, f7, f8⟩, _, hspec⟩ := hfetch w
    obtain ⟨_, hsome, _⟩ := hspec hs
    cases hr : (fetch w).ret with
    | error e =>
      rw [bind_of_error _ _ e hr]
      refine ⟨f4, f2, f8, ?_, ?_⟩
      · intro _ _
        exact ⟨f1.trans hrows, f3, hshr w⟩
      · intro r h
        cases h
    | ok row =>
      rw [bind_of_ok _ _ row hr]
      refine ⟨f4, f2, f8, ?_, ?_⟩
      · intro e he
        cases he
      · intro r h
        have hrow : row = some r := by
          simp only [ROutcome.pure] at h
          injection h
        subst hrow
        refine ⟨fun h => absurd h hc, fun _ => ⟨?_, ?_, ?_⟩⟩
        · show (fetch w).state.lastRowProcessed + 1 = w.lastRowProcessed + 1
          rw [f3]
        · exact hsome r hr
        · show (if args.cacheRows = true then
              Option.map (fun a => rb_ary_store a i (some r)) (fetch w).state.rows
            else (fetch w).state.rows) = _
          rw [f1, hrows]
          split <;> rfl

theorem consistent_of_same {w w1 : mysql2_result_wrapper} (h : Consistent w)
    (h1 : w1.rows = w.rows) (h2 : w1.lastRowProcessed = w.lastRowProcessed)
    (h3 : w1.numberOfRows = w.numberOfRows) (h4 : rows_remaining w1 ≤ rows_remaining w) :
    Consistent w1 := by
  obtain ⟨⟨rs, r1, r2⟩, c⟩ := h
  refine ⟨⟨rs, h1.trans r1, by rw [h2]; exact r2⟩, ?_⟩
  rw [h2, h3]
  rcases c with c | c
  · exact Or.inl (by omega)
  · exact Or.inr c

theorem each_cached_loop_state (block : Option Block) (n : Nat) :
    ∀ i w, (each_cached_loop block n i w).state = w := by
  induction n with
  | zero => intro i w; rfl
  | succ n ih =>
    intro i w
    rw [each_cached_loop]
    cases w.rows with
    | none => rfl
    | some rows =>
      dsimp only
      have hy := (rb_yield_cases block (rb_ary_entry rows i) w).1
      cases hr : (rb_yield block (rb_ary_entry rows i) w).ret with
      | error e =>
        rw [bind_of_error _ _ e hr]
        exact hy
      | ok u =>
        rw [bind_of_ok _ _ u hr]
        show (each_cached_loop block n (i + 1) _).state = w
        rw [ih, hy]

theorem each_buffered_loop_returned
    (fetch : mysql2_result_wrapper → ROutcome (Option Row))
    (block : Option Block) (args : result_each_args) (rp n : Nat) :
    ∀ i w, (each_buffered_loop fetch block args rp n i w).ret = .ok true →
      (each_buffered_loop fetch block args rp n i w).state.resultFreed = true := by
  induction n with
  | zero =>
    intro i w h
    simp [each_buffered_loop, ROutcome.pure] at h
  | succ n ih =>
    intro i w h
    rw [each_buffered_loop_succ] at h ⊢
    obtain ⟨row, h1, h2⟩ := bind_ret_ok _ _ _ h
    rw [bind_of_ok _ _ row h1] at h ⊢
    cases row with
    | none => exact (free_result_state _).2.2.2.2.2.2.2.1
    | some r =>
      dsimp only at h h2 ⊢
      obtain ⟨u, h3, h4⟩ := bind_ret_ok _ _ _ h2
      rw [bind_of_ok _ _ u h3]
      exact ih _ _ h4

theorem each_buffered_loop_consistent (isStmt : Bool)
    (fetch : mysql2_result_wrapper → ROutcome (Option Row)) (hfetch : FetchSpec isStmt fetch)
    (hshr : ∀ w, rows_remaining (fetch w).state ≤ rows_remaining w)
    (block : Option Block) (args : result_each_args) (rp n : Nat) :
    ∀ i w, w.stmt.isSome = isStmt → Consistent w → i ≤ w.lastRowProcessed →
      rp ≤ w.lastRowProcessed →
      (each_buffered_loop fetch block args rp n i w).state.resultFreed = true ∨
      Consistent (each_buffered_loop fetch block args rp n i w).state := by
  induction n with
  | zero => intro i w _ hc _ _; exact Or.inr hc
  | succ n ih =>
    intro i w hs hc hi hrp
    obtain ⟨⟨rs, hrows, hlen⟩, hsum⟩ := hc
    obtain ⟨s1, s2, s3, s4, s5⟩ := each_buffered_row_spec isStmt fetch hfetch hshr args rp i w
      hs rs hrows
    rw [each_buffered_loop_succ]
    cases hr : (each_buffered_row fetch args rp i w).ret with
    | error e =>
      rw [bind_of_error _ _ e hr]
      obtain ⟨e1, e2, e3⟩ := s4 e hr
      exact Or.inr (consistent_of_same ⟨⟨rs, hrows, hlen⟩, hsum⟩ e1 e2 s2 e3)
    | ok row =>
      rw [bind_of_ok _ _ row hr]
      cases row with
      | none => exact Or.inl (free_result_state _).2.2.2.2.2.2.2.1
      | some r =>
        dsimp only
        obtain ⟨t1, t2⟩ := s5 r hr
        have hnext : Consistent (each_buffered_row fetch args rp i w).state ∧
            i + 1 ≤ (each_buffered_row fetch args rp i w).state.lastRowProcessed ∧
            rp ≤ (each_buffered_row fetch args rp i w).state.lastRowProcessed := by
          by_cases hcase : args.cacheRows = true ∧ i < rp
          · rw [t1 hcase]
            exact ⟨⟨⟨rs, hrows, hlen⟩, hsum⟩, by omega, hrp⟩
          · obtain ⟨u1, u2, u3⟩ := t2 hcase
            refine ⟨⟨⟨_, u3, ?_⟩, ?_⟩, by omega, by omega⟩
            · rw [u1]
              split
              · exact rb_ary_store_length_le rs i (some r) _ (by omega) (by omega)
              · omega
            · rw [u1, s2]
              rcases hsum with c | c
              · exact Or.inl (by omega)
              · exact Or.inr c
        obtain ⟨y1, _, _⟩ := yield_step block args.block_given (some r)
          (each_buffered_row fetch args rp i w).state
        cases hy : (if args.block_given = true then
            rb_yield block (some r) (each_buffered_row fetch args rp i w).state
          else ROutcome.pure () (each_buffered_row fetch args rp i w).state).ret with
        | error e =>
          rw [bind_of_error _ _ e hy]
          show _ ∨ Consistent (if args.block_given = true then
            rb_yield block (some r) (each_buffered_row fetch args rp i w).state
          else ROutcome.pure () (each_buffered_row fetch args rp i w).state).state
          rw [y1]
          exact Or.inr hnext.1
        | ok u =>
          rw [bind_of_ok _ _ u hy]
          show (each_buffered_loop fetch block args rp n (i + 1) _).state.resultFreed = true ∨
            Consistent (each_buffered_loop fetch block args rp n (i + 1) _).state
          rw [y1]
          exact ih (i + 1) _ (s3.trans hs) hnext.1 hnext.2.1 hnext.2.2

theorem each_buffered_loop_account (isStmt : Bool)
    (fetch : mysql2_result_wrapper → ROutcome (Option Row)) (hfetch : FetchSpec isStmt fetch)
    (hshr : ∀ w, rows_remaining (fetch w).state ≤ rows_remaining w)
    (block : Option Block) (args : result_each_args) (rp n : Nat) :
    ∀ i w, w.stmt.isSome = isStmt → w.rows.isSome = true →
      (each_buffered_loop fetch block args rp n i w).ret = .ok false →
      (each_buffered_loop fetch block args rp n i w).state.lastRowProcessed
        = w.lastRowProcessed + (if args.cacheRows = true then n - (rp - i) else n) ∧
      rows_remaining (each_buffered_loop fetch block args rp n i w).state
        + (if args.cacheRows = true then n - (rp - i) else n) = rows_remaining w ∧
      (each_buffered_loop fetch block args rp n i w).state.numberOfRows = w.numberOfRows ∧
      (each_buffered_loop fetch block args rp n i w).state.resultFreed = w.resultFreed := by
  induction n with
  | zero =>
    intro i w _ _ _
    simp [each_buffered_loop, ROutcome.pure]
  | succ n ih =>
    intro i w hs hw h
    obtain ⟨rs, hrows⟩ := Option.isSome_iff_exists.mp hw
    obtain ⟨s1, s2, s3, _, s5⟩ := each_buffered_row_spec isStmt fetch hfetch hshr args rp i w
      hs rs hrows
    rw [each_buffered_loop_succ] at h ⊢
    obtain ⟨row, h1, h2⟩ := bind_ret_ok _ _ _ h
    rw [bind_of_ok _ _ row h1] at h ⊢
    cases row with
    | none => simp at h
    | some r =>
      dsimp only at h h2 ⊢
      obtain ⟨t1, t2⟩ := s5 r h1
      obtain ⟨y1, _, _⟩ := yield_step block args.block_given (some r)
        (each_buffered_row fetch args rp i w).state
      obtain ⟨u, h3, h4⟩ := bind_ret_ok _ _ _ h2
      rw [bind_of_ok _ _ u h3]
      rw [y1] at h4
      show (each_buffered_loop fetch block args rp n (i + 1) _).state.lastRowProcessed = _ ∧
        rows_remaining (each_buffered_loop fetch block args rp n (i + 1) _).state + _ = _ ∧
        (each_buffered_loop fetch block args rp n (i + 1) _).state.numberOfRows = _ ∧
        (each_buffered_loop fetch block args rp n (i + 1) _).state.resultFreed = _
      rw [y1]
      have hsome : (each_buffered_row fetch args rp i w).state.rows.isSome = true := by
        by_cases hcase : args.cacheRows = true ∧ i < rp
        · rw [t1 hcase]; exact hw
        · rw [(t2 hcase).2.2]; rfl
      obtain ⟨a1, a2, a3, a4⟩ := ih (i + 1) _ (s3.trans hs) hsome h4
      have hL : (each_buffered_row fetch args rp i w).state.lastRowProcessed
          = w.lastRowProcessed + (if args.cacheRows = true ∧ i < rp then 0 else 1) := by
        by_cases hcase : args.cacheRows = true ∧ i < rp
        · rw [t1 hcase, if_pos hcase]
          rfl
        · rw [(t2 hcase).1, if_neg hcase]
      have hR : rows_remaining (each_buffered_row fetch args rp i w).state
          + (if args.cacheRows = true ∧ i < rp then 0 else 1) = rows_remaining w := by
        by_cases hcase : args.cacheRows = true ∧ i < rp
        · rw [t1 hcase, if_pos hcase]
          rfl
        · rw [if_neg hcase]
          exact (t2 hcase).2.1
      refine ⟨?_, ?_, a3.trans s2, a4.trans s1⟩
      · rw [a1, hL]
        by_cases hcr : args.cacheRows = true
        · rw [if_pos hcr, if_pos hcr]
          by_cases hlt : i < rp
          · rw [if_pos ⟨hcr, hlt⟩]
            omega
          · rw [if_neg (fun h => hlt h.2)]
            omega
        · rw [if_neg hcr, if_neg hcr, if_neg (fun h => hcr h.1)]
          omega
      · by_cases hcr : args.cacheRows = true
        · rw [if_pos hcr] at a2 ⊢
          by_cases hlt : i < rp
          · rw [if_pos ⟨hcr, hlt⟩] at hR
            omega
          · rw [if_neg (fun h => hlt h.2)] at hR
            omega
        · rw [if_neg hcr] at a2 ⊢
          rw [if_neg (fun h => hcr h.1)] at hR
          omega

theorem each_streaming_loop_consistent (isStmt : Bool)
    (fetch : mysql2_result_wrapper → ROutcome (Option Row)) (hfetch : FetchSpec isStmt fetch)
    (hshr : ∀ w, rows_remaining (fetch w).state ≤ rows_remaining w)
    (block : Option Block) (args : result_each_args) (fuel : Nat) :
    ∀ w, w.stmt.isSome = isStmt → Consistent w →
      Consistent (each_streaming_loop fetch block args fuel w).state := by
  induction fuel with
  | zero => intro w _ hc; exact hc
  | succ fuel ih =>
    intro w hs hc
    obtain ⟨⟨f1, f2, f3, f4, f5, f6, f7, f8⟩, _, hspec⟩ := hfetch w
    obtain ⟨_, hsome, _⟩ := hspec hs
    have hc1 : Consistent (fetch w).state := consistent_of_same hc f1 f3 f2 (hshr w)
    rw [each_streaming_loop]
    cases hr : (fetch w).ret with
    | error e =>
      rw [bind_of_error _ _ e hr]
      exact hc1
    | ok row =>
      rw [bind_of_ok _ _ row hr]
      cases row with
      | none => exact hc1
      | some r =>
        dsimp only
        by_cases hbg : args.block_given = true
        · rw [if_pos hbg]
          obtain ⟨y1, _, _⟩ := rb_yield_cases block (some r) (fetch w).state
          cases hy : (rb_yield block (some r) (fetch w).state).ret with
          | error e =>
            rw [bind_of_error _ _ e hy]
            show Consistent (rb_yield block (some r) (fetch w).state).state
            rw [y1]
            exact hc1
          | ok u =>
            rw [bind_of_ok _ _ u hy]
            show Consistent (each_streaming_loop fetch block args fuel _).state
            rw [y1]
            refine ih _ (f8.trans hs) ?_
            obtain ⟨⟨rs, r1, r2⟩, c⟩ := hc
            have hrem := hsome r hr
            refine ⟨⟨rs, f1.trans r1, ?_⟩, ?_⟩
            · show rs.length ≤ (fetch w).state.lastRowProcessed + 1
              rw [f3]
              omega
            · show rows_remaining (fetch w).state + ((fetch w).state.lastRowProcessed + 1)
                ≤ (fetch w).state.numberOfRows ∨ (fetch w).state.numberOfRows = 0
              rw [f3, f2]
              rcases c with c | c
              · exact Or.inl (by omega)
              · exact Or.inr c
        · rw [if_neg hbg]
          exact ih _ (f8.trans hs) hc1

theorem bind_state_prop {α β : Type} (P : mysql2_result_wrapper → Prop) (o : ROutcome α)
    (f : α → mysql2_result_wrapper → ROutcome β) (h1 : P o.state)
    (h2 : ∀ a, o.ret = .ok a → P (f a o.state).state) : P (o.bind f).state := by
  cases hr : o.ret with
  | error e =>
    rw [bind_of_error o f e hr]
    exact h1
  | ok a =>
    rw [bind_of_ok o f a hr]
    exact h2 a hr

theorem each_dispatch_full (b : Build) (es : EncodingSupport) (libc : Libc)
    (block : Option Block) (args : result_each_args) (w : mysql2_result_wrapper) :
    ∃ fetch : List MYSQL_FIELD → mysql2_result_wrapper → ROutcome (Option Row),
      (∀ fields, FetchSpec w.stmt.isSome (fetch fields)) ∧
      (∀ fields w1, rows_remaining (fetch fields w1).state ≤ rows_remaining w1) ∧
      (match w.stmt with
        | none => rb_mysql_result_each_nonstmt b es libc block args w
        | some _ => rb_mysql_result_each_stmt b es block args w)
        = each_body fetch block args w := by
  cases hs : w.stmt with
  | none =>
    exact ⟨rb_mysql_result_fetch_row b es libc args,
      fun fields => fetch_row_spec b es libc args fields,
      fun fields w1 => fetch_row_shrinks b es libc args fields w1, rfl⟩
  | some st =>
    exact ⟨rb_mysql_result_stmt_fetch_row b es args,
      fun fields => stmt_fetch_row_spec b es args fields,
      fun fields w1 => stmt_fetch_row_shrinks b es args fields w1, rfl⟩

theorem each_body_consistent (isStmt : Bool)
    (fetch : List MYSQL_FIELD → mysql2_result_wrapper → ROutcome (Option Row))
    (hfetch : ∀ fields, FetchSpec isStmt (fetch fields))
    (hshr : ∀ fields w1, rows_remaining (fetch fields w1).state ≤ rows_remaining w1)
    (block : Option Block) (args : result_each_args) (w : mysql2_result_wrapper)
    (hs : w.stmt.isSome = isStmt) (hc : Consistent w) :
    (each_body fetch block args w).state.resultFreed = true ∨
    Consistent (each_body fetch block args w).state := by
  obtain ⟨q1, _⟩ := mysql_fetch_fields_quiet w
  unfold each_body
  split
  · split
    · refine bind_state_prop (fun s => s.resultFreed = true ∨ Consistent s) _ _ ?_ ?_
      · rw [q1]
        exact Or.inr hc
      · intro fields _
        rw [q1]
        refine bind_state_prop (fun s => s.resultFreed = true ∨ Consistent s) _ _ ?_ ?_
        · exact Or.inr (each_streaming_loop_consistent isStmt (fetch fields) (hfetch fields)
            (hshr fields) block args _ w hs hc)
        · intro _ _
          exact Or.inl (free_result_state _).2.2.2.2.2.2.2.1
    · exact Or.inr hc
  · split
    · refine bind_state_prop (fun s => s.resultFreed = true ∨ Consistent s) _ _ ?_ ?_
      · rw [each_cached_loop_state]
        exact Or.inr hc
      · intro _ _
        show _ ∨ Consistent (each_cached_loop block w.numberOfRows 0 w).state
        rw [each_cached_loop_state]
        exact Or.inr hc
    · obtain ⟨⟨rs, hrows, hlen⟩, hsum⟩ := hc
      rw [hrows]
      dsimp only
      refine bind_state_prop (fun s => s.resultFreed = true ∨ Consistent s) _ _ ?_ ?_
      · rw [q1]
        exact Or.inr ⟨⟨rs, hrows, hlen⟩, hsum⟩
      · intro fields _
        rw [q1]
        have hloop := each_buffered_loop_consistent isStmt (fetch fields) (hfetch fields)
          (hshr fields) block args rs.length w.numberOfRows 0 w hs
          ⟨⟨rs, hrows, hlen⟩, hsum⟩ (Nat.zero_le _) hlen
        refine bind_state_prop (fun s => s.resultFreed = true ∨ Consistent s) _ _ hloop ?_
        intro returned _
        cases returned with
        | true => exact hloop
        | false =>
          simp only [Bool.false_eq_true, if_false]
          split
          · exact Or.inl (free_result_state _).2.2.2.2.2.2.2.1
          · exact hloop

theorem buffered_remaining_le (w : mysql2_result_wrapper) (hb : Buffered w) :
    rows_remaining w ≤ native_row_count w := by
  obtain ⟨h1, h2⟩ := hb
  unfold rows_remaining native_row_count
  cases hs : w.stmt with
  | none =>
    simp [mysql_num_rows, h1]
  | some st =>
    have : st.stored = true := by
      cases hst : st.stored with
      | true => rfl
      | false =>
        rw [hs] at h2
        simp [hst] at h2
    simp [mysql_stmt_num_rows, this]

theorem each_init_frame (args : result_each_args) (w : mysql2_result_wrapper) :
    (each_init args w).state.resultFreed = w.resultFreed ∧
    rows_remaining (each_init args w).state = rows_remaining w ∧
    (each_init args w).state.stmt.isSome = w.stmt.isSome ∧
    (each_init args w).state.lastRowProcessed = w.lastRowProcessed ∧
    (∀ e, (each_init args w).ret = .error e → (each_init args w).state = w) := by
  obtain ⟨c1, _⟩ := each_count_rows_quiet w
  unfold each_init
  split
  · split
    · exact ⟨rfl, rfl, rfl, rfl, fun e he => by cases he⟩
    · cases hr : (each_count_rows w).ret with
      | error e =>
        rw [bind_of_error _ _ e hr, c1]
        exact ⟨rfl, rfl, rfl, rfl, fun _ _ => rfl⟩
      | ok n =>
        rw [bind_of_ok _ _ n hr, c1]
        exact ⟨rfl, rfl, rfl, rfl, fun e he => by cases he⟩
  · exact ⟨rfl, rfl, rfl, rfl, fun e he => by cases he⟩

theorem each_init_consistent (args : result_each_args) (w : mysql2_result_wrapper)
    (hb : Buffered w) (hcp : ConsistentProgress w) (hF : w.resultFreed = false)
    (returned : Bool) (h : (each_init args w).ret = .ok returned) :
    Consistent (each_init args w).state ∧
    (returned = true → args.streaming = false ∧ rows_remaining w = 0) := by
  obtain ⟨c1, _⟩ := each_count_rows_quiet w
  have hle := buffered_remaining_le w hb
  unfold each_init at h ⊢
  by_cases hl : w.lastRowProcessed = 0
  · rw [if_pos hl] at h ⊢
    by_cases hst : args.streaming = true
    · rw [if_pos hst] at h ⊢
      refine ⟨⟨⟨[], rfl, Nat.zero_le _⟩, Or.inr rfl⟩, ?_⟩
      intro hrt
      rw [hrt] at h
      simp [ROutcome.pure] at h
    · rw [if_neg hst] at h ⊢
      obtain ⟨n, hcount, h3⟩ := bind_ret_ok _ _ _ h
      have hn := each_count_rows_value _ n hcount
      rw [bind_of_ok _ _ n hcount, c1]
      rw [c1] at h3
      refine ⟨⟨⟨[], rfl, Nat.zero_le _⟩, Or.inl ?_⟩, ?_⟩
      · show rows_remaining w + w.lastRowProcessed ≤ n
        rw [hl, hn]
        exact hle
      · intro hrt
        rw [hrt] at h3
        simp only [ROutcome.pure] at h3
        have hz : n = 0 := by
          injection h3 with h4
          exact of_decide_eq_true h4
        refine ⟨by simpa using hst, ?_⟩
        rw [hz] at hn
        omega
  · rw [if_neg hl] at h ⊢
    refine ⟨hcp hF hl, ?_⟩
    intro hrt
    rw [hrt] at h
    simp [ROutcome.pure] at h

theorem consistent_progress_of (w : mysql2_result_wrapper)
    (h : w.resultFreed = true ∨ Consistent w) : ConsistentProgress w := by
  intro hF _
  rcases h with h | h
  · rw [h] at hF
    cases hF
  · exact h

theorem each_consistent_progress (b : Build) (es : EncodingSupport) (libc : Libc)
    (opts : Option Hash) (block : Option Block) (w : mysql2_result_wrapper)
    (hb : Buffered w) (hcp : ConsistentProgress w) :
    ConsistentProgress (rb_mysql_result_each b es libc opts block w).state := by
  cases hF : w.resultFreed with
  | true =>
    exact consistent_progress_of _ (Or.inl ((each_tidy b es libc opts block w).1.2.2.2.2.2 hF))
  | false =>
    unfold rb_mysql_result_each
    dsimp only
    refine bind_state_prop ConsistentProgress _ _ hcp ?_
    intro _ _
    obtain ⟨i1, i2, i3, i4, i5⟩ := each_init_frame (each_args (each_opts opts w) block) w
    cases hr : (each_init (each_args (each_opts opts w) block) w).ret with
    | error e =>
      rw [bind_of_error _ _ e hr, i5 e hr]
      exact hcp
    | ok returned =>
      rw [bind_of_ok _ _ returned hr]
      obtain ⟨hc, _⟩ := each_init_consistent _ w hb hcp hF returned hr
      cases returned with
      | true => exact consistent_progress_of _ (Or.inr hc)
      | false =>
        simp only [Bool.false_eq_true, if_false]
        obtain ⟨fetch, hfetch, hshr, hd⟩ := each_dispatch_full b es libc block
          (each_args (each_opts opts w) block)
          (each_init (each_args (each_opts opts w) block) w).state
        show ConsistentProgress (match (each_init (each_args (each_opts opts w) block)
            w).state.stmt with
          | none => rb_mysql_result_each_nonstmt b es libc block
              (each_args (each_opts opts w) block)
              (each_init (each_args (each_opts opts w) block) w).state
          | some _ => rb_mysql_result_each_stmt b es block
              (each_args (each_opts opts w) block)
              (each_init (each_args (each_opts opts w) block) w).state).state
        rw [hd]
        exact consistent_progress_of _ (each_body_consistent _ fetch hfetch hshr block _ _ rfl hc)

theorem each_body_releases (isStmt : Bool)
    (fetch : List MYSQL_FIELD → mysql2_result_wrapper → ROutcome (Option Row))
    (hfetch : ∀ fields, FetchSpec isStmt (fetch fields))
    (hshr : ∀ fields w1, rows_remaining (fetch fields w1).state ≤ rows_remaining w1)
    (block : Option Block) (args : result_each_args) (w : mysql2_result_wrapper)
    (hs : w.stmt.isSome = isStmt) (hc : Consistent w)
    (v : Option (List (Option Row))) (h : (each_body fetch block args w).ret = .ok v)
    (hrem : 1 ≤ rows_remaining w)
    (hend : rows_remaining (each_body fetch block args w).state = 0) :
    (each_body fetch block args w).state.resultFreed = true := by
  obtain ⟨q1, _⟩ := mysql_fetch_fields_quiet w
  unfold each_body at h hend ⊢
  by_cases hst : args.streaming = true
  · rw [if_pos hst] at h hend ⊢
    by_cases hcomp : (!w.streamingComplete) = true
    · rw [if_pos hcomp] at h hend ⊢
      obtain ⟨fields, hF, h1⟩ := bind_ret_ok _ _ _ h
      rw [bind_of_ok _ _ fields hF]
      obtain ⟨u, hL, _⟩ := bind_ret_ok _ _ _ h1
      rw [bind_of_ok _ _ u hL]
      exact (free_result_state _).2.2.2.2.2.2.2.1
    · rw [if_neg hcomp] at h
      cases h
  · rw [if_neg hst] at h hend ⊢
    by_cases hcached : (args.cacheRows && decide (w.lastRowProcessed = w.numberOfRows)) = true
    · rw [if_pos hcached] at h hend ⊢
      exfalso
      have hstate : ((each_cached_loop block w.numberOfRows 0 w).bind fun _ w1 =>
          ROutcome.pure w1.rows w1).state = w := by
        refine bind_state_prop (fun s => s = w) _ _ (each_cached_loop_state _ _ _ _) ?_
        intro _ _
        exact each_cached_loop_state _ _ _ _
      rw [hstate] at hend
      omega
    · rw [if_neg hcached] at h hend ⊢
      obtain ⟨⟨rs, hrows, hlen⟩, hsum⟩ := hc
      rw [hrows] at h hend ⊢
      dsimp only at h hend ⊢
      obtain ⟨fields, hF, h1⟩ := bind_ret_ok _ _ _ h
      rw [bind_of_ok _ _ fields hF] at hend ⊢
      rw [q1] at h1 hend ⊢
      obtain ⟨returned, hL, h2⟩ := bind_ret_ok _ _ _ h1
      rw [bind_of_ok _ _ returned hL] at hend ⊢
      cases returned with
      | true => exact each_buffered_loop_returned _ _ _ _ _ _ _ hL
      | false =>
        obtain ⟨a1, a2, a3, a4⟩ := each_buffered_loop_account isStmt (fetch fields)
          (hfetch fields) (hshr fields) block args rs.length w.numberOfRows 0 w hs
          (by rw [hrows]; rfl) hL
        simp only [Bool.false_eq_true, if_false] at hend ⊢
        by_cases hlast : (each_buffered_loop (fetch fields) block args rs.length
            w.numberOfRows 0 w).state.lastRowProcessed
            = (each_buffered_loop (fetch fields) block args rs.length
              w.numberOfRows 0 w).state.numberOfRows
        · rw [if_pos hlast]
          exact (free_result_state _).2.2.2.2.2.2.2.1
        · exfalso
          rw [if_neg hlast] at hend
          have hend1 : rows_remaining (each_buffered_loop (fetch fields) block args rs.length
              w.numberOfRows 0 w).state = 0 := hend
          rw [a1, a3] at hlast
          rw [hend1] at a2
          by_cases hcr : args.cacheRows = true
          · rw [if_pos hcr] at a2 hlast
            have hne : ¬ w.lastRowProcessed = w.numberOfRows := by
              intro e
              apply hcached
              simp [hcr, e]
            rcases hsum with c | c <;> omega
          · rw [if_neg hcr] at a2 hlast
            rcases hsum with c | c <;> omega

theorem each_unfold_full (b : Build) (es : EncodingSupport) (libc : Libc)
    (opts : Option Hash) (block : Option Block) (w : mysql2_result_wrapper) :
    ∃ fetch : mysql2_result_wrapper → List MYSQL_FIELD → mysql2_result_wrapper →
        ROutcome (Option Row),
      (∀ w2 fields, FetchSpec w2.stmt.isSome (fetch w2 fields)) ∧
      (∀ w2 fields w1, rows_remaining (fetch w2 fields w1).state ≤ rows_remaining w1) ∧
      rb_mysql_result_each b es libc opts block w
        = (({ ret := .ok (), state := w,
              trace := each_warnings (each_opts opts w)
                (each_args (each_opts opts w) block) w } : ROutcome Unit).bind fun _ w1 =>
            (each_init (each_args (each_opts opts w) block) w1).bind fun returned w2 =>
              if returned then ROutcome.pure w2.rows w2
              else each_body (fetch w2) block (each_args (each_opts opts w) block) w2) := by
  refine ⟨fun w2 => (each_dispatch_full b es libc block
    (each_args (each_opts opts w) block) w2).choose, fun w2 fields =>
      (each_dispatch_full b es libc block
        (each_args (each_opts opts w) block) w2).choose_spec.1 fields, fun w2 fields w1 =>
      (each_dispatch_full b es libc block
        (each_args (each_opts opts w) block) w2).choose_spec.2.1 fields w1, ?_⟩
  unfold rb_mysql_result_each
  simp only
  congr 1
  funext _ w1
  congr 1
  funext returned w2
  cases returned
  · simp only [Bool.false_eq_true, if_false]
    exact (each_dispatch_full b es libc block
      (each_args (each_opts opts w) block) w2).choose_spec.2.2
  · rfl

theorem each_releases (b : Build) (es : EncodingSupport) (libc : Libc)
    (opts : Option Hash) (block : Option Block) (w : mysql2_result_wrapper)
    (hb : Buffered w) (hcp : ConsistentProgress w) (hF : w.resultFreed = false)
    (v : Option (List (Option Row)))
    (h : (rb_mysql_result_each b es libc opts block w).ret = .ok v)
    (hrem : 1 ≤ rows_remaining w)
    (hend : rows_remaining (rb_mysql_result_each b es libc opts block w).state = 0) :
    (rb_mysql_result_each b es libc opts block w).state.resultFreed = true := by
  obtain ⟨fetch, hfetch, hshr, hu⟩ := each_unfold_full b es libc opts block w
  rw [hu] at h hend ⊢
  rw [bind_of_ok _ _ () rfl] at h hend ⊢
  obtain ⟨i1, i2, i3, i4, i5⟩ := each_init_frame (each_args (each_opts opts w) block) w
  obtain ⟨returned, hr, h1⟩ := bind_ret_ok _ _ _ h
  rw [bind_of_ok _ _ returned hr] at hend ⊢
  obtain ⟨hc, hret⟩ := each_init_consistent _ w hb hcp hF returned hr
  cases returned with
  | true =>
    exfalso
    have := (hret rfl).2
    omega
  | false =>
    simp only [Bool.false_eq_true, if_false] at h1 hend ⊢
    exact each_body_releases _ (fetch _) (hfetch _) (hshr _) block _ _ rfl hc v h1
      (by rw [i2]; exact hrem) hend

theorem count_state (b : Build) (w : mysql2_result_wrapper) :
    (rb_mysql_result_count b w).state = w := by
  unfold rb_mysql_result_count
  split
  · split
    · rfl
    · cases w.rows <;> rfl
  · cases w.stmt with
    | some st => rfl
    | none =>
      dsimp only
      split <;> rfl

theorem fetch_fields_loop_quiet (b : Build) (es : EncodingSupport) (sk : Bool) (n : Nat) :
    ∀ i w, Quiet w (fetch_fields_loop b es sk n i w) := by
  induction n with
  | zero => intro i w; exact quiet_pure () w
  | succ n ih =>
    intro i w
    rw [fetch_fields_loop]
    refine quiet_bind (fetch_field_quiet b es i sk w) ?_
    intro _ _
    exact ih _ _

theorem fetch_fields_continuation_quiet (b : Build) (es : EncodingSupport) (sk : Bool)
    (w1 : mysql2_result_wrapper) :
    Quiet w1 (match w1.fields with
      | none => ROutcome.raise (RExc.undefined Undefined.not_an_array) w1 []
      | some fs =>
        (if fs.length ≠ w1.numberOfFields then
            fetch_fields_loop b es sk w1.numberOfFields 0 w1
          else ROutcome.pure () w1).bind fun _ w2 =>
          ROutcome.pure w2.fields w2) := by
  cases w1.fields with
  | none => exact quiet_raise _ w1 [] (by simp) rfl
  | some fs =>
    dsimp only
    refine quiet_bind ?_ ?_
    · split
      · exact fetch_fields_loop_quiet b es sk _ _ _
      · exact quiet_pure () w1
    · intro _ _
      exact quiet_pure _ _

theorem fetch_fields_quiet (b : Build) (es : EncodingSupport) (w : mysql2_result_wrapper) :
    Quiet w (rb_mysql_result_fetch_fields b es w) := by
  unfold rb_mysql_result_fetch_fields
  dsimp only
  refine quiet_bind (init_fields_quiet w) ?_
  intro _ _
  exact fetch_fields_continuation_quiet b es _ _

theorem consistent_progress_of_quiet {α : Type} {w : mysql2_result_wrapper} {o : ROutcome α}
    (hq : Quiet w o) (hcp : ConsistentProgress w) : ConsistentProgress o.state := by
  have hrem := quiet_remaining hq
  obtain ⟨⟨p1, p2, p3, p4, _, _, _, _⟩, _⟩ := hq
  intro hF hl
  rw [p4] at hF
  rw [p3] at hl
  exact consistent_of_same (hcp hF hl) p1 p3 p2 (Nat.le_of_eq hrem)

theorem buffered_of_kept {w w1 : mysql2_result_wrapper} (hk : Kept w w1) (hb : Buffered w) :
    Buffered w1 := by
  obtain ⟨_, _, _, k4, k5, _⟩ := hk
  exact ⟨k4.trans hb.1, by rw [k5]; exact hb.2⟩

theorem result_step_consistent_progress (b : Build) (es : EncodingSupport) (libc : Libc)
    (c : ResultCall) (w : mysql2_result_wrapper) (hb : Buffered w)
    (hcp : ConsistentProgress w) :
    ConsistentProgress (result_step b es libc c w).1 := by
  cases c with
  | each opts block => exact each_consistent_progress b es libc opts block w hb hcp
  | count =>
    show ConsistentProgress (rb_mysql_result_count b w).state
    rw [count_state]
    exact hcp
  | fields => exact consistent_progress_of_quiet (fetch_fields_quiet b es w) hcp
  | free_result =>
    exact consistent_progress_of _ (Or.inl (free_result_state w).2.2.2.2.2.2.2.1)

theorem result_run_consistent_progress (b : Build) (es : EncodingSupport) (libc : Libc)
    (calls : List ResultCall) :
    ∀ w, Buffered w → ConsistentProgress w →
      Buffered (result_run b es libc calls w).1 ∧
      ConsistentProgress (result_run b es libc calls w).1 := by
  induction calls with
  | nil => intro w hb hcp; exact ⟨hb, hcp⟩
  | cons c cs ih =>
    intro w hb hcp
    exact ih _ (buffered_of_kept (result_step_tidy b es libc c w).1 hb)
      (result_step_consistent_progress b es libc c w hb hcp)

/-! ## Theorems: release at the last row -/

/-- C23 as stated fails: a buffered pass over the two-row result whose block
returns for the first row and leaves the iteration at the second one has
fetched and decoded the last row (both rows were yielded, no row remains, and
`lastRowProcessed = numberOfRows = 2`), yet the native result is not released;
this is so with cacheRows enabled and with cacheRows disabled. -/
theorem C23_block_exit_at_last_row_counterexample :
    (rb_mysql_result_each build19 esUtf8Internal libcNonZero none (some blockBreaksAfterFirst)
      (rb_mysql_result_to_obj twoRowResult none asArrayOptions)).ret
      = .error RExc.block_exit ∧
    yielded (rb_mysql_result_each build19 esUtf8Internal libcNonZero none
      (some blockBreaksAfterFirst)
      (rb_mysql_result_to_obj twoRowResult none asArrayOptions)).trace = twoRows ∧
    rows_remaining (rb_mysql_result_each build19 esUtf8Internal libcNonZero none
      (some blockBreaksAfterFirst)
      (rb_mysql_result_to_obj twoRowResult none asArrayOptions)).state = 0 ∧
    (rb_mysql_result_each build19 esUtf8Internal libcNonZero none (some blockBreaksAfterFirst)
      (rb_mysql_result_to_obj twoRowResult none asArrayOptions)).state.lastRowProcessed = 2 ∧
    (rb_mysql_result_each build19 esUtf8Internal libcNonZero none (some blockBreaksAfterFirst)
      (rb_mysql_result_to_obj twoRowResult none asArrayOptions)).state.numberOfRows = 2 ∧
    (rb_mysql_result_each build19 esUtf8Internal libcNonZero none (some blockBreaksAfterFirst)
      (rb_mysql_result_to_obj twoRowResult none asArrayOptions)).state.resultFreed = false ∧
    (rb_mysql_result_each build19 esUtf8Internal libcNonZero none (some blockBreaksAfterFirst)
      (rb_mysql_result_to_obj twoRowResult none asArrayOptions)).state.result.freed = false ∧
    yielded (rb_mysql_result_each build19 esUtf8Internal libcNonZero none
      (some blockBreaksAfterFirst)
      (rb_mysql_result_to_obj twoRowResult none cacheOffOptions)).trace = twoRows ∧
    (rb_mysql_result_each build19 esUtf8Internal libcNonZero none (some blockBreaksAfterFirst)
      (rb_mysql_result_to_obj twoRowResult none cacheOffOptions)).state.resultFreed = false :=
  ⟨rfl, rfl, rfl, rfl, rfl, rfl, rfl, rfl, rfl⟩

/-- C23, amended. For every buffered result, in every state of the result
object reached from the fresh object by a sequence of `each`, `count`,
`fields` and release calls: an `each` pass that returns and in which the last
row still to fetch was fetched ends with the native result released, for
either cacheRows setting and with or without a block; an `each` pass that is
left by an exception or by a non-local exit of the block, at any row, tears
nothing down and leaves the release flag as it was. -/
theorem C23_release_when_pass_returns (b : Build) (es : EncodingSupport) (libc : Libc)
    (r : MYSQL_RES) (s : Option MYSQL_STMT) (query_options : Hash)
    (calls : List ResultCall) (opts : Option Hash) (block : Option Block)
    (hstored : r.stored = true) (hsstored : s.map MYSQL_STMT.stored ≠ some false) :
    (∀ v, (rb_mysql_result_each b es libc opts block
        (result_run b es libc calls (rb_mysql_result_to_obj r s query_options)).1).ret
        = .ok v →
      1 ≤ rows_remaining
        (result_run b es libc calls (rb_mysql_result_to_obj r s query_options)).1 →
      rows_remaining (rb_mysql_result_each b es libc opts block
        (result_run b es libc calls (rb_mysql_result_to_obj r s query_options)).1).state
        = 0 →
      (rb_mysql_result_each b es libc opts block
        (result_run b es libc calls
          (rb_mysql_result_to_obj r s query_options)).1).state.resultFreed = true) ∧
    (∀ e, (rb_mysql_result_each b es libc opts block
        (result_run b es libc calls (rb_mysql_result_to_obj r s query_options)).1).ret
        = .error e →
      (rb_mysql_result_each b es libc opts block
        (result_run b es libc calls
          (rb_mysql_result_to_obj r s query_options)).1).state.resultFreed
        = (result_run b es libc calls
          (rb_mysql_result_to_obj r s query_options)).1.resultFreed ∧
      (rb_mysql_result_each b es libc opts block
        (result_run b es libc calls
          (rb_mysql_result_to_obj r s query_options)).1).trace.filter REvent.isTeardown
        = []) := by
  have hfresh : ConsistentProgress (rb_mysql_result_to_obj r s query_options) :=
    fun _ hl => absurd rfl hl
  obtain ⟨hb, hcp⟩ := result_run_consistent_progress b es libc calls
    (rb_mysql_result_to_obj r s query_options) ⟨hstored, hsstored⟩ hfresh
  generalize (result_run b es libc calls (rb_mysql_result_to_obj r s query_options)).1 = w
    at hb hcp ⊢
  obtain ⟨hk, _, _, _, herr⟩ := each_tidy b es libc opts block w
  refine ⟨?_, herr⟩
  intro v hv hrem hend
  cases hF : w.resultFreed with
  | true => exact hk.2.2.2.2.2 hF
  | false => exact each_releases b es libc opts block w hb hcp hF v hv hrem hend

theorem C23_release_when_pass_returns_witness :
    (rb_mysql_result_each build19 esUtf8Internal libcNonZero none (some blockReturns)
      (rb_mysql_result_to_obj twoRowResult none cacheOffOptions)).ret = .ok (some []) ∧
    (rb_mysql_result_each build19 esUtf8Internal libcNonZero none (some blockReturns)
      (rb_mysql_result_to_obj twoRowResult none cacheOffOptions)).state.resultFreed = true ∧
    (rb_mysql_result_each build19 esUtf8Internal libcNonZero none (some blockReturns)
      (result_run build19 esUtf8Internal libcNonZero
        [ResultCall.each none (some blockBreaks), ResultCall.count]
        (rb_mysql_result_to_obj twoRowResult none asArrayOptions)).1).state.resultFreed
      = true ∧
    (rb_mysql_result_each build19 esUtf8Internal libcNonZero none (some blockBreaks)
      (rb_mysql_result_to_obj twoRowResult none asArrayOptions)).state.resultFreed = false :=
  have h1 := C23_release_when_pass_returns build19 esUtf8Internal libcNonZero twoRowResult
    none cacheOffOptions [] none (some blockReturns) rfl (by decide)
  have h2 := C23_release_when_pass_returns build19 esUtf8Internal libcNonZero twoRowResult
    none asArrayOptions [ResultCall.each none (some blockBreaks), ResultCall.count] none
    (some blockReturns) rfl (by decide)
  have h3 := C23_release_when_pass_returns build19 esUtf8Internal libcNonZero twoRowResult
    none asArrayOptions [] none (some blockBreaks) rfl (by decide)
  ⟨rfl, h1.1 (some []) rfl (by decide) rfl, h2.1 (some twoRows) rfl (by decide) rfl,
    (h3.2 RExc.block_exit rfl).1⟩

/-! ## Theorems: memoized field keys -/

theorem rb_ary_entry_store_same {α : Type} (ary : List (Option α)) (idx : Nat)
    (val : Option α) : rb_ary_entry (rb_ary_store ary idx val) idx = val := by
  unfold rb_ary_store
  split
  · rename_i h
    simp [rb_ary_entry, List.getElem?_set_self h]
  · rename_i h
    have hlen : (ary ++ List.replicate (idx - ary.length) none).length = idx := by
      simp only [List.length_append, List.length_replicate]
      omega
    have hget : (ary ++ List.replicate (idx - ary.length) none ++ [val])[idx]? = some val := by
      rw [List.getElem?_append_right (by omega)]
      simp [hlen]
    simp only [rb_ary_entry, List.get?_eq_getElem?, hget]

theorem fetch_field_of_memo (b : Build) (es : EncodingSupport) (idx : Nat) (sk : Bool)
    (w : mysql2_result_wrapper) (k : Key)
    (h : rb_ary_entry (w.fields.getD []) idx = some k) :
    rb_mysql_result_fetch_field b es idx sk w = ROutcome.pure k w := by
  have hinit : init_fields w = ROutcome.pure () w := by
    unfold init_fields
    cases hfs : w.fields with
    | some fs => rfl
    | none =>
      rw [hfs] at h
      simp [rb_ary_entry] at h
  unfold rb_mysql_result_fetch_field
  rw [hinit, bind_of_ok _ _ () rfl]
  simp only [ROutcome.pure, h, List.nil_append]

theorem fetch_field_memoizes (b : Build) (es : EncodingSupport) (idx : Nat) (sk : Bool)
    (w : mysql2_result_wrapper) (k : Key)
    (h : (rb_mysql_result_fetch_field b es idx sk w).ret = .ok k) :
    rb_ary_entry ((rb_mysql_result_fetch_field b es idx sk w).state.fields.getD []) idx
      = some k ∧
    (rb_ary_entry (w.fields.getD []) idx = none →
      ∃ f, w.result.fields.get? idx = some f ∧ k = field_key b es sk f) := by
  cases hent : rb_ary_entry (w.fields.getD []) idx with
  | some k1 =>
    rw [fetch_field_of_memo b es idx sk w k1 hent] at h ⊢
    have hk : k1 = k := by
      simp only [ROutcome.pure] at h
      injection h
    rw [← hk]
    exact ⟨hent, fun hn => by cases hn⟩
  | none =>
    have hinit : (init_fields w).ret = .ok () →
        rb_ary_entry ((init_fields w).state.fields.getD []) idx = none ∧
        (init_fields w).state.result = w.result := by
      unfold init_fields
      cases hfs : w.fields with
      | some fs =>
        intro _
        refine ⟨?_, rfl⟩
        show rb_ary_entry (w.fields.getD []) idx = none
        exact hent
      | none =>
        dsimp only
        split
        · intro hr
          cases hr
        · intro _
          exact ⟨by simp [rb_ary_entry], rfl⟩
    unfold rb_mysql_result_fetch_field at h ⊢
    obtain ⟨u, hu, h1⟩ := bind_ret_ok _ _ _ h
    obtain ⟨i1, i2⟩ := hinit hu
    rw [bind_of_ok _ _ u hu]
    rw [i1] at h1 ⊢
    dsimp only at h1 ⊢
    by_cases hfr : (init_fields w).state.result.freed = true
    · rw [if_pos hfr] at h1
      cases h1
    · rw [if_neg hfr] at h1 ⊢
      cases hf : (init_fields w).state.result.fields.get? idx with
      | none =>
        rw [hf] at h1
        cases h1
      | some f =>
        rw [hf] at h1
        have hk : field_key b es sk f = k := by
          injection h1
        refine ⟨?_, fun _ => ⟨f, by rw [← i2]; exact hf, hk.symm⟩⟩
        show rb_ary_entry ((some (rb_ary_store _ idx (some (field_key b es sk f)))).getD [])
          idx = some k
        rw [Option.getD_some, rb_ary_entry_store_same, hk]

/-- Outside the failing input of C22: a key that a request for column `idx`
returned is the stored one when there was one and is otherwise computed from
the column's descriptor with the `symbolize_keys` of that request; it is
stored, and after any sequence of `each`, `count`, `fields` and release calls
every request for that column returns it, whatever `symbolize_keys` it passes,
without a library call. -/
theorem field_keys_memoized (b : Build) (es : EncodingSupport) (libc : Libc) (idx : Nat)
    (sk : Bool) (w : mysql2_result_wrapper) (k : Key)
    (h : (rb_mysql_result_fetch_field b es idx sk w).ret = .ok k) :
    (rb_ary_entry (w.fields.getD []) idx = none →
      ∃ f, w.result.fields.get? idx = some f ∧ k = field_key b es sk f) ∧
    (∀ k1, rb_ary_entry (w.fields.getD []) idx = some k1 → k = k1) ∧
    (∀ (calls : List ResultCall) (sk1 : Bool),
      rb_mysql_result_fetch_field b es idx sk1
          (result_run b es libc calls (rb_mysql_result_fetch_field b es idx sk w).state).1
        = ROutcome.pure k
          (result_run b es libc calls (rb_mysql_result_fetch_field b es idx sk w).state).1) := by
  obtain ⟨m1, m2⟩ := fetch_field_memoizes b es idx sk w k h
  refine ⟨m2, ?_, ?_⟩
  · intro k1 hk1
    rw [fetch_field_of_memo b es idx sk w k1 hk1] at h
    simp only [ROutcome.pure] at h
    injection h with h1
    exact h1.symm
  · intro calls sk1
    have hk := (result_run_tidy b es libc calls
      (rb_mysql_result_fetch_field b es idx sk w).state).1.1 idx k m1
    exact fetch_field_of_memo b es idx sk1 _ k hk

theorem field_keys_memoized_witness :
    rb_mysql_result_fetch_field build19 esUtf8Internal 0 false
        (result_run build19 esUtf8Internal libcNonZero
          [ResultCall.each none (some blockReturns), ResultCall.fields]
          (rb_mysql_result_fetch_field build19 esUtf8Internal 0 true
            (rb_mysql_result_to_obj twoRowResult none asArrayOptions)).state).1
      = ROutcome.pure (Key.sym [110])
        (result_run build19 esUtf8Internal libcNonZero
          [ResultCall.each none (some blockReturns), ResultCall.fields]
          (rb_mysql_result_fetch_field build19 esUtf8Internal 0 true
            (rb_mysql_result_to_obj twoRowResult none asArrayOptions)).state).1 :=
  (field_keys_memoized build19 esUtf8Internal libcNonZero 0 true
    (rb_mysql_result_to_obj twoRowResult none asArrayOptions) (Key.sym [110]) rfl).2.2
    [ResultCall.each none (some blockReturns), ResultCall.fields] false

end Mysql2
